import Mathlib

/-! Jacinto6 / BeagleBoard-X15 audio HAL: shallow embedding and verified properties.

Two implementations are embedded:

* `Multizone`: `audio/multizone/AudioHw.cpp` (classes `AudioStreamOut`,
  `AudioStreamIn`, `AudioHwDevice`);
* `Legacy`: `audio/legacy/audio_hw.c`.

Stateful code is embedded by explicit state passing.  Calls into collaborators
that live outside the embedded sources (hardware ports, the tiaudioutils
multiplexers, tinyalsa, the resampler) take their outcome from an `Env`
oracle, so every theorem quantifies over all behaviours of the collaborator.
Mutexes are not represented: every embedded function is run sequentially.
-/

/-- Values of `audio_mode_t` (system/audio.h), shared by both implementations. -/
inductive audio_mode_t where
  | INVALID
  | CURRENT
  | NORMAL
  | RINGTONE
  | IN_CALL
  | IN_COMMUNICATION
  deriving DecidableEq, Repr

/-- The least multiple of 16 that is at least `n`. -/
def roundUp16 (n : Nat) : Nat := (n + 15) / 16 * 16

/-- The quotient `a / b` rounded up. -/
def ceilDiv (a b : Nat) : Nat := (a + b - 1) / b

namespace Multizone

/-! ## Data model -/

/-- Port indices of `AudioHwDevice`: `kCPUPortId = 0`, `kJAMR3PortId = 1`, `kBTPortId = 2`. -/
inductive Port where
  | cpu
  | jamr3
  | bt
  deriving DecidableEq, Repr

/-- The logical streams (tiaudioutils `InStream` / `OutStream` objects) that the embedded code
registers on multiplexers: `AudioStreamOut::mStream`, `AudioStreamIn::mStream` and the four voice
streams of `AudioHwDevice`. -/
inductive StreamId where
  | media
  | capture
  | voiceULIn
  | voiceULOut
  | voiceDLIn
  | voiceDLOut
  deriving DecidableEq, Repr

/-- The writer an output stream can use: one of `AudioHwDevice::mWriters` or the private
`AudioStreamOut::mNullWriter`. -/
inductive WriterRef where
  | port (p : Port)
  | null
  deriving DecidableEq, Repr

/-- The two voice call pipes `mULPipe` and `mDLPipe`. -/
inductive Pipe where
  | ul
  | dl
  deriving DecidableEq, Repr

/-- The effects issued on collaborators, in program order. -/
inductive Event where
  | mixerSetBTMode (master : Bool)
  | mixerSetVolumeHP (val : Int)
  | mixerSetVolumeLine (val : Int)
  | registerWriter (w : WriterRef) (s : StreamId) (ret : Int)
  | registerReader (p : Port) (s : StreamId) (ret : Int)
  | unregisterWriter (w : WriterRef) (s : StreamId)
  | unregisterReader (p : Port) (s : StreamId)
  | streamStart (s : StreamId) (ret : Int)
  | streamStop (s : StreamId)
  | inPortStop (p : Port)
  | outPortStop (p : Port)
  | pipeShutdown (p : Pipe) (immediate : Bool)
  | pipeFlush (p : Pipe)
  | usleep (usecs : Nat)
  | streamWrite (frames : Nat) (ret : Int)
  | streamRead (frames : Nat) (ret : Int)
  | memsetZero (bytes : Int)
  deriving DecidableEq, Repr

/-- A value per port, as the vectors `mReaders` / `mWriters` indexed by port id. -/
structure PortMap (α : Type) where
  cpu : α
  jamr3 : α
  bt : α
  deriving DecidableEq, Repr

/-- Indexing `v[p]`. -/
def PortMap.get {α : Type} (m : PortMap α) : Port → α
  | .cpu => m.cpu
  | .jamr3 => m.jamr3
  | .bt => m.bt

/-- Assignment `v[p] = x`. -/
def PortMap.set {α : Type} (m : PortMap α) (p : Port) (x : α) : PortMap α :=
  match p with
  | .cpu => { m with cpu := x }
  | .jamr3 => { m with jamr3 := x }
  | .bt => { m with bt := x }

/-- Modelled from the spec: `tiaudioutils::PcmParams` (channel count, sample bit-depth, sample
rate, frame count per period), declared outside the embedded sources. -/
structure PcmParams where
  channels : Nat
  sampleBits : Nat
  sampleRate : Nat
  frameCount : Nat
  deriving DecidableEq, Repr

/-- Modelled from the spec: `PcmParams::frameSize()`, channels times bytes per sample. -/
def PcmParams.frameSize (p : PcmParams) : Nat :=
  p.channels * (p.sampleBits / 8)

/-- Modelled from the spec: `PcmParams::bytesToFrames()`. -/
def PcmParams.bytesToFrames (p : PcmParams) (bytes : Nat) : Nat :=
  bytes / p.frameSize

/-- Modelled from the spec: `PcmParams::framesToBytes()`, on the `int` frame count the callers
pass. -/
def PcmParams.framesToBytes (p : PcmParams) (frames : Int) : Int :=
  frames * (p.frameSize : Int)

/-- The mixer controls written by the embedded code: `kBTMode`, `kCabinVolumeHP`,
`kCabinVolumeLine` (last value requested). -/
structure ALSAMixer where
  btMaster : Bool
  cabinVolumeHP : Int
  cabinVolumeLine : Int
  deriving DecidableEq, Repr

/-- Modelled from the spec: the state of a `tiaudioutils::MonoPipe` that the orchestrator
drives, active or shut down. -/
structure MonoPipe where
  isShutdown : Bool
  deriving DecidableEq, Repr

/-- Fields of `class AudioStreamOut`.  `mWriter` is the index of the device writer the stream
was opened on; `mNullWriter` holds the registrations of the private null writer. -/
structure AudioStreamOut where
  mWriter : Port
  mNullWriter : List StreamId
  mParams : PcmParams
  mDevices : Nat
  mStandby : Bool
  mUsedForVoiceCall : Bool
  deriving DecidableEq, Repr

/-- Fields of `class AudioStreamIn`. -/
structure AudioStreamIn where
  mReader : Port
  mParams : PcmParams
  mDevices : Nat
  mSource : Nat
  mStandby : Bool
  deriving DecidableEq, Repr

/-- Fields of `class AudioHwDevice`.  `mReaders` / `mWriters` hold the registration set of each
multiplexer, `started` the logical streams for which `isStarted()` holds, and
`mPrimaryStreamOut` tells whether the weak pointer promotes to the modelled output stream. -/
structure AudioHwDevice where
  mMixer : ALSAMixer
  mReaders : PortMap (List StreamId)
  mWriters : PortMap (List StreamId)
  started : List StreamId
  mMicMute : Bool
  mMode : audio_mode_t
  mMediaPortId : Port
  mPrimaryStreamOut : Bool
  mULPipe : MonoPipe
  mDLPipe : MonoPipe
  deriving DecidableEq, Repr

/-- The whole HAL state: the device, one output stream (the one `mPrimaryStreamOut` refers to
when it is valid), one input stream, and the trace of effects issued so far. -/
structure Hal where
  hw : AudioHwDevice
  out : AudioStreamOut
  inp : AudioStreamIn
  trace : List Event
  deriving DecidableEq, Repr

/-- Outcomes of the collaborators during one call: the status a port reports when a stream is
registered on it (0 when available), the status of `start()` per stream, and the result of the
stream level `write` / `read` for a frame count (frames transferred, or a negative errno). -/
structure Env where
  writerStatus : WriterRef → StreamId → Int
  readerStatus : Port → StreamId → Int
  startStatus : StreamId → Int
  writeResult : Nat → Int
  readResult : Nat → Int

/-- Value of errno `ENODEV`. -/
def ENODEV : Int := 19

/-- Value of errno `EINVAL`. -/
def EINVAL : Int := 22

/-- Modelled from the spec: the nonzero status `AlreadyRegistered` of `registerStream`. -/
def AlreadyRegistered : Int := -EINVAL

/-- Wrap to `uint32_t`. -/
def u32 (n : Nat) : Nat := n % 2 ^ 32

/-- Conversion of an `int` to `unsigned int`. -/
def toU32 (x : Int) : Nat := (x % 2 ^ 32).toNat

/-- Bitwise complement on `uint32_t`. -/
def notU32 (n : Nat) : Nat := 0xFFFFFFFF ^^^ u32 n

/-! ## Constants of `AudioHwDevice` (AudioHw.h) -/

/-- Constant `kCPUNumChannels`. -/
def kCPUNumChannels : Nat := 2

/-- Constant `kBTNumChannels`. -/
def kBTNumChannels : Nat := 2

/-- Constant `kSampleRate`. -/
def kSampleRate : Nat := 44100

/-- Constant `kBTSampleRate`. -/
def kBTSampleRate : Nat := 8000

/-- Constant `kSampleSize`. -/
def kSampleSize : Nat := 16

/-- Constant `kCaptureFrameCount`. -/
def kCaptureFrameCount : Nat := 882

/-- Constant `kPlaybackFrameCount`. -/
def kPlaybackFrameCount : Nat := 1024

/-- Constant `kBTFrameCount`. -/
def kBTFrameCount : Nat := 160

/-- Constant `kADCSettleMs`. -/
def kADCSettleMs : Nat := 80

/-- Constant `kVoiceCallPipeMs`. -/
def kVoiceCallPipeMs : Nat := 100

/-- Constant `kVoiceDBMax`. -/
def kVoiceDBMax : ℚ := 0

/-- Constant `kVoiceDBMin`. -/
def kVoiceDBMin : ℚ := -24

/-! ## Collaborator primitives -/

/-- Append an effect to the trace. -/
def emit (e : Event) (h : Hal) : Hal :=
  { h with trace := h.trace ++ [e] }

/-- Registration set of a writer. -/
def getWriter (h : Hal) : WriterRef → List StreamId
  | .port p => h.hw.mWriters.get p
  | .null => h.out.mNullWriter

/-- Replace the registration set of a writer. -/
def setWriter (h : Hal) (w : WriterRef) (l : List StreamId) : Hal :=
  match w with
  | .port p => { h with hw := { h.hw with mWriters := h.hw.mWriters.set p l } }
  | .null => { h with out := { h.out with mNullWriter := l } }

/-- Registration set of a reader. -/
def getReader (h : Hal) (p : Port) : List StreamId :=
  h.hw.mReaders.get p

/-- Replace the registration set of a reader. -/
def setReader (h : Hal) (p : Port) (l : List StreamId) : Hal :=
  { h with hw := { h.hw with mReaders := h.hw.mReaders.set p l } }

/-- A registration set without the stream `s`. -/
def removeStream (l : List StreamId) (s : StreamId) : List StreamId :=
  l.filter (fun x => x ≠ s)

/-- Modelled from the spec: `PcmWriter::registerStream` attaches a logical stream to a port;
it fails with `AlreadyRegistered` if the stream is already attached and with the port status
(`DeviceUnavailable`) if the port failed to open.  The class is not part of the embedded
sources. -/
def PcmWriter.registerStream (env : Env) (h : Hal) (w : WriterRef) (s : StreamId) : Int × Hal :=
  if s ∈ getWriter h w then
    (AlreadyRegistered, emit (.registerWriter w s AlreadyRegistered) h)
  else if env.writerStatus w s ≠ 0 then
    (env.writerStatus w s, emit (.registerWriter w s (env.writerStatus w s)) h)
  else
    (0, emit (.registerWriter w s 0) (setWriter h w (s :: getWriter h w)))

/-- Modelled from the spec: `PcmWriter::unregisterStream` detaches the stream; it is a no-op
if the stream is not registered. -/
def PcmWriter.unregisterStream (h : Hal) (w : WriterRef) (s : StreamId) : Hal :=
  emit (.unregisterWriter w s) (setWriter h w (removeStream (getWriter h w) s))

/-- Modelled from the spec: `PcmWriter::isStreamRegistered`, a pure query. -/
def PcmWriter.isStreamRegistered (h : Hal) (w : WriterRef) (s : StreamId) : Bool :=
  decide (s ∈ getWriter h w)

/-- The statement `if (w->isStreamRegistered(s)) w->unregisterStream(s);` on a writer. -/
def PcmWriter.unregisterIfRegistered (h : Hal) (w : WriterRef) (s : StreamId) : Hal :=
  if PcmWriter.isStreamRegistered h w s then PcmWriter.unregisterStream h w s else h

/-- Modelled from the spec: `PcmReader::registerStream`, as for the writer. -/
def PcmReader.registerStream (env : Env) (h : Hal) (p : Port) (s : StreamId) : Int × Hal :=
  if s ∈ getReader h p then
    (AlreadyRegistered, emit (.registerReader p s AlreadyRegistered) h)
  else if env.readerStatus p s ≠ 0 then
    (env.readerStatus p s, emit (.registerReader p s (env.readerStatus p s)) h)
  else
    (0, emit (.registerReader p s 0) (setReader h p (s :: getReader h p)))

/-- Modelled from the spec: `PcmReader::unregisterStream`, as for the writer. -/
def PcmReader.unregisterStream (h : Hal) (p : Port) (s : StreamId) : Hal :=
  emit (.unregisterReader p s) (setReader h p (removeStream (getReader h p) s))

/-- Modelled from the spec: `PcmReader::isStreamRegistered`, a pure query. -/
def PcmReader.isStreamRegistered (h : Hal) (p : Port) (s : StreamId) : Bool :=
  decide (s ∈ getReader h p)

/-- The statement `if (r->isStreamRegistered(s)) r->unregisterStream(s);` on a reader. -/
def PcmReader.unregisterIfRegistered (h : Hal) (p : Port) (s : StreamId) : Hal :=
  if PcmReader.isStreamRegistered h p s then PcmReader.unregisterStream h p s else h

/-- Modelled from the spec: `start()` of a logical stream returns the status of the hardware;
the stream is running afterwards exactly when the status is 0. -/
def Stream.start (env : Env) (h : Hal) (s : StreamId) : Int × Hal :=
  if env.startStatus s ≠ 0 then
    (env.startStatus s, emit (.streamStart s (env.startStatus s)) h)
  else
    (0, emit (.streamStart s 0)
      { h with hw := { h.hw with started := s :: removeStream h.hw.started s } })

/-- Modelled from the spec: `stop()` of a logical stream; it is not running afterwards. -/
def Stream.stop (h : Hal) (s : StreamId) : Hal :=
  emit (.streamStop s)
    { h with hw := { h.hw with started := removeStream h.hw.started s } }

/-- Modelled from the spec: `isStarted()` of a logical stream. -/
def Stream.isStarted (h : Hal) (s : StreamId) : Bool :=
  decide (s ∈ h.hw.started)

/-- The statement `if (s->isStarted()) s->stop();`. -/
def Stream.stopIfStarted (h : Hal) (s : StreamId) : Hal :=
  if Stream.isStarted h s then Stream.stop h s else h

/-- The pipe object behind a pipe name. -/
def getPipe (h : Hal) : Pipe → MonoPipe
  | .ul => h.hw.mULPipe
  | .dl => h.hw.mDLPipe

/-- Modelled from the spec: `MonoPipe::shutdown(immediate)`; `shutdown(false)` resets the pipe
to active, `shutdown(true)` shuts it down. -/
def MonoPipe.shutdown (h : Hal) (p : Pipe) (immediate : Bool) : Hal :=
  emit (.pipeShutdown p immediate)
    (match p with
     | .ul => { h with hw := { h.hw with mULPipe := { isShutdown := immediate } } }
     | .dl => { h with hw := { h.hw with mDLPipe := { isShutdown := immediate } } })

/-- Modelled from the spec: `MonoPipe::flush()` discards the buffered content. -/
def MonoPipe.flush (h : Hal) (p : Pipe) : Hal :=
  emit (.pipeFlush p) h

/-- The call `mMixer.set(ALSAControl(kBTMode, "Master" / "Slave"), true)`. -/
def mixerSetBTMode (h : Hal) (master : Bool) : Hal :=
  emit (.mixerSetBTMode master)
    { h with hw := { h.hw with mMixer := { h.hw.mMixer with btMaster := master } } }

/-! ## `AudioStreamOut` -/

/-- The writer `resume()` / `idle()` select: the null writer while the stream is used for a
voice call, the regular writer otherwise. -/
def AudioStreamOut.selectWriter (h : Hal) : WriterRef :=
  if h.out.mUsedForVoiceCall then .null else .port h.out.mWriter

/-- Method `AudioStreamOut::resume()`: register on the selected writer, then start; a failed
start is followed by `unregisterStream`. -/
def AudioStreamOut.resume (env : Env) (h : Hal) : Int × Hal :=
  let writer := AudioStreamOut.selectWriter h
  let r := PcmWriter.registerStream env h writer .media
  if r.1 ≠ 0 then r
  else
    let r2 := Stream.start env r.2 .media
    if r2.1 ≠ 0 then (r2.1, PcmWriter.unregisterStream r2.2 writer .media)
    else r2

/-- Method `AudioStreamOut::idle()`: stop, then unregister from the selected writer. -/
def AudioStreamOut.idle (h : Hal) : Hal :=
  let writer := AudioStreamOut.selectWriter h
  PcmWriter.unregisterStream (Stream.stop h .media) writer .media

/-- Assignment to `AudioStreamOut::mStandby`. -/
def AudioStreamOut.setStandby (h : Hal) (b : Bool) : Hal :=
  { h with out := { h.out with mStandby := b } }

/-- Assignment to `AudioStreamOut::mUsedForVoiceCall`. -/
def AudioStreamOut.setUsedForVoiceCall (h : Hal) (b : Bool) : Hal :=
  { h with out := { h.out with mUsedForVoiceCall := b } }

/-- Method `AudioStreamOut::standby()`. -/
def AudioStreamOut.standby (h : Hal) : Int × Hal :=
  if ¬ h.out.mStandby then (0, AudioStreamOut.setStandby (AudioStreamOut.idle h) true)
  else (0, h)

/-- Method `AudioStreamOut::setVoiceCall(on)`. -/
def AudioStreamOut.setVoiceCall (h : Hal) (on_ : Bool) : Hal :=
  if h.out.mUsedForVoiceCall ≠ on_ then
    let h1 := if ¬ h.out.mStandby then AudioStreamOut.setStandby (AudioStreamOut.idle h) true else h
    AudioStreamOut.setUsedForVoiceCall h1 on_
  else h

/-- The device constants of system/audio.h used by the embedded code; the header is not part
of the embedded sources, so the values are parameters. -/
structure AudioDevices where
  IN_BUILTIN_MIC : Nat
  IN_BACK_MIC : Nat
  IN_VOICE_CALL : Nat
  IN_ANLG_DOCK_HEADSET : Nat
  OUT_SPEAKER : Nat
  OUT_WIRED_HEADPHONE : Nat
  OUT_WIRED_HEADSET : Nat
  OUT_WIRED_HEADPHONE2 : Nat
  OUT_ALL : Nat
  IN_ALL : Nat
  SOURCE_CNT : Int

/-- Method `AudioHwDevice::getSupportedDevices()`. -/
def AudioHwDevice.getSupportedDevices (c : AudioDevices) : Nat :=
  u32 (c.IN_BUILTIN_MIC ||| c.IN_BACK_MIC ||| c.IN_VOICE_CALL ||| c.IN_ANLG_DOCK_HEADSET |||
    c.OUT_SPEAKER ||| c.OUT_WIRED_HEADPHONE ||| c.OUT_WIRED_HEADSET ||| c.OUT_WIRED_HEADPHONE2)

/-- Outcome of `AudioParameter::getInt(key, value)` on the key/value string handed to
`setParameters`: the status (`NO_ERROR` is 0) and the parsed integer. -/
structure KeyLookup where
  status : Int
  value : Int

/-- Assignment to `AudioStreamOut::mDevices`. -/
def AudioStreamOut.assignDevices (h : Hal) (d : Nat) : Hal :=
  { h with out := { h.out with mDevices := d } }

/-- Method `AudioStreamOut::setParameters(kv_pairs)`; `routing` is the lookup of
`AudioParameter::keyRouting`. -/
def AudioStreamOut.setParameters (c : AudioDevices) (h : Hal) (routing : KeyLookup) : Int × Hal :=
  if routing.status = 0 then
    let device := routing.value
    let h1 :=
      if (h.out.mDevices &&& c.OUT_ALL) ≠ toU32 device then (AudioStreamOut.standby h).2 else h
    if (toU32 device &&& notU32 (AudioHwDevice.getSupportedDevices c)) ≠ 0 then
      (routing.status, h1)
    else
      (routing.status, AudioStreamOut.assignDevices h1 (toU32 device))
  else (routing.status, h)

/-- The part of `AudioStreamOut::write` after the standby check: the transfer
`mStream->write(buffer, frames)` and the computation of the returned value. -/
def AudioStreamOut.transfer (env : Env) (h : Hal) (frames usecs bytes : Nat) : Int × Hal :=
  let ret := env.writeResult frames
  let h1 := emit (.streamWrite frames ret) h
  if ret < 0 then ((bytes : Int), emit (.usleep usecs) h1)
  else (h.out.mParams.framesToBytes ret, h1)

/-- Method `AudioStreamOut::write(buffer, bytes)`; the returned `ssize_t` is an `Int`.  The
division by `mParams.sampleRate` is the one of the source (the rate is nonzero for every opened
stream). -/
def AudioStreamOut.write (env : Env) (h : Hal) (bytes : Nat) : Int × Hal :=
  let frames := u32 (h.out.mParams.bytesToFrames bytes)
  let usecs := u32 (frames * 1000000) / h.out.mParams.sampleRate
  if h.out.mStandby then
    let r := AudioStreamOut.resume env h
    if r.1 ≠ 0 then (r.1, emit (.usleep usecs) r.2)
    else AudioStreamOut.transfer env (AudioStreamOut.setStandby r.2 false) frames usecs bytes
  else AudioStreamOut.transfer env h frames usecs bytes

/-- Method `AudioStreamOut::getBufferSize()`; `writerParams` is `mWriter->getParams()`.  The
mask `~15` is the `int` -16 converted to `size_t`. -/
def AudioStreamOut.getBufferSize (s : AudioStreamOut) (writerParams : PcmParams) : Nat :=
  let size := u32 (s.mParams.frameCount * s.mParams.sampleRate) / writerParams.sampleRate
  u32 ((u32 (size + 15) &&& notU32 15) * s.mParams.frameSize)

/-- Method `AudioStreamOut::getLatency()`; `writerParams` is `mWriter->getParams()`. -/
def AudioStreamOut.getLatency (s : AudioStreamOut) (writerParams : PcmParams) : Nat :=
  u32 (1000 * AudioStreamOut.getBufferSize s writerParams) / writerParams.sampleRate

/-! ## `AudioStreamIn` -/

/-- Method `AudioStreamIn::resume()`. -/
def AudioStreamIn.resume (env : Env) (h : Hal) : Int × Hal :=
  let r := PcmReader.registerStream env h h.inp.mReader .capture
  if r.1 ≠ 0 then r
  else
    let r2 := Stream.start env r.2 .capture
    if r2.1 ≠ 0 then (r2.1, PcmReader.unregisterStream r2.2 h.inp.mReader .capture)
    else r2

/-- Method `AudioStreamIn::idle()`. -/
def AudioStreamIn.idle (h : Hal) : Hal :=
  PcmReader.unregisterStream (Stream.stop h .capture) h.inp.mReader .capture

/-- Assignment to `AudioStreamIn::mStandby`. -/
def AudioStreamIn.setStandby (h : Hal) (b : Bool) : Hal :=
  { h with inp := { h.inp with mStandby := b } }

/-- Method `AudioStreamIn::standby()`. -/
def AudioStreamIn.standby (h : Hal) : Int × Hal :=
  if ¬ h.inp.mStandby then (0, AudioStreamIn.setStandby (AudioStreamIn.idle h) true)
  else (0, h)

/-- Assignment to `AudioStreamIn::mDevices`. -/
def AudioStreamIn.assignDevices (h : Hal) (d : Nat) : Hal :=
  { h with inp := { h.inp with mDevices := d } }

/-- Assignment to `AudioStreamIn::mSource`. -/
def AudioStreamIn.assignSource (h : Hal) (src : Nat) : Hal :=
  { h with inp := { h.inp with mSource := src } }

/-- Method `AudioStreamIn::setParameters(kv_pairs)`; `source` and `routing` are the lookups of
`AudioParameter::keyInputSource` and `AudioParameter::keyRouting`. -/
def AudioStreamIn.setParameters (c : AudioDevices) (h : Hal) (source routing : KeyLookup) :
    Int × Hal :=
  let h0 :=
    if source.status = 0 ∧ h.inp.mSource ≠ toU32 source.value ∧ source.value ≠ 0 ∧
        source.value < c.SOURCE_CNT then
      AudioStreamIn.assignSource h (toU32 source.value)
    else h
  if routing.status = 0 then
    let device := routing.value
    let h1 :=
      if (h0.inp.mDevices &&& c.IN_ALL) ≠ toU32 device then (AudioStreamIn.standby h0).2 else h0
    if (toU32 device &&& notU32 (AudioHwDevice.getSupportedDevices c)) ≠ 0 then
      (0, h1)
    else
      (0, AudioStreamIn.assignDevices h1 (toU32 device))
  else (0, h0)

/-- The part of `AudioStreamIn::read` after the standby check. -/
def AudioStreamIn.transfer (env : Env) (h : Hal) (frames usecs : Nat) : Int × Hal :=
  let ret := env.readResult frames
  let h1 := emit (.streamRead frames ret) h
  if ret < 0 then (ret, emit (.usleep usecs) h1)
  else
    let bytes := h.inp.mParams.framesToBytes ret
    (bytes, if h.hw.mMicMute then emit (.memsetZero bytes) h1 else h1)

/-- Method `AudioStreamIn::read(buffer, bytes)`. -/
def AudioStreamIn.read (env : Env) (h : Hal) (bytes : Nat) : Int × Hal :=
  let frames := u32 (h.inp.mParams.bytesToFrames bytes)
  let usecs := u32 (frames * 1000000) / h.inp.mParams.sampleRate
  if h.inp.mStandby then
    let r := AudioStreamIn.resume env h
    if r.1 ≠ 0 then (r.1, emit (.usleep usecs) r.2)
    else AudioStreamIn.transfer env (AudioStreamIn.setStandby r.2 false) frames usecs
  else AudioStreamIn.transfer env h frames usecs

/-- Method `AudioStreamIn::getBufferSize()`; `readerParams` is `mReader->getParams()`. -/
def AudioStreamIn.getBufferSize (s : AudioStreamIn) (readerParams : PcmParams) : Nat :=
  let size := u32 (s.mParams.frameCount * s.mParams.sampleRate) / readerParams.sampleRate
  u32 (size * s.mParams.frameSize)

/-- The parameters `params0` of the reader of the on-board port in the constructor of
`AudioHwDevice`: 2 channels, 16 bits per sample, 44.1 kHz, 882 frames. -/
def readerParams0 : PcmParams :=
  ⟨kCPUNumChannels, kSampleSize, kSampleRate, kCaptureFrameCount⟩

/-! ## `AudioHwDevice` -/

/-- Conversion of a real number to `int` (truncation toward zero). -/
def truncToInt (q : ℚ) : Int := Int.tdiv q.num q.den

/-- The control value computed by `AudioHwDevice::setVoiceVolume`.  The source computes in
single precision floating point; the embedding computes over the rationals, which agrees with
the source wherever the floating point operations are exact (as for the volume 1). -/
def voiceVolumeVal (volume : ℚ) : Int :=
  let dB := (kVoiceDBMax - kVoiceDBMin) * volume + kVoiceDBMin
  truncToInt (2 * (dB + 59))

/-- Method `AudioHwDevice::setVoiceVolume(volume)`. -/
def AudioHwDevice.setVoiceVolume (h : Hal) (volume : ℚ) : Int × Hal :=
  let val := voiceVolumeVal volume
  let h1 := emit (.mixerSetVolumeHP val)
    { h with hw := { h.hw with mMixer := { h.hw.mMixer with cabinVolumeHP := val } } }
  let h2 := emit (.mixerSetVolumeLine val)
    { h1 with hw := { h1.hw with mMixer := { h1.hw.mMixer with cabinVolumeLine := val } } }
  (0, h2)

/-- The arguments a `tiaudioutils::MonoPipe` is constructed with: the PCM parameters of the
frames it carries and its capacity in frames. -/
structure MonoPipeArgs where
  params : PcmParams
  frames : Nat
  deriving DecidableEq, Repr

/-- The two pipes that the constructor `AudioHwDevice::AudioHwDevice` creates, `mULPipe` and
`mDLPipe` in this order.  `params0` is the parameter set of the on-board port after its frame
count was set to the playback one; `paramsBT` is the parameter set of the Bluetooth port. -/
def AudioHwDevice.newVoicePipes : MonoPipeArgs × MonoPipeArgs :=
  let params0 : PcmParams := ⟨kCPUNumChannels, kSampleSize, kSampleRate, kCaptureFrameCount⟩
  let params0 : PcmParams := { params0 with frameCount := kPlaybackFrameCount }
  let paramsBT : PcmParams := ⟨kBTNumChannels, kSampleSize, kBTSampleRate, kBTFrameCount⟩
  (⟨paramsBT, u32 (kVoiceCallPipeMs * paramsBT.sampleRate) / 1000⟩,
   ⟨paramsBT, u32 (kVoiceCallPipeMs * params0.sampleRate) / 1000⟩)

/-- The four `registerStream` steps of `AudioHwDevice::enableVoiceCall()`, each returning at
once when it fails. -/
def AudioHwDevice.registerVoiceStreams (env : Env) (h : Hal) : Int × Hal :=
  let r1 := PcmReader.registerStream env h h.hw.mMediaPortId .voiceULIn
  if r1.1 ≠ 0 then r1
  else
    let r2 := PcmWriter.registerStream env r1.2 (.port .bt) .voiceULOut
    if r2.1 ≠ 0 then r2
    else
      let r3 := PcmReader.registerStream env r2.2 .bt .voiceDLIn
      if r3.1 ≠ 0 then r3
      else PcmWriter.registerStream env r3.2 (.port r3.2.out.mWriter) .voiceDLOut

/-- Method `AudioHwDevice::enableVoiceCall()`. -/
def AudioHwDevice.enableVoiceCall (env : Env) (h : Hal) : Int × Hal :=
  if ¬ h.hw.mPrimaryStreamOut then (-ENODEV, h)
  else AudioHwDevice.registerVoiceStreams env (AudioStreamOut.setVoiceCall h true)

/-- Method `AudioHwDevice::disableVoiceCall()`. -/
def AudioHwDevice.disableVoiceCall (h : Hal) : Hal :=
  let h1 :=
    if h.hw.mPrimaryStreamOut then
      AudioStreamOut.setVoiceCall
        (PcmWriter.unregisterIfRegistered h (.port h.out.mWriter) .voiceDLOut) false
    else h
  let h2 := PcmReader.unregisterIfRegistered h1 .bt .voiceDLIn
  let h3 := PcmWriter.unregisterIfRegistered h2 (.port .bt) .voiceULOut
  PcmReader.unregisterIfRegistered h3 h3.hw.mMediaPortId .voiceULIn

/-- The argument of `usleep` in `enterVoiceCall`, in `uint32_t` arithmetic. -/
def settleUsecs : Nat :=
  u32 (u32 (u32 (kVoiceCallPipeMs * 5000) + u32 (kADCSettleMs * 1000)) +
    u32 (kBTFrameCount * 1000) / kBTSampleRate)

/-- Method `AudioHwDevice::enterVoiceCall()`. -/
def AudioHwDevice.enterVoiceCall (env : Env) (h : Hal) : Int × Hal :=
  let r0 := AudioHwDevice.enableVoiceCall env h
  if r0.1 ≠ 0 then r0
  else
    let h1 := mixerSetBTMode r0.2 true
    let h2 := MonoPipe.shutdown h1 .ul false
    let h3 := MonoPipe.shutdown h2 .dl false
    let r1 := Stream.start env h3 .voiceULIn
    if r1.1 ≠ 0 then r1
    else
      let r2 := Stream.start env r1.2 .voiceDLIn
      if r2.1 ≠ 0 then r2
      else
        let h4 := emit (.usleep settleUsecs) r2.2
        let r3 := Stream.start env h4 .voiceDLOut
        Stream.start env r3.2 .voiceULOut

/-- Method `AudioHwDevice::leaveVoiceCall()`. -/
def AudioHwDevice.leaveVoiceCall (h : Hal) : Hal :=
  let h1 := mixerSetBTMode h false
  let h2 := MonoPipe.shutdown h1 .ul true
  let h3 := MonoPipe.shutdown h2 .dl true
  let h4 := Stream.stopIfStarted h3 .voiceULIn
  let h5 := emit (.inPortStop .bt) h4
  let h6 := Stream.stopIfStarted h5 .voiceDLIn
  let h7 := Stream.stopIfStarted h6 .voiceDLOut
  let h8 := emit (.outPortStop .bt) h7
  let h9 := Stream.stopIfStarted h8 .voiceULOut
  let h10 := MonoPipe.flush h9 .ul
  let h11 := MonoPipe.flush h10 .dl
  let h12 := AudioHwDevice.disableVoiceCall h11
  (AudioHwDevice.setVoiceVolume h12 1).2

/-- The effects `disableVoiceCall()` issues on a state, in program order: the downlink-out
stream leaves the writer of the primary output, the primary output goes back to its regular
writer (a running media stream is stopped and taken off the null writer), then downlink-in,
uplink-out and uplink-in are unregistered; each unregistration only if the stream is
registered. -/
def disableEvents (h : Hal) : List Event :=
  (if h.hw.mPrimaryStreamOut = true then
    (if StreamId.voiceDLOut ∈ getWriter h (.port h.out.mWriter) then
      [Event.unregisterWriter (.port h.out.mWriter) .voiceDLOut] else []) ++
    (if h.out.mUsedForVoiceCall = true ∧ h.out.mStandby = false then
      [Event.streamStop .media, Event.unregisterWriter .null .media] else [])
   else []) ++
  (if StreamId.voiceDLIn ∈ getReader h .bt then [Event.unregisterReader .bt .voiceDLIn]
   else []) ++
  (if StreamId.voiceULOut ∈ getWriter h (.port .bt) then
    [Event.unregisterWriter (.port .bt) .voiceULOut] else []) ++
  (if StreamId.voiceULIn ∈ getReader h h.hw.mMediaPortId then
    [Event.unregisterReader h.hw.mMediaPortId .voiceULIn] else [])

/-- The effects `leaveVoiceCall()` issues on a state, in program order; a stream is stopped
only if it is started. -/
def leaveEvents (h : Hal) : List Event :=
  [Event.mixerSetBTMode false, Event.pipeShutdown .ul true, Event.pipeShutdown .dl true] ++
  (if StreamId.voiceULIn ∈ h.hw.started then [Event.streamStop .voiceULIn] else []) ++
  [Event.inPortStop .bt] ++
  (if StreamId.voiceDLIn ∈ h.hw.started then [Event.streamStop .voiceDLIn] else []) ++
  (if StreamId.voiceDLOut ∈ h.hw.started then [Event.streamStop .voiceDLOut] else []) ++
  [Event.outPortStop .bt] ++
  (if StreamId.voiceULOut ∈ h.hw.started then [Event.streamStop .voiceULOut] else []) ++
  [Event.pipeFlush .ul, Event.pipeFlush .dl] ++
  disableEvents h ++
  [Event.mixerSetVolumeHP 118, Event.mixerSetVolumeLine 118]

/-- The step of `leaveVoiceCall()` an effect belongs to, numbered in the order of the source:
0 the Bluetooth link back to slave, 1 the shutdown of the pipes, 2 the stop of the input side
(uplink-in, the Bluetooth input port, downlink-in), 3 the stop of the output side (downlink-out,
the Bluetooth output port, uplink-out), 4 the flush of the pipes, 5 the unregistrations and the
return of the primary output to its regular writer, 6 the reset of the volume; 7 stands for the
effects that `leaveVoiceCall()` never issues. -/
def leaveStep : Event → Nat
  | .mixerSetBTMode false => 0
  | .pipeShutdown _ true => 1
  | .streamStop .voiceULIn => 2
  | .inPortStop .bt => 2
  | .streamStop .voiceDLIn => 2
  | .streamStop .voiceDLOut => 3
  | .outPortStop .bt => 3
  | .streamStop .voiceULOut => 3
  | .pipeFlush _ => 4
  | .unregisterWriter _ _ => 5
  | .unregisterReader _ _ => 5
  | .streamStop .media => 5
  | .mixerSetVolumeHP _ => 6
  | .mixerSetVolumeLine _ => 6
  | _ => 7

/-- A state in a voice call: the primary output is valid and diverted, and the four voice
streams are registered where `enableVoiceCall()` registers them and are started. -/
def InCall (h : Hal) : Prop :=
  h.hw.mPrimaryStreamOut = true ∧ h.out.mUsedForVoiceCall = true ∧
  StreamId.voiceULIn ∈ getReader h h.hw.mMediaPortId ∧
  StreamId.voiceULOut ∈ getWriter h (.port .bt) ∧
  StreamId.voiceDLIn ∈ getReader h .bt ∧
  StreamId.voiceDLOut ∈ getWriter h (.port h.out.mWriter) ∧
  StreamId.voiceULIn ∈ h.hw.started ∧ StreamId.voiceULOut ∈ h.hw.started ∧
  StreamId.voiceDLIn ∈ h.hw.started ∧ StreamId.voiceDLOut ∈ h.hw.started

/-- Assignment to `AudioHwDevice::mMode`. -/
def AudioHwDevice.assignMode (h : Hal) (mode : audio_mode_t) : Hal :=
  { h with hw := { h.hw with mMode := mode } }

/-- Method `AudioHwDevice::setMode(mode)`. -/
def AudioHwDevice.setMode (env : Env) (h : Hal) (mode : audio_mode_t) : Int × Hal :=
  if h.hw.mMode = mode then (0, h)
  else
    let r :=
      if mode = .IN_CALL then AudioHwDevice.enterVoiceCall env h
      else (0, AudioHwDevice.leaveVoiceCall h)
    if r.1 = 0 then (r.1, AudioHwDevice.assignMode r.2 mode)
    else r

/-- The registration discipline on the writer of the primary output stream: the media stream
is registered there only while the stream is not used for a voice call, the downlink-out voice
stream only while it is, and a stream in standby is not registered there. -/
def MediaInv (h : Hal) : Prop :=
  (StreamId.media ∈ getWriter h (.port h.out.mWriter) → h.out.mUsedForVoiceCall = false) ∧
  (StreamId.voiceDLOut ∈ getWriter h (.port h.out.mWriter) → h.out.mUsedForVoiceCall = true) ∧
  (h.out.mStandby = true → StreamId.media ∉ getWriter h (.port h.out.mWriter))

/-- A stream facade in standby is not registered: the output stream on neither of its two
writers (and it is on the null writer only while used for a voice call), the input stream not
on its reader. -/
def StandbyInv (h : Hal) : Prop :=
  (StreamId.media ∈ getWriter h .null → h.out.mUsedForVoiceCall = true) ∧
  (h.out.mStandby = true → StreamId.media ∉ getWriter h .null) ∧
  (h.inp.mStandby = true → StreamId.capture ∉ getReader h h.inp.mReader)

/-- The four voice call streams. -/
def StreamId.isVoice : StreamId → Bool
  | .voiceULIn => true
  | .voiceULOut => true
  | .voiceDLIn => true
  | .voiceDLOut => true
  | _ => false

/-- No voice call stream is registered on any writer (the null writer included) or reader. -/
def NoVoiceRegistered (h : Hal) : Prop :=
  ∀ s : StreamId, s.isVoice = true →
    (∀ w : WriterRef, s ∉ getWriter h w) ∧ (∀ p : Port, s ∉ getReader h p)

/-! ## Reachable states of the primary output stream -/

/-- The calls of the platform on the open output stream, the open input stream and the
device. -/
inductive Op where
  | write (bytes : Nat)
  | standby
  | outSetParameters (c : AudioDevices) (routing : KeyLookup)
  | read (bytes : Nat)
  | inStandby
  | inSetParameters (c : AudioDevices) (source routing : KeyLookup)
  | setMode (mode : audio_mode_t)

/-- One call, with the collaborators behaving as `env` says. -/
def step (env : Env) (h : Hal) : Op → Hal
  | .write bytes => (AudioStreamOut.write env h bytes).2
  | .standby => (AudioStreamOut.standby h).2
  | .outSetParameters c routing => (AudioStreamOut.setParameters c h routing).2
  | .read bytes => (AudioStreamIn.read env h bytes).2
  | .inStandby => (AudioStreamIn.standby h).2
  | .inSetParameters c source routing => (AudioStreamIn.setParameters c h source routing).2
  | .setMode mode => (AudioHwDevice.setMode env h mode).2

/-- The state right after the constructors `AudioHwDevice::AudioHwDevice`,
`AudioStreamOut::AudioStreamOut` (through `openOutputStream` with the primary flag) and
`AudioStreamIn::AudioStreamIn`: normal mode, both streams in standby, the output stream not
used for a voice call, nothing registered or started. -/
def InitialHal (h : Hal) : Prop :=
  h.hw.mMode = .NORMAL ∧ h.hw.mMicMute = false ∧ h.hw.mPrimaryStreamOut = true ∧
  h.out.mStandby = true ∧ h.out.mUsedForVoiceCall = false ∧ h.inp.mStandby = true ∧
  h.hw.mReaders = ⟨[], [], []⟩ ∧ h.hw.mWriters = ⟨[], [], []⟩ ∧ h.out.mNullWriter = [] ∧
  h.hw.started = [] ∧ h.trace = []

/-- States reachable from an initial state by calls on the two streams and `setMode`, each
under an arbitrary behaviour of the collaborators. -/
inductive Reachable : Hal → Prop where
  | init (h : Hal) : InitialHal h → Reachable h
  | next (h : Hal) (env : Env) (op : Op) : Reachable h → Reachable (step env h op)

/-- A concrete output stream: stereo, 16 bit, 44100 Hz, 1024 frames, on the CPU port. -/
def sampleOut : AudioStreamOut :=
  { mWriter := .cpu, mNullWriter := [], mParams := ⟨2, 16, 44100, 1024⟩, mDevices := 2,
    mStandby := true, mUsedForVoiceCall := false }

/-- A concrete input stream: stereo, 16 bit, 44100 Hz, 882 frames, on the CPU port. -/
def sampleIn : AudioStreamIn :=
  { mReader := .cpu, mParams := ⟨2, 16, 44100, 882⟩, mDevices := 0x80000004, mSource := 0,
    mStandby := true }

/-- A concrete device right after construction, without the JAMR3 board. -/
def sampleHw : AudioHwDevice :=
  { mMixer := ⟨false, 118, 118⟩, mReaders := ⟨[], [], []⟩, mWriters := ⟨[], [], []⟩,
    started := [], mMicMute := false, mMode := .NORMAL, mMediaPortId := .cpu,
    mPrimaryStreamOut := true, mULPipe := ⟨false⟩, mDLPipe := ⟨false⟩ }

/-- A concrete initial HAL state. -/
def sampleHal : Hal :=
  { hw := sampleHw, out := sampleOut, inp := sampleIn, trace := [] }

/-- Collaborators that always succeed and transfer every frame asked for. -/
def okEnv : Env :=
  { writerStatus := fun _ _ => 0, readerStatus := fun _ _ => 0, startStatus := fun _ => 0,
    writeResult := fun n => (n : Int), readResult := fun n => (n : Int) }

/-- Collaborators for which every `start()` fails with `-ENODEV` and everything else
succeeds. -/
def startFailsEnv : Env :=
  { writerStatus := fun _ _ => 0, readerStatus := fun _ _ => 0, startStatus := fun _ => -19,
    writeResult := fun n => (n : Int), readResult := fun n => (n : Int) }

/-- Collaborators for which `start()` of the downlink-in voice stream fails with `-ENODEV`
and everything else succeeds. -/
def dlInStartFailsEnv : Env :=
  { writerStatus := fun _ _ => 0, readerStatus := fun _ _ => 0,
    startStatus := fun s => if s = .voiceDLIn then -19 else 0,
    writeResult := fun n => (n : Int), readResult := fun n => (n : Int) }

/-- Collaborators for which `start()` of the downlink-out voice stream fails with `-ENODEV`
and everything else succeeds. -/
def dlOutStartFailsEnv : Env :=
  { writerStatus := fun _ _ => 0, readerStatus := fun _ _ => 0,
    startStatus := fun s => if s = .voiceDLOut then -19 else 0,
    writeResult := fun n => (n : Int), readResult := fun n => (n : Int) }

/-- Collaborators whose stream level `write` and `read` fail with `-EIO`. -/
def ioErrorEnv : Env :=
  { writerStatus := fun _ _ => 0, readerStatus := fun _ _ => 0, startStatus := fun _ => 0,
    writeResult := fun _ => -5, readResult := fun _ => -5 }

/-- The concrete initial state after one successful write and one successful read: both
streams are running. -/
def runningHal : Hal :=
  step okEnv (step okEnv sampleHal (.write 4096)) (.read 4096)

/-- The concrete initial state after a successful `setMode(AUDIO_MODE_IN_CALL)`. -/
def inCallHal : Hal :=
  step okEnv sampleHal (.setMode .IN_CALL)

/-- The device constants as in Android 4.4 system/audio.h (the value of the TI specific
`AUDIO_DEVICE_OUT_WIRED_HEADPHONE2` is an assumption). -/
def sampleAudioDevices : AudioDevices :=
  { IN_BUILTIN_MIC := 0x80000004, IN_BACK_MIC := 0x80000080, IN_VOICE_CALL := 0x80000040,
    IN_ANLG_DOCK_HEADSET := 0x80000200, OUT_SPEAKER := 0x2, OUT_WIRED_HEADPHONE := 0x8,
    OUT_WIRED_HEADSET := 0x4, OUT_WIRED_HEADPHONE2 := 0x10000, OUT_ALL := 0x3FFFFF,
    IN_ALL := 0x80001FFF, SOURCE_CNT := 9 }

/-- A concrete input stream as `openInputStream` builds it for a client asking for 8000 Hz
mono 16 bit on the on-board port: the client's format with the frame count of the reader. -/
def sampleIn8k : AudioStreamIn :=
  { mReader := .cpu, mParams := ⟨1, 16, 8000, readerParams0.frameCount⟩,
    mDevices := 0x80000004, mSource := 0, mStandby := true }

end Multizone

namespace Legacy

/-! ## Data model of `audio_hw.c` -/

/-- Abnormal outcomes of the C code that the embedding makes explicit: a dereference of a null
pointer, and a loop that did not finish within the given number of iterations. -/
inductive Fault where
  | nullDeref
  | outOfFuel
  deriving DecidableEq, Repr

/-- Value of errno `ENODEV`. -/
def ENODEV : Int := 19

/-- Value of errno `EINVAL`. -/
def EINVAL : Int := 22

/-- Value of errno `ENOMEM`. -/
def ENOMEM : Int := 12

/-- Wrap to a 32 bit unsigned integer (`size_t`, `uint32_t` and `unsigned int` on the 32 bit
ARM target). -/
def u32 (n : Nat) : Nat := n % 2 ^ 32

/-- Conversion of an `int` to `size_t`. -/
def toU32 (x : Int) : Nat := (x % 2 ^ 32).toNat

/-- Value of `RESAMPLER_HEADROOM_FRAMES`. -/
def RESAMPLER_HEADROOM_FRAMES : Nat := 10

/-- The two remix functions a `buffer_remix` can point to. -/
inductive RemixFunc where
  | remove_channels_from_buf
  | mono_remix
  deriving DecidableEq, Repr

/-- Fields of `struct buffer_remix`. -/
structure buffer_remix where
  remix_func : RemixFunc
  sample_size : Nat
  in_chans : Nat
  out_chans : Nat
  deriving DecidableEq, Repr

/-- Fields of tinyalsa `struct pcm_config` that the code sets. -/
structure pcm_config where
  channels : Nat
  rate : Nat
  period_size : Nat
  period_count : Nat
  start_threshold : Nat
  stop_threshold : Nat
  avail_min : Nat
  deriving DecidableEq, Repr

/-- Value of `CAPTURE_SAMPLE_RATE`. -/
def CAPTURE_SAMPLE_RATE : Nat := 44100

/-- Value of `CAPTURE_PERIOD_SIZE`. -/
def CAPTURE_PERIOD_SIZE : Nat := 960

/-- Value of `CAPTURE_PERIOD_COUNT`. -/
def CAPTURE_PERIOD_COUNT : Nat := 4

/-- Value of `CAPTURE_BUFFER_SIZE`. -/
def CAPTURE_BUFFER_SIZE : Nat := CAPTURE_PERIOD_SIZE * CAPTURE_PERIOD_COUNT

/-- Value of `PLAYBACK_SAMPLE_RATE`. -/
def PLAYBACK_SAMPLE_RATE : Nat := 44100

/-- Value of `PLAYBACK_PERIOD_SIZE`. -/
def PLAYBACK_PERIOD_SIZE : Nat := 960

/-- Value of `PLAYBACK_PERIOD_COUNT`. -/
def PLAYBACK_PERIOD_COUNT : Nat := 4

/-- Value of `PLAYBACK_BUFFER_SIZE`. -/
def PLAYBACK_BUFFER_SIZE : Nat := PLAYBACK_PERIOD_SIZE * PLAYBACK_PERIOD_COUNT

/-- Value of `BT_SAMPLE_RATE`. -/
def BT_SAMPLE_RATE : Nat := 8000

/-- Value of `BT_PERIOD_SIZE`. -/
def BT_PERIOD_SIZE : Nat := 160

/-- Value of `BT_PERIOD_COUNT`. -/
def BT_PERIOD_COUNT : Nat := 4

/-- Value of `BT_BUFFER_SIZE`. -/
def BT_BUFFER_SIZE : Nat := BT_PERIOD_SIZE * BT_PERIOD_COUNT

/-- The global `pcm_config_capture`. -/
def pcm_config_capture : pcm_config :=
  { channels := 2, rate := CAPTURE_SAMPLE_RATE, period_size := CAPTURE_PERIOD_SIZE,
    period_count := CAPTURE_PERIOD_COUNT, start_threshold := 1,
    stop_threshold := CAPTURE_BUFFER_SIZE, avail_min := 0 }

/-- The global `pcm_config_playback`. -/
def pcm_config_playback : pcm_config :=
  { channels := 2, rate := PLAYBACK_SAMPLE_RATE, period_size := PLAYBACK_PERIOD_SIZE,
    period_count := PLAYBACK_PERIOD_COUNT, start_threshold := PLAYBACK_BUFFER_SIZE / 2,
    stop_threshold := PLAYBACK_BUFFER_SIZE, avail_min := PLAYBACK_PERIOD_SIZE }

/-- The global `pcm_config_bt_in`. -/
def pcm_config_bt_in : pcm_config :=
  { channels := 2, rate := BT_SAMPLE_RATE, period_size := BT_PERIOD_SIZE,
    period_count := BT_PERIOD_COUNT, start_threshold := 1,
    stop_threshold := BT_BUFFER_SIZE, avail_min := 0 }

/-- The global `pcm_config_bt_out`. -/
def pcm_config_bt_out : pcm_config :=
  { channels := 2, rate := BT_SAMPLE_RATE, period_size := BT_PERIOD_SIZE,
    period_count := BT_PERIOD_COUNT, start_threshold := BT_BUFFER_SIZE / 2,
    stop_threshold := BT_BUFFER_SIZE, avail_min := BT_PERIOD_SIZE }

/-- A tinyalsa `struct pcm` handle as returned by `pcm_open` (never null); `ready` is what
`pcm_is_ready` answers. -/
structure pcm where
  ready : Bool
  deriving DecidableEq, Repr

/-- The arguments a resampler was created with by `create_resampler`. -/
structure resampler_itfe where
  in_rate : Nat
  out_rate : Nat
  channels : Nat
  deriving DecidableEq, Repr

/-- Fields of `struct j6_voice_stream`.  Pointers are options (`none` is `NULL`); `thread`
tells whether the pump thread was created and not yet joined, `name` whether the name string
is allocated. -/
structure j6_voice_stream where
  pcm_in : Option pcm
  pcm_out : Option pcm
  in_config : pcm_config
  out_config : pcm_config
  resampler : Option resampler_itfe
  remix : Option buffer_remix
  thread : Bool
  in_buffer : Option (List UInt8)
  out_buffer : Option (List UInt8)
  in_frames : Nat
  out_frames : Nat
  frame_size : Nat
  name : Bool
  deriving DecidableEq, Repr

/-- Fields of `struct j6_voice`. -/
structure j6_voice where
  ul : j6_voice_stream
  dl : j6_voice_stream
  deriving DecidableEq, Repr

/-- Fields of `struct j6_stream_out` (the time stamp `last` is not represented). -/
structure j6_stream_out where
  config : pcm_config
  pcm : Option pcm
  standby : Bool
  written : Int
  deriving DecidableEq, Repr

/-- Fields of `struct j6_stream_in`. -/
structure j6_stream_in where
  config : pcm_config
  pcm : Option pcm
  remix : Option buffer_remix
  resampler : Option resampler_itfe
  buffer : Option (List UInt8)
  frames_in : Nat
  hw_frame_size : Nat
  requested_rate : Nat
  requested_channels : Nat
  read_status : Int
  standby : Bool
  deriving DecidableEq, Repr

/-- Fields of `struct j6_audio_device`.  `route_bt_sco_master` tells whether the mixer path
"BT SCO Master" is applied.  The back pointer `in` is written by the open and close functions
only and is not represented. -/
structure j6_audio_device where
  out : Option j6_stream_out
  voice : j6_voice
  route_bt_sco_master : Bool
  in_device : Nat
  out_device : Nat
  mic_mute : Bool
  in_call : Bool
  mode : audio_mode_t
  deriving DecidableEq, Repr

/-- Outcomes of the collaborators of one voice stream during `voice_stream_init` and
`pthread_create`. -/
structure VoiceEnv where
  create_resampler : Int
  pcm_in_ready : Bool
  pcm_out_ready : Bool
  malloc_out_buffer : Bool
  malloc_in_buffer : Bool
  malloc_remix : Bool
  pthread_create : Int

/-- Outcomes of the collaborators of the legacy HAL during one call.  `pcm_read n` is the
status of a hardware read of `n` bytes together with the bytes it left in the destination;
`resample_from_provider sin buf off n` is the effect of the resampler asked for `n` frames at
byte offset `off` of `buf`: the stream state after its provider callbacks, the buffer, and the
number of frames produced. -/
structure Env where
  ul : VoiceEnv
  dl : VoiceEnv
  pcm_in_ready : Bool
  pcm_read : Nat → Int × List UInt8
  resample_from_provider :
    j6_stream_in → List UInt8 → Nat → Nat → j6_stream_in × List UInt8 × Nat

/-- Function `get_input_buffer_size(sample_rate, format, channel_count)`. -/
def get_input_buffer_size (sample_rate : Nat) (_format : Int) (channel_count : Int) : Nat :=
  let size := u32 (pcm_config_capture.period_size * sample_rate) / pcm_config_capture.rate
  let size := u32 (u32 (size + 15) / 16 * 16)
  u32 (u32 (size * toU32 channel_count) * 2)

/-! ## Channel remix -/

/-- The inner loop `for (c = 0; c < out_frame; ++c) d[c] = s[c]` of
`remove_channels_from_buf`, with `n` iterations left; `d` and `s` are byte offsets into the
buffer.  (An access outside the buffer is undefined in C; the list operations then read 0 and
drop the write.) -/
def copy_bytes (d s : Nat) : Nat → Nat → List UInt8 → List UInt8
  | 0, _, buf => buf
  | n + 1, c, buf => copy_bytes d s n (c + 1) (buf.set (d + c) (buf.getD (s + c) 0))

/-- The loop `while (N--)` of `remove_channels_from_buf`. -/
def remove_channels_loop (in_frame out_frame : Nat) : Nat → Nat → Nat → List UInt8 → List UInt8
  | 0, _, _, buf => buf
  | N + 1, d, s, buf =>
    remove_channels_loop in_frame out_frame N (d + out_frame) (s + in_frame)
      (copy_bytes d s out_frame 0 buf)

/-- Function `remove_channels_from_buf(data, buf, frames)`. -/
def remove_channels_from_buf (data : buffer_remix) (buf : List UInt8) (frames : Nat) :
    List UInt8 :=
  if frames = 0 then buf
  else
    let samp_size := data.sample_size
    let in_frame := u32 (data.in_chans * samp_size)
    let out_frame := u32 (data.out_chans * samp_size)
    if out_frame ≥ in_frame then buf
    else remove_channels_loop in_frame out_frame (frames - 1) out_frame in_frame buf

/-- Assignment `buffer[i] = buffer[j]` on 16 bit samples of a byte buffer. -/
def copy_sample (buf : List UInt8) (i j : Nat) : List UInt8 :=
  (buf.set (2 * i) (buf.getD (2 * j) 0)).set (2 * i + 1) (buf.getD (2 * j + 1) 0)

/-- The inner loop `for (i = 1; i < out_chans; i++) buffer[i] = buffer[0]` of `mono_remix`,
with `n` iterations left; `base` is the sample index of the current frame. -/
def mono_frame (base : Nat) : Nat → Nat → List UInt8 → List UInt8
  | 0, _, buf => buf
  | n + 1, i, buf => mono_frame base n (i + 1) (copy_sample buf (base + i) base)

/-- The loop `while (frames--)` of `mono_remix`. -/
def mono_loop (out_chans : Nat) : Nat → Nat → List UInt8 → List UInt8
  | 0, _, buf => buf
  | n + 1, base, buf =>
    mono_loop out_chans n (base + out_chans) (mono_frame base (out_chans - 1) 1 buf)

/-- Function `mono_remix(data, buf, frames)`. -/
def mono_remix (data : buffer_remix) (buf : List UInt8) (frames : Nat) : List UInt8 :=
  if frames = 0 then buf else mono_loop data.out_chans frames 0 buf

/-- The call `remix->remix_func(remix, buf, frames)`. -/
def buffer_remix.apply (data : buffer_remix) (buf : List UInt8) (frames : Nat) : List UInt8 :=
  match data.remix_func with
  | .remove_channels_from_buf => remove_channels_from_buf data buf frames
  | .mono_remix => mono_remix data buf frames

/-- The 16 bit sample `((int16_t *)buf)[k]` of a byte buffer, as its two bytes. -/
def sample16 (buf : List UInt8) (k : Nat) : UInt8 × UInt8 :=
  (buf.getD (2 * k) 0, buf.getD (2 * k + 1) 0)

/-- Function `setup_stereo_to_mono_input_remix(in)`; `malloc_ok` is the outcome of `malloc`. -/
def setup_stereo_to_mono_input_remix (malloc_ok : Bool) (sin : j6_stream_in) :
    Int × j6_stream_in :=
  if ¬ malloc_ok then (-ENOMEM, sin)
  else
    (0, { sin with remix := some ⟨.remove_channels_from_buf, 2, 2, 1⟩ })

/-- Function `setup_mono_input_remix(stream)`; `malloc_ok` is the outcome of `malloc`. -/
def setup_mono_input_remix (malloc_ok : Bool) (stream : j6_voice_stream) :
    Int × j6_voice_stream :=
  if ¬ malloc_ok then (-ENOMEM, stream)
  else
    let br : buffer_remix := ⟨.mono_remix, 2, stream.in_config.channels, stream.out_config.channels⟩
    (0, { stream with remix := some br })

/-! ## Voice call path of the legacy HAL -/

/-- Function `voice_stream_exit(stream)`. -/
def voice_stream_exit (stream : j6_voice_stream) : j6_voice_stream :=
  let s1 := if stream.resampler.isSome then { stream with resampler := none } else stream
  let s2 := if s1.pcm_out.isSome then { s1 with pcm_out := none } else s1
  let s3 := if s2.pcm_in.isSome then { s2 with pcm_in := none } else s2
  let s4 := if s3.in_buffer.isSome then { s3 with in_buffer := none, in_frames := 0 } else s3
  let s5 := if s4.out_buffer.isSome then { s4 with out_buffer := none, out_frames := 0 } else s4
  let s6 := if s5.remix.isSome then { s5 with remix := none } else s5
  if s6.name then { s6 with name := false } else s6

/-- Function `voice_stream_init(stream, in_port, out_port, needs_mono_remix)`.  A resampler
that could not be created leaves `stream->resampler` null; `pcm_frames_to_bytes(pcm, 1)` is the
channel count times two bytes (S16_LE); allocated buffers are zero filled here. -/
def voice_stream_init (venv : VoiceEnv) (stream : j6_voice_stream) (needs_mono_remix : Bool) :
    Int × j6_voice_stream :=
  if venv.create_resampler ≠ 0 then (venv.create_resampler, { stream with resampler := none })
  else
    let rs : resampler_itfe := ⟨stream.in_config.rate, stream.out_config.rate, 2⟩
    let pin : pcm := ⟨venv.pcm_in_ready⟩
    let pout : pcm := ⟨venv.pcm_out_ready⟩
    let s1 := { stream with resampler := some rs, pcm_in := some pin, pcm_out := some pout }
    if ¬ pin.ready ∨ ¬ pout.ready then (-ENODEV, voice_stream_exit s1)
    else
      let frame_size := s1.in_config.channels * 2
      let out_frames := s1.out_config.period_size
      let out_buffer : Option (List UInt8) :=
        if venv.malloc_out_buffer then some (List.replicate (u32 (out_frames * frame_size)) 0)
        else none
      let in_frames :=
        u32 (u32 (out_frames * s1.in_config.rate) / s1.out_config.rate + RESAMPLER_HEADROOM_FRAMES)
      let in_buffer : Option (List UInt8) :=
        if venv.malloc_in_buffer then some (List.replicate (u32 (in_frames * frame_size)) 0)
        else none
      let s2 := { s1 with frame_size := frame_size, out_frames := out_frames,
                          out_buffer := out_buffer, in_frames := in_frames,
                          in_buffer := in_buffer }
      if s2.in_buffer.isNone ∨ s2.out_buffer.isNone then (-ENOMEM, voice_stream_exit s2)
      else if needs_mono_remix then
        let r := setup_mono_input_remix venv.malloc_remix s2
        if r.1 ≠ 0 then (r.1, voice_stream_exit r.2) else (0, r.2)
      else (0, { s2 with remix := none })

/-- Function `do_out_standby(out)`, with `adev = out->dev`.  `pcm_close` dereferences its
argument, so closing a null handle faults. -/
def do_out_standby (adev : j6_audio_device) (out : j6_stream_out) : Except Fault j6_stream_out :=
  if ¬ out.standby then
    if adev.mode ≠ .IN_CALL then
      match out.pcm with
      | none => .error .nullDeref
      | some _ => .ok { out with pcm := none, standby := true }
    else .ok { out with standby := true }
  else .ok out

/-- The statement `if (adev->out) do_out_standby(adev->out);`. -/
def standby_primary (adev : j6_audio_device) : Except Fault j6_audio_device :=
  match adev.out with
  | none => .ok adev
  | some out =>
    match do_out_standby adev out with
    | .error e => .error e
    | .ok out1 => .ok { adev with out := some out1 }

/-- The part of `enter_voice_call` after the primary output was put in standby. -/
def enter_voice_call_streams (env : Env) (adev : j6_audio_device) : Int × j6_audio_device :=
  let ul := adev.voice.ul
  let ul0 := { ul with name := true, in_config := pcm_config_capture, out_config := pcm_config_bt_out }
  let rul := voice_stream_init env.ul ul0 false
  let a1 := { adev with voice := { adev.voice with ul := rul.2 } }
  if rul.1 ≠ 0 then
    -- err_ul_init
    (rul.1, { a1 with route_bt_sco_master := false })
  else
    let dl := a1.voice.dl
    let dl0 := { dl with name := true, in_config := pcm_config_bt_in, out_config := pcm_config_playback }
    let rdl := voice_stream_init env.dl dl0 true
    let a2 := { a1 with voice := { a1.voice with dl := rdl.2 } }
    if rdl.1 ≠ 0 then
      -- err_dl_init
      let a3 := { a2 with voice := { a2.voice with dl := voice_stream_exit a2.voice.dl } }
      (rdl.1, { a3 with route_bt_sco_master := false })
    else
      let a3 := { a2 with in_call := true }
      if env.ul.pthread_create ≠ 0 then
        -- err_ul_thread
        let a4 := { a3 with in_call := false }
        let a5 := { a4 with voice := { a4.voice with ul := voice_stream_exit a4.voice.ul } }
        let a6 := { a5 with voice := { a5.voice with dl := voice_stream_exit a5.voice.dl } }
        (env.ul.pthread_create, { a6 with route_bt_sco_master := false })
      else
        let a4 := { a3 with voice := { a3.voice with ul := { a3.voice.ul with thread := true } } }
        if env.dl.pthread_create ≠ 0 then
          -- err_dl_thread
          let a5 := { a4 with in_call := false }
          let a6 := { a5 with voice := { a5.voice with ul := { a5.voice.ul with thread := false } } }
          let a7 := { a6 with voice := { a6.voice with ul := voice_stream_exit a6.voice.ul } }
          let a8 := { a7 with voice := { a7.voice with dl := voice_stream_exit a7.voice.dl } }
          (env.dl.pthread_create, { a8 with route_bt_sco_master := false })
        else
          (0, { a4 with voice := { a4.voice with dl := { a4.voice.dl with thread := true } } })

/-- Function `enter_voice_call(adev)`. -/
def enter_voice_call (env : Env) (adev : j6_audio_device) :
    Except Fault (Int × j6_audio_device) :=
  match standby_primary { adev with route_bt_sco_master := true } with
  | .error e => .error e
  | .ok a1 => .ok (enter_voice_call_streams env a1)

/-- Function `leave_voice_call(adev)`.  `pcm_stop` and `pthread_join` act on the handles and
threads; the pump threads are joined before the streams are released. -/
def leave_voice_call (adev : j6_audio_device) : Except Fault j6_audio_device :=
  let a1 := { adev with in_call := false, route_bt_sco_master := false }
  let a2 := { a1 with voice :=
    { ul := { a1.voice.ul with thread := false }, dl := { a1.voice.dl with thread := false } } }
  let a3 := { a2 with voice := { a2.voice with dl := voice_stream_exit a2.voice.dl } }
  let a4 := { a3 with voice := { a3.voice with ul := voice_stream_exit a3.voice.ul } }
  standby_primary a4

/-- Function `adev_set_mode(dev, mode)`.  The two mutexes it takes are not represented. -/
def adev_set_mode (env : Env) (adev : j6_audio_device) (mode : audio_mode_t) :
    Except Fault (Int × j6_audio_device) :=
  if adev.mode = mode then .ok (0, adev)
  else if mode = .IN_CALL then
    match enter_voice_call env adev with
    | .error e => .error e
    | .ok r => if r.1 ≠ 0 then .ok r else .ok (0, { r.2 with mode := mode })
  else if adev.mode = .IN_CALL then
    match leave_voice_call adev with
    | .error e => .error e
    | .ok a => .ok (0, { a with mode := mode })
  else .ok (0, { adev with mode := mode })

/-! ## Capture path of the legacy HAL -/

/-- The inline `audio_stream_frame_size` of hardware/audio.h applied to an input stream: the
channel count of `in_get_channels` times the two bytes of `in_get_format` (16 bit PCM). -/
def audio_stream_frame_size (sin : j6_stream_in) : Nat :=
  sin.requested_channels * 2

/-- The call `memset(buffer, c, n)` on a buffer of at least `n` bytes. -/
def memset (buf : List UInt8) (c : UInt8) (n : Nat) : List UInt8 :=
  List.replicate n c ++ buf.drop n

/-- The bytes a hardware read leaves in the first `data.length` bytes of the destination. -/
def store (buf data : List UInt8) : List UInt8 :=
  data.take buf.length ++ buf.drop data.length

/-- The loop of `read_frames`, with `frames_wr` frames written so far and at most `fuel`
iterations. -/
def read_frames_loop (env : Env) (frame_size : Nat) (frames : Int) :
    Nat → j6_stream_in → List UInt8 → Int → Except Fault (Int × j6_stream_in × List UInt8)
  | 0, sin, buf, frames_wr =>
    if frames_wr < frames then .error .outOfFuel else .ok (frames_wr, sin, buf)
  | fuel + 1, sin, buf, frames_wr =>
    if frames_wr < frames then
      match sin.resampler with
      | none => .error .nullDeref
      | some _ =>
        let frames_rd := (frames - frames_wr).toNat
        let r := env.resample_from_provider sin buf (frames_wr.toNat * frame_size) frames_rd
        if r.1.read_status ≠ 0 then .ok (r.1.read_status, r.1, r.2.1)
        else read_frames_loop env frame_size frames fuel r.1 r.2.1 (frames_wr + (r.2.2 : Int))
    else .ok (frames_wr, sin, buf)

/-- Function `read_frames(in, buffer, frames)`. -/
def read_frames (env : Env) (fuel : Nat) (sin : j6_stream_in) (buffer : List UInt8)
    (frames : Int) : Except Fault (Int × j6_stream_in × List UInt8) :=
  let frame_size := if sin.remix.isSome then audio_stream_frame_size sin else sin.hw_frame_size
  read_frames_loop env frame_size frames fuel sin buffer 0

/-- The calls of `resample_from_provider` that the loop of `read_frames` makes, in order: the
byte offset of the destination in the caller's buffer, the frame count requested and the frame
count produced. -/
def read_frames_calls (env : Env) (frame_size : Nat) (frames : Int) :
    Nat → j6_stream_in → List UInt8 → Int → List (Nat × Nat × Nat)
  | 0, _, _, _ => []
  | fuel + 1, sin, buf, frames_wr =>
    if frames_wr < frames then
      match sin.resampler with
      | none => []
      | some _ =>
        let frames_rd := (frames - frames_wr).toNat
        let r := env.resample_from_provider sin buf (frames_wr.toNat * frame_size) frames_rd
        (frames_wr.toNat * frame_size, frames_rd, r.2.2) ::
          (if r.1.read_status ≠ 0 then []
           else read_frames_calls env frame_size frames fuel r.1 r.2.1 (frames_wr + (r.2.2 : Int)))
    else []

/-- Fields of `struct resampler_buffer`: the data pointer (`raw` / `i16`, with the content it
points to) and `frame_count`. -/
structure resampler_buffer where
  raw : Option (List UInt8)
  frame_count : Nat
  deriving DecidableEq, Repr

/-- The end of `get_next_buffer`: clamp the frame count to `frames_in`, hand out `in->buffer`,
return the sticky `read_status`. -/
def get_next_buffer_tail (sin : j6_stream_in) (buffer : resampler_buffer) :
    Int × Option j6_stream_in × Option resampler_buffer :=
  let fc := if buffer.frame_count > sin.frames_in then sin.frames_in else buffer.frame_count
  (sin.read_status, some sin, some { raw := sin.buffer, frame_count := fc })

/-- Function `get_next_buffer(buffer_provider, buffer)`; the stream is the one that contains
the provider.  The remix function indexes `in->buffer`, so a descriptor with a null buffer is a
fault; a null destination of `pcm_read` stays null. -/
def get_next_buffer (env : Env) (provider : Option j6_stream_in)
    (buffer : Option resampler_buffer) :
    Except Fault (Int × Option j6_stream_in × Option resampler_buffer) :=
  match provider, buffer with
  | some sin, some b =>
    match sin.pcm with
    | none =>
      .ok (-ENODEV, some { sin with read_status := -ENODEV },
        some { raw := none, frame_count := 0 })
    | some _ =>
      if sin.frames_in = 0 then
        let count := u32 (b.frame_count * sin.hw_frame_size)
        let rd := env.pcm_read count
        let s1 := { sin with read_status := rd.1,
                             buffer := sin.buffer.map (fun d => store d (rd.2.take count)) }
        if s1.read_status ≠ 0 then
          .ok (s1.read_status, some s1, some { raw := none, frame_count := 0 })
        else
          let s2 := { s1 with frames_in := b.frame_count }
          match s2.remix with
          | none => .ok (get_next_buffer_tail s2 b)
          | some remix =>
            match s2.buffer with
            | none => .error .nullDeref
            | some d =>
              .ok (get_next_buffer_tail
                { s2 with buffer := some (remix.apply d s2.frames_in) } b)
      else .ok (get_next_buffer_tail sin b)
  | _, _ => .ok (-EINVAL, provider, buffer)

/-- Function `release_buffer(buffer_provider, buffer)`, with the `size_t` subtraction. -/
def release_buffer (provider : Option j6_stream_in) (buffer : Option resampler_buffer) :
    Option j6_stream_in :=
  match provider, buffer with
  | some sin, some b =>
    some { sin with frames_in := u32 (sin.frames_in + 2 ^ 32 - u32 b.frame_count) }
  | _, _ => provider

/-- The read step of `in_read`: `read_frames` when a resampler or a remix is installed, a direct
`pcm_read` otherwise.  The result is the status `ret`. -/
def in_read_data (env : Env) (fuel : Nat) (sin : j6_stream_in) (buffer : List UInt8)
    (frames bytes : Nat) : Except Fault (Int × j6_stream_in × List UInt8) :=
  if sin.resampler.isSome ∨ sin.remix.isSome then read_frames env fuel sin buffer (frames : Int)
  else
    match sin.pcm with
    | none => .error .nullDeref
    | some _ => .ok ((env.pcm_read bytes).1, sin, store buffer ((env.pcm_read bytes).2.take bytes))

/-- The standby branch of `in_read`: open the PCM device; `none` when it is not ready (the
function then returns `-ENODEV`). -/
def in_read_open (env : Env) (sin : j6_stream_in) : Option j6_stream_in :=
  if sin.standby then
    let p : pcm := ⟨env.pcm_in_ready⟩
    if ¬ p.ready then none
    else
      let s1 := { sin with pcm := some p }
      let s2 := if s1.resampler.isSome then { s1 with frames_in := 0 } else s1
      some { s2 with standby := false }
  else some sin

/-- Function `in_read(stream, buffer, bytes)`: the returned value, the stream and the caller's
buffer afterwards. -/
def in_read (env : Env) (fuel : Nat) (adev : j6_audio_device) (sin : j6_stream_in)
    (buffer : List UInt8) (bytes : Nat) : Except Fault (Int × j6_stream_in × List UInt8) :=
  let frame_size := audio_stream_frame_size sin
  let frames := u32 (bytes / frame_size)
  match in_read_open env sin with
  | none => .ok (-ENODEV, { sin with pcm := none }, buffer)
  | some s1 =>
    match in_read_data env fuel s1 buffer frames bytes with
    | .error e => .error e
    | .ok r =>
      if r.1 < 0 then .ok ((bytes : Int), r.2.1, memset r.2.2 0 bytes)
      else if adev.mic_mute then .ok ((bytes : Int), r.2.1, memset r.2.2 0 bytes)
      else .ok ((bytes : Int), r.2.1, r.2.2)

/-! ## Opening the streams of the legacy HAL -/

/-- The fields of `struct audio_config` that the open functions read. -/
structure audio_config where
  sample_rate : Nat
  channel_mask : Nat
  format : Int
  deriving DecidableEq, Repr

/-- The builtin `popcount` on a 32 bit mask. -/
def popcount (mask : Nat) : Nat :=
  (List.range 32).countP (fun i => mask.testBit i)

/-- Outcomes of the collaborators of `adev_open_input_stream`: the two later `malloc` calls and
`create_resampler`. -/
structure OpenEnv where
  malloc_buffer : Bool
  malloc_remix : Bool
  create_resampler : Int

/-- Function `adev_open_input_stream(dev, handle, devices, config, stream_in, ...)`.  `block` is
what `malloc` returns for the stream (`none` when it fails, otherwise the indeterminate content
of the allocated block); the function assigns the fields listed in the source and leaves the
others (`pcm`, `frames_in`, `read_status`) as they are in the block.  The allocated capture
buffer is taken as zero filled. -/
def adev_open_input_stream (oenv : OpenEnv) (block : Option j6_stream_in) (config : audio_config) :
    Int × Option j6_stream_in :=
  match block with
  | none => (-ENOMEM, none)
  | some blk =>
    let in0 : j6_stream_in := { blk with standby := true, config := pcm_config_capture, requested_rate := config.sample_rate, requested_channels := popcount config.channel_mask }
    let in1 : j6_stream_in := { in0 with hw_frame_size := u32 (in0.config.channels * 2), remix := none, resampler := none, buffer := none }
    let r : Int × j6_stream_in :=
      if in1.requested_channels = 1 then
        if ¬ oenv.malloc_buffer then (-ENOMEM, in1)
        else
          let in2 : j6_stream_in := { in1 with buffer := some (List.replicate (u32 (u32 (2 * in1.config.period_size) * in1.hw_frame_size)) 0) }
          setup_stereo_to_mono_input_remix oenv.malloc_remix in2
      else (0, in1)
    if r.1 ≠ 0 then (r.1, none)
    else if r.2.requested_rate ≠ r.2.config.rate then
      if oenv.create_resampler ≠ 0 then (oenv.create_resampler, none)
      else
        (0, some { r.2 with resampler := some ⟨r.2.config.rate, r.2.requested_rate, r.2.requested_channels⟩ })
    else (0, some r.2)

/-- Function `adev_open_output_stream(dev, handle, devices, flags, config, stream_out, ...)`.
`block` is what `malloc` returns for the stream (`none` when it fails, otherwise the
indeterminate content of the allocated block); the function assigns `standby`, `config` and
`written` and leaves `pcm` as it is in the block. -/
def adev_open_output_stream (block : Option j6_stream_out) (adev : j6_audio_device) :
    Int × j6_audio_device :=
  match block with
  | none => (-ENOMEM, adev)
  | some blk =>
    (0, { adev with out := some { blk with standby := true, config := pcm_config_playback, written := 0 } })

/-! ## Output path of the legacy HAL -/

/-- Outcomes of the collaborators of `out_write`: whether the opened PCM device is ready, and
the status of `pcm_write`. -/
structure OutEnv where
  pcm_out_ready : Bool
  pcm_write : Int

/-- The standby branch of `out_write`: the status `ret` and the stream afterwards. -/
def out_write_resume (oenv : OutEnv) (adev : j6_audio_device) (out : j6_stream_out) :
    Int × j6_stream_out :=
  if out.standby then
    if ¬ adev.in_call then
      let p : pcm := ⟨oenv.pcm_out_ready⟩
      if ¬ p.ready then (-ENODEV, { out with pcm := none })
      else (0, { out with pcm := some p, standby := false })
    else (0, { out with standby := false })
  else (0, out)

/-- Function `out_write(stream, buffer, bytes)` on the output stream of the device.  The frame
size is that of `out_get_channels` (stereo) and `out_get_format` (16 bit); `pcm_write`
dereferences its handle, so writing through a null handle faults; its status only decides on
a log line and a sleep. -/
def out_write (oenv : OutEnv) (adev : j6_audio_device) (bytes : Nat) :
    Except Fault (Int × j6_audio_device) :=
  match adev.out with
  | none => .error .nullDeref
  | some out =>
    let frames := bytes / 4
    let r := out_write_resume oenv adev out
    if r.1 ≠ 0 then .ok (r.1, { adev with out := some r.2 })
    else if ¬ adev.in_call then
      match r.2.pcm with
      | none => .error .nullDeref
      | some _ => .ok ((bytes : Int), { adev with out := some { r.2 with written := r.2.written + (frames : Int) } })
    else .ok ((bytes : Int), { adev with out := some { r.2 with written := r.2.written + (frames : Int) } })

/-- Function `out_standby(stream)` on the output stream of the device. -/
def out_standby (adev : j6_audio_device) : Except Fault (Int × j6_audio_device) :=
  match adev.out with
  | none => .error .nullDeref
  | some out =>
    match do_out_standby adev out with
    | .error e => .error e
    | .ok out1 => .ok (0, { adev with out := some out1 })

/-- Function `out_set_parameters(stream, kvpairs)` on the output stream of the device;
`lookup` is the result of `str_parms_get_str` for the routing key, `val` the parsed value and
`OUT_ALL` the constant `AUDIO_DEVICE_OUT_ALL`. -/
def out_set_parameters (adev : j6_audio_device) (lookup : Int) (val : Nat) (OUT_ALL : Nat) :
    Except Fault (Int × j6_audio_device) :=
  match adev.out with
  | none => .error .nullDeref
  | some out =>
    if lookup ≥ 0 ∧ u32 val ≠ 0 then
      if (adev.out_device &&& OUT_ALL) ≠ u32 val then
        match do_out_standby adev out with
        | .error e => .error e
        | .ok out1 => .ok (0, { adev with out := some out1, out_device := u32 val })
      else .ok (0, { adev with out_device := u32 val })
    else .ok (0, adev)

/-- The calls a client makes on the output path of an opened device. -/
inductive OutCall where
  | write (oenv : OutEnv) (bytes : Nat)
  | standby
  | set_parameters (lookup : Int) (val : Nat) (OUT_ALL : Nat)
  | set_mode (env : Env) (mode : audio_mode_t)

/-- One call on the output path. -/
def out_call (adev : j6_audio_device) : OutCall → Except Fault (Int × j6_audio_device)
  | .write oenv bytes => out_write oenv adev bytes
  | .standby => out_standby adev
  | .set_parameters lookup val OUT_ALL => out_set_parameters adev lookup val OUT_ALL
  | .set_mode env mode => adev_set_mode env adev mode

/-- A sequence of calls on the output path, one after the other. -/
def out_calls : List OutCall → j6_audio_device → Except Fault j6_audio_device
  | [], adev => .ok adev
  | c :: cs, adev =>
    match out_call adev c with
    | .error e => .error e
    | .ok r => out_calls cs r.2

/-- The discipline of `out->pcm`: `in_call` and the mode agree, the handle is null in standby
and while resumed during a call, and open while resumed outside a call. -/
def OutPcmInv (adev : j6_audio_device) : Prop :=
  ∃ out, adev.out = some out ∧
    (adev.in_call = true ↔ adev.mode = audio_mode_t.IN_CALL) ∧
    (out.standby = true → out.pcm = none) ∧
    (out.standby = false → adev.in_call = false → out.pcm.isSome = true) ∧
    (out.standby = false → adev.in_call = true → out.pcm = none)

/-! ## The pump thread of a voice stream -/

/-- The calls one iteration of the loop of `voice_thread_func` makes on its collaborators. -/
inductive PumpEvent where
  | pcm_start
  | resample (frames : Nat)
  | htimestamp
  | remix (frames : Nat)
  | write (data : List UInt8)
  | usleep (usecs : Nat)
  deriving DecidableEq, Repr

/-- The locals of `voice_thread_func`, the content of `stream->out_buffer`, and the calls made
so far. -/
structure pump_state where
  frames : Nat
  periods : Nat
  in_steady : Bool
  out_steady : Bool
  ret : Int
  out_buffer : List UInt8
  events : List PumpEvent
  deriving DecidableEq, Repr

/-- Outcomes of the collaborators during one iteration of the pump: the output buffer and the
frame count `resample_from_provider` leaves, the status and `avail` of `pcm_get_htimestamp`,
and the status of `pcm_write`. -/
structure PumpEnv where
  resample : List UInt8 → Nat → List UInt8 × Nat
  htimestamp : Int × Nat
  pcm_write : Int

/-- The part of `voice_thread_func` before the loop: `pcm_start`, the locals, and the `memset`
of the output buffer (the thread is created only after `voice_stream_init` allocated it). -/
def voice_thread_init (stream : j6_voice_stream) : pump_state :=
  { frames := stream.out_frames, periods := 0, in_steady := false, out_steady := false, ret := 0,
    out_buffer := memset (stream.out_buffer.getD []) 0 (u32 (stream.out_frames * stream.frame_size)),
    events := [.pcm_start] }

/-- The end of one iteration of the pump: the optional remix, `pcm_write`, and the sleep after
a failed write. -/
def voice_thread_write (env : PumpEnv) (stream : j6_voice_stream) (s : pump_state) : pump_state :=
  let s1 : pump_state :=
    match stream.remix with
    | some r => { s with out_buffer := r.apply s.out_buffer s.frames, events := s.events ++ [.remix s.frames] }
    | none => s
  let s2 : pump_state := { s1 with ret := env.pcm_write, events := s1.events ++ [.write (s1.out_buffer.take (u32 (s1.frames * stream.frame_size)))] }
  if env.pcm_write ≠ 0 then
    { s2 with events := s2.events ++ [.usleep (u32 (s2.frames * 1000000) / stream.out_config.rate)] }
  else s2

/-- One iteration of the loop `while (adev->in_call)` of `voice_thread_func`. -/
def voice_thread_step (env : PumpEnv) (stream : j6_voice_stream) (s : pump_state) : pump_state :=
  if s.out_steady then
    if s.in_steady then
      let r := env.resample s.out_buffer s.frames
      voice_thread_write env stream { s with out_buffer := r.1, frames := r.2, events := s.events ++ [.resample s.frames] }
    else
      let s1 : pump_state := { s with ret := env.htimestamp.1, events := s.events ++ [.htimestamp] }
      if env.htimestamp.1 = 0 ∧ env.htimestamp.2 > 0 then { s1 with in_steady := true }
      else voice_thread_write env stream s1
  else
    let s1 : pump_state := { s with periods := u32 (s.periods + 1) }
    let s2 : pump_state := if s1.periods = stream.out_config.period_count then { s1 with out_steady := true } else s1
    voice_thread_write env stream s2

/-- The iterations of the pump loop made while `adev->in_call` holds, one per element of `envs`. -/
def voice_thread_run (envs : List PumpEnv) (stream : j6_voice_stream) (s : pump_state) :
    pump_state :=
  envs.foldl (fun st env => voice_thread_step env stream st) s

/-- The number of `pcm_write` calls among the calls of the pump. -/
def pump_writes (l : List PumpEvent) : Nat :=
  l.countP (fun e => match e with | .write _ => true | _ => false)

/-- The number of `resample_from_provider` calls among the calls of the pump. -/
def pump_resamples (l : List PumpEvent) : Nat :=
  l.countP (fun e => match e with | .resample _ => true | _ => false)

/-- The state of the pump after `k` iterations of its start-up phase: the locals, the zeroed
output buffer, `k` writes so far, and only calls that carry the zeroed buffer of one period. -/
def PumpWarm (stream : j6_voice_stream) (s : pump_state) (k : Nat) : Prop :=
  s.frames = stream.out_frames ∧ s.periods = k ∧ s.in_steady = false ∧
  (s.out_steady = true ↔ k = stream.out_config.period_count) ∧
  s.out_buffer = List.replicate (u32 (stream.out_frames * stream.frame_size)) 0 ∧
  pump_writes s.events = k ∧ pump_resamples s.events = 0 ∧
  ∀ e ∈ s.events, ∀ data, e = PumpEvent.write data →
    data = List.replicate (u32 (stream.out_frames * stream.frame_size)) 0

/-- A concrete voice stream before any call (all pointers null). -/
def sampleVoiceStream : j6_voice_stream :=
  { pcm_in := none, pcm_out := none, in_config := pcm_config_capture,
    out_config := pcm_config_bt_out, resampler := none, remix := none, thread := false,
    in_buffer := none, out_buffer := none, in_frames := 0, out_frames := 0, frame_size := 0,
    name := false }

/-- A concrete output stream as `adev_open_output_stream` leaves it. -/
def sampleStreamOut : j6_stream_out :=
  { config := pcm_config_playback, pcm := none, standby := true, written := 0 }

/-- A concrete device as `adev_open` and `adev_open_output_stream` leave it. -/
def sampleDevice : j6_audio_device :=
  { out := some sampleStreamOut, voice := ⟨sampleVoiceStream, sampleVoiceStream⟩,
    route_bt_sco_master := false, in_device := 0x80000004, out_device := 2, mic_mute := false,
    in_call := false, mode := .NORMAL }

/-- A concrete stereo input stream at the native rate, running. -/
def sampleStreamIn : j6_stream_in :=
  { config := pcm_config_capture, pcm := some ⟨true⟩, remix := none, resampler := none,
    buffer := none, frames_in := 0, hw_frame_size := 4, requested_rate := 44100,
    requested_channels := 2, read_status := 0, standby := false }

/-- Collaborators of one voice stream that all succeed. -/
def okVoiceEnv : VoiceEnv :=
  { create_resampler := 0, pcm_in_ready := true, pcm_out_ready := true,
    malloc_out_buffer := true, malloc_in_buffer := true, malloc_remix := true,
    pthread_create := 0 }

/-- Collaborators whose hardware read fails with `-EIO` after leaving the bytes 7 in the
destination. -/
def failingReadEnv : Env :=
  { ul := okVoiceEnv, dl := okVoiceEnv, pcm_in_ready := true,
    pcm_read := fun n => (-5, List.replicate n 7),
    resample_from_provider := fun sin buf _ _ => (sin, buf, 0) }

/-- Collaborators that all succeed: a hardware read fills the destination with the bytes 7,
and the resampler produces every frame it is asked for without touching the stream. -/
def okEnv : Env :=
  { ul := okVoiceEnv, dl := okVoiceEnv, pcm_in_ready := true,
    pcm_read := fun n => (0, List.replicate n 7),
    resample_from_provider := fun sin buf _ n => (sin, buf, n) }

/-- The downlink voice stream as `enter_voice_call` configures it before `voice_stream_init`:
Bluetooth input and playback output, both with 2 channels. -/
def sampleDownlink : j6_voice_stream :=
  { sampleVoiceStream with name := true, in_config := pcm_config_bt_in,
                           out_config := pcm_config_playback }

/-- The downlink voice stream as a successful `voice_stream_init` leaves it. -/
def samplePumpStream : j6_voice_stream :=
  (voice_stream_init okVoiceEnv sampleDownlink true).2

/-- Collaborators of the pump that all succeed: the resampler leaves the buffer and the frame
count as they are, the time stamp query reports one available frame. -/
def okPumpEnv : PumpEnv :=
  { resample := fun buf n => (buf, n), htimestamp := (0, 1), pcm_write := 0 }

/-- Collaborators of `adev_open_input_stream` that all succeed. -/
def okOpenEnv : OpenEnv :=
  { malloc_buffer := true, malloc_remix := true, create_resampler := 0 }

/-- Value of `AUDIO_CHANNEL_IN_MONO` (system/audio.h). -/
def AUDIO_CHANNEL_IN_MONO : Nat := 0x10

/-- Value of `AUDIO_CHANNEL_IN_STEREO` (system/audio.h). -/
def AUDIO_CHANNEL_IN_STEREO : Nat := 0xC

/-- Collaborators of `out_write` that all succeed. -/
def okOutEnv : OutEnv :=
  { pcm_out_ready := true, pcm_write := 0 }

/-- An allocated block for an output stream whose bytes at `pcm` are not zero. -/
def staleOutBlock : j6_stream_out :=
  { config := pcm_config_capture, pcm := some ⟨false⟩, standby := false, written := 7 }

/-- A device in normal mode, outside a call, before its output stream is opened. -/
def openedDevice : j6_audio_device :=
  { sampleDevice with out := none }

/-- A concrete mono input stream at 8000 Hz, running, as `adev_open_input_stream` sets it up:
truncating remix, a buffer of two periods and a resampler. -/
def sampleMonoIn : j6_stream_in :=
  { config := pcm_config_capture, pcm := some ⟨true⟩,
    remix := some ⟨.remove_channels_from_buf, 2, 2, 1⟩, resampler := some ⟨44100, 8000, 1⟩,
    buffer := some (List.replicate (2 * 960 * 4) 0), frames_in := 0, hw_frame_size := 4,
    requested_rate := 8000, requested_channels := 1, read_status := 0, standby := false }

/-- Collaborators that all succeed and whose hardware read of `n` bytes delivers the bytes
0, 1, 2, ... in this order. -/
def rampEnv : Env :=
  { ul := okVoiceEnv, dl := okVoiceEnv, pcm_in_ready := true,
    pcm_read := fun n => (0, (List.range n).map (fun i => UInt8.ofNat i)),
    resample_from_provider := fun sin buf _ n => (sin, buf, n) }

end Legacy

/-! # Theorems -/

namespace Multizone

/-! ## Frame lemmas of the collaborator primitives -/

theorem PortMap.get_set {α : Type} (m : PortMap α) (p q : Port) (x : α) :
    (m.set p x).get q = if q = p then x else m.get q := by
  cases p <;> cases q <;> simp [PortMap.get, PortMap.set]

@[simp] theorem getWriter_setWriter (h : Hal) (w w2 : WriterRef) (l : List StreamId) :
    getWriter (setWriter h w l) w2 = if w2 = w then l else getWriter h w2 := by
  cases w <;> cases w2 <;> simp [getWriter, setWriter, PortMap.get_set]

@[simp] theorem getReader_setWriter (h : Hal) (w : WriterRef) (l : List StreamId) (p : Port) :
    getReader (setWriter h w l) p = getReader h p := by
  cases w <;> rfl

@[simp] theorem getReader_setReader (h : Hal) (p q : Port) (l : List StreamId) :
    getReader (setReader h p l) q = if q = p then l else getReader h q := by
  simp [getReader, setReader, PortMap.get_set]

@[simp] theorem getWriter_setReader (h : Hal) (p : Port) (l : List StreamId) (w : WriterRef) :
    getWriter (setReader h p l) w = getWriter h w := by
  cases w <;> rfl

@[simp] theorem getWriter_emit (e : Event) (h : Hal) (w : WriterRef) :
    getWriter (emit e h) w = getWriter h w := by
  cases w <;> rfl

@[simp] theorem getReader_emit (e : Event) (h : Hal) (p : Port) :
    getReader (emit e h) p = getReader h p := rfl

@[simp] theorem setWriter_out_mStandby (h : Hal) (w : WriterRef) (l : List StreamId) :
    (setWriter h w l).out.mStandby = h.out.mStandby := by
  cases w <;> rfl

@[simp] theorem setWriter_out_mUsedForVoiceCall (h : Hal) (w : WriterRef) (l : List StreamId) :
    (setWriter h w l).out.mUsedForVoiceCall = h.out.mUsedForVoiceCall := by
  cases w <;> rfl

@[simp] theorem setWriter_out_mWriter (h : Hal) (w : WriterRef) (l : List StreamId) :
    (setWriter h w l).out.mWriter = h.out.mWriter := by
  cases w <;> rfl

@[simp] theorem setWriter_out_mParams (h : Hal) (w : WriterRef) (l : List StreamId) :
    (setWriter h w l).out.mParams = h.out.mParams := by
  cases w <;> rfl

@[simp] theorem setWriter_out_mDevices (h : Hal) (w : WriterRef) (l : List StreamId) :
    (setWriter h w l).out.mDevices = h.out.mDevices := by
  cases w <;> rfl

@[simp] theorem setWriter_inp (h : Hal) (w : WriterRef) (l : List StreamId) :
    (setWriter h w l).inp = h.inp := by
  cases w <;> rfl

@[simp] theorem setWriter_trace (h : Hal) (w : WriterRef) (l : List StreamId) :
    (setWriter h w l).trace = h.trace := by
  cases w <;> rfl

@[simp] theorem setWriter_hw_started (h : Hal) (w : WriterRef) (l : List StreamId) :
    (setWriter h w l).hw.started = h.hw.started := by
  cases w <;> rfl

@[simp] theorem setWriter_hw_mMode (h : Hal) (w : WriterRef) (l : List StreamId) :
    (setWriter h w l).hw.mMode = h.hw.mMode := by
  cases w <;> rfl

@[simp] theorem setWriter_hw_mMediaPortId (h : Hal) (w : WriterRef) (l : List StreamId) :
    (setWriter h w l).hw.mMediaPortId = h.hw.mMediaPortId := by
  cases w <;> rfl

@[simp] theorem setWriter_hw_mPrimaryStreamOut (h : Hal) (w : WriterRef) (l : List StreamId) :
    (setWriter h w l).hw.mPrimaryStreamOut = h.hw.mPrimaryStreamOut := by
  cases w <;> rfl

@[simp] theorem setWriter_hw_mMixer (h : Hal) (w : WriterRef) (l : List StreamId) :
    (setWriter h w l).hw.mMixer = h.hw.mMixer := by
  cases w <;> rfl

@[simp] theorem setWriter_hw_mMicMute (h : Hal) (w : WriterRef) (l : List StreamId) :
    (setWriter h w l).hw.mMicMute = h.hw.mMicMute := by
  cases w <;> rfl

@[simp] theorem setWriter_hw_mULPipe (h : Hal) (w : WriterRef) (l : List StreamId) :
    (setWriter h w l).hw.mULPipe = h.hw.mULPipe := by
  cases w <;> rfl

@[simp] theorem setWriter_hw_mDLPipe (h : Hal) (w : WriterRef) (l : List StreamId) :
    (setWriter h w l).hw.mDLPipe = h.hw.mDLPipe := by
  cases w <;> rfl

end Multizone


namespace Multizone

set_option linter.unusedTactic false
set_option linter.unreachableTactic false
set_option linter.unnecessarySeqFocus false

@[simp] theorem mem_removeStream (l : List StreamId) (s x : StreamId) :
    x ∈ removeStream l s ↔ x ∈ l ∧ x ≠ s := by
  simp [removeStream, List.mem_filter]

theorem removeStream_of_not_mem (l : List StreamId) (s : StreamId) (hs : s ∉ l) :
    removeStream l s = l := by
  unfold removeStream
  rw [List.filter_eq_self]
  intro a ha
  have hne : a ≠ s := fun e => hs (e ▸ ha)
  simpa using hne

@[simp] theorem PcmWriter_registerStream_fst (env : Env) (h : Hal) (w : WriterRef) (s : StreamId) :
    (PcmWriter.registerStream env h w s).1 =
      if s ∈ getWriter h w then AlreadyRegistered else env.writerStatus w s := by
  simp only [PcmWriter.registerStream]
  split_ifs <;> simp_all

@[simp] theorem PcmReader_registerStream_fst (env : Env) (h : Hal) (p : Port) (s : StreamId) :
    (PcmReader.registerStream env h p s).1 =
      if s ∈ getReader h p then AlreadyRegistered else env.readerStatus p s := by
  simp only [PcmReader.registerStream]
  split_ifs <;> simp_all

@[simp] theorem Stream_start_fst (env : Env) (h : Hal) (s : StreamId) :
    (Stream.start env h s).1 = env.startStatus s := by
  simp only [Stream.start]
  split_ifs <;> simp_all

@[simp] theorem emit_hw_started (e : Event) (h : Hal) :
    (emit e h).hw.started = h.hw.started := by
  simp [emit]

@[simp] theorem emit_hw_mMode (e : Event) (h : Hal) :
    (emit e h).hw.mMode = h.hw.mMode := by
  simp [emit]

@[simp] theorem emit_hw_mMediaPortId (e : Event) (h : Hal) :
    (emit e h).hw.mMediaPortId = h.hw.mMediaPortId := by
  simp [emit]

@[simp] theorem emit_hw_mPrimaryStreamOut (e : Event) (h : Hal) :
    (emit e h).hw.mPrimaryStreamOut = h.hw.mPrimaryStreamOut := by
  simp [emit]

@[simp] theorem emit_hw_mMixer (e : Event) (h : Hal) :
    (emit e h).hw.mMixer = h.hw.mMixer := by
  simp [emit]

@[simp] theorem emit_hw_mMicMute (e : Event) (h : Hal) :
    (emit e h).hw.mMicMute = h.hw.mMicMute := by
  simp [emit]

@[simp] theorem emit_hw_mULPipe (e : Event) (h : Hal) :
    (emit e h).hw.mULPipe = h.hw.mULPipe := by
  simp [emit]

@[simp] theorem emit_hw_mDLPipe (e : Event) (h : Hal) :
    (emit e h).hw.mDLPipe = h.hw.mDLPipe := by
  simp [emit]

@[simp] theorem emit_out_mStandby (e : Event) (h : Hal) :
    (emit e h).out.mStandby = h.out.mStandby := by
  simp [emit]

@[simp] theorem emit_out_mUsedForVoiceCall (e : Event) (h : Hal) :
    (emit e h).out.mUsedForVoiceCall = h.out.mUsedForVoiceCall := by
  simp [emit]

@[simp] theorem emit_out_mWriter (e : Event) (h : Hal) :
    (emit e h).out.mWriter = h.out.mWriter := by
  simp [emit]

@[simp] theorem emit_out_mParams (e : Event) (h : Hal) :
    (emit e h).out.mParams = h.out.mParams := by
  simp [emit]

@[simp] theorem emit_out_mDevices (e : Event) (h : Hal) :
    (emit e h).out.mDevices = h.out.mDevices := by
  simp [emit]

@[simp] theorem emit_inp (e : Event) (h : Hal) :
    (emit e h).inp = h.inp := by
  simp [emit]

@[simp] theorem emit_trace (e : Event) (h : Hal) :
    (emit e h).trace = h.trace ++ [e] := by
  simp [emit]

@[simp] theorem setReader_hw_started (h : Hal) (p : Port) (l : List StreamId) :
    (setReader h p l).hw.started = h.hw.started := by
  simp [setReader]

@[simp] theorem setReader_hw_mMode (h : Hal) (p : Port) (l : List StreamId) :
    (setReader h p l).hw.mMode = h.hw.mMode := by
  simp [setReader]

@[simp] theorem setReader_hw_mMediaPortId (h : Hal) (p : Port) (l : List StreamId) :
    (setReader h p l).hw.mMediaPortId = h.hw.mMediaPortId := by
  simp [setReader]

@[simp] theorem setReader_hw_mPrimaryStreamOut (h : Hal) (p : Port) (l : List StreamId) :
    (setReader h p l).hw.mPrimaryStreamOut = h.hw.mPrimaryStreamOut := by
  simp [setReader]

@[simp] theorem setReader_hw_mMixer (h : Hal) (p : Port) (l : List StreamId) :
    (setReader h p l).hw.mMixer = h.hw.mMixer := by
  simp [setReader]

@[simp] theorem setReader_hw_mMicMute (h : Hal) (p : Port) (l : List StreamId) :
    (setReader h p l).hw.mMicMute = h.hw.mMicMute := by
  simp [setReader]

@[simp] theorem setReader_hw_mULPipe (h : Hal) (p : Port) (l : List StreamId) :
    (setReader h p l).hw.mULPipe = h.hw.mULPipe := by
  simp [setReader]

@[simp] theorem setReader_hw_mDLPipe (h : Hal) (p : Port) (l : List StreamId) :
    (setReader h p l).hw.mDLPipe = h.hw.mDLPipe := by
  simp [setReader]

@[simp] theorem setReader_out_mStandby (h : Hal) (p : Port) (l : List StreamId) :
    (setReader h p l).out.mStandby = h.out.mStandby := by
  simp [setReader]

@[simp] theorem setReader_out_mUsedForVoiceCall (h : Hal) (p : Port) (l : List StreamId) :
    (setReader h p l).out.mUsedForVoiceCall = h.out.mUsedForVoiceCall := by
  simp [setReader]

@[simp] theorem setReader_out_mWriter (h : Hal) (p : Port) (l : List StreamId) :
    (setReader h p l).out.mWriter = h.out.mWriter := by
  simp [setReader]

@[simp] theorem setReader_out_mParams (h : Hal) (p : Port) (l : List StreamId) :
    (setReader h p l).out.mParams = h.out.mParams := by
  simp [setReader]

@[simp] theorem setReader_out_mDevices (h : Hal) (p : Port) (l : List StreamId) :
    (setReader h p l).out.mDevices = h.out.mDevices := by
  simp [setReader]

@[simp] theorem setReader_inp (h : Hal) (p : Port) (l : List StreamId) :
    (setReader h p l).inp = h.inp := by
  simp [setReader]

@[simp] theorem setReader_trace (h : Hal) (p : Port) (l : List StreamId) :
    (setReader h p l).trace = h.trace := by
  simp [setReader]

@[simp] theorem Stream_stop_hw_started (h : Hal) (s : StreamId) :
    (Stream.stop h s).hw.started = removeStream (h.hw.started) s := by
  simp [Stream.stop]

@[simp] theorem Stream_stop_hw_mMode (h : Hal) (s : StreamId) :
    (Stream.stop h s).hw.mMode = h.hw.mMode := by
  simp [Stream.stop]

@[simp] theorem Stream_stop_hw_mMediaPortId (h : Hal) (s : StreamId) :
    (Stream.stop h s).hw.mMediaPortId = h.hw.mMediaPortId := by
  simp [Stream.stop]

@[simp] theorem Stream_stop_hw_mPrimaryStreamOut (h : Hal) (s : StreamId) :
    (Stream.stop h s).hw.mPrimaryStreamOut = h.hw.mPrimaryStreamOut := by
  simp [Stream.stop]

@[simp] theorem Stream_stop_hw_mMixer (h : Hal) (s : StreamId) :
    (Stream.stop h s).hw.mMixer = h.hw.mMixer := by
  simp [Stream.stop]

@[simp] theorem Stream_stop_hw_mMicMute (h : Hal) (s : StreamId) :
    (Stream.stop h s).hw.mMicMute = h.hw.mMicMute := by
  simp [Stream.stop]

@[simp] theorem Stream_stop_hw_mULPipe (h : Hal) (s : StreamId) :
    (Stream.stop h s).hw.mULPipe = h.hw.mULPipe := by
  simp [Stream.stop]

@[simp] theorem Stream_stop_hw_mDLPipe (h : Hal) (s : StreamId) :
    (Stream.stop h s).hw.mDLPipe = h.hw.mDLPipe := by
  simp [Stream.stop]

@[simp] theorem Stream_stop_out_mStandby (h : Hal) (s : StreamId) :
    (Stream.stop h s).out.mStandby = h.out.mStandby := by
  simp [Stream.stop]

@[simp] theorem Stream_stop_out_mUsedForVoiceCall (h : Hal) (s : StreamId) :
    (Stream.stop h s).out.mUsedForVoiceCall = h.out.mUsedForVoiceCall := by
  simp [Stream.stop]

@[simp] theorem Stream_stop_out_mWriter (h : Hal) (s : StreamId) :
    (Stream.stop h s).out.mWriter = h.out.mWriter := by
  simp [Stream.stop]

@[simp] theorem Stream_stop_out_mParams (h : Hal) (s : StreamId) :
    (Stream.stop h s).out.mParams = h.out.mParams := by
  simp [Stream.stop]

@[simp] theorem Stream_stop_out_mDevices (h : Hal) (s : StreamId) :
    (Stream.stop h s).out.mDevices = h.out.mDevices := by
  simp [Stream.stop]

@[simp] theorem Stream_stop_inp (h : Hal) (s : StreamId) :
    (Stream.stop h s).inp = h.inp := by
  simp [Stream.stop]

@[simp] theorem Stream_stop_trace (h : Hal) (s : StreamId) :
    (Stream.stop h s).trace = h.trace ++ [.streamStop s] := by
  simp [Stream.stop]

@[simp] theorem Stream_stop_getWriter (h : Hal) (s : StreamId) (w2 : WriterRef) :
    getWriter (Stream.stop h s) w2 = getWriter h w2 := by
  cases w2 <;> rfl

@[simp] theorem Stream_stop_getReader (h : Hal) (s : StreamId) (p2 : Port) :
    getReader (Stream.stop h s) p2 = getReader h p2 := by
  rfl

@[simp] theorem MonoPipe_shutdown_hw_started (h : Hal) (p : Pipe) (b : Bool) :
    (MonoPipe.shutdown h p b).hw.started = h.hw.started := by
  cases p <;> simp [MonoPipe.shutdown]

@[simp] theorem MonoPipe_shutdown_hw_mMode (h : Hal) (p : Pipe) (b : Bool) :
    (MonoPipe.shutdown h p b).hw.mMode = h.hw.mMode := by
  cases p <;> simp [MonoPipe.shutdown]

@[simp] theorem MonoPipe_shutdown_hw_mMediaPortId (h : Hal) (p : Pipe) (b : Bool) :
    (MonoPipe.shutdown h p b).hw.mMediaPortId = h.hw.mMediaPortId := by
  cases p <;> simp [MonoPipe.shutdown]

@[simp] theorem MonoPipe_shutdown_hw_mPrimaryStreamOut (h : Hal) (p : Pipe) (b : Bool) :
    (MonoPipe.shutdown h p b).hw.mPrimaryStreamOut = h.hw.mPrimaryStreamOut := by
  cases p <;> simp [MonoPipe.shutdown]

@[simp] theorem MonoPipe_shutdown_hw_mMixer (h : Hal) (p : Pipe) (b : Bool) :
    (MonoPipe.shutdown h p b).hw.mMixer = h.hw.mMixer := by
  cases p <;> simp [MonoPipe.shutdown]

@[simp] theorem MonoPipe_shutdown_hw_mMicMute (h : Hal) (p : Pipe) (b : Bool) :
    (MonoPipe.shutdown h p b).hw.mMicMute = h.hw.mMicMute := by
  cases p <;> simp [MonoPipe.shutdown]

@[simp] theorem MonoPipe_shutdown_hw_mULPipe (h : Hal) (p : Pipe) (b : Bool) :
    (MonoPipe.shutdown h p b).hw.mULPipe = if p = .ul then ⟨b⟩ else h.hw.mULPipe := by
  cases p <;> simp [MonoPipe.shutdown]

@[simp] theorem MonoPipe_shutdown_hw_mDLPipe (h : Hal) (p : Pipe) (b : Bool) :
    (MonoPipe.shutdown h p b).hw.mDLPipe = if p = .dl then ⟨b⟩ else h.hw.mDLPipe := by
  cases p <;> simp [MonoPipe.shutdown]

@[simp] theorem MonoPipe_shutdown_out_mStandby (h : Hal) (p : Pipe) (b : Bool) :
    (MonoPipe.shutdown h p b).out.mStandby = h.out.mStandby := by
  cases p <;> simp [MonoPipe.shutdown]

@[simp] theorem MonoPipe_shutdown_out_mUsedForVoiceCall (h : Hal) (p : Pipe) (b : Bool) :
    (MonoPipe.shutdown h p b).out.mUsedForVoiceCall = h.out.mUsedForVoiceCall := by
  cases p <;> simp [MonoPipe.shutdown]

@[simp] theorem MonoPipe_shutdown_out_mWriter (h : Hal) (p : Pipe) (b : Bool) :
    (MonoPipe.shutdown h p b).out.mWriter = h.out.mWriter := by
  cases p <;> simp [MonoPipe.shutdown]

@[simp] theorem MonoPipe_shutdown_out_mParams (h : Hal) (p : Pipe) (b : Bool) :
    (MonoPipe.shutdown h p b).out.mParams = h.out.mParams := by
  cases p <;> simp [MonoPipe.shutdown]

@[simp] theorem MonoPipe_shutdown_out_mDevices (h : Hal) (p : Pipe) (b : Bool) :
    (MonoPipe.shutdown h p b).out.mDevices = h.out.mDevices := by
  cases p <;> simp [MonoPipe.shutdown]

@[simp] theorem MonoPipe_shutdown_inp (h : Hal) (p : Pipe) (b : Bool) :
    (MonoPipe.shutdown h p b).inp = h.inp := by
  cases p <;> simp [MonoPipe.shutdown]

@[simp] theorem MonoPipe_shutdown_trace (h : Hal) (p : Pipe) (b : Bool) :
    (MonoPipe.shutdown h p b).trace = h.trace ++ [.pipeShutdown p b] := by
  cases p <;> simp [MonoPipe.shutdown]

@[simp] theorem MonoPipe_shutdown_getWriter (h : Hal) (p : Pipe) (b : Bool) (w2 : WriterRef) :
    getWriter (MonoPipe.shutdown h p b) w2 = getWriter h w2 := by
  cases p <;> cases w2 <;> rfl

@[simp] theorem MonoPipe_shutdown_getReader (h : Hal) (p : Pipe) (b : Bool) (p2 : Port) :
    getReader (MonoPipe.shutdown h p b) p2 = getReader h p2 := by
  cases p <;> rfl

@[simp] theorem MonoPipe_flush_hw_started (h : Hal) (p : Pipe) :
    (MonoPipe.flush h p).hw.started = h.hw.started := by
  simp [MonoPipe.flush]

@[simp] theorem MonoPipe_flush_hw_mMode (h : Hal) (p : Pipe) :
    (MonoPipe.flush h p).hw.mMode = h.hw.mMode := by
  simp [MonoPipe.flush]

@[simp] theorem MonoPipe_flush_hw_mMediaPortId (h : Hal) (p : Pipe) :
    (MonoPipe.flush h p).hw.mMediaPortId = h.hw.mMediaPortId := by
  simp [MonoPipe.flush]

@[simp] theorem MonoPipe_flush_hw_mPrimaryStreamOut (h : Hal) (p : Pipe) :
    (MonoPipe.flush h p).hw.mPrimaryStreamOut = h.hw.mPrimaryStreamOut := by
  simp [MonoPipe.flush]

@[simp] theorem MonoPipe_flush_hw_mMixer (h : Hal) (p : Pipe) :
    (MonoPipe.flush h p).hw.mMixer = h.hw.mMixer := by
  simp [MonoPipe.flush]

@[simp] theorem MonoPipe_flush_hw_mMicMute (h : Hal) (p : Pipe) :
    (MonoPipe.flush h p).hw.mMicMute = h.hw.mMicMute := by
  simp [MonoPipe.flush]

@[simp] theorem MonoPipe_flush_hw_mULPipe (h : Hal) (p : Pipe) :
    (MonoPipe.flush h p).hw.mULPipe = h.hw.mULPipe := by
  simp [MonoPipe.flush]

@[simp] theorem MonoPipe_flush_hw_mDLPipe (h : Hal) (p : Pipe) :
    (MonoPipe.flush h p).hw.mDLPipe = h.hw.mDLPipe := by
  simp [MonoPipe.flush]

@[simp] theorem MonoPipe_flush_out_mStandby (h : Hal) (p : Pipe) :
    (MonoPipe.flush h p).out.mStandby = h.out.mStandby := by
  simp [MonoPipe.flush]

@[simp] theorem MonoPipe_flush_out_mUsedForVoiceCall (h : Hal) (p : Pipe) :
    (MonoPipe.flush h p).out.mUsedForVoiceCall = h.out.mUsedForVoiceCall := by
  simp [MonoPipe.flush]

@[simp] theorem MonoPipe_flush_out_mWriter (h : Hal) (p : Pipe) :
    (MonoPipe.flush h p).out.mWriter = h.out.mWriter := by
  simp [MonoPipe.flush]

@[simp] theorem MonoPipe_flush_out_mParams (h : Hal) (p : Pipe) :
    (MonoPipe.flush h p).out.mParams = h.out.mParams := by
  simp [MonoPipe.flush]

@[simp] theorem MonoPipe_flush_out_mDevices (h : Hal) (p : Pipe) :
    (MonoPipe.flush h p).out.mDevices = h.out.mDevices := by
  simp [MonoPipe.flush]

@[simp] theorem MonoPipe_flush_inp (h : Hal) (p : Pipe) :
    (MonoPipe.flush h p).inp = h.inp := by
  simp [MonoPipe.flush]

@[simp] theorem MonoPipe_flush_trace (h : Hal) (p : Pipe) :
    (MonoPipe.flush h p).trace = h.trace ++ [.pipeFlush p] := by
  simp [MonoPipe.flush]

@[simp] theorem MonoPipe_flush_getWriter (h : Hal) (p : Pipe) (w2 : WriterRef) :
    getWriter (MonoPipe.flush h p) w2 = getWriter h w2 := by
  cases w2 <;> rfl

@[simp] theorem MonoPipe_flush_getReader (h : Hal) (p : Pipe) (p2 : Port) :
    getReader (MonoPipe.flush h p) p2 = getReader h p2 := by
  rfl

@[simp] theorem mixerSetBTMode_hw_started (h : Hal) (b : Bool) :
    (mixerSetBTMode h b).hw.started = h.hw.started := by
  simp [mixerSetBTMode]

@[simp] theorem mixerSetBTMode_hw_mMode (h : Hal) (b : Bool) :
    (mixerSetBTMode h b).hw.mMode = h.hw.mMode := by
  simp [mixerSetBTMode]

@[simp] theorem mixerSetBTMode_hw_mMediaPortId (h : Hal) (b : Bool) :
    (mixerSetBTMode h b).hw.mMediaPortId = h.hw.mMediaPortId := by
  simp [mixerSetBTMode]

@[simp] theorem mixerSetBTMode_hw_mPrimaryStreamOut (h : Hal) (b : Bool) :
    (mixerSetBTMode h b).hw.mPrimaryStreamOut = h.hw.mPrimaryStreamOut := by
  simp [mixerSetBTMode]

@[simp] theorem mixerSetBTMode_hw_mMixer (h : Hal) (b : Bool) :
    (mixerSetBTMode h b).hw.mMixer = { h.hw.mMixer with btMaster := b } := by
  simp [mixerSetBTMode]

@[simp] theorem mixerSetBTMode_hw_mMicMute (h : Hal) (b : Bool) :
    (mixerSetBTMode h b).hw.mMicMute = h.hw.mMicMute := by
  simp [mixerSetBTMode]

@[simp] theorem mixerSetBTMode_hw_mULPipe (h : Hal) (b : Bool) :
    (mixerSetBTMode h b).hw.mULPipe = h.hw.mULPipe := by
  simp [mixerSetBTMode]

@[simp] theorem mixerSetBTMode_hw_mDLPipe (h : Hal) (b : Bool) :
    (mixerSetBTMode h b).hw.mDLPipe = h.hw.mDLPipe := by
  simp [mixerSetBTMode]

@[simp] theorem mixerSetBTMode_out_mStandby (h : Hal) (b : Bool) :
    (mixerSetBTMode h b).out.mStandby = h.out.mStandby := by
  simp [mixerSetBTMode]

@[simp] theorem mixerSetBTMode_out_mUsedForVoiceCall (h : Hal) (b : Bool) :
    (mixerSetBTMode h b).out.mUsedForVoiceCall = h.out.mUsedForVoiceCall := by
  simp [mixerSetBTMode]

@[simp] theorem mixerSetBTMode_out_mWriter (h : Hal) (b : Bool) :
    (mixerSetBTMode h b).out.mWriter = h.out.mWriter := by
  simp [mixerSetBTMode]

@[simp] theorem mixerSetBTMode_out_mParams (h : Hal) (b : Bool) :
    (mixerSetBTMode h b).out.mParams = h.out.mParams := by
  simp [mixerSetBTMode]

@[simp] theorem mixerSetBTMode_out_mDevices (h : Hal) (b : Bool) :
    (mixerSetBTMode h b).out.mDevices = h.out.mDevices := by
  simp [mixerSetBTMode]

@[simp] theorem mixerSetBTMode_inp (h : Hal) (b : Bool) :
    (mixerSetBTMode h b).inp = h.inp := by
  simp [mixerSetBTMode]

@[simp] theorem mixerSetBTMode_trace (h : Hal) (b : Bool) :
    (mixerSetBTMode h b).trace = h.trace ++ [.mixerSetBTMode b] := by
  simp [mixerSetBTMode]

@[simp] theorem mixerSetBTMode_getWriter (h : Hal) (b : Bool) (w2 : WriterRef) :
    getWriter (mixerSetBTMode h b) w2 = getWriter h w2 := by
  cases w2 <;> rfl

@[simp] theorem mixerSetBTMode_getReader (h : Hal) (b : Bool) (p2 : Port) :
    getReader (mixerSetBTMode h b) p2 = getReader h p2 := by
  rfl

@[simp] theorem AudioStreamOut_setStandby_hw_started (h : Hal) (b : Bool) :
    (AudioStreamOut.setStandby h b).hw.started = h.hw.started := by
  simp [AudioStreamOut.setStandby]

@[simp] theorem AudioStreamOut_setStandby_hw_mMode (h : Hal) (b : Bool) :
    (AudioStreamOut.setStandby h b).hw.mMode = h.hw.mMode := by
  simp [AudioStreamOut.setStandby]

@[simp] theorem AudioStreamOut_setStandby_hw_mMediaPortId (h : Hal) (b : Bool) :
    (AudioStreamOut.setStandby h b).hw.mMediaPortId = h.hw.mMediaPortId := by
  simp [AudioStreamOut.setStandby]

@[simp] theorem AudioStreamOut_setStandby_hw_mPrimaryStreamOut (h : Hal) (b : Bool) :
    (AudioStreamOut.setStandby h b).hw.mPrimaryStreamOut = h.hw.mPrimaryStreamOut := by
  simp [AudioStreamOut.setStandby]

@[simp] theorem AudioStreamOut_setStandby_hw_mMixer (h : Hal) (b : Bool) :
    (AudioStreamOut.setStandby h b).hw.mMixer = h.hw.mMixer := by
  simp [AudioStreamOut.setStandby]

@[simp] theorem AudioStreamOut_setStandby_hw_mMicMute (h : Hal) (b : Bool) :
    (AudioStreamOut.setStandby h b).hw.mMicMute = h.hw.mMicMute := by
  simp [AudioStreamOut.setStandby]

@[simp] theorem AudioStreamOut_setStandby_hw_mULPipe (h : Hal) (b : Bool) :
    (AudioStreamOut.setStandby h b).hw.mULPipe = h.hw.mULPipe := by
  simp [AudioStreamOut.setStandby]

@[simp] theorem AudioStreamOut_setStandby_hw_mDLPipe (h : Hal) (b : Bool) :
    (AudioStreamOut.setStandby h b).hw.mDLPipe = h.hw.mDLPipe := by
  simp [AudioStreamOut.setStandby]

@[simp] theorem AudioStreamOut_setStandby_out_mStandby (h : Hal) (b : Bool) :
    (AudioStreamOut.setStandby h b).out.mStandby = b := by
  simp [AudioStreamOut.setStandby]

@[simp] theorem AudioStreamOut_setStandby_out_mUsedForVoiceCall (h : Hal) (b : Bool) :
    (AudioStreamOut.setStandby h b).out.mUsedForVoiceCall = h.out.mUsedForVoiceCall := by
  simp [AudioStreamOut.setStandby]

@[simp] theorem AudioStreamOut_setStandby_out_mWriter (h : Hal) (b : Bool) :
    (AudioStreamOut.setStandby h b).out.mWriter = h.out.mWriter := by
  simp [AudioStreamOut.setStandby]

@[simp] theorem AudioStreamOut_setStandby_out_mParams (h : Hal) (b : Bool) :
    (AudioStreamOut.setStandby h b).out.mParams = h.out.mParams := by
  simp [AudioStreamOut.setStandby]

@[simp] theorem AudioStreamOut_setStandby_out_mDevices (h : Hal) (b : Bool) :
    (AudioStreamOut.setStandby h b).out.mDevices = h.out.mDevices := by
  simp [AudioStreamOut.setStandby]

@[simp] theorem AudioStreamOut_setStandby_inp (h : Hal) (b : Bool) :
    (AudioStreamOut.setStandby h b).inp = h.inp := by
  simp [AudioStreamOut.setStandby]

@[simp] theorem AudioStreamOut_setStandby_trace (h : Hal) (b : Bool) :
    (AudioStreamOut.setStandby h b).trace = h.trace := by
  simp [AudioStreamOut.setStandby]

@[simp] theorem AudioStreamOut_setStandby_getWriter (h : Hal) (b : Bool) (w2 : WriterRef) :
    getWriter (AudioStreamOut.setStandby h b) w2 = getWriter h w2 := by
  cases w2 <;> rfl

@[simp] theorem AudioStreamOut_setStandby_getReader (h : Hal) (b : Bool) (p2 : Port) :
    getReader (AudioStreamOut.setStandby h b) p2 = getReader h p2 := by
  rfl

@[simp] theorem AudioStreamOut_setUsedForVoiceCall_hw_started (h : Hal) (b : Bool) :
    (AudioStreamOut.setUsedForVoiceCall h b).hw.started = h.hw.started := by
  simp [AudioStreamOut.setUsedForVoiceCall]

@[simp] theorem AudioStreamOut_setUsedForVoiceCall_hw_mMode (h : Hal) (b : Bool) :
    (AudioStreamOut.setUsedForVoiceCall h b).hw.mMode = h.hw.mMode := by
  simp [AudioStreamOut.setUsedForVoiceCall]

@[simp] theorem AudioStreamOut_setUsedForVoiceCall_hw_mMediaPortId (h : Hal) (b : Bool) :
    (AudioStreamOut.setUsedForVoiceCall h b).hw.mMediaPortId = h.hw.mMediaPortId := by
  simp [AudioStreamOut.setUsedForVoiceCall]

@[simp] theorem AudioStreamOut_setUsedForVoiceCall_hw_mPrimaryStreamOut (h : Hal) (b : Bool) :
    (AudioStreamOut.setUsedForVoiceCall h b).hw.mPrimaryStreamOut = h.hw.mPrimaryStreamOut := by
  simp [AudioStreamOut.setUsedForVoiceCall]

@[simp] theorem AudioStreamOut_setUsedForVoiceCall_hw_mMixer (h : Hal) (b : Bool) :
    (AudioStreamOut.setUsedForVoiceCall h b).hw.mMixer = h.hw.mMixer := by
  simp [AudioStreamOut.setUsedForVoiceCall]

@[simp] theorem AudioStreamOut_setUsedForVoiceCall_hw_mMicMute (h : Hal) (b : Bool) :
    (AudioStreamOut.setUsedForVoiceCall h b).hw.mMicMute = h.hw.mMicMute := by
  simp [AudioStreamOut.setUsedForVoiceCall]

@[simp] theorem AudioStreamOut_setUsedForVoiceCall_hw_mULPipe (h : Hal) (b : Bool) :
    (AudioStreamOut.setUsedForVoiceCall h b).hw.mULPipe = h.hw.mULPipe := by
  simp [AudioStreamOut.setUsedForVoiceCall]

@[simp] theorem AudioStreamOut_setUsedForVoiceCall_hw_mDLPipe (h : Hal) (b : Bool) :
    (AudioStreamOut.setUsedForVoiceCall h b).hw.mDLPipe = h.hw.mDLPipe := by
  simp [AudioStreamOut.setUsedForVoiceCall]

@[simp] theorem AudioStreamOut_setUsedForVoiceCall_out_mStandby (h : Hal) (b : Bool) :
    (AudioStreamOut.setUsedForVoiceCall h b).out.mStandby = h.out.mStandby := by
  simp [AudioStreamOut.setUsedForVoiceCall]

@[simp] theorem AudioStreamOut_setUsedForVoiceCall_out_mUsedForVoiceCall (h : Hal) (b : Bool) :
    (AudioStreamOut.setUsedForVoiceCall h b).out.mUsedForVoiceCall = b := by
  simp [AudioStreamOut.setUsedForVoiceCall]

@[simp] theorem AudioStreamOut_setUsedForVoiceCall_out_mWriter (h : Hal) (b : Bool) :
    (AudioStreamOut.setUsedForVoiceCall h b).out.mWriter = h.out.mWriter := by
  simp [AudioStreamOut.setUsedForVoiceCall]

@[simp] theorem AudioStreamOut_setUsedForVoiceCall_out_mParams (h : Hal) (b : Bool) :
    (AudioStreamOut.setUsedForVoiceCall h b).out.mParams = h.out.mParams := by
  simp [AudioStreamOut.setUsedForVoiceCall]

@[simp] theorem AudioStreamOut_setUsedForVoiceCall_out_mDevices (h : Hal) (b : Bool) :
    (AudioStreamOut.setUsedForVoiceCall h b).out.mDevices = h.out.mDevices := by
  simp [AudioStreamOut.setUsedForVoiceCall]

@[simp] theorem AudioStreamOut_setUsedForVoiceCall_inp (h : Hal) (b : Bool) :
    (AudioStreamOut.setUsedForVoiceCall h b).inp = h.inp := by
  simp [AudioStreamOut.setUsedForVoiceCall]

@[simp] theorem AudioStreamOut_setUsedForVoiceCall_trace (h : Hal) (b : Bool) :
    (AudioStreamOut.setUsedForVoiceCall h b).trace = h.trace := by
  simp [AudioStreamOut.setUsedForVoiceCall]

@[simp] theorem AudioStreamOut_setUsedForVoiceCall_getWriter (h : Hal) (b : Bool) (w2 : WriterRef) :
    getWriter (AudioStreamOut.setUsedForVoiceCall h b) w2 = getWriter h w2 := by
  cases w2 <;> rfl

@[simp] theorem AudioStreamOut_setUsedForVoiceCall_getReader (h : Hal) (b : Bool) (p2 : Port) :
    getReader (AudioStreamOut.setUsedForVoiceCall h b) p2 = getReader h p2 := by
  rfl

@[simp] theorem AudioHwDevice_assignMode_hw_started (h : Hal) (m : audio_mode_t) :
    (AudioHwDevice.assignMode h m).hw.started = h.hw.started := by
  simp [AudioHwDevice.assignMode]

@[simp] theorem AudioHwDevice_assignMode_hw_mMode (h : Hal) (m : audio_mode_t) :
    (AudioHwDevice.assignMode h m).hw.mMode = m := by
  simp [AudioHwDevice.assignMode]

@[simp] theorem AudioHwDevice_assignMode_hw_mMediaPortId (h : Hal) (m : audio_mode_t) :
    (AudioHwDevice.assignMode h m).hw.mMediaPortId = h.hw.mMediaPortId := by
  simp [AudioHwDevice.assignMode]

@[simp] theorem AudioHwDevice_assignMode_hw_mPrimaryStreamOut (h : Hal) (m : audio_mode_t) :
    (AudioHwDevice.assignMode h m).hw.mPrimaryStreamOut = h.hw.mPrimaryStreamOut := by
  simp [AudioHwDevice.assignMode]

@[simp] theorem AudioHwDevice_assignMode_hw_mMixer (h : Hal) (m : audio_mode_t) :
    (AudioHwDevice.assignMode h m).hw.mMixer = h.hw.mMixer := by
  simp [AudioHwDevice.assignMode]

@[simp] theorem AudioHwDevice_assignMode_hw_mMicMute (h : Hal) (m : audio_mode_t) :
    (AudioHwDevice.assignMode h m).hw.mMicMute = h.hw.mMicMute := by
  simp [AudioHwDevice.assignMode]

@[simp] theorem AudioHwDevice_assignMode_hw_mULPipe (h : Hal) (m : audio_mode_t) :
    (AudioHwDevice.assignMode h m).hw.mULPipe = h.hw.mULPipe := by
  simp [AudioHwDevice.assignMode]

@[simp] theorem AudioHwDevice_assignMode_hw_mDLPipe (h : Hal) (m : audio_mode_t) :
    (AudioHwDevice.assignMode h m).hw.mDLPipe = h.hw.mDLPipe := by
  simp [AudioHwDevice.assignMode]

@[simp] theorem AudioHwDevice_assignMode_out_mStandby (h : Hal) (m : audio_mode_t) :
    (AudioHwDevice.assignMode h m).out.mStandby = h.out.mStandby := by
  simp [AudioHwDevice.assignMode]

@[simp] theorem AudioHwDevice_assignMode_out_mUsedForVoiceCall (h : Hal) (m : audio_mode_t) :
    (AudioHwDevice.assignMode h m).out.mUsedForVoiceCall = h.out.mUsedForVoiceCall := by
  simp [AudioHwDevice.assignMode]

@[simp] theorem AudioHwDevice_assignMode_out_mWriter (h : Hal) (m : audio_mode_t) :
    (AudioHwDevice.assignMode h m).out.mWriter = h.out.mWriter := by
  simp [AudioHwDevice.assignMode]

@[simp] theorem AudioHwDevice_assignMode_out_mParams (h : Hal) (m : audio_mode_t) :
    (AudioHwDevice.assignMode h m).out.mParams = h.out.mParams := by
  simp [AudioHwDevice.assignMode]

@[simp] theorem AudioHwDevice_assignMode_out_mDevices (h : Hal) (m : audio_mode_t) :
    (AudioHwDevice.assignMode h m).out.mDevices = h.out.mDevices := by
  simp [AudioHwDevice.assignMode]

@[simp] theorem AudioHwDevice_assignMode_inp (h : Hal) (m : audio_mode_t) :
    (AudioHwDevice.assignMode h m).inp = h.inp := by
  simp [AudioHwDevice.assignMode]

@[simp] theorem AudioHwDevice_assignMode_trace (h : Hal) (m : audio_mode_t) :
    (AudioHwDevice.assignMode h m).trace = h.trace := by
  simp [AudioHwDevice.assignMode]

@[simp] theorem AudioHwDevice_assignMode_getWriter (h : Hal) (m : audio_mode_t) (w2 : WriterRef) :
    getWriter (AudioHwDevice.assignMode h m) w2 = getWriter h w2 := by
  cases w2 <;> rfl

@[simp] theorem AudioHwDevice_assignMode_getReader (h : Hal) (m : audio_mode_t) (p2 : Port) :
    getReader (AudioHwDevice.assignMode h m) p2 = getReader h p2 := by
  rfl

@[simp] theorem AudioStreamOut_assignDevices_hw_started (h : Hal) (d : Nat) :
    (AudioStreamOut.assignDevices h d).hw.started = h.hw.started := by
  simp [AudioStreamOut.assignDevices]

@[simp] theorem AudioStreamOut_assignDevices_hw_mMode (h : Hal) (d : Nat) :
    (AudioStreamOut.assignDevices h d).hw.mMode = h.hw.mMode := by
  simp [AudioStreamOut.assignDevices]

@[simp] theorem AudioStreamOut_assignDevices_hw_mMediaPortId (h : Hal) (d : Nat) :
    (AudioStreamOut.assignDevices h d).hw.mMediaPortId = h.hw.mMediaPortId := by
  simp [AudioStreamOut.assignDevices]

@[simp] theorem AudioStreamOut_assignDevices_hw_mPrimaryStreamOut (h : Hal) (d : Nat) :
    (AudioStreamOut.assignDevices h d).hw.mPrimaryStreamOut = h.hw.mPrimaryStreamOut := by
  simp [AudioStreamOut.assignDevices]

@[simp] theorem AudioStreamOut_assignDevices_hw_mMixer (h : Hal) (d : Nat) :
    (AudioStreamOut.assignDevices h d).hw.mMixer = h.hw.mMixer := by
  simp [AudioStreamOut.assignDevices]

@[simp] theorem AudioStreamOut_assignDevices_hw_mMicMute (h : Hal) (d : Nat) :
    (AudioStreamOut.assignDevices h d).hw.mMicMute = h.hw.mMicMute := by
  simp [AudioStreamOut.assignDevices]

@[simp] theorem AudioStreamOut_assignDevices_hw_mULPipe (h : Hal) (d : Nat) :
    (AudioStreamOut.assignDevices h d).hw.mULPipe = h.hw.mULPipe := by
  simp [AudioStreamOut.assignDevices]

@[simp] theorem AudioStreamOut_assignDevices_hw_mDLPipe (h : Hal) (d : Nat) :
    (AudioStreamOut.assignDevices h d).hw.mDLPipe = h.hw.mDLPipe := by
  simp [AudioStreamOut.assignDevices]

@[simp] theorem AudioStreamOut_assignDevices_out_mStandby (h : Hal) (d : Nat) :
    (AudioStreamOut.assignDevices h d).out.mStandby = h.out.mStandby := by
  simp [AudioStreamOut.assignDevices]

@[simp] theorem AudioStreamOut_assignDevices_out_mUsedForVoiceCall (h : Hal) (d : Nat) :
    (AudioStreamOut.assignDevices h d).out.mUsedForVoiceCall = h.out.mUsedForVoiceCall := by
  simp [AudioStreamOut.assignDevices]

@[simp] theorem AudioStreamOut_assignDevices_out_mWriter (h : Hal) (d : Nat) :
    (AudioStreamOut.assignDevices h d).out.mWriter = h.out.mWriter := by
  simp [AudioStreamOut.assignDevices]

@[simp] theorem AudioStreamOut_assignDevices_out_mParams (h : Hal) (d : Nat) :
    (AudioStreamOut.assignDevices h d).out.mParams = h.out.mParams := by
  simp [AudioStreamOut.assignDevices]

@[simp] theorem AudioStreamOut_assignDevices_out_mDevices (h : Hal) (d : Nat) :
    (AudioStreamOut.assignDevices h d).out.mDevices = d := by
  simp [AudioStreamOut.assignDevices]

@[simp] theorem AudioStreamOut_assignDevices_inp (h : Hal) (d : Nat) :
    (AudioStreamOut.assignDevices h d).inp = h.inp := by
  simp [AudioStreamOut.assignDevices]

@[simp] theorem AudioStreamOut_assignDevices_trace (h : Hal) (d : Nat) :
    (AudioStreamOut.assignDevices h d).trace = h.trace := by
  simp [AudioStreamOut.assignDevices]

@[simp] theorem AudioStreamOut_assignDevices_getWriter (h : Hal) (d : Nat) (w2 : WriterRef) :
    getWriter (AudioStreamOut.assignDevices h d) w2 = getWriter h w2 := by
  cases w2 <;> rfl

@[simp] theorem AudioStreamOut_assignDevices_getReader (h : Hal) (d : Nat) (p2 : Port) :
    getReader (AudioStreamOut.assignDevices h d) p2 = getReader h p2 := by
  rfl

@[simp] theorem AudioStreamIn_assignDevices_hw_started (h : Hal) (d : Nat) :
    (AudioStreamIn.assignDevices h d).hw.started = h.hw.started := by
  simp [AudioStreamIn.assignDevices]

@[simp] theorem AudioStreamIn_assignDevices_hw_mMode (h : Hal) (d : Nat) :
    (AudioStreamIn.assignDevices h d).hw.mMode = h.hw.mMode := by
  simp [AudioStreamIn.assignDevices]

@[simp] theorem AudioStreamIn_assignDevices_hw_mMediaPortId (h : Hal) (d : Nat) :
    (AudioStreamIn.assignDevices h d).hw.mMediaPortId = h.hw.mMediaPortId := by
  simp [AudioStreamIn.assignDevices]

@[simp] theorem AudioStreamIn_assignDevices_hw_mPrimaryStreamOut (h : Hal) (d : Nat) :
    (AudioStreamIn.assignDevices h d).hw.mPrimaryStreamOut = h.hw.mPrimaryStreamOut := by
  simp [AudioStreamIn.assignDevices]

@[simp] theorem AudioStreamIn_assignDevices_hw_mMixer (h : Hal) (d : Nat) :
    (AudioStreamIn.assignDevices h d).hw.mMixer = h.hw.mMixer := by
  simp [AudioStreamIn.assignDevices]

@[simp] theorem AudioStreamIn_assignDevices_hw_mMicMute (h : Hal) (d : Nat) :
    (AudioStreamIn.assignDevices h d).hw.mMicMute = h.hw.mMicMute := by
  simp [AudioStreamIn.assignDevices]

@[simp] theorem AudioStreamIn_assignDevices_hw_mULPipe (h : Hal) (d : Nat) :
    (AudioStreamIn.assignDevices h d).hw.mULPipe = h.hw.mULPipe := by
  simp [AudioStreamIn.assignDevices]

@[simp] theorem AudioStreamIn_assignDevices_hw_mDLPipe (h : Hal) (d : Nat) :
    (AudioStreamIn.assignDevices h d).hw.mDLPipe = h.hw.mDLPipe := by
  simp [AudioStreamIn.assignDevices]

@[simp] theorem AudioStreamIn_assignDevices_out_mStandby (h : Hal) (d : Nat) :
    (AudioStreamIn.assignDevices h d).out.mStandby = h.out.mStandby := by
  simp [AudioStreamIn.assignDevices]

@[simp] theorem AudioStreamIn_assignDevices_out_mUsedForVoiceCall (h : Hal) (d : Nat) :
    (AudioStreamIn.assignDevices h d).out.mUsedForVoiceCall = h.out.mUsedForVoiceCall := by
  simp [AudioStreamIn.assignDevices]

@[simp] theorem AudioStreamIn_assignDevices_out_mWriter (h : Hal) (d : Nat) :
    (AudioStreamIn.assignDevices h d).out.mWriter = h.out.mWriter := by
  simp [AudioStreamIn.assignDevices]

@[simp] theorem AudioStreamIn_assignDevices_out_mParams (h : Hal) (d : Nat) :
    (AudioStreamIn.assignDevices h d).out.mParams = h.out.mParams := by
  simp [AudioStreamIn.assignDevices]

@[simp] theorem AudioStreamIn_assignDevices_out_mDevices (h : Hal) (d : Nat) :
    (AudioStreamIn.assignDevices h d).out.mDevices = h.out.mDevices := by
  simp [AudioStreamIn.assignDevices]

@[simp] theorem AudioStreamIn_assignDevices_inp (h : Hal) (d : Nat) :
    (AudioStreamIn.assignDevices h d).inp = { h.inp with mDevices := d } := by
  simp [AudioStreamIn.assignDevices]

@[simp] theorem AudioStreamIn_assignDevices_trace (h : Hal) (d : Nat) :
    (AudioStreamIn.assignDevices h d).trace = h.trace := by
  simp [AudioStreamIn.assignDevices]

@[simp] theorem AudioStreamIn_assignDevices_getWriter (h : Hal) (d : Nat) (w2 : WriterRef) :
    getWriter (AudioStreamIn.assignDevices h d) w2 = getWriter h w2 := by
  cases w2 <;> rfl

@[simp] theorem AudioStreamIn_assignDevices_getReader (h : Hal) (d : Nat) (p2 : Port) :
    getReader (AudioStreamIn.assignDevices h d) p2 = getReader h p2 := by
  rfl

@[simp] theorem AudioStreamIn_assignSource_hw_started (h : Hal) (d : Nat) :
    (AudioStreamIn.assignSource h d).hw.started = h.hw.started := by
  simp [AudioStreamIn.assignSource]

@[simp] theorem AudioStreamIn_assignSource_hw_mMode (h : Hal) (d : Nat) :
    (AudioStreamIn.assignSource h d).hw.mMode = h.hw.mMode := by
  simp [AudioStreamIn.assignSource]

@[simp] theorem AudioStreamIn_assignSource_hw_mMediaPortId (h : Hal) (d : Nat) :
    (AudioStreamIn.assignSource h d).hw.mMediaPortId = h.hw.mMediaPortId := by
  simp [AudioStreamIn.assignSource]

@[simp] theorem AudioStreamIn_assignSource_hw_mPrimaryStreamOut (h : Hal) (d : Nat) :
    (AudioStreamIn.assignSource h d).hw.mPrimaryStreamOut = h.hw.mPrimaryStreamOut := by
  simp [AudioStreamIn.assignSource]

@[simp] theorem AudioStreamIn_assignSource_hw_mMixer (h : Hal) (d : Nat) :
    (AudioStreamIn.assignSource h d).hw.mMixer = h.hw.mMixer := by
  simp [AudioStreamIn.assignSource]

@[simp] theorem AudioStreamIn_assignSource_hw_mMicMute (h : Hal) (d : Nat) :
    (AudioStreamIn.assignSource h d).hw.mMicMute = h.hw.mMicMute := by
  simp [AudioStreamIn.assignSource]

@[simp] theorem AudioStreamIn_assignSource_hw_mULPipe (h : Hal) (d : Nat) :
    (AudioStreamIn.assignSource h d).hw.mULPipe = h.hw.mULPipe := by
  simp [AudioStreamIn.assignSource]

@[simp] theorem AudioStreamIn_assignSource_hw_mDLPipe (h : Hal) (d : Nat) :
    (AudioStreamIn.assignSource h d).hw.mDLPipe = h.hw.mDLPipe := by
  simp [AudioStreamIn.assignSource]

@[simp] theorem AudioStreamIn_assignSource_out_mStandby (h : Hal) (d : Nat) :
    (AudioStreamIn.assignSource h d).out.mStandby = h.out.mStandby := by
  simp [AudioStreamIn.assignSource]

@[simp] theorem AudioStreamIn_assignSource_out_mUsedForVoiceCall (h : Hal) (d : Nat) :
    (AudioStreamIn.assignSource h d).out.mUsedForVoiceCall = h.out.mUsedForVoiceCall := by
  simp [AudioStreamIn.assignSource]

@[simp] theorem AudioStreamIn_assignSource_out_mWriter (h : Hal) (d : Nat) :
    (AudioStreamIn.assignSource h d).out.mWriter = h.out.mWriter := by
  simp [AudioStreamIn.assignSource]

@[simp] theorem AudioStreamIn_assignSource_out_mParams (h : Hal) (d : Nat) :
    (AudioStreamIn.assignSource h d).out.mParams = h.out.mParams := by
  simp [AudioStreamIn.assignSource]

@[simp] theorem AudioStreamIn_assignSource_out_mDevices (h : Hal) (d : Nat) :
    (AudioStreamIn.assignSource h d).out.mDevices = h.out.mDevices := by
  simp [AudioStreamIn.assignSource]

@[simp] theorem AudioStreamIn_assignSource_inp (h : Hal) (d : Nat) :
    (AudioStreamIn.assignSource h d).inp = { h.inp with mSource := d } := by
  simp [AudioStreamIn.assignSource]

@[simp] theorem AudioStreamIn_assignSource_trace (h : Hal) (d : Nat) :
    (AudioStreamIn.assignSource h d).trace = h.trace := by
  simp [AudioStreamIn.assignSource]

@[simp] theorem AudioStreamIn_assignSource_getWriter (h : Hal) (d : Nat) (w2 : WriterRef) :
    getWriter (AudioStreamIn.assignSource h d) w2 = getWriter h w2 := by
  cases w2 <;> rfl

@[simp] theorem AudioStreamIn_assignSource_getReader (h : Hal) (d : Nat) (p2 : Port) :
    getReader (AudioStreamIn.assignSource h d) p2 = getReader h p2 := by
  rfl

@[simp] theorem AudioStreamIn_setStandby_hw_started (h : Hal) (b : Bool) :
    (AudioStreamIn.setStandby h b).hw.started = h.hw.started := by
  simp [AudioStreamIn.setStandby]

@[simp] theorem AudioStreamIn_setStandby_hw_mMode (h : Hal) (b : Bool) :
    (AudioStreamIn.setStandby h b).hw.mMode = h.hw.mMode := by
  simp [AudioStreamIn.setStandby]

@[simp] theorem AudioStreamIn_setStandby_hw_mMediaPortId (h : Hal) (b : Bool) :
    (AudioStreamIn.setStandby h b).hw.mMediaPortId = h.hw.mMediaPortId := by
  simp [AudioStreamIn.setStandby]

@[simp] theorem AudioStreamIn_setStandby_hw_mPrimaryStreamOut (h : Hal) (b : Bool) :
    (AudioStreamIn.setStandby h b).hw.mPrimaryStreamOut = h.hw.mPrimaryStreamOut := by
  simp [AudioStreamIn.setStandby]

@[simp] theorem AudioStreamIn_setStandby_hw_mMixer (h : Hal) (b : Bool) :
    (AudioStreamIn.setStandby h b).hw.mMixer = h.hw.mMixer := by
  simp [AudioStreamIn.setStandby]

@[simp] theorem AudioStreamIn_setStandby_hw_mMicMute (h : Hal) (b : Bool) :
    (AudioStreamIn.setStandby h b).hw.mMicMute = h.hw.mMicMute := by
  simp [AudioStreamIn.setStandby]

@[simp] theorem AudioStreamIn_setStandby_hw_mULPipe (h : Hal) (b : Bool) :
    (AudioStreamIn.setStandby h b).hw.mULPipe = h.hw.mULPipe := by
  simp [AudioStreamIn.setStandby]

@[simp] theorem AudioStreamIn_setStandby_hw_mDLPipe (h : Hal) (b : Bool) :
    (AudioStreamIn.setStandby h b).hw.mDLPipe = h.hw.mDLPipe := by
  simp [AudioStreamIn.setStandby]

@[simp] theorem AudioStreamIn_setStandby_out_mStandby (h : Hal) (b : Bool) :
    (AudioStreamIn.setStandby h b).out.mStandby = h.out.mStandby := by
  simp [AudioStreamIn.setStandby]

@[simp] theorem AudioStreamIn_setStandby_out_mUsedForVoiceCall (h : Hal) (b : Bool) :
    (AudioStreamIn.setStandby h b).out.mUsedForVoiceCall = h.out.mUsedForVoiceCall := by
  simp [AudioStreamIn.setStandby]

@[simp] theorem AudioStreamIn_setStandby_out_mWriter (h : Hal) (b : Bool) :
    (AudioStreamIn.setStandby h b).out.mWriter = h.out.mWriter := by
  simp [AudioStreamIn.setStandby]

@[simp] theorem AudioStreamIn_setStandby_out_mParams (h : Hal) (b : Bool) :
    (AudioStreamIn.setStandby h b).out.mParams = h.out.mParams := by
  simp [AudioStreamIn.setStandby]

@[simp] theorem AudioStreamIn_setStandby_out_mDevices (h : Hal) (b : Bool) :
    (AudioStreamIn.setStandby h b).out.mDevices = h.out.mDevices := by
  simp [AudioStreamIn.setStandby]

@[simp] theorem AudioStreamIn_setStandby_inp (h : Hal) (b : Bool) :
    (AudioStreamIn.setStandby h b).inp = { h.inp with mStandby := b } := by
  simp [AudioStreamIn.setStandby]

@[simp] theorem AudioStreamIn_setStandby_trace (h : Hal) (b : Bool) :
    (AudioStreamIn.setStandby h b).trace = h.trace := by
  simp [AudioStreamIn.setStandby]

@[simp] theorem AudioStreamIn_setStandby_getWriter (h : Hal) (b : Bool) (w2 : WriterRef) :
    getWriter (AudioStreamIn.setStandby h b) w2 = getWriter h w2 := by
  cases w2 <;> rfl

@[simp] theorem AudioStreamIn_setStandby_getReader (h : Hal) (b : Bool) (p2 : Port) :
    getReader (AudioStreamIn.setStandby h b) p2 = getReader h p2 := by
  rfl

@[simp] theorem AudioHwDevice_setVoiceVolume_snd_hw_started (h : Hal) (v : ℚ) :
    ((AudioHwDevice.setVoiceVolume h v).2).hw.started = h.hw.started := by
  simp [AudioHwDevice.setVoiceVolume]

@[simp] theorem AudioHwDevice_setVoiceVolume_snd_hw_mMode (h : Hal) (v : ℚ) :
    ((AudioHwDevice.setVoiceVolume h v).2).hw.mMode = h.hw.mMode := by
  simp [AudioHwDevice.setVoiceVolume]

@[simp] theorem AudioHwDevice_setVoiceVolume_snd_hw_mMediaPortId (h : Hal) (v : ℚ) :
    ((AudioHwDevice.setVoiceVolume h v).2).hw.mMediaPortId = h.hw.mMediaPortId := by
  simp [AudioHwDevice.setVoiceVolume]

@[simp] theorem AudioHwDevice_setVoiceVolume_snd_hw_mPrimaryStreamOut (h : Hal) (v : ℚ) :
    ((AudioHwDevice.setVoiceVolume h v).2).hw.mPrimaryStreamOut = h.hw.mPrimaryStreamOut := by
  simp [AudioHwDevice.setVoiceVolume]

@[simp] theorem AudioHwDevice_setVoiceVolume_snd_hw_mMixer (h : Hal) (v : ℚ) :
    ((AudioHwDevice.setVoiceVolume h v).2).hw.mMixer = { h.hw.mMixer with cabinVolumeHP := voiceVolumeVal v, cabinVolumeLine := voiceVolumeVal v } := by
  simp [AudioHwDevice.setVoiceVolume]

@[simp] theorem AudioHwDevice_setVoiceVolume_snd_hw_mMicMute (h : Hal) (v : ℚ) :
    ((AudioHwDevice.setVoiceVolume h v).2).hw.mMicMute = h.hw.mMicMute := by
  simp [AudioHwDevice.setVoiceVolume]

@[simp] theorem AudioHwDevice_setVoiceVolume_snd_hw_mULPipe (h : Hal) (v : ℚ) :
    ((AudioHwDevice.setVoiceVolume h v).2).hw.mULPipe = h.hw.mULPipe := by
  simp [AudioHwDevice.setVoiceVolume]

@[simp] theorem AudioHwDevice_setVoiceVolume_snd_hw_mDLPipe (h : Hal) (v : ℚ) :
    ((AudioHwDevice.setVoiceVolume h v).2).hw.mDLPipe = h.hw.mDLPipe := by
  simp [AudioHwDevice.setVoiceVolume]

@[simp] theorem AudioHwDevice_setVoiceVolume_snd_out_mStandby (h : Hal) (v : ℚ) :
    ((AudioHwDevice.setVoiceVolume h v).2).out.mStandby = h.out.mStandby := by
  simp [AudioHwDevice.setVoiceVolume]

@[simp] theorem AudioHwDevice_setVoiceVolume_snd_out_mUsedForVoiceCall (h : Hal) (v : ℚ) :
    ((AudioHwDevice.setVoiceVolume h v).2).out.mUsedForVoiceCall = h.out.mUsedForVoiceCall := by
  simp [AudioHwDevice.setVoiceVolume]

@[simp] theorem AudioHwDevice_setVoiceVolume_snd_out_mWriter (h : Hal) (v : ℚ) :
    ((AudioHwDevice.setVoiceVolume h v).2).out.mWriter = h.out.mWriter := by
  simp [AudioHwDevice.setVoiceVolume]

@[simp] theorem AudioHwDevice_setVoiceVolume_snd_out_mParams (h : Hal) (v : ℚ) :
    ((AudioHwDevice.setVoiceVolume h v).2).out.mParams = h.out.mParams := by
  simp [AudioHwDevice.setVoiceVolume]

@[simp] theorem AudioHwDevice_setVoiceVolume_snd_out_mDevices (h : Hal) (v : ℚ) :
    ((AudioHwDevice.setVoiceVolume h v).2).out.mDevices = h.out.mDevices := by
  simp [AudioHwDevice.setVoiceVolume]

@[simp] theorem AudioHwDevice_setVoiceVolume_snd_inp (h : Hal) (v : ℚ) :
    ((AudioHwDevice.setVoiceVolume h v).2).inp = h.inp := by
  simp [AudioHwDevice.setVoiceVolume]

@[simp] theorem AudioHwDevice_setVoiceVolume_snd_trace (h : Hal) (v : ℚ) :
    ((AudioHwDevice.setVoiceVolume h v).2).trace = h.trace ++ [.mixerSetVolumeHP (voiceVolumeVal v), .mixerSetVolumeLine (voiceVolumeVal v)] := by
  simp [AudioHwDevice.setVoiceVolume]

@[simp] theorem AudioHwDevice_setVoiceVolume_snd_getWriter (h : Hal) (v : ℚ) (w2 : WriterRef) :
    getWriter ((AudioHwDevice.setVoiceVolume h v).2) w2 = getWriter h w2 := by
  cases w2 <;> rfl

@[simp] theorem AudioHwDevice_setVoiceVolume_snd_getReader (h : Hal) (v : ℚ) (p2 : Port) :
    getReader ((AudioHwDevice.setVoiceVolume h v).2) p2 = getReader h p2 := by
  rfl

@[simp] theorem PcmWriter_unregisterStream_hw_started (h : Hal) (w : WriterRef) (s : StreamId) :
    (PcmWriter.unregisterStream h w s).hw.started = h.hw.started := by
  simp [PcmWriter.unregisterStream]

@[simp] theorem PcmWriter_unregisterStream_hw_mMode (h : Hal) (w : WriterRef) (s : StreamId) :
    (PcmWriter.unregisterStream h w s).hw.mMode = h.hw.mMode := by
  simp [PcmWriter.unregisterStream]

@[simp] theorem PcmWriter_unregisterStream_hw_mMediaPortId (h : Hal) (w : WriterRef) (s : StreamId) :
    (PcmWriter.unregisterStream h w s).hw.mMediaPortId = h.hw.mMediaPortId := by
  simp [PcmWriter.unregisterStream]

@[simp] theorem PcmWriter_unregisterStream_hw_mPrimaryStreamOut (h : Hal) (w : WriterRef) (s : StreamId) :
    (PcmWriter.unregisterStream h w s).hw.mPrimaryStreamOut = h.hw.mPrimaryStreamOut := by
  simp [PcmWriter.unregisterStream]

@[simp] theorem PcmWriter_unregisterStream_hw_mMixer (h : Hal) (w : WriterRef) (s : StreamId) :
    (PcmWriter.unregisterStream h w s).hw.mMixer = h.hw.mMixer := by
  simp [PcmWriter.unregisterStream]

@[simp] theorem PcmWriter_unregisterStream_hw_mMicMute (h : Hal) (w : WriterRef) (s : StreamId) :
    (PcmWriter.unregisterStream h w s).hw.mMicMute = h.hw.mMicMute := by
  simp [PcmWriter.unregisterStream]

@[simp] theorem PcmWriter_unregisterStream_hw_mULPipe (h : Hal) (w : WriterRef) (s : StreamId) :
    (PcmWriter.unregisterStream h w s).hw.mULPipe = h.hw.mULPipe := by
  simp [PcmWriter.unregisterStream]

@[simp] theorem PcmWriter_unregisterStream_hw_mDLPipe (h : Hal) (w : WriterRef) (s : StreamId) :
    (PcmWriter.unregisterStream h w s).hw.mDLPipe = h.hw.mDLPipe := by
  simp [PcmWriter.unregisterStream]

@[simp] theorem PcmWriter_unregisterStream_out_mStandby (h : Hal) (w : WriterRef) (s : StreamId) :
    (PcmWriter.unregisterStream h w s).out.mStandby = h.out.mStandby := by
  simp [PcmWriter.unregisterStream]

@[simp] theorem PcmWriter_unregisterStream_out_mUsedForVoiceCall (h : Hal) (w : WriterRef) (s : StreamId) :
    (PcmWriter.unregisterStream h w s).out.mUsedForVoiceCall = h.out.mUsedForVoiceCall := by
  simp [PcmWriter.unregisterStream]

@[simp] theorem PcmWriter_unregisterStream_out_mWriter (h : Hal) (w : WriterRef) (s : StreamId) :
    (PcmWriter.unregisterStream h w s).out.mWriter = h.out.mWriter := by
  simp [PcmWriter.unregisterStream]

@[simp] theorem PcmWriter_unregisterStream_out_mParams (h : Hal) (w : WriterRef) (s : StreamId) :
    (PcmWriter.unregisterStream h w s).out.mParams = h.out.mParams := by
  simp [PcmWriter.unregisterStream]

@[simp] theorem PcmWriter_unregisterStream_out_mDevices (h : Hal) (w : WriterRef) (s : StreamId) :
    (PcmWriter.unregisterStream h w s).out.mDevices = h.out.mDevices := by
  simp [PcmWriter.unregisterStream]

@[simp] theorem PcmWriter_unregisterStream_inp (h : Hal) (w : WriterRef) (s : StreamId) :
    (PcmWriter.unregisterStream h w s).inp = h.inp := by
  simp [PcmWriter.unregisterStream]

@[simp] theorem PcmWriter_unregisterStream_trace (h : Hal) (w : WriterRef) (s : StreamId) :
    (PcmWriter.unregisterStream h w s).trace = h.trace ++ [.unregisterWriter w s] := by
  simp [PcmWriter.unregisterStream]

@[simp] theorem PcmWriter_unregisterStream_getWriter (h : Hal) (w : WriterRef) (s : StreamId) (w2 : WriterRef) :
    getWriter (PcmWriter.unregisterStream h w s) w2 = if w2 = w then removeStream (getWriter h w) s else getWriter h w2 := by
  simp [PcmWriter.unregisterStream]

@[simp] theorem PcmWriter_unregisterStream_getReader (h : Hal) (w : WriterRef) (s : StreamId) (p2 : Port) :
    getReader (PcmWriter.unregisterStream h w s) p2 = getReader h p2 := by
  simp [PcmWriter.unregisterStream]

@[simp] theorem PcmReader_unregisterStream_hw_started (h : Hal) (p : Port) (s : StreamId) :
    (PcmReader.unregisterStream h p s).hw.started = h.hw.started := by
  simp [PcmReader.unregisterStream]

@[simp] theorem PcmReader_unregisterStream_hw_mMode (h : Hal) (p : Port) (s : StreamId) :
    (PcmReader.unregisterStream h p s).hw.mMode = h.hw.mMode := by
  simp [PcmReader.unregisterStream]

@[simp] theorem PcmReader_unregisterStream_hw_mMediaPortId (h : Hal) (p : Port) (s : StreamId) :
    (PcmReader.unregisterStream h p s).hw.mMediaPortId = h.hw.mMediaPortId := by
  simp [PcmReader.unregisterStream]

@[simp] theorem PcmReader_unregisterStream_hw_mPrimaryStreamOut (h : Hal) (p : Port) (s : StreamId) :
    (PcmReader.unregisterStream h p s).hw.mPrimaryStreamOut = h.hw.mPrimaryStreamOut := by
  simp [PcmReader.unregisterStream]

@[simp] theorem PcmReader_unregisterStream_hw_mMixer (h : Hal) (p : Port) (s : StreamId) :
    (PcmReader.unregisterStream h p s).hw.mMixer = h.hw.mMixer := by
  simp [PcmReader.unregisterStream]

@[simp] theorem PcmReader_unregisterStream_hw_mMicMute (h : Hal) (p : Port) (s : StreamId) :
    (PcmReader.unregisterStream h p s).hw.mMicMute = h.hw.mMicMute := by
  simp [PcmReader.unregisterStream]

@[simp] theorem PcmReader_unregisterStream_hw_mULPipe (h : Hal) (p : Port) (s : StreamId) :
    (PcmReader.unregisterStream h p s).hw.mULPipe = h.hw.mULPipe := by
  simp [PcmReader.unregisterStream]

@[simp] theorem PcmReader_unregisterStream_hw_mDLPipe (h : Hal) (p : Port) (s : StreamId) :
    (PcmReader.unregisterStream h p s).hw.mDLPipe = h.hw.mDLPipe := by
  simp [PcmReader.unregisterStream]

@[simp] theorem PcmReader_unregisterStream_out_mStandby (h : Hal) (p : Port) (s : StreamId) :
    (PcmReader.unregisterStream h p s).out.mStandby = h.out.mStandby := by
  simp [PcmReader.unregisterStream]

@[simp] theorem PcmReader_unregisterStream_out_mUsedForVoiceCall (h : Hal) (p : Port) (s : StreamId) :
    (PcmReader.unregisterStream h p s).out.mUsedForVoiceCall = h.out.mUsedForVoiceCall := by
  simp [PcmReader.unregisterStream]

@[simp] theorem PcmReader_unregisterStream_out_mWriter (h : Hal) (p : Port) (s : StreamId) :
    (PcmReader.unregisterStream h p s).out.mWriter = h.out.mWriter := by
  simp [PcmReader.unregisterStream]

@[simp] theorem PcmReader_unregisterStream_out_mParams (h : Hal) (p : Port) (s : StreamId) :
    (PcmReader.unregisterStream h p s).out.mParams = h.out.mParams := by
  simp [PcmReader.unregisterStream]

@[simp] theorem PcmReader_unregisterStream_out_mDevices (h : Hal) (p : Port) (s : StreamId) :
    (PcmReader.unregisterStream h p s).out.mDevices = h.out.mDevices := by
  simp [PcmReader.unregisterStream]

@[simp] theorem PcmReader_unregisterStream_inp (h : Hal) (p : Port) (s : StreamId) :
    (PcmReader.unregisterStream h p s).inp = h.inp := by
  simp [PcmReader.unregisterStream]

@[simp] theorem PcmReader_unregisterStream_trace (h : Hal) (p : Port) (s : StreamId) :
    (PcmReader.unregisterStream h p s).trace = h.trace ++ [.unregisterReader p s] := by
  simp [PcmReader.unregisterStream]

@[simp] theorem PcmReader_unregisterStream_getWriter (h : Hal) (p : Port) (s : StreamId) (w2 : WriterRef) :
    getWriter (PcmReader.unregisterStream h p s) w2 = getWriter h w2 := by
  simp [PcmReader.unregisterStream]

@[simp] theorem PcmReader_unregisterStream_getReader (h : Hal) (p : Port) (s : StreamId) (p2 : Port) :
    getReader (PcmReader.unregisterStream h p s) p2 = if p2 = p then removeStream (getReader h p) s else getReader h p2 := by
  simp [PcmReader.unregisterStream]

@[simp] theorem PcmWriter_registerStream_snd_hw_started (env : Env) (h : Hal) (w : WriterRef) (s : StreamId) :
    ((PcmWriter.registerStream env h w s).2).hw.started = h.hw.started := by
  simp only [PcmWriter.registerStream]
  (try split_ifs) <;> first | rfl | (cases w2 <;> rfl) | simp_all [removeStream_of_not_mem, AudioStreamOut.selectWriter]

@[simp] theorem PcmWriter_registerStream_snd_hw_mMode (env : Env) (h : Hal) (w : WriterRef) (s : StreamId) :
    ((PcmWriter.registerStream env h w s).2).hw.mMode = h.hw.mMode := by
  simp only [PcmWriter.registerStream]
  (try split_ifs) <;> first | rfl | (cases w2 <;> rfl) | simp_all [removeStream_of_not_mem, AudioStreamOut.selectWriter]

@[simp] theorem PcmWriter_registerStream_snd_hw_mMediaPortId (env : Env) (h : Hal) (w : WriterRef) (s : StreamId) :
    ((PcmWriter.registerStream env h w s).2).hw.mMediaPortId = h.hw.mMediaPortId := by
  simp only [PcmWriter.registerStream]
  (try split_ifs) <;> first | rfl | (cases w2 <;> rfl) | simp_all [removeStream_of_not_mem, AudioStreamOut.selectWriter]

@[simp] theorem PcmWriter_registerStream_snd_hw_mPrimaryStreamOut (env : Env) (h : Hal) (w : WriterRef) (s : StreamId) :
    ((PcmWriter.registerStream env h w s).2).hw.mPrimaryStreamOut = h.hw.mPrimaryStreamOut := by
  simp only [PcmWriter.registerStream]
  (try split_ifs) <;> first | rfl | (cases w2 <;> rfl) | simp_all [removeStream_of_not_mem, AudioStreamOut.selectWriter]

@[simp] theorem PcmWriter_registerStream_snd_hw_mMixer (env : Env) (h : Hal) (w : WriterRef) (s : StreamId) :
    ((PcmWriter.registerStream env h w s).2).hw.mMixer = h.hw.mMixer := by
  simp only [PcmWriter.registerStream]
  (try split_ifs) <;> first | rfl | (cases w2 <;> rfl) | simp_all [removeStream_of_not_mem, AudioStreamOut.selectWriter]

@[simp] theorem PcmWriter_registerStream_snd_hw_mMicMute (env : Env) (h : Hal) (w : WriterRef) (s : StreamId) :
    ((PcmWriter.registerStream env h w s).2).hw.mMicMute = h.hw.mMicMute := by
  simp only [PcmWriter.registerStream]
  (try split_ifs) <;> first | rfl | (cases w2 <;> rfl) | simp_all [removeStream_of_not_mem, AudioStreamOut.selectWriter]

@[simp] theorem PcmWriter_registerStream_snd_hw_mULPipe (env : Env) (h : Hal) (w : WriterRef) (s : StreamId) :
    ((PcmWriter.registerStream env h w s).2).hw.mULPipe = h.hw.mULPipe := by
  simp only [PcmWriter.registerStream]
  (try split_ifs) <;> first | rfl | (cases w2 <;> rfl) | simp_all [removeStream_of_not_mem, AudioStreamOut.selectWriter]

@[simp] theorem PcmWriter_registerStream_snd_hw_mDLPipe (env : Env) (h : Hal) (w : WriterRef) (s : StreamId) :
    ((PcmWriter.registerStream env h w s).2).hw.mDLPipe = h.hw.mDLPipe := by
  simp only [PcmWriter.registerStream]
  (try split_ifs) <;> first | rfl | (cases w2 <;> rfl) | simp_all [removeStream_of_not_mem, AudioStreamOut.selectWriter]

@[simp] theorem PcmWriter_registerStream_snd_out_mStandby (env : Env) (h : Hal) (w : WriterRef) (s : StreamId) :
    ((PcmWriter.registerStream env h w s).2).out.mStandby = h.out.mStandby := by
  simp only [PcmWriter.registerStream]
  (try split_ifs) <;> first | rfl | (cases w2 <;> rfl) | simp_all [removeStream_of_not_mem, AudioStreamOut.selectWriter]

@[simp] theorem PcmWriter_registerStream_snd_out_mUsedForVoiceCall (env : Env) (h : Hal) (w : WriterRef) (s : StreamId) :
    ((PcmWriter.registerStream env h w s).2).out.mUsedForVoiceCall = h.out.mUsedForVoiceCall := by
  simp only [PcmWriter.registerStream]
  (try split_ifs) <;> first | rfl | (cases w2 <;> rfl) | simp_all [removeStream_of_not_mem, AudioStreamOut.selectWriter]

@[simp] theorem PcmWriter_registerStream_snd_out_mWriter (env : Env) (h : Hal) (w : WriterRef) (s : StreamId) :
    ((PcmWriter.registerStream env h w s).2).out.mWriter = h.out.mWriter := by
  simp only [PcmWriter.registerStream]
  (try split_ifs) <;> first | rfl | (cases w2 <;> rfl) | simp_all [removeStream_of_not_mem, AudioStreamOut.selectWriter]

@[simp] theorem PcmWriter_registerStream_snd_out_mParams (env : Env) (h : Hal) (w : WriterRef) (s : StreamId) :
    ((PcmWriter.registerStream env h w s).2).out.mParams = h.out.mParams := by
  simp only [PcmWriter.registerStream]
  (try split_ifs) <;> first | rfl | (cases w2 <;> rfl) | simp_all [removeStream_of_not_mem, AudioStreamOut.selectWriter]

@[simp] theorem PcmWriter_registerStream_snd_out_mDevices (env : Env) (h : Hal) (w : WriterRef) (s : StreamId) :
    ((PcmWriter.registerStream env h w s).2).out.mDevices = h.out.mDevices := by
  simp only [PcmWriter.registerStream]
  (try split_ifs) <;> first | rfl | (cases w2 <;> rfl) | simp_all [removeStream_of_not_mem, AudioStreamOut.selectWriter]

@[simp] theorem PcmWriter_registerStream_snd_inp (env : Env) (h : Hal) (w : WriterRef) (s : StreamId) :
    ((PcmWriter.registerStream env h w s).2).inp = h.inp := by
  simp only [PcmWriter.registerStream]
  (try split_ifs) <;> first | rfl | (cases w2 <;> rfl) | simp_all [removeStream_of_not_mem, AudioStreamOut.selectWriter]

@[simp] theorem PcmWriter_registerStream_snd_trace (env : Env) (h : Hal) (w : WriterRef) (s : StreamId) :
    ((PcmWriter.registerStream env h w s).2).trace = h.trace ++ [.registerWriter w s (PcmWriter.registerStream env h w s).1] := by
  simp only [PcmWriter.registerStream]
  (try split_ifs) <;> first | rfl | (cases w2 <;> rfl) | simp_all [removeStream_of_not_mem, AudioStreamOut.selectWriter]

@[simp] theorem PcmWriter_registerStream_snd_getWriter (env : Env) (h : Hal) (w : WriterRef) (s : StreamId) (w2 : WriterRef) :
    getWriter ((PcmWriter.registerStream env h w s).2) w2 = if w2 = w ∧ s ∉ getWriter h w ∧ env.writerStatus w s = 0 then s :: getWriter h w else getWriter h w2 := by
  simp only [PcmWriter.registerStream]
  (try split_ifs) <;> first | rfl | (cases w2 <;> rfl) | simp_all [removeStream_of_not_mem, AudioStreamOut.selectWriter]

@[simp] theorem PcmWriter_registerStream_snd_getReader (env : Env) (h : Hal) (w : WriterRef) (s : StreamId) (p2 : Port) :
    getReader ((PcmWriter.registerStream env h w s).2) p2 = getReader h p2 := by
  simp only [PcmWriter.registerStream]
  (try split_ifs) <;> first | rfl | (cases w2 <;> rfl) | simp_all [removeStream_of_not_mem, AudioStreamOut.selectWriter]

@[simp] theorem PcmReader_registerStream_snd_hw_started (env : Env) (h : Hal) (p : Port) (s : StreamId) :
    ((PcmReader.registerStream env h p s).2).hw.started = h.hw.started := by
  simp only [PcmReader.registerStream]
  (try split_ifs) <;> first | rfl | (cases w2 <;> rfl) | simp_all [removeStream_of_not_mem, AudioStreamOut.selectWriter]

@[simp] theorem PcmReader_registerStream_snd_hw_mMode (env : Env) (h : Hal) (p : Port) (s : StreamId) :
    ((PcmReader.registerStream env h p s).2).hw.mMode = h.hw.mMode := by
  simp only [PcmReader.registerStream]
  (try split_ifs) <;> first | rfl | (cases w2 <;> rfl) | simp_all [removeStream_of_not_mem, AudioStreamOut.selectWriter]

@[simp] theorem PcmReader_registerStream_snd_hw_mMediaPortId (env : Env) (h : Hal) (p : Port) (s : StreamId) :
    ((PcmReader.registerStream env h p s).2).hw.mMediaPortId = h.hw.mMediaPortId := by
  simp only [PcmReader.registerStream]
  (try split_ifs) <;> first | rfl | (cases w2 <;> rfl) | simp_all [removeStream_of_not_mem, AudioStreamOut.selectWriter]

@[simp] theorem PcmReader_registerStream_snd_hw_mPrimaryStreamOut (env : Env) (h : Hal) (p : Port) (s : StreamId) :
    ((PcmReader.registerStream env h p s).2).hw.mPrimaryStreamOut = h.hw.mPrimaryStreamOut := by
  simp only [PcmReader.registerStream]
  (try split_ifs) <;> first | rfl | (cases w2 <;> rfl) | simp_all [removeStream_of_not_mem, AudioStreamOut.selectWriter]

@[simp] theorem PcmReader_registerStream_snd_hw_mMixer (env : Env) (h : Hal) (p : Port) (s : StreamId) :
    ((PcmReader.registerStream env h p s).2).hw.mMixer = h.hw.mMixer := by
  simp only [PcmReader.registerStream]
  (try split_ifs) <;> first | rfl | (cases w2 <;> rfl) | simp_all [removeStream_of_not_mem, AudioStreamOut.selectWriter]

@[simp] theorem PcmReader_registerStream_snd_hw_mMicMute (env : Env) (h : Hal) (p : Port) (s : StreamId) :
    ((PcmReader.registerStream env h p s).2).hw.mMicMute = h.hw.mMicMute := by
  simp only [PcmReader.registerStream]
  (try split_ifs) <;> first | rfl | (cases w2 <;> rfl) | simp_all [removeStream_of_not_mem, AudioStreamOut.selectWriter]

@[simp] theorem PcmReader_registerStream_snd_hw_mULPipe (env : Env) (h : Hal) (p : Port) (s : StreamId) :
    ((PcmReader.registerStream env h p s).2).hw.mULPipe = h.hw.mULPipe := by
  simp only [PcmReader.registerStream]
  (try split_ifs) <;> first | rfl | (cases w2 <;> rfl) | simp_all [removeStream_of_not_mem, AudioStreamOut.selectWriter]

@[simp] theorem PcmReader_registerStream_snd_hw_mDLPipe (env : Env) (h : Hal) (p : Port) (s : StreamId) :
    ((PcmReader.registerStream env h p s).2).hw.mDLPipe = h.hw.mDLPipe := by
  simp only [PcmReader.registerStream]
  (try split_ifs) <;> first | rfl | (cases w2 <;> rfl) | simp_all [removeStream_of_not_mem, AudioStreamOut.selectWriter]

@[simp] theorem PcmReader_registerStream_snd_out_mStandby (env : Env) (h : Hal) (p : Port) (s : StreamId) :
    ((PcmReader.registerStream env h p s).2).out.mStandby = h.out.mStandby := by
  simp only [PcmReader.registerStream]
  (try split_ifs) <;> first | rfl | (cases w2 <;> rfl) | simp_all [removeStream_of_not_mem, AudioStreamOut.selectWriter]

@[simp] theorem PcmReader_registerStream_snd_out_mUsedForVoiceCall (env : Env) (h : Hal) (p : Port) (s : StreamId) :
    ((PcmReader.registerStream env h p s).2).out.mUsedForVoiceCall = h.out.mUsedForVoiceCall := by
  simp only [PcmReader.registerStream]
  (try split_ifs) <;> first | rfl | (cases w2 <;> rfl) | simp_all [removeStream_of_not_mem, AudioStreamOut.selectWriter]

@[simp] theorem PcmReader_registerStream_snd_out_mWriter (env : Env) (h : Hal) (p : Port) (s : StreamId) :
    ((PcmReader.registerStream env h p s).2).out.mWriter = h.out.mWriter := by
  simp only [PcmReader.registerStream]
  (try split_ifs) <;> first | rfl | (cases w2 <;> rfl) | simp_all [removeStream_of_not_mem, AudioStreamOut.selectWriter]

@[simp] theorem PcmReader_registerStream_snd_out_mParams (env : Env) (h : Hal) (p : Port) (s : StreamId) :
    ((PcmReader.registerStream env h p s).2).out.mParams = h.out.mParams := by
  simp only [PcmReader.registerStream]
  (try split_ifs) <;> first | rfl | (cases w2 <;> rfl) | simp_all [removeStream_of_not_mem, AudioStreamOut.selectWriter]

@[simp] theorem PcmReader_registerStream_snd_out_mDevices (env : Env) (h : Hal) (p : Port) (s : StreamId) :
    ((PcmReader.registerStream env h p s).2).out.mDevices = h.out.mDevices := by
  simp only [PcmReader.registerStream]
  (try split_ifs) <;> first | rfl | (cases w2 <;> rfl) | simp_all [removeStream_of_not_mem, AudioStreamOut.selectWriter]

@[simp] theorem PcmReader_registerStream_snd_inp (env : Env) (h : Hal) (p : Port) (s : StreamId) :
    ((PcmReader.registerStream env h p s).2).inp = h.inp := by
  simp only [PcmReader.registerStream]
  (try split_ifs) <;> first | rfl | (cases w2 <;> rfl) | simp_all [removeStream_of_not_mem, AudioStreamOut.selectWriter]

@[simp] theorem PcmReader_registerStream_snd_trace (env : Env) (h : Hal) (p : Port) (s : StreamId) :
    ((PcmReader.registerStream env h p s).2).trace = h.trace ++ [.registerReader p s (PcmReader.registerStream env h p s).1] := by
  simp only [PcmReader.registerStream]
  (try split_ifs) <;> first | rfl | (cases w2 <;> rfl) | simp_all [removeStream_of_not_mem, AudioStreamOut.selectWriter]

@[simp] theorem PcmReader_registerStream_snd_getWriter (env : Env) (h : Hal) (p : Port) (s : StreamId) (w2 : WriterRef) :
    getWriter ((PcmReader.registerStream env h p s).2) w2 = getWriter h w2 := by
  simp only [PcmReader.registerStream]
  (try split_ifs) <;> first | rfl | (cases w2 <;> rfl) | simp_all [removeStream_of_not_mem, AudioStreamOut.selectWriter]

@[simp] theorem PcmReader_registerStream_snd_getReader (env : Env) (h : Hal) (p : Port) (s : StreamId) (p2 : Port) :
    getReader ((PcmReader.registerStream env h p s).2) p2 = if p2 = p ∧ s ∉ getReader h p ∧ env.readerStatus p s = 0 then s :: getReader h p else getReader h p2 := by
  simp only [PcmReader.registerStream]
  (try split_ifs) <;> first | rfl | (cases w2 <;> rfl) | simp_all [removeStream_of_not_mem, AudioStreamOut.selectWriter]

@[simp] theorem Stream_start_snd_hw_started (env : Env) (h : Hal) (s : StreamId) :
    ((Stream.start env h s).2).hw.started = if env.startStatus s = 0 then s :: removeStream (h.hw.started) s else h.hw.started := by
  simp only [Stream.start]
  (try split_ifs) <;> first | rfl | (cases w2 <;> rfl) | simp_all [removeStream_of_not_mem, AudioStreamOut.selectWriter]

@[simp] theorem Stream_start_snd_hw_mMode (env : Env) (h : Hal) (s : StreamId) :
    ((Stream.start env h s).2).hw.mMode = h.hw.mMode := by
  simp only [Stream.start]
  (try split_ifs) <;> first | rfl | (cases w2 <;> rfl) | simp_all [removeStream_of_not_mem, AudioStreamOut.selectWriter]

@[simp] theorem Stream_start_snd_hw_mMediaPortId (env : Env) (h : Hal) (s : StreamId) :
    ((Stream.start env h s).2).hw.mMediaPortId = h.hw.mMediaPortId := by
  simp only [Stream.start]
  (try split_ifs) <;> first | rfl | (cases w2 <;> rfl) | simp_all [removeStream_of_not_mem, AudioStreamOut.selectWriter]

@[simp] theorem Stream_start_snd_hw_mPrimaryStreamOut (env : Env) (h : Hal) (s : StreamId) :
    ((Stream.start env h s).2).hw.mPrimaryStreamOut = h.hw.mPrimaryStreamOut := by
  simp only [Stream.start]
  (try split_ifs) <;> first | rfl | (cases w2 <;> rfl) | simp_all [removeStream_of_not_mem, AudioStreamOut.selectWriter]

@[simp] theorem Stream_start_snd_hw_mMixer (env : Env) (h : Hal) (s : StreamId) :
    ((Stream.start env h s).2).hw.mMixer = h.hw.mMixer := by
  simp only [Stream.start]
  (try split_ifs) <;> first | rfl | (cases w2 <;> rfl) | simp_all [removeStream_of_not_mem, AudioStreamOut.selectWriter]

@[simp] theorem Stream_start_snd_hw_mMicMute (env : Env) (h : Hal) (s : StreamId) :
    ((Stream.start env h s).2).hw.mMicMute = h.hw.mMicMute := by
  simp only [Stream.start]
  (try split_ifs) <;> first | rfl | (cases w2 <;> rfl) | simp_all [removeStream_of_not_mem, AudioStreamOut.selectWriter]

@[simp] theorem Stream_start_snd_hw_mULPipe (env : Env) (h : Hal) (s : StreamId) :
    ((Stream.start env h s).2).hw.mULPipe = h.hw.mULPipe := by
  simp only [Stream.start]
  (try split_ifs) <;> first | rfl | (cases w2 <;> rfl) | simp_all [removeStream_of_not_mem, AudioStreamOut.selectWriter]

@[simp] theorem Stream_start_snd_hw_mDLPipe (env : Env) (h : Hal) (s : StreamId) :
    ((Stream.start env h s).2).hw.mDLPipe = h.hw.mDLPipe := by
  simp only [Stream.start]
  (try split_ifs) <;> first | rfl | (cases w2 <;> rfl) | simp_all [removeStream_of_not_mem, AudioStreamOut.selectWriter]

@[simp] theorem Stream_start_snd_out_mStandby (env : Env) (h : Hal) (s : StreamId) :
    ((Stream.start env h s).2).out.mStandby = h.out.mStandby := by
  simp only [Stream.start]
  (try split_ifs) <;> first | rfl | (cases w2 <;> rfl) | simp_all [removeStream_of_not_mem, AudioStreamOut.selectWriter]

@[simp] theorem Stream_start_snd_out_mUsedForVoiceCall (env : Env) (h : Hal) (s : StreamId) :
    ((Stream.start env h s).2).out.mUsedForVoiceCall = h.out.mUsedForVoiceCall := by
  simp only [Stream.start]
  (try split_ifs) <;> first | rfl | (cases w2 <;> rfl) | simp_all [removeStream_of_not_mem, AudioStreamOut.selectWriter]

@[simp] theorem Stream_start_snd_out_mWriter (env : Env) (h : Hal) (s : StreamId) :
    ((Stream.start env h s).2).out.mWriter = h.out.mWriter := by
  simp only [Stream.start]
  (try split_ifs) <;> first | rfl | (cases w2 <;> rfl) | simp_all [removeStream_of_not_mem, AudioStreamOut.selectWriter]

@[simp] theorem Stream_start_snd_out_mParams (env : Env) (h : Hal) (s : StreamId) :
    ((Stream.start env h s).2).out.mParams = h.out.mParams := by
  simp only [Stream.start]
  (try split_ifs) <;> first | rfl | (cases w2 <;> rfl) | simp_all [removeStream_of_not_mem, AudioStreamOut.selectWriter]

@[simp] theorem Stream_start_snd_out_mDevices (env : Env) (h : Hal) (s : StreamId) :
    ((Stream.start env h s).2).out.mDevices = h.out.mDevices := by
  simp only [Stream.start]
  (try split_ifs) <;> first | rfl | (cases w2 <;> rfl) | simp_all [removeStream_of_not_mem, AudioStreamOut.selectWriter]

@[simp] theorem Stream_start_snd_inp (env : Env) (h : Hal) (s : StreamId) :
    ((Stream.start env h s).2).inp = h.inp := by
  simp only [Stream.start]
  (try split_ifs) <;> first | rfl | (cases w2 <;> rfl) | simp_all [removeStream_of_not_mem, AudioStreamOut.selectWriter]

@[simp] theorem Stream_start_snd_trace (env : Env) (h : Hal) (s : StreamId) :
    ((Stream.start env h s).2).trace = h.trace ++ [.streamStart s (env.startStatus s)] := by
  simp only [Stream.start]
  (try split_ifs) <;> first | rfl | (cases w2 <;> rfl) | simp_all [removeStream_of_not_mem, AudioStreamOut.selectWriter]

@[simp] theorem Stream_start_snd_getWriter (env : Env) (h : Hal) (s : StreamId) (w2 : WriterRef) :
    getWriter ((Stream.start env h s).2) w2 = getWriter h w2 := by
  simp only [Stream.start]
  (try split_ifs) <;> first | rfl | (cases w2 <;> rfl) | simp_all [removeStream_of_not_mem, AudioStreamOut.selectWriter]

@[simp] theorem Stream_start_snd_getReader (env : Env) (h : Hal) (s : StreamId) (p2 : Port) :
    getReader ((Stream.start env h s).2) p2 = getReader h p2 := by
  simp only [Stream.start]
  (try split_ifs) <;> first | rfl | (cases w2 <;> rfl) | simp_all [removeStream_of_not_mem, AudioStreamOut.selectWriter]

@[simp] theorem Stream_stopIfStarted_hw_started (h : Hal) (s : StreamId) :
    (Stream.stopIfStarted h s).hw.started = removeStream (h.hw.started) s := by
  simp only [Stream.stopIfStarted, Stream.isStarted]
  (try split_ifs) <;> first | rfl | (cases w2 <;> rfl) | simp_all [removeStream_of_not_mem, AudioStreamOut.selectWriter]

@[simp] theorem Stream_stopIfStarted_hw_mMode (h : Hal) (s : StreamId) :
    (Stream.stopIfStarted h s).hw.mMode = h.hw.mMode := by
  simp only [Stream.stopIfStarted, Stream.isStarted]
  (try split_ifs) <;> first | rfl | (cases w2 <;> rfl) | simp_all [removeStream_of_not_mem, AudioStreamOut.selectWriter]

@[simp] theorem Stream_stopIfStarted_hw_mMediaPortId (h : Hal) (s : StreamId) :
    (Stream.stopIfStarted h s).hw.mMediaPortId = h.hw.mMediaPortId := by
  simp only [Stream.stopIfStarted, Stream.isStarted]
  (try split_ifs) <;> first | rfl | (cases w2 <;> rfl) | simp_all [removeStream_of_not_mem, AudioStreamOut.selectWriter]

@[simp] theorem Stream_stopIfStarted_hw_mPrimaryStreamOut (h : Hal) (s : StreamId) :
    (Stream.stopIfStarted h s).hw.mPrimaryStreamOut = h.hw.mPrimaryStreamOut := by
  simp only [Stream.stopIfStarted, Stream.isStarted]
  (try split_ifs) <;> first | rfl | (cases w2 <;> rfl) | simp_all [removeStream_of_not_mem, AudioStreamOut.selectWriter]

@[simp] theorem Stream_stopIfStarted_hw_mMixer (h : Hal) (s : StreamId) :
    (Stream.stopIfStarted h s).hw.mMixer = h.hw.mMixer := by
  simp only [Stream.stopIfStarted, Stream.isStarted]
  (try split_ifs) <;> first | rfl | (cases w2 <;> rfl) | simp_all [removeStream_of_not_mem, AudioStreamOut.selectWriter]

@[simp] theorem Stream_stopIfStarted_hw_mMicMute (h : Hal) (s : StreamId) :
    (Stream.stopIfStarted h s).hw.mMicMute = h.hw.mMicMute := by
  simp only [Stream.stopIfStarted, Stream.isStarted]
  (try split_ifs) <;> first | rfl | (cases w2 <;> rfl) | simp_all [removeStream_of_not_mem, AudioStreamOut.selectWriter]

@[simp] theorem Stream_stopIfStarted_hw_mULPipe (h : Hal) (s : StreamId) :
    (Stream.stopIfStarted h s).hw.mULPipe = h.hw.mULPipe := by
  simp only [Stream.stopIfStarted, Stream.isStarted]
  (try split_ifs) <;> first | rfl | (cases w2 <;> rfl) | simp_all [removeStream_of_not_mem, AudioStreamOut.selectWriter]

@[simp] theorem Stream_stopIfStarted_hw_mDLPipe (h : Hal) (s : StreamId) :
    (Stream.stopIfStarted h s).hw.mDLPipe = h.hw.mDLPipe := by
  simp only [Stream.stopIfStarted, Stream.isStarted]
  (try split_ifs) <;> first | rfl | (cases w2 <;> rfl) | simp_all [removeStream_of_not_mem, AudioStreamOut.selectWriter]

@[simp] theorem Stream_stopIfStarted_out_mStandby (h : Hal) (s : StreamId) :
    (Stream.stopIfStarted h s).out.mStandby = h.out.mStandby := by
  simp only [Stream.stopIfStarted, Stream.isStarted]
  (try split_ifs) <;> first | rfl | (cases w2 <;> rfl) | simp_all [removeStream_of_not_mem, AudioStreamOut.selectWriter]

@[simp] theorem Stream_stopIfStarted_out_mUsedForVoiceCall (h : Hal) (s : StreamId) :
    (Stream.stopIfStarted h s).out.mUsedForVoiceCall = h.out.mUsedForVoiceCall := by
  simp only [Stream.stopIfStarted, Stream.isStarted]
  (try split_ifs) <;> first | rfl | (cases w2 <;> rfl) | simp_all [removeStream_of_not_mem, AudioStreamOut.selectWriter]

@[simp] theorem Stream_stopIfStarted_out_mWriter (h : Hal) (s : StreamId) :
    (Stream.stopIfStarted h s).out.mWriter = h.out.mWriter := by
  simp only [Stream.stopIfStarted, Stream.isStarted]
  (try split_ifs) <;> first | rfl | (cases w2 <;> rfl) | simp_all [removeStream_of_not_mem, AudioStreamOut.selectWriter]

@[simp] theorem Stream_stopIfStarted_out_mParams (h : Hal) (s : StreamId) :
    (Stream.stopIfStarted h s).out.mParams = h.out.mParams := by
  simp only [Stream.stopIfStarted, Stream.isStarted]
  (try split_ifs) <;> first | rfl | (cases w2 <;> rfl) | simp_all [removeStream_of_not_mem, AudioStreamOut.selectWriter]

@[simp] theorem Stream_stopIfStarted_out_mDevices (h : Hal) (s : StreamId) :
    (Stream.stopIfStarted h s).out.mDevices = h.out.mDevices := by
  simp only [Stream.stopIfStarted, Stream.isStarted]
  (try split_ifs) <;> first | rfl | (cases w2 <;> rfl) | simp_all [removeStream_of_not_mem, AudioStreamOut.selectWriter]

@[simp] theorem Stream_stopIfStarted_inp (h : Hal) (s : StreamId) :
    (Stream.stopIfStarted h s).inp = h.inp := by
  simp only [Stream.stopIfStarted, Stream.isStarted]
  (try split_ifs) <;> first | rfl | (cases w2 <;> rfl) | simp_all [removeStream_of_not_mem, AudioStreamOut.selectWriter]

@[simp] theorem Stream_stopIfStarted_trace (h : Hal) (s : StreamId) :
    (Stream.stopIfStarted h s).trace = if s ∈ h.hw.started then h.trace ++ [.streamStop s] else h.trace := by
  simp only [Stream.stopIfStarted, Stream.isStarted]
  (try split_ifs) <;> first | rfl | (cases w2 <;> rfl) | simp_all [removeStream_of_not_mem, AudioStreamOut.selectWriter]

@[simp] theorem Stream_stopIfStarted_getWriter (h : Hal) (s : StreamId) (w2 : WriterRef) :
    getWriter (Stream.stopIfStarted h s) w2 = getWriter h w2 := by
  simp only [Stream.stopIfStarted, Stream.isStarted]
  (try split_ifs) <;> first | rfl | (cases w2 <;> rfl) | simp_all [removeStream_of_not_mem, AudioStreamOut.selectWriter]

@[simp] theorem Stream_stopIfStarted_getReader (h : Hal) (s : StreamId) (p2 : Port) :
    getReader (Stream.stopIfStarted h s) p2 = getReader h p2 := by
  simp only [Stream.stopIfStarted, Stream.isStarted]
  (try split_ifs) <;> first | rfl | (cases w2 <;> rfl) | simp_all [removeStream_of_not_mem, AudioStreamOut.selectWriter]

@[simp] theorem PcmWriter_unregisterIfRegistered_hw_started (h : Hal) (w : WriterRef) (s : StreamId) :
    (PcmWriter.unregisterIfRegistered h w s).hw.started = h.hw.started := by
  simp only [PcmWriter.unregisterIfRegistered, PcmWriter.isStreamRegistered]
  (try split_ifs) <;> first | rfl | (cases w2 <;> rfl) | simp_all [removeStream_of_not_mem, AudioStreamOut.selectWriter]

@[simp] theorem PcmWriter_unregisterIfRegistered_hw_mMode (h : Hal) (w : WriterRef) (s : StreamId) :
    (PcmWriter.unregisterIfRegistered h w s).hw.mMode = h.hw.mMode := by
  simp only [PcmWriter.unregisterIfRegistered, PcmWriter.isStreamRegistered]
  (try split_ifs) <;> first | rfl | (cases w2 <;> rfl) | simp_all [removeStream_of_not_mem, AudioStreamOut.selectWriter]

@[simp] theorem PcmWriter_unregisterIfRegistered_hw_mMediaPortId (h : Hal) (w : WriterRef) (s : StreamId) :
    (PcmWriter.unregisterIfRegistered h w s).hw.mMediaPortId = h.hw.mMediaPortId := by
  simp only [PcmWriter.unregisterIfRegistered, PcmWriter.isStreamRegistered]
  (try split_ifs) <;> first | rfl | (cases w2 <;> rfl) | simp_all [removeStream_of_not_mem, AudioStreamOut.selectWriter]

@[simp] theorem PcmWriter_unregisterIfRegistered_hw_mPrimaryStreamOut (h : Hal) (w : WriterRef) (s : StreamId) :
    (PcmWriter.unregisterIfRegistered h w s).hw.mPrimaryStreamOut = h.hw.mPrimaryStreamOut := by
  simp only [PcmWriter.unregisterIfRegistered, PcmWriter.isStreamRegistered]
  (try split_ifs) <;> first | rfl | (cases w2 <;> rfl) | simp_all [removeStream_of_not_mem, AudioStreamOut.selectWriter]

@[simp] theorem PcmWriter_unregisterIfRegistered_hw_mMixer (h : Hal) (w : WriterRef) (s : StreamId) :
    (PcmWriter.unregisterIfRegistered h w s).hw.mMixer = h.hw.mMixer := by
  simp only [PcmWriter.unregisterIfRegistered, PcmWriter.isStreamRegistered]
  (try split_ifs) <;> first | rfl | (cases w2 <;> rfl) | simp_all [removeStream_of_not_mem, AudioStreamOut.selectWriter]

@[simp] theorem PcmWriter_unregisterIfRegistered_hw_mMicMute (h : Hal) (w : WriterRef) (s : StreamId) :
    (PcmWriter.unregisterIfRegistered h w s).hw.mMicMute = h.hw.mMicMute := by
  simp only [PcmWriter.unregisterIfRegistered, PcmWriter.isStreamRegistered]
  (try split_ifs) <;> first | rfl | (cases w2 <;> rfl) | simp_all [removeStream_of_not_mem, AudioStreamOut.selectWriter]

@[simp] theorem PcmWriter_unregisterIfRegistered_hw_mULPipe (h : Hal) (w : WriterRef) (s : StreamId) :
    (PcmWriter.unregisterIfRegistered h w s).hw.mULPipe = h.hw.mULPipe := by
  simp only [PcmWriter.unregisterIfRegistered, PcmWriter.isStreamRegistered]
  (try split_ifs) <;> first | rfl | (cases w2 <;> rfl) | simp_all [removeStream_of_not_mem, AudioStreamOut.selectWriter]

@[simp] theorem PcmWriter_unregisterIfRegistered_hw_mDLPipe (h : Hal) (w : WriterRef) (s : StreamId) :
    (PcmWriter.unregisterIfRegistered h w s).hw.mDLPipe = h.hw.mDLPipe := by
  simp only [PcmWriter.unregisterIfRegistered, PcmWriter.isStreamRegistered]
  (try split_ifs) <;> first | rfl | (cases w2 <;> rfl) | simp_all [removeStream_of_not_mem, AudioStreamOut.selectWriter]

@[simp] theorem PcmWriter_unregisterIfRegistered_out_mStandby (h : Hal) (w : WriterRef) (s : StreamId) :
    (PcmWriter.unregisterIfRegistered h w s).out.mStandby = h.out.mStandby := by
  simp only [PcmWriter.unregisterIfRegistered, PcmWriter.isStreamRegistered]
  (try split_ifs) <;> first | rfl | (cases w2 <;> rfl) | simp_all [removeStream_of_not_mem, AudioStreamOut.selectWriter]

@[simp] theorem PcmWriter_unregisterIfRegistered_out_mUsedForVoiceCall (h : Hal) (w : WriterRef) (s : StreamId) :
    (PcmWriter.unregisterIfRegistered h w s).out.mUsedForVoiceCall = h.out.mUsedForVoiceCall := by
  simp only [PcmWriter.unregisterIfRegistered, PcmWriter.isStreamRegistered]
  (try split_ifs) <;> first | rfl | (cases w2 <;> rfl) | simp_all [removeStream_of_not_mem, AudioStreamOut.selectWriter]

@[simp] theorem PcmWriter_unregisterIfRegistered_out_mWriter (h : Hal) (w : WriterRef) (s : StreamId) :
    (PcmWriter.unregisterIfRegistered h w s).out.mWriter = h.out.mWriter := by
  simp only [PcmWriter.unregisterIfRegistered, PcmWriter.isStreamRegistered]
  (try split_ifs) <;> first | rfl | (cases w2 <;> rfl) | simp_all [removeStream_of_not_mem, AudioStreamOut.selectWriter]

@[simp] theorem PcmWriter_unregisterIfRegistered_out_mParams (h : Hal) (w : WriterRef) (s : StreamId) :
    (PcmWriter.unregisterIfRegistered h w s).out.mParams = h.out.mParams := by
  simp only [PcmWriter.unregisterIfRegistered, PcmWriter.isStreamRegistered]
  (try split_ifs) <;> first | rfl | (cases w2 <;> rfl) | simp_all [removeStream_of_not_mem, AudioStreamOut.selectWriter]

@[simp] theorem PcmWriter_unregisterIfRegistered_out_mDevices (h : Hal) (w : WriterRef) (s : StreamId) :
    (PcmWriter.unregisterIfRegistered h w s).out.mDevices = h.out.mDevices := by
  simp only [PcmWriter.unregisterIfRegistered, PcmWriter.isStreamRegistered]
  (try split_ifs) <;> first | rfl | (cases w2 <;> rfl) | simp_all [removeStream_of_not_mem, AudioStreamOut.selectWriter]

@[simp] theorem PcmWriter_unregisterIfRegistered_inp (h : Hal) (w : WriterRef) (s : StreamId) :
    (PcmWriter.unregisterIfRegistered h w s).inp = h.inp := by
  simp only [PcmWriter.unregisterIfRegistered, PcmWriter.isStreamRegistered]
  (try split_ifs) <;> first | rfl | (cases w2 <;> rfl) | simp_all [removeStream_of_not_mem, AudioStreamOut.selectWriter]

@[simp] theorem PcmWriter_unregisterIfRegistered_trace (h : Hal) (w : WriterRef) (s : StreamId) :
    (PcmWriter.unregisterIfRegistered h w s).trace = if s ∈ getWriter h w then h.trace ++ [.unregisterWriter w s] else h.trace := by
  simp only [PcmWriter.unregisterIfRegistered, PcmWriter.isStreamRegistered]
  (try split_ifs) <;> first | rfl | (cases w2 <;> rfl) | simp_all [removeStream_of_not_mem, AudioStreamOut.selectWriter]

@[simp] theorem PcmWriter_unregisterIfRegistered_getWriter (h : Hal) (w : WriterRef) (s : StreamId) (w2 : WriterRef) :
    getWriter (PcmWriter.unregisterIfRegistered h w s) w2 = if w2 = w then removeStream (getWriter h w) s else getWriter h w2 := by
  simp only [PcmWriter.unregisterIfRegistered, PcmWriter.isStreamRegistered]
  (try split_ifs) <;> first | rfl | (cases w2 <;> rfl) | simp_all [removeStream_of_not_mem, AudioStreamOut.selectWriter]

@[simp] theorem PcmWriter_unregisterIfRegistered_getReader (h : Hal) (w : WriterRef) (s : StreamId) (p2 : Port) :
    getReader (PcmWriter.unregisterIfRegistered h w s) p2 = getReader h p2 := by
  simp only [PcmWriter.unregisterIfRegistered, PcmWriter.isStreamRegistered]
  (try split_ifs) <;> first | rfl | (cases w2 <;> rfl) | simp_all [removeStream_of_not_mem, AudioStreamOut.selectWriter]

@[simp] theorem PcmReader_unregisterIfRegistered_hw_started (h : Hal) (p : Port) (s : StreamId) :
    (PcmReader.unregisterIfRegistered h p s).hw.started = h.hw.started := by
  simp only [PcmReader.unregisterIfRegistered, PcmReader.isStreamRegistered]
  (try split_ifs) <;> first | rfl | (cases w2 <;> rfl) | simp_all [removeStream_of_not_mem, AudioStreamOut.selectWriter]

@[simp] theorem PcmReader_unregisterIfRegistered_hw_mMode (h : Hal) (p : Port) (s : StreamId) :
    (PcmReader.unregisterIfRegistered h p s).hw.mMode = h.hw.mMode := by
  simp only [PcmReader.unregisterIfRegistered, PcmReader.isStreamRegistered]
  (try split_ifs) <;> first | rfl | (cases w2 <;> rfl) | simp_all [removeStream_of_not_mem, AudioStreamOut.selectWriter]

@[simp] theorem PcmReader_unregisterIfRegistered_hw_mMediaPortId (h : Hal) (p : Port) (s : StreamId) :
    (PcmReader.unregisterIfRegistered h p s).hw.mMediaPortId = h.hw.mMediaPortId := by
  simp only [PcmReader.unregisterIfRegistered, PcmReader.isStreamRegistered]
  (try split_ifs) <;> first | rfl | (cases w2 <;> rfl) | simp_all [removeStream_of_not_mem, AudioStreamOut.selectWriter]

@[simp] theorem PcmReader_unregisterIfRegistered_hw_mPrimaryStreamOut (h : Hal) (p : Port) (s : StreamId) :
    (PcmReader.unregisterIfRegistered h p s).hw.mPrimaryStreamOut = h.hw.mPrimaryStreamOut := by
  simp only [PcmReader.unregisterIfRegistered, PcmReader.isStreamRegistered]
  (try split_ifs) <;> first | rfl | (cases w2 <;> rfl) | simp_all [removeStream_of_not_mem, AudioStreamOut.selectWriter]

@[simp] theorem PcmReader_unregisterIfRegistered_hw_mMixer (h : Hal) (p : Port) (s : StreamId) :
    (PcmReader.unregisterIfRegistered h p s).hw.mMixer = h.hw.mMixer := by
  simp only [PcmReader.unregisterIfRegistered, PcmReader.isStreamRegistered]
  (try split_ifs) <;> first | rfl | (cases w2 <;> rfl) | simp_all [removeStream_of_not_mem, AudioStreamOut.selectWriter]

@[simp] theorem PcmReader_unregisterIfRegistered_hw_mMicMute (h : Hal) (p : Port) (s : StreamId) :
    (PcmReader.unregisterIfRegistered h p s).hw.mMicMute = h.hw.mMicMute := by
  simp only [PcmReader.unregisterIfRegistered, PcmReader.isStreamRegistered]
  (try split_ifs) <;> first | rfl | (cases w2 <;> rfl) | simp_all [removeStream_of_not_mem, AudioStreamOut.selectWriter]

@[simp] theorem PcmReader_unregisterIfRegistered_hw_mULPipe (h : Hal) (p : Port) (s : StreamId) :
    (PcmReader.unregisterIfRegistered h p s).hw.mULPipe = h.hw.mULPipe := by
  simp only [PcmReader.unregisterIfRegistered, PcmReader.isStreamRegistered]
  (try split_ifs) <;> first | rfl | (cases w2 <;> rfl) | simp_all [removeStream_of_not_mem, AudioStreamOut.selectWriter]

@[simp] theorem PcmReader_unregisterIfRegistered_hw_mDLPipe (h : Hal) (p : Port) (s : StreamId) :
    (PcmReader.unregisterIfRegistered h p s).hw.mDLPipe = h.hw.mDLPipe := by
  simp only [PcmReader.unregisterIfRegistered, PcmReader.isStreamRegistered]
  (try split_ifs) <;> first | rfl | (cases w2 <;> rfl) | simp_all [removeStream_of_not_mem, AudioStreamOut.selectWriter]

@[simp] theorem PcmReader_unregisterIfRegistered_out_mStandby (h : Hal) (p : Port) (s : StreamId) :
    (PcmReader.unregisterIfRegistered h p s).out.mStandby = h.out.mStandby := by
  simp only [PcmReader.unregisterIfRegistered, PcmReader.isStreamRegistered]
  (try split_ifs) <;> first | rfl | (cases w2 <;> rfl) | simp_all [removeStream_of_not_mem, AudioStreamOut.selectWriter]

@[simp] theorem PcmReader_unregisterIfRegistered_out_mUsedForVoiceCall (h : Hal) (p : Port) (s : StreamId) :
    (PcmReader.unregisterIfRegistered h p s).out.mUsedForVoiceCall = h.out.mUsedForVoiceCall := by
  simp only [PcmReader.unregisterIfRegistered, PcmReader.isStreamRegistered]
  (try split_ifs) <;> first | rfl | (cases w2 <;> rfl) | simp_all [removeStream_of_not_mem, AudioStreamOut.selectWriter]

@[simp] theorem PcmReader_unregisterIfRegistered_out_mWriter (h : Hal) (p : Port) (s : StreamId) :
    (PcmReader.unregisterIfRegistered h p s).out.mWriter = h.out.mWriter := by
  simp only [PcmReader.unregisterIfRegistered, PcmReader.isStreamRegistered]
  (try split_ifs) <;> first | rfl | (cases w2 <;> rfl) | simp_all [removeStream_of_not_mem, AudioStreamOut.selectWriter]

@[simp] theorem PcmReader_unregisterIfRegistered_out_mParams (h : Hal) (p : Port) (s : StreamId) :
    (PcmReader.unregisterIfRegistered h p s).out.mParams = h.out.mParams := by
  simp only [PcmReader.unregisterIfRegistered, PcmReader.isStreamRegistered]
  (try split_ifs) <;> first | rfl | (cases w2 <;> rfl) | simp_all [removeStream_of_not_mem, AudioStreamOut.selectWriter]

@[simp] theorem PcmReader_unregisterIfRegistered_out_mDevices (h : Hal) (p : Port) (s : StreamId) :
    (PcmReader.unregisterIfRegistered h p s).out.mDevices = h.out.mDevices := by
  simp only [PcmReader.unregisterIfRegistered, PcmReader.isStreamRegistered]
  (try split_ifs) <;> first | rfl | (cases w2 <;> rfl) | simp_all [removeStream_of_not_mem, AudioStreamOut.selectWriter]

@[simp] theorem PcmReader_unregisterIfRegistered_inp (h : Hal) (p : Port) (s : StreamId) :
    (PcmReader.unregisterIfRegistered h p s).inp = h.inp := by
  simp only [PcmReader.unregisterIfRegistered, PcmReader.isStreamRegistered]
  (try split_ifs) <;> first | rfl | (cases w2 <;> rfl) | simp_all [removeStream_of_not_mem, AudioStreamOut.selectWriter]

@[simp] theorem PcmReader_unregisterIfRegistered_trace (h : Hal) (p : Port) (s : StreamId) :
    (PcmReader.unregisterIfRegistered h p s).trace = if s ∈ getReader h p then h.trace ++ [.unregisterReader p s] else h.trace := by
  simp only [PcmReader.unregisterIfRegistered, PcmReader.isStreamRegistered]
  (try split_ifs) <;> first | rfl | (cases w2 <;> rfl) | simp_all [removeStream_of_not_mem, AudioStreamOut.selectWriter]

@[simp] theorem PcmReader_unregisterIfRegistered_getWriter (h : Hal) (p : Port) (s : StreamId) (w2 : WriterRef) :
    getWriter (PcmReader.unregisterIfRegistered h p s) w2 = getWriter h w2 := by
  simp only [PcmReader.unregisterIfRegistered, PcmReader.isStreamRegistered]
  (try split_ifs) <;> first | rfl | (cases w2 <;> rfl) | simp_all [removeStream_of_not_mem, AudioStreamOut.selectWriter]

@[simp] theorem PcmReader_unregisterIfRegistered_getReader (h : Hal) (p : Port) (s : StreamId) (p2 : Port) :
    getReader (PcmReader.unregisterIfRegistered h p s) p2 = if p2 = p then removeStream (getReader h p) s else getReader h p2 := by
  simp only [PcmReader.unregisterIfRegistered, PcmReader.isStreamRegistered]
  (try split_ifs) <;> first | rfl | (cases w2 <;> rfl) | simp_all [removeStream_of_not_mem, AudioStreamOut.selectWriter]

@[simp] theorem AudioStreamOut_idle_hw_started (h : Hal) :
    (AudioStreamOut.idle h).hw.started = removeStream (h.hw.started) StreamId.media := by
  simp only [AudioStreamOut.idle, AudioStreamOut.selectWriter]
  (try split_ifs) <;> first | rfl | (cases w2 <;> rfl) | simp_all [removeStream_of_not_mem, AudioStreamOut.selectWriter]

@[simp] theorem AudioStreamOut_idle_hw_mMode (h : Hal) :
    (AudioStreamOut.idle h).hw.mMode = h.hw.mMode := by
  simp only [AudioStreamOut.idle, AudioStreamOut.selectWriter]
  (try split_ifs) <;> first | rfl | (cases w2 <;> rfl) | simp_all [removeStream_of_not_mem, AudioStreamOut.selectWriter]

@[simp] theorem AudioStreamOut_idle_hw_mMediaPortId (h : Hal) :
    (AudioStreamOut.idle h).hw.mMediaPortId = h.hw.mMediaPortId := by
  simp only [AudioStreamOut.idle, AudioStreamOut.selectWriter]
  (try split_ifs) <;> first | rfl | (cases w2 <;> rfl) | simp_all [removeStream_of_not_mem, AudioStreamOut.selectWriter]

@[simp] theorem AudioStreamOut_idle_hw_mPrimaryStreamOut (h : Hal) :
    (AudioStreamOut.idle h).hw.mPrimaryStreamOut = h.hw.mPrimaryStreamOut := by
  simp only [AudioStreamOut.idle, AudioStreamOut.selectWriter]
  (try split_ifs) <;> first | rfl | (cases w2 <;> rfl) | simp_all [removeStream_of_not_mem, AudioStreamOut.selectWriter]

@[simp] theorem AudioStreamOut_idle_hw_mMixer (h : Hal) :
    (AudioStreamOut.idle h).hw.mMixer = h.hw.mMixer := by
  simp only [AudioStreamOut.idle, AudioStreamOut.selectWriter]
  (try split_ifs) <;> first | rfl | (cases w2 <;> rfl) | simp_all [removeStream_of_not_mem, AudioStreamOut.selectWriter]

@[simp] theorem AudioStreamOut_idle_hw_mMicMute (h : Hal) :
    (AudioStreamOut.idle h).hw.mMicMute = h.hw.mMicMute := by
  simp only [AudioStreamOut.idle, AudioStreamOut.selectWriter]
  (try split_ifs) <;> first | rfl | (cases w2 <;> rfl) | simp_all [removeStream_of_not_mem, AudioStreamOut.selectWriter]

@[simp] theorem AudioStreamOut_idle_hw_mULPipe (h : Hal) :
    (AudioStreamOut.idle h).hw.mULPipe = h.hw.mULPipe := by
  simp only [AudioStreamOut.idle, AudioStreamOut.selectWriter]
  (try split_ifs) <;> first | rfl | (cases w2 <;> rfl) | simp_all [removeStream_of_not_mem, AudioStreamOut.selectWriter]

@[simp] theorem AudioStreamOut_idle_hw_mDLPipe (h : Hal) :
    (AudioStreamOut.idle h).hw.mDLPipe = h.hw.mDLPipe := by
  simp only [AudioStreamOut.idle, AudioStreamOut.selectWriter]
  (try split_ifs) <;> first | rfl | (cases w2 <;> rfl) | simp_all [removeStream_of_not_mem, AudioStreamOut.selectWriter]

@[simp] theorem AudioStreamOut_idle_out_mStandby (h : Hal) :
    (AudioStreamOut.idle h).out.mStandby = h.out.mStandby := by
  simp only [AudioStreamOut.idle, AudioStreamOut.selectWriter]
  (try split_ifs) <;> first | rfl | (cases w2 <;> rfl) | simp_all [removeStream_of_not_mem, AudioStreamOut.selectWriter]

@[simp] theorem AudioStreamOut_idle_out_mUsedForVoiceCall (h : Hal) :
    (AudioStreamOut.idle h).out.mUsedForVoiceCall = h.out.mUsedForVoiceCall := by
  simp only [AudioStreamOut.idle, AudioStreamOut.selectWriter]
  (try split_ifs) <;> first | rfl | (cases w2 <;> rfl) | simp_all [removeStream_of_not_mem, AudioStreamOut.selectWriter]

@[simp] theorem AudioStreamOut_idle_out_mWriter (h : Hal) :
    (AudioStreamOut.idle h).out.mWriter = h.out.mWriter := by
  simp only [AudioStreamOut.idle, AudioStreamOut.selectWriter]
  (try split_ifs) <;> first | rfl | (cases w2 <;> rfl) | simp_all [removeStream_of_not_mem, AudioStreamOut.selectWriter]

@[simp] theorem AudioStreamOut_idle_out_mParams (h : Hal) :
    (AudioStreamOut.idle h).out.mParams = h.out.mParams := by
  simp only [AudioStreamOut.idle, AudioStreamOut.selectWriter]
  (try split_ifs) <;> first | rfl | (cases w2 <;> rfl) | simp_all [removeStream_of_not_mem, AudioStreamOut.selectWriter]

@[simp] theorem AudioStreamOut_idle_out_mDevices (h : Hal) :
    (AudioStreamOut.idle h).out.mDevices = h.out.mDevices := by
  simp only [AudioStreamOut.idle, AudioStreamOut.selectWriter]
  (try split_ifs) <;> first | rfl | (cases w2 <;> rfl) | simp_all [removeStream_of_not_mem, AudioStreamOut.selectWriter]

@[simp] theorem AudioStreamOut_idle_inp (h : Hal) :
    (AudioStreamOut.idle h).inp = h.inp := by
  simp only [AudioStreamOut.idle, AudioStreamOut.selectWriter]
  (try split_ifs) <;> first | rfl | (cases w2 <;> rfl) | simp_all [removeStream_of_not_mem, AudioStreamOut.selectWriter]

@[simp] theorem AudioStreamOut_idle_trace (h : Hal) :
    (AudioStreamOut.idle h).trace = h.trace ++ [.streamStop .media, .unregisterWriter (AudioStreamOut.selectWriter h) .media] := by
  simp only [AudioStreamOut.idle, AudioStreamOut.selectWriter]
  (try split_ifs) <;> first | rfl | (cases w2 <;> rfl) | simp_all [removeStream_of_not_mem, AudioStreamOut.selectWriter]

@[simp] theorem AudioStreamOut_idle_getWriter (h : Hal) (w2 : WriterRef) :
    getWriter (AudioStreamOut.idle h) w2 = if w2 = AudioStreamOut.selectWriter h then removeStream (getWriter h w2) StreamId.media else getWriter h w2 := by
  simp only [AudioStreamOut.idle, AudioStreamOut.selectWriter]
  (try split_ifs) <;> first | rfl | (cases w2 <;> rfl) | simp_all [removeStream_of_not_mem, AudioStreamOut.selectWriter]

@[simp] theorem AudioStreamOut_idle_getReader (h : Hal) (p2 : Port) :
    getReader (AudioStreamOut.idle h) p2 = getReader h p2 := by
  simp only [AudioStreamOut.idle, AudioStreamOut.selectWriter]
  (try split_ifs) <;> first | rfl | (cases w2 <;> rfl) | simp_all [removeStream_of_not_mem, AudioStreamOut.selectWriter]

@[simp] theorem AudioStreamIn_idle_hw_started (h : Hal) :
    (AudioStreamIn.idle h).hw.started = removeStream (h.hw.started) StreamId.capture := by
  simp only [AudioStreamIn.idle]
  (try split_ifs) <;> first | rfl | (cases w2 <;> rfl) | simp_all [removeStream_of_not_mem, AudioStreamOut.selectWriter]

@[simp] theorem AudioStreamIn_idle_hw_mMode (h : Hal) :
    (AudioStreamIn.idle h).hw.mMode = h.hw.mMode := by
  simp only [AudioStreamIn.idle]
  (try split_ifs) <;> first | rfl | (cases w2 <;> rfl) | simp_all [removeStream_of_not_mem, AudioStreamOut.selectWriter]

@[simp] theorem AudioStreamIn_idle_hw_mMediaPortId (h : Hal) :
    (AudioStreamIn.idle h).hw.mMediaPortId = h.hw.mMediaPortId := by
  simp only [AudioStreamIn.idle]
  (try split_ifs) <;> first | rfl | (cases w2 <;> rfl) | simp_all [removeStream_of_not_mem, AudioStreamOut.selectWriter]

@[simp] theorem AudioStreamIn_idle_hw_mPrimaryStreamOut (h : Hal) :
    (AudioStreamIn.idle h).hw.mPrimaryStreamOut = h.hw.mPrimaryStreamOut := by
  simp only [AudioStreamIn.idle]
  (try split_ifs) <;> first | rfl | (cases w2 <;> rfl) | simp_all [removeStream_of_not_mem, AudioStreamOut.selectWriter]

@[simp] theorem AudioStreamIn_idle_hw_mMixer (h : Hal) :
    (AudioStreamIn.idle h).hw.mMixer = h.hw.mMixer := by
  simp only [AudioStreamIn.idle]
  (try split_ifs) <;> first | rfl | (cases w2 <;> rfl) | simp_all [removeStream_of_not_mem, AudioStreamOut.selectWriter]

@[simp] theorem AudioStreamIn_idle_hw_mMicMute (h : Hal) :
    (AudioStreamIn.idle h).hw.mMicMute = h.hw.mMicMute := by
  simp only [AudioStreamIn.idle]
  (try split_ifs) <;> first | rfl | (cases w2 <;> rfl) | simp_all [removeStream_of_not_mem, AudioStreamOut.selectWriter]

@[simp] theorem AudioStreamIn_idle_hw_mULPipe (h : Hal) :
    (AudioStreamIn.idle h).hw.mULPipe = h.hw.mULPipe := by
  simp only [AudioStreamIn.idle]
  (try split_ifs) <;> first | rfl | (cases w2 <;> rfl) | simp_all [removeStream_of_not_mem, AudioStreamOut.selectWriter]

@[simp] theorem AudioStreamIn_idle_hw_mDLPipe (h : Hal) :
    (AudioStreamIn.idle h).hw.mDLPipe = h.hw.mDLPipe := by
  simp only [AudioStreamIn.idle]
  (try split_ifs) <;> first | rfl | (cases w2 <;> rfl) | simp_all [removeStream_of_not_mem, AudioStreamOut.selectWriter]

@[simp] theorem AudioStreamIn_idle_out_mStandby (h : Hal) :
    (AudioStreamIn.idle h).out.mStandby = h.out.mStandby := by
  simp only [AudioStreamIn.idle]
  (try split_ifs) <;> first | rfl | (cases w2 <;> rfl) | simp_all [removeStream_of_not_mem, AudioStreamOut.selectWriter]

@[simp] theorem AudioStreamIn_idle_out_mUsedForVoiceCall (h : Hal) :
    (AudioStreamIn.idle h).out.mUsedForVoiceCall = h.out.mUsedForVoiceCall := by
  simp only [AudioStreamIn.idle]
  (try split_ifs) <;> first | rfl | (cases w2 <;> rfl) | simp_all [removeStream_of_not_mem, AudioStreamOut.selectWriter]

@[simp] theorem AudioStreamIn_idle_out_mWriter (h : Hal) :
    (AudioStreamIn.idle h).out.mWriter = h.out.mWriter := by
  simp only [AudioStreamIn.idle]
  (try split_ifs) <;> first | rfl | (cases w2 <;> rfl) | simp_all [removeStream_of_not_mem, AudioStreamOut.selectWriter]

@[simp] theorem AudioStreamIn_idle_out_mParams (h : Hal) :
    (AudioStreamIn.idle h).out.mParams = h.out.mParams := by
  simp only [AudioStreamIn.idle]
  (try split_ifs) <;> first | rfl | (cases w2 <;> rfl) | simp_all [removeStream_of_not_mem, AudioStreamOut.selectWriter]

@[simp] theorem AudioStreamIn_idle_out_mDevices (h : Hal) :
    (AudioStreamIn.idle h).out.mDevices = h.out.mDevices := by
  simp only [AudioStreamIn.idle]
  (try split_ifs) <;> first | rfl | (cases w2 <;> rfl) | simp_all [removeStream_of_not_mem, AudioStreamOut.selectWriter]

@[simp] theorem AudioStreamIn_idle_inp (h : Hal) :
    (AudioStreamIn.idle h).inp = h.inp := by
  simp only [AudioStreamIn.idle]
  (try split_ifs) <;> first | rfl | (cases w2 <;> rfl) | simp_all [removeStream_of_not_mem, AudioStreamOut.selectWriter]

@[simp] theorem AudioStreamIn_idle_trace (h : Hal) :
    (AudioStreamIn.idle h).trace = h.trace ++ [.streamStop .capture, .unregisterReader h.inp.mReader .capture] := by
  simp only [AudioStreamIn.idle]
  (try split_ifs) <;> first | rfl | (cases w2 <;> rfl) | simp_all [removeStream_of_not_mem, AudioStreamOut.selectWriter]

@[simp] theorem AudioStreamIn_idle_getWriter (h : Hal) (w2 : WriterRef) :
    getWriter (AudioStreamIn.idle h) w2 = getWriter h w2 := by
  simp only [AudioStreamIn.idle]
  (try split_ifs) <;> first | rfl | (cases w2 <;> rfl) | simp_all [removeStream_of_not_mem, AudioStreamOut.selectWriter]

@[simp] theorem AudioStreamIn_idle_getReader (h : Hal) (p2 : Port) :
    getReader (AudioStreamIn.idle h) p2 = if p2 = h.inp.mReader then removeStream (getReader h p2) StreamId.capture else getReader h p2 := by
  simp only [AudioStreamIn.idle]
  (try split_ifs) <;> first | rfl | (cases w2 <;> rfl) | simp_all [removeStream_of_not_mem, AudioStreamOut.selectWriter]

@[simp] theorem AudioStreamOut_setVoiceCall_hw_started (h : Hal) (b : Bool) :
    (AudioStreamOut.setVoiceCall h b).hw.started = if h.out.mUsedForVoiceCall ≠ b ∧ h.out.mStandby = false then removeStream (h.hw.started) StreamId.media else h.hw.started := by
  simp only [AudioStreamOut.setVoiceCall]
  (try split_ifs) <;> first | rfl | (cases w2 <;> rfl) | simp_all [removeStream_of_not_mem, AudioStreamOut.selectWriter]

@[simp] theorem AudioStreamOut_setVoiceCall_hw_mMode (h : Hal) (b : Bool) :
    (AudioStreamOut.setVoiceCall h b).hw.mMode = h.hw.mMode := by
  simp only [AudioStreamOut.setVoiceCall]
  (try split_ifs) <;> first | rfl | (cases w2 <;> rfl) | simp_all [removeStream_of_not_mem, AudioStreamOut.selectWriter]

@[simp] theorem AudioStreamOut_setVoiceCall_hw_mMediaPortId (h : Hal) (b : Bool) :
    (AudioStreamOut.setVoiceCall h b).hw.mMediaPortId = h.hw.mMediaPortId := by
  simp only [AudioStreamOut.setVoiceCall]
  (try split_ifs) <;> first | rfl | (cases w2 <;> rfl) | simp_all [removeStream_of_not_mem, AudioStreamOut.selectWriter]

@[simp] theorem AudioStreamOut_setVoiceCall_hw_mPrimaryStreamOut (h : Hal) (b : Bool) :
    (AudioStreamOut.setVoiceCall h b).hw.mPrimaryStreamOut = h.hw.mPrimaryStreamOut := by
  simp only [AudioStreamOut.setVoiceCall]
  (try split_ifs) <;> first | rfl | (cases w2 <;> rfl) | simp_all [removeStream_of_not_mem, AudioStreamOut.selectWriter]

@[simp] theorem AudioStreamOut_setVoiceCall_hw_mMixer (h : Hal) (b : Bool) :
    (AudioStreamOut.setVoiceCall h b).hw.mMixer = h.hw.mMixer := by
  simp only [AudioStreamOut.setVoiceCall]
  (try split_ifs) <;> first | rfl | (cases w2 <;> rfl) | simp_all [removeStream_of_not_mem, AudioStreamOut.selectWriter]

@[simp] theorem AudioStreamOut_setVoiceCall_hw_mMicMute (h : Hal) (b : Bool) :
    (AudioStreamOut.setVoiceCall h b).hw.mMicMute = h.hw.mMicMute := by
  simp only [AudioStreamOut.setVoiceCall]
  (try split_ifs) <;> first | rfl | (cases w2 <;> rfl) | simp_all [removeStream_of_not_mem, AudioStreamOut.selectWriter]

@[simp] theorem AudioStreamOut_setVoiceCall_hw_mULPipe (h : Hal) (b : Bool) :
    (AudioStreamOut.setVoiceCall h b).hw.mULPipe = h.hw.mULPipe := by
  simp only [AudioStreamOut.setVoiceCall]
  (try split_ifs) <;> first | rfl | (cases w2 <;> rfl) | simp_all [removeStream_of_not_mem, AudioStreamOut.selectWriter]

@[simp] theorem AudioStreamOut_setVoiceCall_hw_mDLPipe (h : Hal) (b : Bool) :
    (AudioStreamOut.setVoiceCall h b).hw.mDLPipe = h.hw.mDLPipe := by
  simp only [AudioStreamOut.setVoiceCall]
  (try split_ifs) <;> first | rfl | (cases w2 <;> rfl) | simp_all [removeStream_of_not_mem, AudioStreamOut.selectWriter]

@[simp] theorem AudioStreamOut_setVoiceCall_out_mStandby (h : Hal) (b : Bool) :
    (AudioStreamOut.setVoiceCall h b).out.mStandby = if h.out.mUsedForVoiceCall ≠ b then true else h.out.mStandby := by
  simp only [AudioStreamOut.setVoiceCall]
  (try split_ifs) <;> first | rfl | (cases w2 <;> rfl) | simp_all [removeStream_of_not_mem, AudioStreamOut.selectWriter]

@[simp] theorem AudioStreamOut_setVoiceCall_out_mUsedForVoiceCall (h : Hal) (b : Bool) :
    (AudioStreamOut.setVoiceCall h b).out.mUsedForVoiceCall = b := by
  simp only [AudioStreamOut.setVoiceCall]
  (try split_ifs) <;> first | rfl | (cases w2 <;> rfl) | simp_all [removeStream_of_not_mem, AudioStreamOut.selectWriter]

@[simp] theorem AudioStreamOut_setVoiceCall_out_mWriter (h : Hal) (b : Bool) :
    (AudioStreamOut.setVoiceCall h b).out.mWriter = h.out.mWriter := by
  simp only [AudioStreamOut.setVoiceCall]
  (try split_ifs) <;> first | rfl | (cases w2 <;> rfl) | simp_all [removeStream_of_not_mem, AudioStreamOut.selectWriter]

@[simp] theorem AudioStreamOut_setVoiceCall_out_mParams (h : Hal) (b : Bool) :
    (AudioStreamOut.setVoiceCall h b).out.mParams = h.out.mParams := by
  simp only [AudioStreamOut.setVoiceCall]
  (try split_ifs) <;> first | rfl | (cases w2 <;> rfl) | simp_all [removeStream_of_not_mem, AudioStreamOut.selectWriter]

@[simp] theorem AudioStreamOut_setVoiceCall_out_mDevices (h : Hal) (b : Bool) :
    (AudioStreamOut.setVoiceCall h b).out.mDevices = h.out.mDevices := by
  simp only [AudioStreamOut.setVoiceCall]
  (try split_ifs) <;> first | rfl | (cases w2 <;> rfl) | simp_all [removeStream_of_not_mem, AudioStreamOut.selectWriter]

@[simp] theorem AudioStreamOut_setVoiceCall_inp (h : Hal) (b : Bool) :
    (AudioStreamOut.setVoiceCall h b).inp = h.inp := by
  simp only [AudioStreamOut.setVoiceCall]
  (try split_ifs) <;> first | rfl | (cases w2 <;> rfl) | simp_all [removeStream_of_not_mem, AudioStreamOut.selectWriter]

@[simp] theorem AudioStreamOut_setVoiceCall_trace (h : Hal) (b : Bool) :
    (AudioStreamOut.setVoiceCall h b).trace = if h.out.mUsedForVoiceCall ≠ b ∧ h.out.mStandby = false then h.trace ++ [.streamStop .media, .unregisterWriter (AudioStreamOut.selectWriter h) .media] else h.trace := by
  simp only [AudioStreamOut.setVoiceCall]
  (try split_ifs) <;> first | rfl | (cases w2 <;> rfl) | simp_all [removeStream_of_not_mem, AudioStreamOut.selectWriter]

@[simp] theorem AudioStreamOut_setVoiceCall_getWriter (h : Hal) (b : Bool) (w2 : WriterRef) :
    getWriter (AudioStreamOut.setVoiceCall h b) w2 = if h.out.mUsedForVoiceCall ≠ b ∧ h.out.mStandby = false ∧ w2 = AudioStreamOut.selectWriter h then removeStream (getWriter h w2) StreamId.media else getWriter h w2 := by
  simp only [AudioStreamOut.setVoiceCall]
  (try split_ifs) <;> first | rfl | (cases w2 <;> rfl) | simp_all [removeStream_of_not_mem, AudioStreamOut.selectWriter]

@[simp] theorem AudioStreamOut_setVoiceCall_getReader (h : Hal) (b : Bool) (p2 : Port) :
    getReader (AudioStreamOut.setVoiceCall h b) p2 = getReader h p2 := by
  simp only [AudioStreamOut.setVoiceCall]
  (try split_ifs) <;> first | rfl | (cases w2 <;> rfl) | simp_all [removeStream_of_not_mem, AudioStreamOut.selectWriter]

end Multizone

namespace Multizone

/-! ## Leaving a voice call -/

theorem mem_getWriter_disableVoiceCall (h : Hal) (w : WriterRef) (x : StreamId) :
    x ∈ getWriter (AudioHwDevice.disableVoiceCall h) w ↔
      x ∈ getWriter h w ∧
      ¬ (h.hw.mPrimaryStreamOut = true ∧ w = .port h.out.mWriter ∧ x = .voiceDLOut) ∧
      ¬ (w = .port .bt ∧ x = .voiceULOut) ∧
      ¬ (h.hw.mPrimaryStreamOut = true ∧ h.out.mUsedForVoiceCall = true ∧
          h.out.mStandby = false ∧ w = .null ∧ x = .media) := by
  by_cases hp : h.hw.mPrimaryStreamOut = true
  · simp only [AudioHwDevice.disableVoiceCall, hp, if_true]
    by_cases hu : h.out.mUsedForVoiceCall = true <;>
    by_cases hsb : h.out.mStandby = true <;>
    simp [AudioStreamOut.selectWriter, hu, hsb] <;>
    split_ifs <;> simp_all <;> tauto
  · simp only [AudioHwDevice.disableVoiceCall, hp]
    simp
    split_ifs <;> simp_all

theorem mem_getReader_disableVoiceCall (h : Hal) (p : Port) (x : StreamId) :
    x ∈ getReader (AudioHwDevice.disableVoiceCall h) p ↔
      x ∈ getReader h p ∧ ¬ (p = .bt ∧ x = .voiceDLIn) ∧
      ¬ (p = h.hw.mMediaPortId ∧ x = .voiceULIn) := by
  by_cases hp : h.hw.mPrimaryStreamOut = true <;>
  simp [AudioHwDevice.disableVoiceCall, hp] <;>
  split_ifs <;> simp_all <;> tauto

theorem mem_started_disableVoiceCall (h : Hal) (x : StreamId) :
    x ∈ (AudioHwDevice.disableVoiceCall h).hw.started ↔
      x ∈ h.hw.started ∧
      ¬ (h.hw.mPrimaryStreamOut = true ∧ h.out.mUsedForVoiceCall = true ∧
          h.out.mStandby = false ∧ x = .media) := by
  by_cases hp : h.hw.mPrimaryStreamOut = true <;>
  simp [AudioHwDevice.disableVoiceCall, hp] <;>
  split_ifs <;> simp_all

@[simp] theorem disableVoiceCall_out_mUsedForVoiceCall (h : Hal) :
    (AudioHwDevice.disableVoiceCall h).out.mUsedForVoiceCall =
      if h.hw.mPrimaryStreamOut = true then false else h.out.mUsedForVoiceCall := by
  by_cases hp : h.hw.mPrimaryStreamOut = true <;> simp [AudioHwDevice.disableVoiceCall, hp]

@[simp] theorem disableVoiceCall_out_mStandby (h : Hal) :
    (AudioHwDevice.disableVoiceCall h).out.mStandby =
      if h.hw.mPrimaryStreamOut = true ∧ h.out.mUsedForVoiceCall = true then true
      else h.out.mStandby := by
  by_cases hp : h.hw.mPrimaryStreamOut = true <;>
  by_cases hu : h.out.mUsedForVoiceCall = true <;>
  simp [AudioHwDevice.disableVoiceCall, hp, hu]

@[simp] theorem disableVoiceCall_out_mWriter (h : Hal) :
    (AudioHwDevice.disableVoiceCall h).out.mWriter = h.out.mWriter := by
  by_cases hp : h.hw.mPrimaryStreamOut = true <;> simp [AudioHwDevice.disableVoiceCall, hp]

@[simp] theorem disableVoiceCall_hw_mMediaPortId (h : Hal) :
    (AudioHwDevice.disableVoiceCall h).hw.mMediaPortId = h.hw.mMediaPortId := by
  by_cases hp : h.hw.mPrimaryStreamOut = true <;> simp [AudioHwDevice.disableVoiceCall, hp]

@[simp] theorem disableVoiceCall_hw_mPrimaryStreamOut (h : Hal) :
    (AudioHwDevice.disableVoiceCall h).hw.mPrimaryStreamOut = h.hw.mPrimaryStreamOut := by
  by_cases hp : h.hw.mPrimaryStreamOut = true <;> simp [AudioHwDevice.disableVoiceCall, hp]

@[simp] theorem disableVoiceCall_hw_mMode (h : Hal) :
    (AudioHwDevice.disableVoiceCall h).hw.mMode = h.hw.mMode := by
  by_cases hp : h.hw.mPrimaryStreamOut = true <;> simp [AudioHwDevice.disableVoiceCall, hp]

@[simp] theorem disableVoiceCall_hw_mMixer (h : Hal) :
    (AudioHwDevice.disableVoiceCall h).hw.mMixer = h.hw.mMixer := by
  by_cases hp : h.hw.mPrimaryStreamOut = true <;> simp [AudioHwDevice.disableVoiceCall, hp]

theorem mem_getWriter_leaveVoiceCall (h : Hal) (w : WriterRef) (x : StreamId) :
    x ∈ getWriter (AudioHwDevice.leaveVoiceCall h) w ↔
      x ∈ getWriter h w ∧
      ¬ (h.hw.mPrimaryStreamOut = true ∧ w = .port h.out.mWriter ∧ x = .voiceDLOut) ∧
      ¬ (w = .port .bt ∧ x = .voiceULOut) ∧
      ¬ (h.hw.mPrimaryStreamOut = true ∧ h.out.mUsedForVoiceCall = true ∧
          h.out.mStandby = false ∧ w = .null ∧ x = .media) := by
  simp [AudioHwDevice.leaveVoiceCall, mem_getWriter_disableVoiceCall]

theorem mem_getReader_leaveVoiceCall (h : Hal) (p : Port) (x : StreamId) :
    x ∈ getReader (AudioHwDevice.leaveVoiceCall h) p ↔
      x ∈ getReader h p ∧ ¬ (p = .bt ∧ x = .voiceDLIn) ∧
      ¬ (p = h.hw.mMediaPortId ∧ x = .voiceULIn) := by
  simp [AudioHwDevice.leaveVoiceCall, mem_getReader_disableVoiceCall]

theorem mem_started_leaveVoiceCall (h : Hal) (x : StreamId) :
    x ∈ (AudioHwDevice.leaveVoiceCall h).hw.started ↔
      x ∈ h.hw.started ∧ x.isVoice = false ∧
      ¬ (h.hw.mPrimaryStreamOut = true ∧ h.out.mUsedForVoiceCall = true ∧
          h.out.mStandby = false ∧ x = .media) := by
  simp [AudioHwDevice.leaveVoiceCall, mem_started_disableVoiceCall]
  cases x <;> simp [StreamId.isVoice]

@[simp] theorem leaveVoiceCall_out_mUsedForVoiceCall (h : Hal) :
    (AudioHwDevice.leaveVoiceCall h).out.mUsedForVoiceCall =
      if h.hw.mPrimaryStreamOut = true then false else h.out.mUsedForVoiceCall := by
  simp [AudioHwDevice.leaveVoiceCall]

@[simp] theorem leaveVoiceCall_out_mStandby (h : Hal) :
    (AudioHwDevice.leaveVoiceCall h).out.mStandby =
      if h.hw.mPrimaryStreamOut = true ∧ h.out.mUsedForVoiceCall = true then true
      else h.out.mStandby := by
  simp [AudioHwDevice.leaveVoiceCall]

@[simp] theorem leaveVoiceCall_out_mWriter (h : Hal) :
    (AudioHwDevice.leaveVoiceCall h).out.mWriter = h.out.mWriter := by
  simp [AudioHwDevice.leaveVoiceCall]

@[simp] theorem leaveVoiceCall_hw_mMediaPortId (h : Hal) :
    (AudioHwDevice.leaveVoiceCall h).hw.mMediaPortId = h.hw.mMediaPortId := by
  simp [AudioHwDevice.leaveVoiceCall]

@[simp] theorem leaveVoiceCall_hw_mPrimaryStreamOut (h : Hal) :
    (AudioHwDevice.leaveVoiceCall h).hw.mPrimaryStreamOut = h.hw.mPrimaryStreamOut := by
  simp [AudioHwDevice.leaveVoiceCall]

@[simp] theorem leaveVoiceCall_hw_mMode (h : Hal) :
    (AudioHwDevice.leaveVoiceCall h).hw.mMode = h.hw.mMode := by
  simp [AudioHwDevice.leaveVoiceCall]

theorem voiceVolumeVal_one : voiceVolumeVal 1 = 118 := by
  norm_num [voiceVolumeVal, kVoiceDBMax, kVoiceDBMin, truncToInt]

@[simp] theorem leaveVoiceCall_hw_mMixer (h : Hal) :
    (AudioHwDevice.leaveVoiceCall h).hw.mMixer = ⟨false, 118, 118⟩ := by
  simp [AudioHwDevice.leaveVoiceCall, voiceVolumeVal_one]

end Multizone

namespace Multizone

/-! ## Entering a voice call -/

theorem mem_getWriter_registerWriter (env : Env) (h : Hal) (w w2 : WriterRef) (s x : StreamId)
    (hx : x ∈ getWriter (PcmWriter.registerStream env h w s).2 w2) :
    x ∈ getWriter h w2 ∨ (w2 = w ∧ x = s) := by
  rw [PcmWriter_registerStream_snd_getWriter] at hx
  split_ifs at hx with hc
  · rcases List.mem_cons.1 hx with e | e
    · exact Or.inr ⟨hc.1, e⟩
    · exact Or.inl (hc.1 ▸ e)
  · exact Or.inl hx

theorem mem_getReader_registerReader (env : Env) (h : Hal) (p p2 : Port) (s x : StreamId)
    (hx : x ∈ getReader (PcmReader.registerStream env h p s).2 p2) :
    x ∈ getReader h p2 ∨ (p2 = p ∧ x = s) := by
  rw [PcmReader_registerStream_snd_getReader] at hx
  split_ifs at hx with hc
  · rcases List.mem_cons.1 hx with e | e
    · exact Or.inr ⟨hc.1, e⟩
    · exact Or.inl (hc.1 ▸ e)
  · exact Or.inl hx

theorem mem_getWriter_registerVoiceStreams (env : Env) (h : Hal) (w : WriterRef) (x : StreamId)
    (hx : x ∈ getWriter (AudioHwDevice.registerVoiceStreams env h).2 w) :
    x ∈ getWriter h w ∨ (w = .port .bt ∧ x = .voiceULOut) ∨
      (w = .port h.out.mWriter ∧ x = .voiceDLOut) := by
  simp only [AudioHwDevice.registerVoiceStreams] at hx
  split_ifs at hx
  · simp only [PcmReader_registerStream_snd_getWriter] at hx
    exact Or.inl hx
  · rcases mem_getWriter_registerWriter _ _ _ _ _ _ hx with e | e
    · simp only [PcmReader_registerStream_snd_getWriter] at e
      exact Or.inl e
    · exact Or.inr (Or.inl e)
  · simp only [PcmReader_registerStream_snd_getWriter] at hx
    rcases mem_getWriter_registerWriter _ _ _ _ _ _ hx with e | e
    · simp only [PcmReader_registerStream_snd_getWriter] at e
      exact Or.inl e
    · exact Or.inr (Or.inl e)
  · rcases mem_getWriter_registerWriter _ _ _ _ _ _ hx with e | e
    · simp only [PcmReader_registerStream_snd_getWriter] at e
      rcases mem_getWriter_registerWriter _ _ _ _ _ _ e with e2 | e2
      · simp only [PcmReader_registerStream_snd_getWriter] at e2
        exact Or.inl e2
      · exact Or.inr (Or.inl e2)
    · simp only [PcmReader_registerStream_snd_out_mWriter,
        PcmWriter_registerStream_snd_out_mWriter] at e
      exact Or.inr (Or.inr e)

theorem mem_getReader_registerVoiceStreams (env : Env) (h : Hal) (p : Port) (x : StreamId)
    (hx : x ∈ getReader (AudioHwDevice.registerVoiceStreams env h).2 p) :
    x ∈ getReader h p ∨ (p = h.hw.mMediaPortId ∧ x = .voiceULIn) ∨
      (p = .bt ∧ x = .voiceDLIn) := by
  simp only [AudioHwDevice.registerVoiceStreams] at hx
  split_ifs at hx
  · rcases mem_getReader_registerReader _ _ _ _ _ _ hx with e | e
    · exact Or.inl e
    · exact Or.inr (Or.inl e)
  · simp only [PcmWriter_registerStream_snd_getReader] at hx
    rcases mem_getReader_registerReader _ _ _ _ _ _ hx with e | e
    · exact Or.inl e
    · exact Or.inr (Or.inl e)
  · rcases mem_getReader_registerReader _ _ _ _ _ _ hx with e | e
    · simp only [PcmWriter_registerStream_snd_getReader] at e
      rcases mem_getReader_registerReader _ _ _ _ _ _ e with e2 | e2
      · exact Or.inl e2
      · exact Or.inr (Or.inl e2)
    · exact Or.inr (Or.inr e)
  · simp only [PcmWriter_registerStream_snd_getReader] at hx
    rcases mem_getReader_registerReader _ _ _ _ _ _ hx with e | e
    · simp only [PcmWriter_registerStream_snd_getReader] at e
      rcases mem_getReader_registerReader _ _ _ _ _ _ e with e2 | e2
      · exact Or.inl e2
      · exact Or.inr (Or.inl e2)
    · exact Or.inr (Or.inr e)

@[simp] theorem registerVoiceStreams_out (env : Env) (h : Hal) :
    (AudioHwDevice.registerVoiceStreams env h).2.out.mWriter = h.out.mWriter ∧
    (AudioHwDevice.registerVoiceStreams env h).2.out.mStandby = h.out.mStandby ∧
    (AudioHwDevice.registerVoiceStreams env h).2.out.mUsedForVoiceCall =
      h.out.mUsedForVoiceCall ∧
    (AudioHwDevice.registerVoiceStreams env h).2.out.mParams = h.out.mParams ∧
    (AudioHwDevice.registerVoiceStreams env h).2.out.mDevices = h.out.mDevices := by
  simp only [AudioHwDevice.registerVoiceStreams]
  split_ifs <;> simp

@[simp] theorem registerVoiceStreams_hw (env : Env) (h : Hal) :
    (AudioHwDevice.registerVoiceStreams env h).2.hw.mMediaPortId = h.hw.mMediaPortId ∧
    (AudioHwDevice.registerVoiceStreams env h).2.hw.mPrimaryStreamOut =
      h.hw.mPrimaryStreamOut ∧
    (AudioHwDevice.registerVoiceStreams env h).2.hw.mMode = h.hw.mMode ∧
    (AudioHwDevice.registerVoiceStreams env h).2.hw.mMixer = h.hw.mMixer ∧
    (AudioHwDevice.registerVoiceStreams env h).2.hw.started = h.hw.started ∧
    (AudioHwDevice.registerVoiceStreams env h).2.hw.mMicMute = h.hw.mMicMute := by
  simp only [AudioHwDevice.registerVoiceStreams]
  split_ifs <;> simp

end Multizone

namespace Multizone

@[simp] theorem enableVoiceCall_consts (env : Env) (h : Hal) :
    (AudioHwDevice.enableVoiceCall env h).2.out.mWriter = h.out.mWriter ∧
    (AudioHwDevice.enableVoiceCall env h).2.out.mParams = h.out.mParams ∧
    (AudioHwDevice.enableVoiceCall env h).2.out.mDevices = h.out.mDevices ∧
    (AudioHwDevice.enableVoiceCall env h).2.hw.mMediaPortId = h.hw.mMediaPortId ∧
    (AudioHwDevice.enableVoiceCall env h).2.hw.mPrimaryStreamOut = h.hw.mPrimaryStreamOut ∧
    (AudioHwDevice.enableVoiceCall env h).2.hw.mMode = h.hw.mMode ∧
    (AudioHwDevice.enableVoiceCall env h).2.hw.mMixer = h.hw.mMixer ∧
    (AudioHwDevice.enableVoiceCall env h).2.hw.mMicMute = h.hw.mMicMute := by
  simp only [AudioHwDevice.enableVoiceCall]
  split_ifs <;> simp

@[simp] theorem enableVoiceCall_out_mUsedForVoiceCall (env : Env) (h : Hal) :
    (AudioHwDevice.enableVoiceCall env h).2.out.mUsedForVoiceCall =
      if h.hw.mPrimaryStreamOut = true then true else h.out.mUsedForVoiceCall := by
  simp only [AudioHwDevice.enableVoiceCall]
  split_ifs <;> simp_all

@[simp] theorem enableVoiceCall_out_mStandby (env : Env) (h : Hal) :
    (AudioHwDevice.enableVoiceCall env h).2.out.mStandby =
      if h.hw.mPrimaryStreamOut = true ∧ h.out.mUsedForVoiceCall = false then true
      else h.out.mStandby := by
  simp only [AudioHwDevice.enableVoiceCall]
  split_ifs <;> simp_all

theorem mem_getWriter_enableVoiceCall (env : Env) (h : Hal) (w : WriterRef) (x : StreamId)
    (hx : x ∈ getWriter (AudioHwDevice.enableVoiceCall env h).2 w) :
    (x ∈ getWriter h w ∧
      ¬ (h.hw.mPrimaryStreamOut = true ∧ h.out.mUsedForVoiceCall = false ∧
          h.out.mStandby = false ∧ w = .port h.out.mWriter ∧ x = .media)) ∨
    (h.hw.mPrimaryStreamOut = true ∧ w = .port .bt ∧ x = .voiceULOut) ∨
    (h.hw.mPrimaryStreamOut = true ∧ w = .port h.out.mWriter ∧ x = .voiceDLOut) := by
  simp only [AudioHwDevice.enableVoiceCall] at hx
  split_ifs at hx with hp
  · rcases mem_getWriter_registerVoiceStreams _ _ _ _ hx with e | e | e
    · left
      rw [AudioStreamOut_setVoiceCall_getWriter] at e
      split_ifs at e with hc
      · simp only [mem_removeStream] at e
        refine ⟨e.1, ?_⟩
        rintro ⟨-, -, -, -, hm⟩
        exact e.2 hm
      · refine ⟨e, ?_⟩
        rintro ⟨-, hu, hsb, hw, -⟩
        apply hc
        refine ⟨by simp [hu], hsb, ?_⟩
        simp [AudioStreamOut.selectWriter, hu, hw]
    · exact Or.inr (Or.inl ⟨hp, e⟩)
    · simp only [AudioStreamOut_setVoiceCall_out_mWriter] at e
      exact Or.inr (Or.inr ⟨hp, e⟩)
  · simp [hp, hx]

theorem mem_getReader_enableVoiceCall (env : Env) (h : Hal) (p : Port) (x : StreamId)
    (hx : x ∈ getReader (AudioHwDevice.enableVoiceCall env h).2 p) :
    x ∈ getReader h p ∨ (p = h.hw.mMediaPortId ∧ x = .voiceULIn) ∨
      (p = .bt ∧ x = .voiceDLIn) := by
  simp only [AudioHwDevice.enableVoiceCall] at hx
  split_ifs at hx with hp
  · simpa using mem_getReader_registerVoiceStreams _ _ _ _ hx
  · exact Or.inl hx

@[simp] theorem enterVoiceCall_getWriter (env : Env) (h : Hal) (w : WriterRef) :
    getWriter (AudioHwDevice.enterVoiceCall env h).2 w =
      getWriter (AudioHwDevice.enableVoiceCall env h).2 w := by
  simp only [AudioHwDevice.enterVoiceCall]
  split_ifs <;> simp

@[simp] theorem enterVoiceCall_getReader (env : Env) (h : Hal) (p : Port) :
    getReader (AudioHwDevice.enterVoiceCall env h).2 p =
      getReader (AudioHwDevice.enableVoiceCall env h).2 p := by
  simp only [AudioHwDevice.enterVoiceCall]
  split_ifs <;> simp

@[simp] theorem enterVoiceCall_consts (env : Env) (h : Hal) :
    (AudioHwDevice.enterVoiceCall env h).2.out.mWriter = h.out.mWriter ∧
    (AudioHwDevice.enterVoiceCall env h).2.out.mParams = h.out.mParams ∧
    (AudioHwDevice.enterVoiceCall env h).2.out.mDevices = h.out.mDevices ∧
    (AudioHwDevice.enterVoiceCall env h).2.hw.mMediaPortId = h.hw.mMediaPortId ∧
    (AudioHwDevice.enterVoiceCall env h).2.hw.mPrimaryStreamOut = h.hw.mPrimaryStreamOut ∧
    (AudioHwDevice.enterVoiceCall env h).2.hw.mMode = h.hw.mMode ∧
    (AudioHwDevice.enterVoiceCall env h).2.hw.mMicMute = h.hw.mMicMute := by
  simp only [AudioHwDevice.enterVoiceCall]
  split_ifs <;> simp

@[simp] theorem enterVoiceCall_out_mUsedForVoiceCall (env : Env) (h : Hal) :
    (AudioHwDevice.enterVoiceCall env h).2.out.mUsedForVoiceCall =
      if h.hw.mPrimaryStreamOut = true then true else h.out.mUsedForVoiceCall := by
  simp only [AudioHwDevice.enterVoiceCall]
  split_ifs <;> simp_all

@[simp] theorem enterVoiceCall_out_mStandby (env : Env) (h : Hal) :
    (AudioHwDevice.enterVoiceCall env h).2.out.mStandby =
      if h.hw.mPrimaryStreamOut = true ∧ h.out.mUsedForVoiceCall = false then true
      else h.out.mStandby := by
  simp only [AudioHwDevice.enterVoiceCall]
  split_ifs <;> simp_all

end Multizone

namespace Multizone

theorem setMode_enter_ok (env : Env) (h : Hal) (hmode : h.hw.mMode ≠ .IN_CALL)
    (hok : (AudioHwDevice.setMode env h .IN_CALL).1 = 0) :
    (AudioHwDevice.setMode env h .IN_CALL).2 =
      AudioHwDevice.assignMode (AudioHwDevice.enterVoiceCall env h).2 .IN_CALL := by
  simp only [AudioHwDevice.setMode, if_neg hmode, if_true] at hok ⊢
  split_ifs at hok ⊢ with h1
  · rfl
  · exact absurd hok h1

theorem setMode_leave (env : Env) (h : Hal) (m : audio_mode_t) (hm : m ≠ .IN_CALL)
    (hmode : h.hw.mMode ≠ m) :
    AudioHwDevice.setMode env h m =
      (0, AudioHwDevice.assignMode (AudioHwDevice.leaveVoiceCall h) m) := by
  simp [AudioHwDevice.setMode, hm, hmode]

theorem mem_getWriter_round_trip (env : Env) (h : Hal) (m1 m2 : audio_mode_t)
    (hprim : h.hw.mPrimaryStreamOut = true) (w : WriterRef) (x : StreamId)
    (hx : x ∈ getWriter (AudioHwDevice.assignMode (AudioHwDevice.leaveVoiceCall
      (AudioHwDevice.assignMode (AudioHwDevice.enterVoiceCall env h).2 m1)) m2) w) :
    x ∈ getWriter h w := by
  rw [AudioHwDevice_assignMode_getWriter, mem_getWriter_leaveVoiceCall] at hx
  obtain ⟨hw1, hw2, hw3, -⟩ := hx
  rw [AudioHwDevice_assignMode_getWriter, enterVoiceCall_getWriter] at hw1
  rcases mem_getWriter_enableVoiceCall _ _ _ _ hw1 with e | e | e
  · exact e.1
  · exact absurd ⟨e.2.1, e.2.2⟩ hw3
  · refine absurd ?_ hw2
    simp [hprim, e.2.1, e.2.2]

theorem mem_getReader_round_trip (env : Env) (h : Hal) (m1 m2 : audio_mode_t)
    (p : Port) (x : StreamId)
    (hx : x ∈ getReader (AudioHwDevice.assignMode (AudioHwDevice.leaveVoiceCall
      (AudioHwDevice.assignMode (AudioHwDevice.enterVoiceCall env h).2 m1)) m2) p) :
    x ∈ getReader h p := by
  rw [AudioHwDevice_assignMode_getReader, mem_getReader_leaveVoiceCall] at hx
  obtain ⟨hp1, hp2, hp3⟩ := hx
  rw [AudioHwDevice_assignMode_getReader, enterVoiceCall_getReader] at hp1
  rcases mem_getReader_enableVoiceCall _ _ _ _ hp1 with e | e | e
  · exact e
  · refine absurd ?_ hp3
    simp [e.1, e.2]
  · exact absurd e hp2

theorem round_trip_fields (env : Env) (h : Hal) (m1 m2 : audio_mode_t)
    (hprim : h.hw.mPrimaryStreamOut = true) :
    (AudioHwDevice.assignMode (AudioHwDevice.leaveVoiceCall
      (AudioHwDevice.assignMode (AudioHwDevice.enterVoiceCall env h).2 m1)) m2).out.mUsedForVoiceCall
        = false ∧
    (AudioHwDevice.assignMode (AudioHwDevice.leaveVoiceCall
      (AudioHwDevice.assignMode (AudioHwDevice.enterVoiceCall env h).2 m1)) m2).out.mWriter
        = h.out.mWriter ∧
    (AudioHwDevice.assignMode (AudioHwDevice.leaveVoiceCall
      (AudioHwDevice.assignMode (AudioHwDevice.enterVoiceCall env h).2 m1)) m2).hw.mMode = m2 ∧
    (AudioHwDevice.assignMode (AudioHwDevice.leaveVoiceCall
      (AudioHwDevice.assignMode (AudioHwDevice.enterVoiceCall env h).2 m1)) m2).hw.mMixer
        = ⟨false, 118, 118⟩ := by
  simp [hprim]

theorem not_mem_started_round_trip (h : Hal) (m2 : audio_mode_t) (x : StreamId)
    (hv : x.isVoice = true) :
    x ∉ (AudioHwDevice.assignMode (AudioHwDevice.leaveVoiceCall h) m2).hw.started := by
  rw [AudioHwDevice_assignMode_hw_started, mem_started_leaveVoiceCall]
  rintro ⟨-, hf, -⟩
  rw [hv] at hf
  exact absurd hf (by decide)

end Multizone


namespace Multizone

/-! ## Effects of `resume`, `write` and `standby` on the observables -/

theorem resume_fst_eq_zero_iff (env : Env) (h : Hal) :
    (AudioStreamOut.resume env h).1 = 0 ↔
      (StreamId.media ∉ getWriter h (AudioStreamOut.selectWriter h) ∧
        env.writerStatus (AudioStreamOut.selectWriter h) .media = 0 ∧
        env.startStatus .media = 0) := by
  simp only [AudioStreamOut.resume]
  split_ifs with h1 h2
  · simp only [PcmWriter_registerStream_fst] at h1 ⊢
    split_ifs at h1 ⊢ with hm
    · simp [hm, AlreadyRegistered, EINVAL]
    · simp [hm, h1]
  · simp only [PcmWriter_registerStream_fst, Stream_start_fst] at h1 h2 ⊢
    simp [h2]
  · simp only [PcmWriter_registerStream_fst, Stream_start_fst] at h1 h2 ⊢
    split_ifs at h1 with hm
    · simp [AlreadyRegistered, EINVAL] at h1
    · simp only [ne_eq, not_not] at h1 h2
      simp [hm, h1, h2]

theorem removeStream_cons_self (l : List StreamId) (s : StreamId) (hs : s ∉ l) :
    removeStream (s :: l) s = l := by
  have e : removeStream (s :: l) s = removeStream l s := by
    simp [removeStream, List.filter_cons]
  rw [e, removeStream_of_not_mem l s hs]

theorem resume_getWriter (env : Env) (h : Hal) (w : WriterRef) :
    getWriter (AudioStreamOut.resume env h).2 w =
      if (AudioStreamOut.resume env h).1 = 0 ∧ w = AudioStreamOut.selectWriter h then
        StreamId.media :: getWriter h w
      else getWriter h w := by
  simp only [resume_fst_eq_zero_iff]
  by_cases hm : StreamId.media ∈ getWriter h (AudioStreamOut.selectWriter h) <;>
  by_cases hws : env.writerStatus (AudioStreamOut.selectWriter h) .media = 0 <;>
  by_cases hst : env.startStatus .media = 0 <;>
  by_cases hw : w = AudioStreamOut.selectWriter h <;>
  simp [AudioStreamOut.resume, hm, hws, hst, hw, AlreadyRegistered, EINVAL,
    removeStream_cons_self]

@[simp] theorem resume_obs (env : Env) (h : Hal) :
    (AudioStreamOut.resume env h).2.out.mWriter = h.out.mWriter ∧
    (AudioStreamOut.resume env h).2.out.mStandby = h.out.mStandby ∧
    (AudioStreamOut.resume env h).2.out.mUsedForVoiceCall = h.out.mUsedForVoiceCall ∧
    (AudioStreamOut.resume env h).2.out.mParams = h.out.mParams ∧
    (AudioStreamOut.resume env h).2.out.mDevices = h.out.mDevices ∧
    (AudioStreamOut.resume env h).2.hw.mMode = h.hw.mMode ∧
    (AudioStreamOut.resume env h).2.hw.mPrimaryStreamOut = h.hw.mPrimaryStreamOut ∧
    (AudioStreamOut.resume env h).2.hw.mMediaPortId = h.hw.mMediaPortId := by
  simp only [AudioStreamOut.resume]
  split_ifs <;> simp

@[simp] theorem transfer_obs (env : Env) (h : Hal) (frames usecs bytes : Nat) :
    (AudioStreamOut.transfer env h frames usecs bytes).2.out = h.out ∧
    (AudioStreamOut.transfer env h frames usecs bytes).2.hw = h.hw ∧
    (AudioStreamOut.transfer env h frames usecs bytes).2.inp = h.inp := by
  simp only [AudioStreamOut.transfer]
  split_ifs <;> simp [emit]

@[simp] theorem transfer_getWriter (env : Env) (h : Hal) (frames usecs bytes : Nat)
    (w : WriterRef) :
    getWriter (AudioStreamOut.transfer env h frames usecs bytes).2 w = getWriter h w := by
  simp only [AudioStreamOut.transfer]
  split_ifs <;> simp

theorem write_getWriter (env : Env) (h : Hal) (bytes : Nat) (w : WriterRef) :
    getWriter (AudioStreamOut.write env h bytes).2 w =
      if h.out.mStandby = true ∧ (AudioStreamOut.resume env h).1 = 0 ∧
          w = AudioStreamOut.selectWriter h then
        StreamId.media :: getWriter h w
      else getWriter h w := by
  simp only [AudioStreamOut.write]
  split_ifs with h1 h2 h3 h4 h5 <;> simp_all [resume_getWriter]

theorem write_out (env : Env) (h : Hal) (bytes : Nat) :
    (AudioStreamOut.write env h bytes).2.out.mWriter = h.out.mWriter ∧
    (AudioStreamOut.write env h bytes).2.out.mUsedForVoiceCall = h.out.mUsedForVoiceCall ∧
    (AudioStreamOut.write env h bytes).2.out.mStandby =
      (if h.out.mStandby = true ∧ (AudioStreamOut.resume env h).1 = 0 then false
       else h.out.mStandby) := by
  simp only [AudioStreamOut.write]
  split_ifs with h1 h2 h3 h4 h5 <;> simp_all

theorem standby_getWriter (h : Hal) (w : WriterRef) :
    getWriter (AudioStreamOut.standby h).2 w =
      if h.out.mStandby = false ∧ w = AudioStreamOut.selectWriter h then
        removeStream (getWriter h w) .media
      else getWriter h w := by
  simp only [AudioStreamOut.standby]
  split_ifs with h1 h2 h3 <;> simp_all

theorem standby_out (h : Hal) :
    (AudioStreamOut.standby h).2.out.mWriter = h.out.mWriter ∧
    (AudioStreamOut.standby h).2.out.mUsedForVoiceCall = h.out.mUsedForVoiceCall ∧
    (AudioStreamOut.standby h).2.out.mStandby = true := by
  simp only [AudioStreamOut.standby]
  split_ifs with h1 <;> simp_all

/-! ## The registration discipline on the primary writer is an invariant -/

theorem MediaInv_initial (h : Hal) (hi : InitialHal h) : MediaInv h := by
  obtain ⟨-, -, -, hsb, hu, -, -, hwr, -, -, -⟩ := hi
  have hg : getWriter h (.port h.out.mWriter) = [] := by
    simp only [getWriter, hwr]
    cases h.out.mWriter <;> rfl
  simp [MediaInv, hg, hu]

theorem MediaInv_standby (h : Hal) (hi : MediaInv h) :
    MediaInv (AudioStreamOut.standby h).2 := by
  obtain ⟨ha, hb, hc⟩ := hi
  obtain ⟨e1, e2, e3⟩ := standby_out h
  unfold MediaInv
  rw [e1, e2, e3, standby_getWriter]
  by_cases hu : h.out.mUsedForVoiceCall = true <;>
  by_cases hs : h.out.mStandby = true <;>
  simp_all [AudioStreamOut.selectWriter]

theorem MediaInv_write (env : Env) (h : Hal) (bytes : Nat) (hi : MediaInv h) :
    MediaInv (AudioStreamOut.write env h bytes).2 := by
  obtain ⟨ha, hb, hc⟩ := hi
  obtain ⟨e1, e2, e3⟩ := write_out env h bytes
  unfold MediaInv
  rw [e1, e2, e3, write_getWriter]
  by_cases hu : h.out.mUsedForVoiceCall = true <;>
  by_cases hs : h.out.mStandby = true <;>
  by_cases hr : (AudioStreamOut.resume env h).1 = 0 <;>
  simp_all [AudioStreamOut.selectWriter]

end Multizone

namespace Multizone

theorem MediaInv_assignMode (h : Hal) (m : audio_mode_t) (hi : MediaInv h) :
    MediaInv (AudioHwDevice.assignMode h m) := by
  unfold MediaInv at hi ⊢
  simpa using hi

theorem MediaInv_enterVoiceCall (env : Env) (h : Hal) (hi : MediaInv h) :
    MediaInv (AudioHwDevice.enterVoiceCall env h).2 := by
  obtain ⟨ha, hb, hc⟩ := hi
  unfold MediaInv
  simp only [enterVoiceCall_consts, enterVoiceCall_out_mUsedForVoiceCall,
    enterVoiceCall_out_mStandby, enterVoiceCall_getWriter]
  have hmedia : StreamId.media ∈ getWriter (AudioHwDevice.enableVoiceCall env h).2
      (.port h.out.mWriter) → h.hw.mPrimaryStreamOut = false ∧
        StreamId.media ∈ getWriter h (.port h.out.mWriter) := by
    intro hx
    rcases mem_getWriter_enableVoiceCall _ _ _ _ hx with e | e | e
    · obtain ⟨e1, e2⟩ := e
      have hu := ha e1
      by_cases hp : h.hw.mPrimaryStreamOut = true
      · by_cases hs : h.out.mStandby = true
        · exact absurd e1 (hc hs)
        · simp only [Bool.not_eq_true] at hs
          exact absurd ⟨hp, hu, hs, rfl, rfl⟩ e2
      · simp only [Bool.not_eq_true] at hp
        exact ⟨hp, e1⟩
    · exact absurd e.2.2 (by decide)
    · exact absurd e.2.2 (by decide)
  refine ⟨?_, ?_, ?_⟩
  · intro hx
    obtain ⟨hp, hm⟩ := hmedia hx
    simp [hp, ha hm]
  · intro hx
    rcases mem_getWriter_enableVoiceCall _ _ _ _ hx with e | e | e
    · simp [hb e.1]
    · exact absurd e.2.2 (by decide)
    · simp [e.1]
  · intro hs hx
    obtain ⟨hp, hm⟩ := hmedia hx
    simp only [hp, Bool.false_eq_true, false_and, if_false] at hs
    exact hc hs hm

theorem MediaInv_leaveVoiceCall (h : Hal) (hi : MediaInv h) :
    MediaInv (AudioHwDevice.leaveVoiceCall h) := by
  obtain ⟨ha, hb, hc⟩ := hi
  unfold MediaInv
  simp only [leaveVoiceCall_out_mWriter, leaveVoiceCall_out_mUsedForVoiceCall,
    leaveVoiceCall_out_mStandby, mem_getWriter_leaveVoiceCall]
  refine ⟨?_, ?_, ?_⟩
  · rintro ⟨hx, -⟩
    simp [ha hx]
  · rintro ⟨hx, h1, -⟩
    have hp : ¬ h.hw.mPrimaryStreamOut = true := fun hp => h1 (by simp [hp])
    simp [hp, hb hx]
  · intro hs hx
    obtain ⟨hx, -⟩ := hx
    have hu := ha hx
    simp only [hu, Bool.false_eq_true, and_false, if_false] at hs
    exact hc hs hx

end Multizone


namespace Multizone

/-! ## Effects of the input stream facade -/

theorem in_resume_fst_eq_zero_iff (env : Env) (h : Hal) :
    (AudioStreamIn.resume env h).1 = 0 ↔
      (StreamId.capture ∉ getReader h h.inp.mReader ∧
        env.readerStatus h.inp.mReader .capture = 0 ∧ env.startStatus .capture = 0) := by
  simp only [AudioStreamIn.resume]
  split_ifs with h1 h2
  · simp only [PcmReader_registerStream_fst] at h1 ⊢
    split_ifs at h1 ⊢ with hm
    · simp [hm, AlreadyRegistered, EINVAL]
    · simp [hm, h1]
  · simp only [PcmReader_registerStream_fst, Stream_start_fst] at h1 h2 ⊢
    simp [h2]
  · simp only [PcmReader_registerStream_fst, Stream_start_fst] at h1 h2 ⊢
    split_ifs at h1 with hm
    · simp [AlreadyRegistered, EINVAL] at h1
    · simp only [ne_eq, not_not] at h1 h2
      simp [hm, h1, h2]

theorem in_resume_getReader (env : Env) (h : Hal) (p : Port) :
    getReader (AudioStreamIn.resume env h).2 p =
      if (AudioStreamIn.resume env h).1 = 0 ∧ p = h.inp.mReader then
        StreamId.capture :: getReader h p
      else getReader h p := by
  simp only [in_resume_fst_eq_zero_iff]
  by_cases hm : StreamId.capture ∈ getReader h h.inp.mReader <;>
  by_cases hws : env.readerStatus h.inp.mReader .capture = 0 <;>
  by_cases hst : env.startStatus .capture = 0 <;>
  by_cases hw : p = h.inp.mReader <;>
  simp [AudioStreamIn.resume, hm, hws, hst, hw, AlreadyRegistered, EINVAL,
    removeStream_cons_self]

@[simp] theorem in_resume_obs (env : Env) (h : Hal) :
    (AudioStreamIn.resume env h).2.inp = h.inp ∧
    (AudioStreamIn.resume env h).2.out.mWriter = h.out.mWriter ∧
    (AudioStreamIn.resume env h).2.out.mStandby = h.out.mStandby ∧
    (AudioStreamIn.resume env h).2.out.mUsedForVoiceCall = h.out.mUsedForVoiceCall ∧
    (AudioStreamIn.resume env h).2.hw.mMicMute = h.hw.mMicMute ∧
    (AudioStreamIn.resume env h).2.hw.mMode = h.hw.mMode := by
  simp only [AudioStreamIn.resume]
  split_ifs <;> simp

@[simp] theorem in_resume_getWriter (env : Env) (h : Hal) (w : WriterRef) :
    getWriter (AudioStreamIn.resume env h).2 w = getWriter h w := by
  simp only [AudioStreamIn.resume]
  split_ifs <;> simp

@[simp] theorem in_transfer_obs (env : Env) (h : Hal) (frames usecs : Nat) :
    (AudioStreamIn.transfer env h frames usecs).2.out = h.out ∧
    (AudioStreamIn.transfer env h frames usecs).2.hw = h.hw ∧
    (AudioStreamIn.transfer env h frames usecs).2.inp = h.inp := by
  simp only [AudioStreamIn.transfer]
  split_ifs <;> simp [emit]

@[simp] theorem in_transfer_getWriter (env : Env) (h : Hal) (frames usecs : Nat)
    (w : WriterRef) :
    getWriter (AudioStreamIn.transfer env h frames usecs).2 w = getWriter h w := by
  simp only [AudioStreamIn.transfer]
  split_ifs <;> simp

@[simp] theorem in_transfer_getReader (env : Env) (h : Hal) (frames usecs : Nat) (p : Port) :
    getReader (AudioStreamIn.transfer env h frames usecs).2 p = getReader h p := by
  simp only [AudioStreamIn.transfer]
  split_ifs <;> simp

@[simp] theorem transfer_getReader (env : Env) (h : Hal) (frames usecs bytes : Nat)
    (p : Port) :
    getReader (AudioStreamOut.transfer env h frames usecs bytes).2 p = getReader h p := by
  simp only [AudioStreamOut.transfer]
  split_ifs <;> simp

@[simp] theorem resume_getReader (env : Env) (h : Hal) (p : Port) :
    getReader (AudioStreamOut.resume env h).2 p = getReader h p := by
  simp only [AudioStreamOut.resume]
  split_ifs <;> simp

@[simp] theorem resume_inp (env : Env) (h : Hal) :
    (AudioStreamOut.resume env h).2.inp = h.inp := by
  simp only [AudioStreamOut.resume]
  split_ifs <;> simp

theorem read_getReader (env : Env) (h : Hal) (bytes : Nat) (p : Port) :
    getReader (AudioStreamIn.read env h bytes).2 p =
      if h.inp.mStandby = true ∧ (AudioStreamIn.resume env h).1 = 0 ∧ p = h.inp.mReader then
        StreamId.capture :: getReader h p
      else getReader h p := by
  simp only [AudioStreamIn.read]
  split_ifs with h1 h2 h3 h4 h5 <;> simp_all [in_resume_getReader]

theorem read_obs (env : Env) (h : Hal) (bytes : Nat) :
    (AudioStreamIn.read env h bytes).2.out.mWriter = h.out.mWriter ∧
    (AudioStreamIn.read env h bytes).2.out.mUsedForVoiceCall = h.out.mUsedForVoiceCall ∧
    (AudioStreamIn.read env h bytes).2.out.mStandby = h.out.mStandby ∧
    (AudioStreamIn.read env h bytes).2.inp.mReader = h.inp.mReader ∧
    (AudioStreamIn.read env h bytes).2.inp.mStandby =
      (if h.inp.mStandby = true ∧ (AudioStreamIn.resume env h).1 = 0 then false
       else h.inp.mStandby) ∧
    ∀ w, getWriter (AudioStreamIn.read env h bytes).2 w = getWriter h w := by
  simp only [AudioStreamIn.read]
  split_ifs with h1 h2 h3 h4 h5 <;> simp_all

theorem in_standby_getReader (h : Hal) (p : Port) :
    getReader (AudioStreamIn.standby h).2 p =
      if h.inp.mStandby = false ∧ p = h.inp.mReader then
        removeStream (getReader h p) .capture
      else getReader h p := by
  simp only [AudioStreamIn.standby]
  split_ifs with h1 h2 h3 <;> simp_all

theorem in_standby_obs (h : Hal) :
    (AudioStreamIn.standby h).2.out.mWriter = h.out.mWriter ∧
    (AudioStreamIn.standby h).2.out.mUsedForVoiceCall = h.out.mUsedForVoiceCall ∧
    (AudioStreamIn.standby h).2.out.mStandby = h.out.mStandby ∧
    (AudioStreamIn.standby h).2.inp.mReader = h.inp.mReader ∧
    (AudioStreamIn.standby h).2.inp.mStandby = true ∧
    (AudioStreamIn.standby h).2.inp.mDevices = h.inp.mDevices ∧
    (AudioStreamIn.standby h).2.inp.mSource = h.inp.mSource ∧
    ∀ w, getWriter (AudioStreamIn.standby h).2 w = getWriter h w := by
  simp only [AudioStreamIn.standby]
  split_ifs with h1 <;> simp_all

theorem write_getReader (env : Env) (h : Hal) (bytes : Nat) (p : Port) :
    getReader (AudioStreamOut.write env h bytes).2 p = getReader h p ∧
    (AudioStreamOut.write env h bytes).2.inp = h.inp := by
  simp only [AudioStreamOut.write]
  split_ifs <;> simp

theorem standby_getReader (h : Hal) (p : Port) :
    getReader (AudioStreamOut.standby h).2 p = getReader h p ∧
    (AudioStreamOut.standby h).2.inp = h.inp ∧
    (AudioStreamOut.standby h).2.out.mDevices = h.out.mDevices := by
  simp only [AudioStreamOut.standby]
  split_ifs <;> simp

end Multizone

namespace Multizone

/-! ## Effects of `setParameters` -/

theorem out_setParameters_state (c : AudioDevices) (h : Hal) (routing : KeyLookup) :
    (AudioStreamOut.setParameters c h routing).2 = h ∨
    (AudioStreamOut.setParameters c h routing).2 = (AudioStreamOut.standby h).2 ∨
    (∃ d, (AudioStreamOut.setParameters c h routing).2 = AudioStreamOut.assignDevices h d) ∨
    (∃ d, (AudioStreamOut.setParameters c h routing).2 =
      AudioStreamOut.assignDevices (AudioStreamOut.standby h).2 d) := by
  simp only [AudioStreamOut.setParameters]
  split_ifs
  all_goals first
    | exact Or.inl rfl
    | exact Or.inr (Or.inl rfl)
    | exact Or.inr (Or.inr (Or.inl ⟨_, rfl⟩))
    | exact Or.inr (Or.inr (Or.inr ⟨_, rfl⟩))

theorem in_setParameters_state (c : AudioDevices) (h : Hal) (source routing : KeyLookup) :
    ∃ h0 : Hal, (h0 = h ∨ ∃ src, h0 = AudioStreamIn.assignSource h src) ∧
      ((AudioStreamIn.setParameters c h source routing).2 = h0 ∨
       (AudioStreamIn.setParameters c h source routing).2 = (AudioStreamIn.standby h0).2 ∨
       (∃ d, (AudioStreamIn.setParameters c h source routing).2 =
          AudioStreamIn.assignDevices h0 d) ∨
       (∃ d, (AudioStreamIn.setParameters c h source routing).2 =
          AudioStreamIn.assignDevices (AudioStreamIn.standby h0).2 d)) := by
  simp only [AudioStreamIn.setParameters]
  split_ifs
  all_goals first
    | exact ⟨_, Or.inl rfl, Or.inl rfl⟩
    | exact ⟨_, Or.inl rfl, Or.inr (Or.inl rfl)⟩
    | exact ⟨_, Or.inl rfl, Or.inr (Or.inr (Or.inl ⟨_, rfl⟩))⟩
    | exact ⟨_, Or.inl rfl, Or.inr (Or.inr (Or.inr ⟨_, rfl⟩))⟩
    | exact ⟨_, Or.inr ⟨_, rfl⟩, Or.inl rfl⟩
    | exact ⟨_, Or.inr ⟨_, rfl⟩, Or.inr (Or.inl rfl)⟩
    | exact ⟨_, Or.inr ⟨_, rfl⟩, Or.inr (Or.inr (Or.inl ⟨_, rfl⟩))⟩
    | exact ⟨_, Or.inr ⟨_, rfl⟩, Or.inr (Or.inr (Or.inr ⟨_, rfl⟩))⟩

/-! ## The standby discipline is an invariant -/

/-- Both disciplines together. -/
theorem HalInv_initial (h : Hal) (hi : InitialHal h) : MediaInv h ∧ StandbyInv h := by
  refine ⟨MediaInv_initial h hi, ?_⟩
  obtain ⟨-, -, -, hsb, hu, hsi, hrd, hwr, hnw, -, -⟩ := hi
  have hg : getWriter h .null = [] := hnw
  have hr : getReader h h.inp.mReader = [] := by
    simp only [getReader, hrd]
    cases h.inp.mReader <;> rfl
  simp [StandbyInv, hg, hr]

theorem HalInv_assignDevices_out (h : Hal) (d : Nat) (hi : MediaInv h ∧ StandbyInv h) :
    MediaInv (AudioStreamOut.assignDevices h d) ∧
      StandbyInv (AudioStreamOut.assignDevices h d) := by
  unfold MediaInv StandbyInv at hi ⊢
  simpa using hi

theorem HalInv_assignDevices_in (h : Hal) (d : Nat) (hi : MediaInv h ∧ StandbyInv h) :
    MediaInv (AudioStreamIn.assignDevices h d) ∧
      StandbyInv (AudioStreamIn.assignDevices h d) := by
  unfold MediaInv StandbyInv at hi ⊢
  simpa using hi

theorem HalInv_assignSource (h : Hal) (d : Nat) (hi : MediaInv h ∧ StandbyInv h) :
    MediaInv (AudioStreamIn.assignSource h d) ∧
      StandbyInv (AudioStreamIn.assignSource h d) := by
  unfold MediaInv StandbyInv at hi ⊢
  simpa using hi

theorem HalInv_assignMode (h : Hal) (m : audio_mode_t) (hi : MediaInv h ∧ StandbyInv h) :
    MediaInv (AudioHwDevice.assignMode h m) ∧ StandbyInv (AudioHwDevice.assignMode h m) := by
  unfold MediaInv StandbyInv at hi ⊢
  simpa using hi

theorem HalInv_standby (h : Hal) (hi : MediaInv h ∧ StandbyInv h) :
    MediaInv (AudioStreamOut.standby h).2 ∧ StandbyInv (AudioStreamOut.standby h).2 := by
  refine ⟨MediaInv_standby h hi.1, ?_⟩
  obtain ⟨⟨ha, hb, hc⟩, hd, he, hf⟩ := hi
  obtain ⟨e1, e2, e3⟩ := standby_out h
  obtain ⟨e4, e5, -⟩ := standby_getReader h h.inp.mReader
  unfold StandbyInv
  rw [e2, e3, e5, e4, standby_getWriter]
  by_cases hu : h.out.mUsedForVoiceCall = true <;>
  by_cases hs : h.out.mStandby = true <;>
  simp_all [AudioStreamOut.selectWriter]

theorem HalInv_write (env : Env) (h : Hal) (bytes : Nat) (hi : MediaInv h ∧ StandbyInv h) :
    MediaInv (AudioStreamOut.write env h bytes).2 ∧
      StandbyInv (AudioStreamOut.write env h bytes).2 := by
  refine ⟨MediaInv_write env h bytes hi.1, ?_⟩
  obtain ⟨⟨ha, hb, hc⟩, hd, he, hf⟩ := hi
  obtain ⟨e1, e2, e3⟩ := write_out env h bytes
  obtain ⟨e4, e5⟩ := write_getReader env h bytes h.inp.mReader
  unfold StandbyInv
  rw [e2, e3, e5, e4, write_getWriter]
  by_cases hu : h.out.mUsedForVoiceCall = true <;>
  by_cases hs : h.out.mStandby = true <;>
  by_cases hr : (AudioStreamOut.resume env h).1 = 0 <;>
  simp_all [AudioStreamOut.selectWriter]

theorem HalInv_in_standby (h : Hal) (hi : MediaInv h ∧ StandbyInv h) :
    MediaInv (AudioStreamIn.standby h).2 ∧ StandbyInv (AudioStreamIn.standby h).2 := by
  obtain ⟨⟨ha, hb, hc⟩, hd, he, hf⟩ := hi
  obtain ⟨e1, e2, e3, e4, e5, -, -, e6⟩ := in_standby_obs h
  unfold MediaInv StandbyInv
  rw [e1, e2, e3, e4, e5, e6, e6, in_standby_getReader]
  by_cases hs : h.inp.mStandby = true <;> simp_all

theorem HalInv_read (env : Env) (h : Hal) (bytes : Nat) (hi : MediaInv h ∧ StandbyInv h) :
    MediaInv (AudioStreamIn.read env h bytes).2 ∧
      StandbyInv (AudioStreamIn.read env h bytes).2 := by
  obtain ⟨⟨ha, hb, hc⟩, hd, he, hf⟩ := hi
  obtain ⟨e1, e2, e3, e4, e5, e6⟩ := read_obs env h bytes
  unfold MediaInv StandbyInv
  rw [e1, e2, e3, e4, e5, e6, e6, read_getReader]
  by_cases hs : h.inp.mStandby = true <;>
  by_cases hr : (AudioStreamIn.resume env h).1 = 0 <;>
  simp_all

theorem HalInv_out_setParameters (c : AudioDevices) (h : Hal) (routing : KeyLookup)
    (hi : MediaInv h ∧ StandbyInv h) :
    MediaInv (AudioStreamOut.setParameters c h routing).2 ∧
      StandbyInv (AudioStreamOut.setParameters c h routing).2 := by
  rcases out_setParameters_state c h routing with e | e | ⟨d, e⟩ | ⟨d, e⟩ <;> rw [e]
  · exact hi
  · exact HalInv_standby h hi
  · exact HalInv_assignDevices_out h d hi
  · exact HalInv_assignDevices_out _ d (HalInv_standby h hi)

theorem HalInv_in_setParameters (c : AudioDevices) (h : Hal) (source routing : KeyLookup)
    (hi : MediaInv h ∧ StandbyInv h) :
    MediaInv (AudioStreamIn.setParameters c h source routing).2 ∧
      StandbyInv (AudioStreamIn.setParameters c h source routing).2 := by
  obtain ⟨h0, hh0, hres⟩ := in_setParameters_state c h source routing
  have hi0 : MediaInv h0 ∧ StandbyInv h0 := by
    rcases hh0 with e | ⟨src, e⟩ <;> rw [e]
    · exact hi
    · exact HalInv_assignSource h src hi
  rcases hres with e | e | ⟨d, e⟩ | ⟨d, e⟩ <;> rw [e]
  · exact hi0
  · exact HalInv_in_standby h0 hi0
  · exact HalInv_assignDevices_in h0 d hi0
  · exact HalInv_assignDevices_in _ d (HalInv_in_standby h0 hi0)

end Multizone

namespace Multizone

@[simp] theorem registerVoiceStreams_inp (env : Env) (h : Hal) :
    (AudioHwDevice.registerVoiceStreams env h).2.inp = h.inp := by
  simp only [AudioHwDevice.registerVoiceStreams]
  split_ifs <;> simp

@[simp] theorem enableVoiceCall_inp (env : Env) (h : Hal) :
    (AudioHwDevice.enableVoiceCall env h).2.inp = h.inp := by
  simp only [AudioHwDevice.enableVoiceCall]
  split_ifs <;> simp

@[simp] theorem enterVoiceCall_inp (env : Env) (h : Hal) :
    (AudioHwDevice.enterVoiceCall env h).2.inp = h.inp := by
  simp only [AudioHwDevice.enterVoiceCall]
  split_ifs <;> simp

@[simp] theorem disableVoiceCall_inp (h : Hal) :
    (AudioHwDevice.disableVoiceCall h).inp = h.inp := by
  by_cases hp : h.hw.mPrimaryStreamOut = true <;> simp [AudioHwDevice.disableVoiceCall, hp]

@[simp] theorem leaveVoiceCall_inp (h : Hal) :
    (AudioHwDevice.leaveVoiceCall h).inp = h.inp := by
  simp [AudioHwDevice.leaveVoiceCall]

theorem StandbyInv_enterVoiceCall (env : Env) (h : Hal) (hi : MediaInv h ∧ StandbyInv h) :
    StandbyInv (AudioHwDevice.enterVoiceCall env h).2 := by
  obtain ⟨-, hd, he, hf⟩ := hi
  unfold StandbyInv
  simp only [enterVoiceCall_out_mUsedForVoiceCall, enterVoiceCall_out_mStandby,
    enterVoiceCall_getWriter, enterVoiceCall_getReader, enterVoiceCall_inp]
  have hnull : StreamId.media ∈ getWriter (AudioHwDevice.enableVoiceCall env h).2 .null →
      StreamId.media ∈ getWriter h .null := by
    intro hx
    rcases mem_getWriter_enableVoiceCall _ _ _ _ hx with e | e | e
    · exact e.1
    · exact absurd e.2.2 (by decide)
    · exact absurd e.2.2 (by decide)
  refine ⟨?_, ?_, ?_⟩
  · intro hx
    simp [hd (hnull hx)]
  · intro hs hx
    have hm := hnull hx
    have hu := hd hm
    simp only [hu, Bool.true_eq_false, and_false, if_false] at hs
    exact he hs hm
  · intro hs hx
    rcases mem_getReader_enableVoiceCall _ _ _ _ hx with e | e | e
    · exact hf hs e
    · exact absurd e.2 (by decide)
    · exact absurd e.2 (by decide)

theorem StandbyInv_leaveVoiceCall (h : Hal) (hi : MediaInv h ∧ StandbyInv h) :
    StandbyInv (AudioHwDevice.leaveVoiceCall h) := by
  obtain ⟨-, hd, he, hf⟩ := hi
  unfold StandbyInv
  simp only [leaveVoiceCall_out_mUsedForVoiceCall, leaveVoiceCall_out_mStandby,
    mem_getWriter_leaveVoiceCall, mem_getReader_leaveVoiceCall, leaveVoiceCall_inp]
  have key : ∀ hx : StreamId.media ∈ getWriter h .null,
      ¬ (h.hw.mPrimaryStreamOut = true ∧ h.out.mUsedForVoiceCall = true ∧
          h.out.mStandby = false ∧ True ∧ True) →
      h.hw.mPrimaryStreamOut = false := by
    intro hx hn
    by_cases hp : h.hw.mPrimaryStreamOut = true
    · exfalso
      apply hn
      refine ⟨hp, hd hx, ?_, trivial, trivial⟩
      by_cases hs : h.out.mStandby = true
      · exact absurd hx (he hs)
      · simpa using hs
    · simpa using hp
  refine ⟨?_, ?_, ?_⟩
  · rintro ⟨hx, -, -, hn⟩
    have hp := key hx hn
    simp [hp, hd hx]
  · intro hs
    rintro ⟨hx, -, -, hn⟩
    have hp := key hx hn
    simp only [hp, Bool.false_eq_true, false_and, if_false] at hs
    exact he hs hx
  · intro hs
    rintro ⟨hx, -⟩
    exact hf hs hx

theorem HalInv_setMode (env : Env) (h : Hal) (m : audio_mode_t)
    (hi : MediaInv h ∧ StandbyInv h) :
    MediaInv (AudioHwDevice.setMode env h m).2 ∧
      StandbyInv (AudioHwDevice.setMode env h m).2 := by
  have hE : MediaInv (AudioHwDevice.enterVoiceCall env h).2 ∧
      StandbyInv (AudioHwDevice.enterVoiceCall env h).2 :=
    ⟨MediaInv_enterVoiceCall env h hi.1, StandbyInv_enterVoiceCall env h hi⟩
  have hL : MediaInv (AudioHwDevice.leaveVoiceCall h) ∧
      StandbyInv (AudioHwDevice.leaveVoiceCall h) :=
    ⟨MediaInv_leaveVoiceCall h hi.1, StandbyInv_leaveVoiceCall h hi⟩
  simp only [AudioHwDevice.setMode]
  split_ifs with h1 h2 h3 h4
  · exact hi
  · exact HalInv_assignMode _ _ hE
  · exact hE
  · exact HalInv_assignMode _ _ hL
  · exact absurd rfl h4

theorem HalInv_of_reachable (h : Hal) (hr : Reachable h) : MediaInv h ∧ StandbyInv h := by
  induction hr with
  | init h hi => exact HalInv_initial h hi
  | next h env op _ ih =>
    cases op with
    | write bytes => exact HalInv_write env h bytes ih
    | standby => exact HalInv_standby h ih
    | outSetParameters c routing => exact HalInv_out_setParameters c h routing ih
    | read bytes => exact HalInv_read env h bytes ih
    | inStandby => exact HalInv_in_standby h ih
    | inSetParameters c source routing => exact HalInv_in_setParameters c h source routing ih
    | setMode mode => exact HalInv_setMode env h mode ih

theorem setVoiceCall_true_not_mem (h : Hal) (hi : MediaInv h) :
    StreamId.media ∉ getWriter (AudioStreamOut.setVoiceCall h true) (.port h.out.mWriter) := by
  obtain ⟨ha, hb, hc⟩ := hi
  rw [AudioStreamOut_setVoiceCall_getWriter]
  by_cases hu : h.out.mUsedForVoiceCall = true <;>
  by_cases hs : h.out.mStandby = true <;>
  simp_all [AudioStreamOut.selectWriter]

end Multizone

namespace Multizone

/-! ## `write` and `read` on a stream in standby -/

theorem resume_fst (env : Env) (h : Hal)
    (hm : StreamId.media ∉ getWriter h (AudioStreamOut.selectWriter h)) :
    (AudioStreamOut.resume env h).1 =
      if env.writerStatus (AudioStreamOut.selectWriter h) .media ≠ 0 then
        env.writerStatus (AudioStreamOut.selectWriter h) .media
      else env.startStatus .media := by
  by_cases hws : env.writerStatus (AudioStreamOut.selectWriter h) .media = 0 <;>
  by_cases hst : env.startStatus .media = 0 <;>
  simp [AudioStreamOut.resume, hm, hws, hst]

theorem in_resume_fst (env : Env) (h : Hal)
    (hm : StreamId.capture ∉ getReader h h.inp.mReader) :
    (AudioStreamIn.resume env h).1 =
      if env.readerStatus h.inp.mReader .capture ≠ 0 then
        env.readerStatus h.inp.mReader .capture
      else env.startStatus .capture := by
  by_cases hws : env.readerStatus h.inp.mReader .capture = 0 <;>
  by_cases hst : env.startStatus .capture = 0 <;>
  simp [AudioStreamIn.resume, hm, hws, hst]

theorem write_standby_fail (env : Env) (h : Hal) (bytes : Nat)
    (hsb : h.out.mStandby = true) (hf : (AudioStreamOut.resume env h).1 ≠ 0) :
    (AudioStreamOut.write env h bytes).1 = (AudioStreamOut.resume env h).1 ∧
    (AudioStreamOut.write env h bytes).2.out.mStandby = true ∧
    (∀ w, getWriter (AudioStreamOut.write env h bytes).2 w = getWriter h w) ∧
    (∀ n ret, Event.streamWrite n ret ∉
      (AudioStreamOut.write env h bytes).2.trace.drop h.trace.length) := by
  refine ⟨?_, ?_, ?_, ?_⟩
  · simp [AudioStreamOut.write, hsb, hf]
  · rw [(write_out env h bytes).2.2]
    simp [hsb, hf]
  · intro w
    rw [write_getWriter]
    simp [hf]
  · intro n ret
    simp only [AudioStreamOut.write, hsb, if_true, if_pos hf]
    by_cases hm : StreamId.media ∈ getWriter h (AudioStreamOut.selectWriter h) <;>
    by_cases hws : env.writerStatus (AudioStreamOut.selectWriter h) .media = 0 <;>
    by_cases hst : env.startStatus .media = 0 <;>
    simp [AudioStreamOut.resume, hm, hws, hst, AlreadyRegistered, EINVAL]

theorem write_standby_ok (env : Env) (h : Hal) (bytes : Nat)
    (hsb : h.out.mStandby = true) (hok : (AudioStreamOut.resume env h).1 = 0) :
    (AudioStreamOut.write env h bytes).2.out.mStandby = false ∧
    StreamId.media ∈
      getWriter (AudioStreamOut.write env h bytes).2 (AudioStreamOut.selectWriter h) ∧
    StreamId.media ∈ (AudioStreamOut.write env h bytes).2.hw.started ∧
    (AudioStreamOut.write env h bytes).2.trace.drop h.trace.length =
      [Event.registerWriter (AudioStreamOut.selectWriter h) .media 0,
       Event.streamStart .media 0,
       Event.streamWrite (u32 (h.out.mParams.bytesToFrames bytes))
        (env.writeResult (u32 (h.out.mParams.bytesToFrames bytes)))] ++
      (if env.writeResult (u32 (h.out.mParams.bytesToFrames bytes)) < 0 then
        [Event.usleep (u32 (u32 (h.out.mParams.bytesToFrames bytes) * 1000000) /
          h.out.mParams.sampleRate)]
       else []) := by
  obtain ⟨hm, hws, hst⟩ := (resume_fst_eq_zero_iff env h).1 hok
  refine ⟨?_, ?_, ?_, ?_⟩
  · rw [(write_out env h bytes).2.2]
    simp [hsb, hok]
  · rw [write_getWriter]
    simp [hsb, hok]
  · simp only [AudioStreamOut.write, hsb, if_true, hok]
    simp [AudioStreamOut.resume, hm, hws, hst, AudioStreamOut.transfer]
    split_ifs <;> simp [hm, hws, hst]
  · simp only [AudioStreamOut.write, hsb, if_true, hok]
    simp [AudioStreamOut.resume, hm, hws, hst, AudioStreamOut.transfer]
    split_ifs <;> simp [hm, hws, hst]

theorem read_standby_fail (env : Env) (h : Hal) (bytes : Nat)
    (hsb : h.inp.mStandby = true) (hf : (AudioStreamIn.resume env h).1 ≠ 0) :
    (AudioStreamIn.read env h bytes).1 = (AudioStreamIn.resume env h).1 ∧
    (AudioStreamIn.read env h bytes).2.inp.mStandby = true ∧
    (∀ p, getReader (AudioStreamIn.read env h bytes).2 p = getReader h p) ∧
    (∀ n ret, Event.streamRead n ret ∉
      (AudioStreamIn.read env h bytes).2.trace.drop h.trace.length) := by
  refine ⟨?_, ?_, ?_, ?_⟩
  · simp [AudioStreamIn.read, hsb, hf]
  · rw [(read_obs env h bytes).2.2.2.2.1]
    simp [hsb, hf]
  · intro p
    rw [read_getReader]
    simp [hf]
  · intro n ret
    simp only [AudioStreamIn.read, hsb, if_true, if_pos hf]
    by_cases hm : StreamId.capture ∈ getReader h h.inp.mReader <;>
    by_cases hws : env.readerStatus h.inp.mReader .capture = 0 <;>
    by_cases hst : env.startStatus .capture = 0 <;>
    simp [AudioStreamIn.resume, hm, hws, hst, AlreadyRegistered, EINVAL]

theorem read_standby_ok (env : Env) (h : Hal) (bytes : Nat)
    (hsb : h.inp.mStandby = true) (hok : (AudioStreamIn.resume env h).1 = 0) :
    (AudioStreamIn.read env h bytes).2.inp.mStandby = false ∧
    StreamId.capture ∈ getReader (AudioStreamIn.read env h bytes).2 h.inp.mReader ∧
    StreamId.capture ∈ (AudioStreamIn.read env h bytes).2.hw.started ∧
    ((AudioStreamIn.read env h bytes).2.trace.drop h.trace.length).take 3 =
      [Event.registerReader h.inp.mReader .capture 0,
       Event.streamStart .capture 0,
       Event.streamRead (u32 (h.inp.mParams.bytesToFrames bytes))
        (env.readResult (u32 (h.inp.mParams.bytesToFrames bytes)))] := by
  obtain ⟨hm, hws, hst⟩ := (in_resume_fst_eq_zero_iff env h).1 hok
  refine ⟨?_, ?_, ?_, ?_⟩
  · rw [(read_obs env h bytes).2.2.2.2.1]
    simp [hsb, hok]
  · rw [read_getReader]
    simp [hsb, hok]
  · simp only [AudioStreamIn.read, hsb, if_true, hok]
    simp [AudioStreamIn.resume, hm, hws, hst, AudioStreamIn.transfer]
    split_ifs <;> simp [hm, hws, hst]
  · simp only [AudioStreamIn.read, hsb, if_true, hok]
    simp [AudioStreamIn.resume, hm, hws, hst, AudioStreamIn.transfer]
    split_ifs <;> simp [hm, hws, hst]

end Multizone

namespace Multizone

/-! ## Device masks -/

theorem toU32_lt (x : Int) : toU32 x < 2 ^ 32 := by
  unfold toU32
  have h1 : (0 : Int) ≤ x % 2 ^ 32 := Int.emod_nonneg _ (by norm_num)
  have h2 : x % 2 ^ 32 < 2 ^ 32 := Int.emod_lt_of_pos _ (by norm_num)
  omega

theorem u32_lt (n : Nat) : u32 n < 2 ^ 32 := by
  unfold u32
  exact Nat.mod_lt _ (by norm_num)

theorem and_notU32_eq_zero_iff (d s : Nat) (hd : d < 2 ^ 32) :
    d &&& notU32 s = 0 ↔ ∀ i, d.testBit i = true → (u32 s).testBit i = true := by
  have hmask : (0xFFFFFFFF : Nat) = 2 ^ 32 - 1 := by norm_num
  unfold notU32
  rw [hmask]
  constructor
  · intro h i hi
    have hb := congrArg (fun n => n.testBit i) h
    simp only [Nat.testBit_and, Nat.testBit_xor, Nat.testBit_two_pow_sub_one,
      Nat.zero_testBit, hi, Bool.true_and] at hb
    have hlt : i < 32 := by
      by_contra hge
      have : d.testBit i = false :=
        Nat.testBit_lt_two_pow (lt_of_lt_of_le hd (Nat.pow_le_pow_right (by norm_num)
          (Nat.le_of_not_lt hge)))
      rw [this] at hi
      exact absurd hi (by decide)
    simp only [hlt, decide_True, Bool.true_xor, Bool.not_eq_false'] at hb
    exact hb
  · intro h
    apply Nat.eq_of_testBit_eq
    intro i
    simp only [Nat.testBit_and, Nat.testBit_xor, Nat.testBit_two_pow_sub_one,
      Nat.zero_testBit]
    by_cases hi : d.testBit i = true
    · have hs := h i hi
      have hlt : i < 32 := by
        by_contra hge
        have : d.testBit i = false :=
          Nat.testBit_lt_two_pow (lt_of_lt_of_le hd (Nat.pow_le_pow_right (by norm_num)
            (Nat.le_of_not_lt hge)))
        rw [this] at hi
        exact absurd hi (by decide)
      simp [hi, hs, hlt]
    · simp only [Bool.not_eq_true] at hi
      simp [hi]

end Multizone

namespace Multizone

theorem u32_getSupportedDevices (c : AudioDevices) :
    u32 (AudioHwDevice.getSupportedDevices c) = AudioHwDevice.getSupportedDevices c := by
  unfold AudioHwDevice.getSupportedDevices u32
  exact Nat.mod_mod _ _

end Multizone

namespace Legacy

/-! ## Truncate remix -/

theorem getD_set (buf : List UInt8) (n i : Nat) (v : UInt8) (hn : n < buf.length) :
    (buf.set n v).getD i 0 = if i = n then v else buf.getD i 0 := by
  simp only [List.getD_eq_getElem?_getD, List.getElem?_set]
  by_cases h : n = i
  · subst h
    simp [hn]
  · have h2 : ¬ i = n := fun e => h e.symm
    simp [h, h2]

theorem copy_bytes_length (d s : Nat) :
    ∀ (n c : Nat) (buf : List UInt8), (copy_bytes d s n c buf).length = buf.length := by
  intro n
  induction n with
  | zero => intro c buf; rfl
  | succ n ih =>
    intro c buf
    simp only [copy_bytes]
    rw [ih]
    simp

theorem copy_bytes_getD (d s : Nat) (hds : d ≤ s) :
    ∀ (n c : Nat) (buf : List UInt8) (i : Nat), s + c + n ≤ buf.length →
      (copy_bytes d s n c buf).getD i 0 =
        if d + c ≤ i ∧ i < d + c + n then buf.getD (s + (i - d)) 0 else buf.getD i 0 := by
  intro n
  induction n with
  | zero =>
    intro c buf i _
    have : ¬ (d + c ≤ i ∧ i < d + c + 0) := by omega
    rw [if_neg this]
    rfl
  | succ n ih =>
    intro c buf i hlen
    simp only [copy_bytes]
    have hdc : d + c < buf.length := by omega
    rw [ih (c + 1) _ i (by simp; omega)]
    by_cases h1 : d + (c + 1) ≤ i ∧ i < d + (c + 1) + n
    · have h2 : d + c ≤ i ∧ i < d + c + (n + 1) := by omega
      rw [if_pos h1, if_pos h2, getD_set _ _ _ _ hdc]
      have h3 : ¬ (s + (i - d) = d + c) := by omega
      rw [if_neg h3]
    · rw [if_neg h1, getD_set _ _ _ _ hdc]
      by_cases h4 : i = d + c
      · have h2 : d + c ≤ i ∧ i < d + c + (n + 1) := by omega
        rw [if_pos h4, if_pos h2, h4]
        congr 1
        omega
      · have h2 : ¬ (d + c ≤ i ∧ i < d + c + (n + 1)) := by omega
        rw [if_neg h4, if_neg h2]

theorem remove_channels_loop_length (inf outf : Nat) :
    ∀ (N d s : Nat) (buf : List UInt8),
      (remove_channels_loop inf outf N d s buf).length = buf.length := by
  intro N
  induction N with
  | zero => intro d s buf; rfl
  | succ N ih =>
    intro d s buf
    simp only [remove_channels_loop]
    rw [ih, copy_bytes_length]

/-- The loop started at frame `k` (destination `k * outf`, source `k * inf`) with `N` frames
left: earlier output is untouched, each of the `N` frames is compacted from the original
buffer, and nothing from the end of the compacted output on is touched. -/
theorem remove_channels_loop_getD (inf outf : Nat) (hlt : outf < inf) :
    ∀ (N k : Nat) (buf : List UInt8) (i : Nat), 1 ≤ k → (k + N) * inf ≤ buf.length →
      (remove_channels_loop inf outf N (k * outf) (k * inf) buf).getD i 0 =
        if k * outf ≤ i ∧ i < (k + N) * outf then
          buf.getD ((i / outf) * inf + i % outf) 0
        else buf.getD i 0 := by
  intro N
  induction N with
  | zero =>
    intro k buf i _ _
    have : ¬ (k * outf ≤ i ∧ i < (k + 0) * outf) := by
      simp only [Nat.add_zero]
      omega
    rw [if_neg this]
    rfl
  | succ N ih =>
    intro k buf i hk hlen
    simp only [remove_channels_loop]
    have e1 : k * outf + outf = (k + 1) * outf := by ring
    have e2 : k * inf + inf = (k + 1) * inf := by ring
    have hle : k * outf ≤ k * inf := Nat.mul_le_mul_left k (Nat.le_of_lt hlt)
    have hlen1 : (k + 1) * inf ≤ buf.length := by
      have : (k + 1) * inf ≤ (k + (N + 1)) * inf := Nat.mul_le_mul_right inf (by omega)
      omega
    have hcopy : ∀ j, (copy_bytes (k * outf) (k * inf) outf 0 buf).getD j 0 =
        if k * outf ≤ j ∧ j < k * outf + outf then buf.getD (k * inf + (j - k * outf)) 0
        else buf.getD j 0 := by
      intro j
      have := copy_bytes_getD (k * outf) (k * inf) hle outf 0 buf j (by
        rw [← e2] at hlen1; omega)
      simpa using this
    rw [e1, e2, ih (k + 1) _ i (by omega) (by
      rw [copy_bytes_length]
      have : k + 1 + N = k + (N + 1) := by omega
      rw [this]; exact hlen)]
    have e3 : k + 1 + N = k + (N + 1) := by omega
    rw [e3]
    by_cases h1 : (k + 1) * outf ≤ i ∧ i < (k + (N + 1)) * outf
    · have h2 : k * outf ≤ i ∧ i < (k + (N + 1)) * outf := by
        rw [← e1] at h1; omega
      rw [if_pos h1, if_pos h2, hcopy]
      have hout : 0 < outf := by
        rcases Nat.eq_zero_or_pos outf with h0 | h0
        · rw [h0] at h1; simp at h1
        · exact h0
      have hq : k + 1 ≤ i / outf := (Nat.le_div_iff_mul_le hout).2 h1.1
      have hsrc : (k + 1) * inf ≤ (i / outf) * inf := Nat.mul_le_mul_right inf hq
      have h3 : ¬ (k * outf ≤ i / outf * inf + i % outf ∧
          i / outf * inf + i % outf < k * outf + outf) := by
        rw [← e2] at hsrc
        omega
      rw [if_neg h3]
    · rw [if_neg h1, hcopy]
      by_cases h4 : k * outf ≤ i ∧ i < k * outf + outf
      · have h2 : k * outf ≤ i ∧ i < (k + (N + 1)) * outf := by
          refine ⟨h4.1, lt_of_lt_of_le h4.2 ?_⟩
          rw [e1]
          exact Nat.mul_le_mul_right outf (by omega)
        rw [if_pos h4, if_pos h2]
        have hout : 0 < outf := by omega
        have hq : i / outf = k := by
          apply Nat.div_eq_of_lt_le
          · exact h4.1
          · rw [← e1]; exact h4.2
        have hr : i % outf = i - k * outf := by
          have := Nat.div_add_mod i outf
          rw [hq] at this
          have e4 : outf * k = k * outf := Nat.mul_comm _ _
          omega
        rw [hq, hr]
      · have h2 : ¬ (k * outf ≤ i ∧ i < (k + (N + 1)) * outf) := by
          rw [← e1] at h1
          omega
        rw [if_neg h4, if_neg h2]

end Legacy
namespace Legacy

/-! ## Duplicate remix -/

theorem copy_sample_length (buf : List UInt8) (i j : Nat) :
    (copy_sample buf i j).length = buf.length := by
  simp [copy_sample]

theorem copy_sample_getD (buf : List UInt8) (i j x : Nat) (hi : 2 * i + 1 < buf.length) :
    (copy_sample buf i j).getD x 0 =
      if x = 2 * i then buf.getD (2 * j) 0
      else if x = 2 * i + 1 then buf.getD (2 * j + 1) 0
      else buf.getD x 0 := by
  unfold copy_sample
  rw [getD_set _ _ _ _ (by simp; omega), getD_set _ _ _ _ (by omega)]
  by_cases h1 : x = 2 * i
  · have h2 : ¬ x = 2 * i + 1 := by omega
    rw [if_neg h2, if_pos h1, if_pos h1]
  · rw [if_neg h1, if_neg h1]

theorem mono_frame_length (base : Nat) :
    ∀ (n i : Nat) (buf : List UInt8), (mono_frame base n i buf).length = buf.length := by
  intro n
  induction n with
  | zero => intro i buf; rfl
  | succ n ih =>
    intro i buf
    simp only [mono_frame]
    rw [ih, copy_sample_length]

/-- The inner loop of `mono_remix` from channel `i >= 1` on, `n` channels: the bytes of the
samples `base + i .. base + i + n - 1` become those of sample `base`, nothing else changes. -/
theorem mono_frame_getD (base : Nat) :
    ∀ (n i : Nat) (buf : List UInt8) (x : Nat), 1 ≤ i → 2 * (base + i + n) ≤ buf.length →
      (mono_frame base n i buf).getD x 0 =
        if 2 * (base + i) ≤ x ∧ x < 2 * (base + i + n) then buf.getD (2 * base + x % 2) 0
        else buf.getD x 0 := by
  intro n
  induction n with
  | zero =>
    intro i buf x _ _
    have : ¬ (2 * (base + i) ≤ x ∧ x < 2 * (base + i + 0)) := by omega
    rw [if_neg this]
    rfl
  | succ n ih =>
    intro i buf x hi hlen
    simp only [mono_frame]
    have hlen1 : 2 * (base + i) + 1 < buf.length := by omega
    rw [ih (i + 1) _ x (by omega) (by rw [copy_sample_length]; omega)]
    by_cases h1 : 2 * (base + (i + 1)) ≤ x ∧ x < 2 * (base + (i + 1) + n)
    · have h2 : 2 * (base + i) ≤ x ∧ x < 2 * (base + i + (n + 1)) := by omega
      rw [if_pos h1, if_pos h2, copy_sample_getD _ _ _ _ hlen1]
      have h3 : ¬ 2 * base + x % 2 = 2 * (base + i) := by omega
      have h4 : ¬ 2 * base + x % 2 = 2 * (base + i) + 1 := by omega
      rw [if_neg h3, if_neg h4]
    · rw [if_neg h1, copy_sample_getD _ _ _ _ hlen1]
      by_cases h5 : x = 2 * (base + i)
      · have h2 : 2 * (base + i) ≤ x ∧ x < 2 * (base + i + (n + 1)) := by omega
        rw [if_pos h5, if_pos h2]
        congr 1
        omega
      · rw [if_neg h5]
        by_cases h6 : x = 2 * (base + i) + 1
        · have h2 : 2 * (base + i) ≤ x ∧ x < 2 * (base + i + (n + 1)) := by omega
          rw [if_pos h6, if_pos h2]
          congr 1
          omega
        · have h2 : ¬ (2 * (base + i) ≤ x ∧ x < 2 * (base + i + (n + 1))) := by omega
          rw [if_neg h6, if_neg h2]

theorem mono_loop_length (out : Nat) :
    ∀ (n base : Nat) (buf : List UInt8), (mono_loop out n base buf).length = buf.length := by
  intro n
  induction n with
  | zero => intro base buf; rfl
  | succ n ih =>
    intro base buf
    simp only [mono_loop]
    rw [ih, mono_frame_length]

/-- One frame of `mono_remix` at frame index `k`: every byte of the frame becomes the byte of
the same parity of its first sample. -/
theorem mono_frame_frame (out k : Nat) (buf : List UInt8) (x : Nat) (hout : 1 ≤ out)
    (hlen : 2 * ((k + 1) * out) ≤ buf.length) :
    (mono_frame (k * out) (out - 1) 1 buf).getD x 0 =
      if 2 * (k * out) ≤ x ∧ x < 2 * ((k + 1) * out) then buf.getD (2 * (k * out) + x % 2) 0
      else buf.getD x 0 := by
  have e : (k + 1) * out = k * out + out := by ring
  rw [e] at hlen ⊢
  rw [mono_frame_getD (k * out) (out - 1) 1 buf x (le_refl 1) (by omega)]
  by_cases h1 : 2 * (k * out + 1) ≤ x ∧ x < 2 * (k * out + 1 + (out - 1))
  · have h2 : 2 * (k * out) ≤ x ∧ x < 2 * (k * out + out) := by omega
    rw [if_pos h1, if_pos h2]
  · rw [if_neg h1]
    by_cases h2 : 2 * (k * out) ≤ x ∧ x < 2 * (k * out + out)
    · rw [if_pos h2]
      congr 1
      omega
    · rw [if_neg h2]

/-- The loop of `mono_remix` started at frame `k` with `n` frames left: inside these frames
every byte becomes the byte of the same parity of the first sample of its frame, and nothing
else changes. -/
theorem mono_loop_getD (out : Nat) (hout : 1 ≤ out) :
    ∀ (n k : Nat) (buf : List UInt8) (x : Nat), 2 * ((k + n) * out) ≤ buf.length →
      (mono_loop out n (k * out) buf).getD x 0 =
        if 2 * (k * out) ≤ x ∧ x < 2 * ((k + n) * out) then
          buf.getD (2 * (x / 2 / out * out) + x % 2) 0
        else buf.getD x 0 := by
  intro n
  induction n with
  | zero =>
    intro k buf x _
    have : ¬ (2 * (k * out) ≤ x ∧ x < 2 * ((k + 0) * out)) := by
      simp only [Nat.add_zero]; omega
    rw [if_neg this]
    rfl
  | succ n ih =>
    intro k buf x hlen
    simp only [mono_loop]
    have e1 : k * out + out = (k + 1) * out := by ring
    have e3 : k + 1 + n = k + (n + 1) := by omega
    have hmono : (k + 1) * out ≤ (k + (n + 1)) * out := Nat.mul_le_mul_right out (by omega)
    have hlen1 : 2 * ((k + 1) * out) ≤ buf.length := by omega
    rw [e1, ih (k + 1) _ x (by rw [mono_frame_length, e3]; exact hlen), e3]
    by_cases h1 : 2 * ((k + 1) * out) ≤ x ∧ x < 2 * ((k + (n + 1)) * out)
    · have h2 : 2 * (k * out) ≤ x ∧ x < 2 * ((k + (n + 1)) * out) := by
        rw [← e1] at h1; omega
      rw [if_pos h1, if_pos h2, mono_frame_frame out k buf _ hout hlen1]
      have hq : k + 1 ≤ x / 2 / out := by
        apply (Nat.le_div_iff_mul_le (by omega)).2
        omega
      have hsrc : (k + 1) * out ≤ x / 2 / out * out := Nat.mul_le_mul_right out hq
      have h3 : ¬ (2 * (k * out) ≤ 2 * (x / 2 / out * out) + x % 2 ∧
          2 * (x / 2 / out * out) + x % 2 < 2 * ((k + 1) * out)) := by omega
      rw [if_neg h3]
    · rw [if_neg h1, mono_frame_frame out k buf _ hout hlen1]
      by_cases h4 : 2 * (k * out) ≤ x ∧ x < 2 * ((k + 1) * out)
      · have h2 : 2 * (k * out) ≤ x ∧ x < 2 * ((k + (n + 1)) * out) := by omega
        rw [if_pos h4, if_pos h2]
        have hq : x / 2 / out = k := by
          apply Nat.div_eq_of_lt_le
          · omega
          · rw [← e1] at h4 ⊢; omega
        rw [hq]
      · have h2 : ¬ (2 * (k * out) ≤ x ∧ x < 2 * ((k + (n + 1)) * out)) := by
          rw [← e1] at h1 h4 hmono
          omega
        rw [if_neg h4, if_neg h2]

end Legacy
namespace Legacy

/-- Two byte buffers of the same length with the same bytes are equal. -/
theorem ext_getD (l1 l2 : List UInt8) (hl : l1.length = l2.length)
    (h : ∀ x, l1.getD x 0 = l2.getD x 0) : l1 = l2 := by
  apply List.ext_getElem hl
  intro n h1 h2
  have := h n
  rwa [List.getD_eq_getElem _ _ h1, List.getD_eq_getElem _ _ h2] at this

theorem mono_loop_zero_chans :
    ∀ (n base : Nat) (buf : List UInt8), mono_loop 0 n base buf = buf := by
  intro n
  induction n with
  | zero => intro base buf; rfl
  | succ n ih =>
    intro base buf
    simp only [mono_loop, Nat.zero_sub, mono_frame]
    exact ih _ _

/-- What `mono_remix` leaves at byte `x` of a buffer that holds the `frames` frames. -/
theorem mono_remix_getD (data : buffer_remix) (buf : List UInt8) (frames x : Nat)
    (hlen : 2 * (frames * data.out_chans) ≤ buf.length) :
    (mono_remix data buf frames).getD x 0 =
      if x < 2 * (frames * data.out_chans) then
        buf.getD (2 * (x / 2 / data.out_chans * data.out_chans) + x % 2) 0
      else buf.getD x 0 := by
  unfold mono_remix
  by_cases hf : frames = 0
  · subst hf
    simp
  · rw [if_neg hf]
    rcases Nat.eq_zero_or_pos data.out_chans with h0 | hpos
    · rw [h0, mono_loop_zero_chans]
      simp
    · have h := mono_loop_getD data.out_chans hpos frames 0 buf x (by simpa using hlen)
      simp only [Nat.zero_mul, Nat.zero_add, Nat.mul_zero, Nat.zero_le, true_and] at h
      exact h

theorem mono_remix_length (data : buffer_remix) (buf : List UInt8) (frames : Nat) :
    (mono_remix data buf frames).length = buf.length := by
  unfold mono_remix
  split
  · rfl
  · exact mono_loop_length _ _ _ _

theorem remove_channels_from_buf_length (data : buffer_remix) (buf : List UInt8)
    (frames : Nat) : (remove_channels_from_buf data buf frames).length = buf.length := by
  unfold remove_channels_from_buf
  split
  · rfl
  · simp only
    split
    · rfl
    · exact remove_channels_loop_length _ _ _ _ _ _

/-- What `remove_channels_from_buf` leaves at byte `x` of a buffer that holds the `frames`
input frames, when it truncates (`out_frame < in_frame`, no wrap of the frame sizes). -/
theorem remove_channels_from_buf_getD (data : buffer_remix) (buf : List UInt8)
    (frames x : Nat) (hfr : 1 ≤ frames)
    (hlt : data.out_chans * data.sample_size < data.in_chans * data.sample_size)
    (hlen : frames * (data.in_chans * data.sample_size) ≤ buf.length)
    (hmem : buf.length < 2 ^ 32) :
    (remove_channels_from_buf data buf frames).getD x 0 =
      if x < frames * (data.out_chans * data.sample_size) then
        buf.getD (x / (data.out_chans * data.sample_size) * (data.in_chans * data.sample_size)
          + x % (data.out_chans * data.sample_size)) 0
      else buf.getD x 0 := by
  have hinf : data.in_chans * data.sample_size ≤ buf.length := by
    have h1 : 1 * (data.in_chans * data.sample_size) ≤
        frames * (data.in_chans * data.sample_size) := Nat.mul_le_mul_right _ hfr
    omega
  have ein : u32 (data.in_chans * data.sample_size) = data.in_chans * data.sample_size :=
    Nat.mod_eq_of_lt (by omega)
  have eout : u32 (data.out_chans * data.sample_size) = data.out_chans * data.sample_size :=
    Nat.mod_eq_of_lt (by omega)
  have hne : frames ≠ 0 := by omega
  have hdef : remove_channels_from_buf data buf frames =
      remove_channels_loop (data.in_chans * data.sample_size)
        (data.out_chans * data.sample_size) (frames - 1)
        (1 * (data.out_chans * data.sample_size)) (1 * (data.in_chans * data.sample_size))
        buf := by
    simp only [remove_channels_from_buf, if_neg hne, ein, eout, ge_iff_le,
      if_neg (Nat.not_le_of_lt hlt), Nat.one_mul]
  have e : 1 + (frames - 1) = frames := by omega
  rw [hdef, remove_channels_loop_getD _ _ hlt (frames - 1) 1 buf x (le_refl 1) (by rw [e]; exact hlen),
    e, Nat.one_mul]
  by_cases h1 : x < frames * (data.out_chans * data.sample_size)
  · rw [if_pos h1]
    by_cases h2 : data.out_chans * data.sample_size ≤ x
    · rw [if_pos ⟨h2, h1⟩]
    · rw [if_neg (fun h => h2 h.1)]
      have hx : x < data.out_chans * data.sample_size := by omega
      rw [Nat.div_eq_of_lt hx, Nat.mod_eq_of_lt hx, Nat.zero_mul, Nat.zero_add]
  · rw [if_neg h1, if_neg (fun h => h1 h.2)]

/-- Without a wrap of the frame sizes, `remove_channels_from_buf` returns at once when the
output frame is not smaller than the input frame. -/
theorem remove_channels_from_buf_eq_self (data : buffer_remix) (buf : List UInt8)
    (frames : Nat) (hin : data.in_chans * data.sample_size < 2 ^ 32)
    (hout : data.out_chans * data.sample_size < 2 ^ 32)
    (hge : ¬ data.out_chans * data.sample_size < data.in_chans * data.sample_size) :
    remove_channels_from_buf data buf frames = buf := by
  have ein : u32 (data.in_chans * data.sample_size) = data.in_chans * data.sample_size :=
    Nat.mod_eq_of_lt hin
  have eout : u32 (data.out_chans * data.sample_size) = data.out_chans * data.sample_size :=
    Nat.mod_eq_of_lt hout
  unfold remove_channels_from_buf
  split
  · rfl
  · simp only [ein, eout, ge_iff_le]
    rw [if_pos (by omega)]

theorem buffer_remix_apply_length (data : buffer_remix) (buf : List UInt8) (frames : Nat) :
    (data.apply buf frames).length = buf.length := by
  unfold buffer_remix.apply
  split
  · exact remove_channels_from_buf_length _ _ _
  · exact mono_remix_length _ _ _

theorem store_length (buf data : List UInt8) : (store buf data).length = buf.length := by
  unfold store
  simp only [List.length_append, List.length_take, List.length_drop]
  omega

end Legacy
namespace Legacy

/-! ## The loop of `read_frames` -/

/-- Every call that the loop of `read_frames` makes writes at the byte offset of the frames
written so far and asks for the frames still missing. -/
theorem read_frames_calls_offsets (env : Env) (fs : Nat) (frames : Int) :
    ∀ (fuel : Nat) (sin : j6_stream_in) (buf : List UInt8) (frames_wr : Int), 0 ≤ frames_wr →
      ∀ (k : Nat) (c : Nat × Nat × Nat),
        (read_frames_calls env fs frames fuel sin buf frames_wr)[k]? = some c →
        c.1 = (frames_wr.toNat +
            (((read_frames_calls env fs frames fuel sin buf frames_wr).take k).map
              (fun c => c.2.2)).sum) * fs ∧
        (c.2.1 : Int) = frames - (frames_wr.toNat +
            (((read_frames_calls env fs frames fuel sin buf frames_wr).take k).map
              (fun c => c.2.2)).sum : Nat) := by
  intro fuel
  induction fuel with
  | zero =>
    intro sin buf frames_wr _ k c h
    simp [read_frames_calls] at h
  | succ fuel ih =>
    intro sin buf frames_wr h0 k c h
    unfold read_frames_calls at h ⊢
    by_cases hlt : frames_wr < frames
    · rw [if_pos hlt] at h ⊢
      rcases Option.eq_none_or_eq_some sin.resampler with hr | ⟨rs, hr⟩
      · simp [hr] at h
      · simp only [hr] at h ⊢
        cases k with
        | zero =>
          simp only [List.getElem?_cons_zero, Option.some.injEq] at h
          subst h
          simp only [List.take_zero, List.map_nil, List.sum_nil, Nat.add_zero, true_and]
          omega
        | succ k =>
          simp only [List.getElem?_cons_succ] at h
          by_cases hst : (env.resample_from_provider sin buf (frames_wr.toNat * fs)
              (frames - frames_wr).toNat).1.read_status ≠ 0
          · rw [if_pos hst] at h
            simp at h
          · rw [if_neg hst] at h ⊢
            have := ih _ _ _ (by omega : (0 : Int) ≤ frames_wr +
              ((env.resample_from_provider sin buf (frames_wr.toNat * fs)
                (frames - frames_wr).toNat).2.2 : Int)) k c h
            simp only [List.take_succ_cons, List.map_cons, List.sum_cons]
            have e : (frames_wr + ((env.resample_from_provider sin buf (frames_wr.toNat * fs)
                (frames - frames_wr).toNat).2.2 : Int)).toNat =
                frames_wr.toNat + (env.resample_from_provider sin buf (frames_wr.toNat * fs)
                (frames - frames_wr).toNat).2.2 := by omega
            rw [e] at this
            rw [← Nat.add_assoc]
            exact this
    · rw [if_neg hlt] at h
      simp at h

/-- Partial correctness of the loop of `read_frames` for a resampler that never produces more
than it is asked for: a returned value is the requested count, reached as the sum of the
produced counts with a zero `read_status`, or it is the nonzero `read_status`. -/
theorem read_frames_loop_result (env : Env) (fs : Nat) (frames : Int)
    (hle : ∀ s b off n, (env.resample_from_provider s b off n).2.2 ≤ n) :
    ∀ (fuel : Nat) (sin : j6_stream_in) (buf : List UInt8) (frames_wr : Int),
      0 ≤ frames_wr → frames_wr ≤ frames →
      ∀ r, read_frames_loop env fs frames fuel sin buf frames_wr = .ok r →
        (r.1 = frames ∧
          frames_wr.toNat + ((read_frames_calls env fs frames fuel sin buf frames_wr).map
            (fun c => c.2.2)).sum = frames.toNat ∧
          (frames_wr < frames → r.2.1.read_status = 0)) ∨
        (r.1 ≠ 0 ∧ r.1 = r.2.1.read_status ∧ frames_wr < frames) := by
  intro fuel
  induction fuel with
  | zero =>
    intro sin buf frames_wr h0 h1 r h
    unfold read_frames_loop at h
    by_cases hlt : frames_wr < frames
    · rw [if_pos hlt] at h
      cases h
    · rw [if_neg hlt] at h
      injection h with h
      subst h
      left
      refine ⟨by simp only; omega, ?_, fun h => absurd h hlt⟩
      simp only [read_frames_calls, List.map_nil, List.sum_nil]
      omega
  | succ fuel ih =>
    intro sin buf frames_wr h0 h1 r h
    unfold read_frames_loop at h
    unfold read_frames_calls
    by_cases hlt : frames_wr < frames
    · rw [if_pos hlt] at h
      rw [if_pos hlt]
      rcases Option.eq_none_or_eq_some sin.resampler with hr | ⟨rs, hr⟩
      · simp only [hr] at h
        cases h
      · simp only [hr] at h ⊢
        have hn := hle sin buf (frames_wr.toNat * fs) (frames - frames_wr).toNat
        by_cases hst : (env.resample_from_provider sin buf (frames_wr.toNat * fs)
            (frames - frames_wr).toNat).1.read_status ≠ 0
        · rw [if_pos hst] at h
          injection h with h
          subst h
          right
          exact ⟨hst, rfl, hlt⟩
        · rw [if_neg hst] at h
          rw [if_neg hst]
          have hnn : (0 : Int) ≤ frames_wr + ((env.resample_from_provider sin buf
              (frames_wr.toNat * fs) (frames - frames_wr).toNat).2.2 : Int) := by omega
          have hup : frames_wr + ((env.resample_from_provider sin buf
              (frames_wr.toNat * fs) (frames - frames_wr).toNat).2.2 : Int) ≤ frames := by omega
          rcases ih _ _ _ hnn hup r h with ⟨a1, a2, a3⟩ | ⟨b1, b2, _⟩
          · left
            refine ⟨a1, ?_, ?_⟩
            · simp only [List.map_cons, List.sum_cons]
              omega
            · intro _
              by_cases hl2 : frames_wr + ((env.resample_from_provider sin buf
                  (frames_wr.toNat * fs) (frames - frames_wr).toNat).2.2 : Int) < frames
              · exact a3 hl2
              · -- the loop stops at once: the result is the state after this call
                have hstop : r.2.1 = (env.resample_from_provider sin buf
                    (frames_wr.toNat * fs) (frames - frames_wr).toNat).1 := by
                  cases fuel with
                  | zero =>
                    unfold read_frames_loop at h
                    rw [if_neg hl2] at h
                    injection h with h
                    subst h
                    rfl
                  | succ fuel =>
                    unfold read_frames_loop at h
                    rw [if_neg hl2] at h
                    injection h with h
                    subst h
                    rfl
                rw [hstop]
                exact not_not.1 hst
          · right
            exact ⟨b1, b2, hlt⟩
    · rw [if_neg hlt] at h
      rw [if_neg hlt]
      injection h with h
      subst h
      left
      refine ⟨by simp only; omega, ?_, fun h => absurd h hlt⟩
      simp only [List.map_nil, List.sum_nil]
      omega

/-- Termination of the loop of `read_frames`: with a resampler installed that the calls leave
in place and that makes progress on every call (a produced frame or a nonzero `read_status`),
as many iterations as frames are missing suffice. -/
theorem read_frames_loop_returns (env : Env) (fs : Nat) (frames : Int)
    (hres : ∀ s b off n, (env.resample_from_provider s b off n).1.resampler = s.resampler)
    (hprog : ∀ s b off n, 0 < n →
      (env.resample_from_provider s b off n).1.read_status ≠ 0 ∨
        0 < (env.resample_from_provider s b off n).2.2) :
    ∀ (fuel : Nat) (sin : j6_stream_in) (buf : List UInt8) (frames_wr : Int),
      sin.resampler.isSome → (frames - frames_wr).toNat ≤ fuel →
      ∃ r, read_frames_loop env fs frames fuel sin buf frames_wr = .ok r := by
  intro fuel
  induction fuel with
  | zero =>
    intro sin buf frames_wr _ hfuel
    unfold read_frames_loop
    rw [if_neg (by omega)]
    exact ⟨_, rfl⟩
  | succ fuel ih =>
    intro sin buf frames_wr hsome hfuel
    unfold read_frames_loop
    by_cases hlt : frames_wr < frames
    · rw [if_pos hlt]
      obtain ⟨rs, hr⟩ := Option.isSome_iff_exists.1 hsome
      simp only [hr]
      by_cases hst : (env.resample_from_provider sin buf (frames_wr.toNat * fs)
          (frames - frames_wr).toNat).1.read_status ≠ 0
      · rw [if_pos hst]
        exact ⟨_, rfl⟩
      · rw [if_neg hst]
        have hp := hprog sin buf (frames_wr.toNat * fs) (frames - frames_wr).toNat (by omega)
        rcases hp with hp | hp
        · exact absurd hp hst
        · apply ih
          · rw [hres, hr]
            rfl
          · omega
    · rw [if_neg hlt]
      exact ⟨_, rfl⟩

end Legacy
namespace Multizone

/-! ## Buffer sizes -/

/-- The mask `~15` on a `size_t` clears the low four bits. -/
theorem and_notU32_fifteen (n : Nat) (hn : n < 2 ^ 32) : n &&& notU32 15 = n / 16 * 16 := by
  have hm : notU32 15 = (2 ^ 32 - 1) ^^^ (2 ^ 4 - 1) := by decide
  have e : n / 16 * 16 = (n >>> 4) <<< 4 := by
    simp [Nat.shiftRight_eq_div_pow, Nat.shiftLeft_eq]
  rw [e, hm]
  apply Nat.eq_of_testBit_eq
  intro i
  simp only [Nat.testBit_and, Nat.testBit_xor, Nat.testBit_two_pow_sub_one,
    Nat.testBit_shiftLeft, Nat.testBit_shiftRight]
  by_cases h4 : i < 4
  · have h32 : i < 32 := by omega
    have h5 : ¬ i ≥ 4 := by omega
    simp [h4, h32, h5]
  · have h5 : i ≥ 4 := by omega
    have e2 : 4 + (i - 4) = i := by omega
    by_cases h32 : i < 32
    · simp [h4, h32, h5, e2]
    · have : n.testBit i = false :=
        Nat.testBit_lt_two_pow (lt_of_lt_of_le hn (Nat.pow_le_pow_right (by norm_num)
          (Nat.le_of_not_lt h32)))
      simp [h4, h32, h5, e2, this]

end Multizone

/-- The value `roundUp16 n` is the least multiple of 16 that is at least `n`. -/
theorem roundUp16_least (n : Nat) :
    16 ∣ roundUp16 n ∧ n ≤ roundUp16 n ∧ ∀ m, 16 ∣ m → n ≤ m → roundUp16 n ≤ m := by
  unfold roundUp16
  refine ⟨Nat.dvd_mul_left 16 _, by omega, ?_⟩
  intro m hm hle
  omega
namespace Multizone

/-! ## Effect traces of the voice call transitions -/

/-- The last three steps of `disableVoiceCall()`. -/
theorem disable_tail_trace (h : Hal) (mp : Port) :
    (PcmReader.unregisterIfRegistered
      (PcmWriter.unregisterIfRegistered (PcmReader.unregisterIfRegistered h .bt .voiceDLIn)
        (.port .bt) .voiceULOut) mp .voiceULIn).trace =
      h.trace ++
      (if StreamId.voiceDLIn ∈ getReader h .bt then [Event.unregisterReader .bt .voiceDLIn]
       else []) ++
      (if StreamId.voiceULOut ∈ getWriter h (.port .bt) then
        [Event.unregisterWriter (.port .bt) .voiceULOut] else []) ++
      (if StreamId.voiceULIn ∈ getReader h mp then
        [Event.unregisterReader mp .voiceULIn] else []) := by
  simp only [PcmReader_unregisterIfRegistered_trace, PcmWriter_unregisterIfRegistered_trace,
    PcmWriter_unregisterIfRegistered_getReader, PcmReader_unregisterIfRegistered_getReader,
    PcmReader_unregisterIfRegistered_getWriter]
  split_ifs <;> simp_all [mem_removeStream]

/-- The first step of `disableVoiceCall()` with a valid primary output. -/
theorem disable_primary_trace (h : Hal) :
    (AudioStreamOut.setVoiceCall
      (PcmWriter.unregisterIfRegistered h (.port h.out.mWriter) .voiceDLOut) false).trace =
      h.trace ++
      (if StreamId.voiceDLOut ∈ getWriter h (.port h.out.mWriter) then
        [Event.unregisterWriter (.port h.out.mWriter) .voiceDLOut] else []) ++
      (if h.out.mUsedForVoiceCall = true ∧ h.out.mStandby = false then
        [Event.streamStop .media, Event.unregisterWriter .null .media] else []) := by
  simp only [AudioStreamOut_setVoiceCall_trace, PcmWriter_unregisterIfRegistered_trace,
    PcmWriter_unregisterIfRegistered_out_mUsedForVoiceCall,
    PcmWriter_unregisterIfRegistered_out_mStandby, AudioStreamOut.selectWriter]
  split_ifs <;> simp_all

/-- The first step of `disableVoiceCall()` leaves the registration of uplink-out alone. -/
theorem mem_ULOut_disable_primary (h : Hal) :
    StreamId.voiceULOut ∈ getWriter (AudioStreamOut.setVoiceCall
      (PcmWriter.unregisterIfRegistered h (.port h.out.mWriter) .voiceDLOut) false)
        (.port .bt) ↔
      StreamId.voiceULOut ∈ getWriter h (.port .bt) := by
  by_cases hu : h.out.mUsedForVoiceCall = true <;>
  by_cases hsb : h.out.mStandby = true <;>
  simp [AudioStreamOut.selectWriter, hu, hsb, mem_removeStream] <;>
  split_ifs <;> simp_all [mem_removeStream]

theorem disableVoiceCall_trace (h : Hal) :
    (AudioHwDevice.disableVoiceCall h).trace = h.trace ++ disableEvents h := by
  unfold disableEvents
  by_cases hp : h.hw.mPrimaryStreamOut = true
  · simp only [AudioHwDevice.disableVoiceCall, hp, if_true,
      PcmWriter_unregisterIfRegistered_hw_mMediaPortId,
      PcmReader_unregisterIfRegistered_hw_mMediaPortId,
      AudioStreamOut_setVoiceCall_hw_mMediaPortId]
    rw [disable_tail_trace, disable_primary_trace]
    simp only [AudioStreamOut_setVoiceCall_getReader,
      PcmWriter_unregisterIfRegistered_getReader, mem_ULOut_disable_primary,
      List.append_assoc]
  · simp only [AudioHwDevice.disableVoiceCall, hp,
      PcmWriter_unregisterIfRegistered_hw_mMediaPortId,
      PcmReader_unregisterIfRegistered_hw_mMediaPortId]
    rw [disable_tail_trace]
    simp

/-- The effects of `disableVoiceCall()` depend on the registrations and on the flags of the
primary output only. -/
theorem disableEvents_congr (h h2 : Hal)
    (hW : ∀ w, getWriter h2 w = getWriter h w) (hR : ∀ p, getReader h2 p = getReader h p)
    (h1 : h2.out.mWriter = h.out.mWriter)
    (h3 : h2.out.mUsedForVoiceCall = h.out.mUsedForVoiceCall)
    (h4 : h2.out.mStandby = h.out.mStandby)
    (h5 : h2.hw.mPrimaryStreamOut = h.hw.mPrimaryStreamOut)
    (h6 : h2.hw.mMediaPortId = h.hw.mMediaPortId) :
    disableEvents h2 = disableEvents h := by
  unfold disableEvents
  simp only [hW, hR, h1, h3, h4, h5, h6]

/-- The state of `leaveVoiceCall()` before `disableVoiceCall()` is called. -/
theorem leave_stops_trace (h : Hal) :
    (MonoPipe.flush (MonoPipe.flush (Stream.stopIfStarted (emit (.outPortStop .bt)
      (Stream.stopIfStarted (Stream.stopIfStarted (emit (.inPortStop .bt)
        (Stream.stopIfStarted (MonoPipe.shutdown (MonoPipe.shutdown (mixerSetBTMode h false)
          .ul true) .dl true) .voiceULIn)) .voiceDLIn) .voiceDLOut)) .voiceULOut) .ul) .dl).trace =
      h.trace ++
      ([Event.mixerSetBTMode false, Event.pipeShutdown .ul true, Event.pipeShutdown .dl true] ++
      (if StreamId.voiceULIn ∈ h.hw.started then [Event.streamStop .voiceULIn] else []) ++
      [Event.inPortStop .bt] ++
      (if StreamId.voiceDLIn ∈ h.hw.started then [Event.streamStop .voiceDLIn] else []) ++
      (if StreamId.voiceDLOut ∈ h.hw.started then [Event.streamStop .voiceDLOut] else []) ++
      [Event.outPortStop .bt] ++
      (if StreamId.voiceULOut ∈ h.hw.started then [Event.streamStop .voiceULOut] else []) ++
      [Event.pipeFlush .ul, Event.pipeFlush .dl]) := by
  simp only [MonoPipe_flush_trace, Stream_stopIfStarted_trace, emit_trace,
    MonoPipe_shutdown_trace, mixerSetBTMode_trace, Stream_stopIfStarted_hw_started,
    emit_hw_started, MonoPipe_shutdown_hw_started, mixerSetBTMode_hw_started]
  split_ifs <;> simp_all [mem_removeStream]

theorem leaveVoiceCall_trace (h : Hal) :
    (AudioHwDevice.leaveVoiceCall h).trace = h.trace ++ leaveEvents h := by
  unfold AudioHwDevice.leaveVoiceCall leaveEvents
  simp only [AudioHwDevice_setVoiceVolume_snd_trace, disableVoiceCall_trace, voiceVolumeVal_one]
  rw [leave_stops_trace, disableEvents_congr h _ (by simp) (by simp) (by simp) (by simp)
    (by simp) (by simp) (by simp)]
  simp only [List.append_assoc]

theorem leaveStep_disableEvents (h : Hal) : ∀ e ∈ disableEvents h, leaveStep e = 5 := by
  unfold disableEvents
  split_ifs <;> simp [leaveStep]

/-- The effects of `leaveVoiceCall()` before `disableVoiceCall()` are in the order of the
steps 0 to 4. -/
theorem leave_stops_steps (h : Hal) :
    ([Event.mixerSetBTMode false, Event.pipeShutdown .ul true, Event.pipeShutdown .dl true] ++
      (if StreamId.voiceULIn ∈ h.hw.started then [Event.streamStop .voiceULIn] else []) ++
      [Event.inPortStop .bt] ++
      (if StreamId.voiceDLIn ∈ h.hw.started then [Event.streamStop .voiceDLIn] else []) ++
      (if StreamId.voiceDLOut ∈ h.hw.started then [Event.streamStop .voiceDLOut] else []) ++
      [Event.outPortStop .bt] ++
      (if StreamId.voiceULOut ∈ h.hw.started then [Event.streamStop .voiceULOut] else []) ++
      [Event.pipeFlush .ul, Event.pipeFlush .dl]).Pairwise
        (fun a b => leaveStep a ≤ leaveStep b) ∧
    ∀ e ∈ ([Event.mixerSetBTMode false, Event.pipeShutdown .ul true,
        Event.pipeShutdown .dl true] ++
      (if StreamId.voiceULIn ∈ h.hw.started then [Event.streamStop .voiceULIn] else []) ++
      [Event.inPortStop .bt] ++
      (if StreamId.voiceDLIn ∈ h.hw.started then [Event.streamStop .voiceDLIn] else []) ++
      (if StreamId.voiceDLOut ∈ h.hw.started then [Event.streamStop .voiceDLOut] else []) ++
      [Event.outPortStop .bt] ++
      (if StreamId.voiceULOut ∈ h.hw.started then [Event.streamStop .voiceULOut] else []) ++
      [Event.pipeFlush .ul, Event.pipeFlush .dl]), leaveStep e ≤ 4 := by
  split_ifs <;> exact ⟨by decide, by decide⟩

theorem leaveEvents_pairwise (h : Hal) :
    (leaveEvents h).Pairwise (fun a b => leaveStep a ≤ leaveStep b) ∧
    ∀ e ∈ leaveEvents h, leaveStep e ≤ 6 := by
  have hA := leave_stops_steps h
  have hD := leaveStep_disableEvents h
  unfold leaveEvents
  constructor
  · rw [List.pairwise_append, List.pairwise_append]
    refine ⟨⟨hA.1, ?_, ?_⟩, by decide, ?_⟩
    · apply List.pairwise_of_forall_mem_list
      intro a ha b hb
      rw [hD a ha, hD b hb]
    · intro a ha b hb
      have := hA.2 a ha
      rw [hD b hb]
      omega
    · intro a ha b hb
      have hb6 : leaveStep b = 6 := by
        simp only [List.mem_cons, List.mem_singleton, List.not_mem_nil, or_false] at hb
        rcases hb with rfl | rfl <;> rfl
      rw [hb6]
      rcases List.mem_append.1 ha with ha | ha
      · have := hA.2 a ha
        omega
      · rw [hD a ha]
        omega
  · intro e he
    rcases List.mem_append.1 he with he | he
    · rcases List.mem_append.1 he with he | he
      · have := hA.2 e he
        omega
      · rw [hD e he]
        omega
    · simp only [List.mem_cons, List.mem_singleton, List.not_mem_nil, or_false] at he
      rcases he with rfl | rfl <;> decide

/-- In a call, `leaveVoiceCall()` issues every stop and every unregistration. -/
theorem leaveEvents_inCall (h : Hal) (hc : InCall h) :
    leaveEvents h =
      [Event.mixerSetBTMode false, Event.pipeShutdown .ul true, Event.pipeShutdown .dl true,
        Event.streamStop .voiceULIn, Event.inPortStop .bt, Event.streamStop .voiceDLIn,
        Event.streamStop .voiceDLOut, Event.outPortStop .bt, Event.streamStop .voiceULOut,
        Event.pipeFlush .ul, Event.pipeFlush .dl,
        Event.unregisterWriter (.port h.out.mWriter) .voiceDLOut] ++
      (if h.out.mStandby = false then
        [Event.streamStop .media, Event.unregisterWriter .null .media] else []) ++
      [Event.unregisterReader .bt .voiceDLIn, Event.unregisterWriter (.port .bt) .voiceULOut,
        Event.unregisterReader h.hw.mMediaPortId .voiceULIn,
        Event.mixerSetVolumeHP 118, Event.mixerSetVolumeLine 118] := by
  obtain ⟨h1, h2, h3, h4, h5, h6, h7, h8, h9, h10⟩ := hc
  unfold leaveEvents disableEvents
  simp only [h1, h2, h3, h4, h5, h6, h7, h8, h9, h10, if_true, true_and]
  split_ifs <;> rfl

end Multizone
namespace Multizone

/-- The four registrations of `enableVoiceCall()` when all succeed. -/
theorem registerVoiceStreams_trace_ok (env : Env) (h : Hal)
    (hok : (AudioHwDevice.registerVoiceStreams env h).1 = 0) :
    (AudioHwDevice.registerVoiceStreams env h).2.trace =
      h.trace ++
        [Event.registerReader h.hw.mMediaPortId .voiceULIn 0,
          Event.registerWriter (.port .bt) .voiceULOut 0,
          Event.registerReader .bt .voiceDLIn 0,
          Event.registerWriter (.port h.out.mWriter) .voiceDLOut 0] := by
  simp only [AudioHwDevice.registerVoiceStreams] at hok ⊢
  split_ifs at hok ⊢ with h1 h2 h3
  · exact absurd hok h1
  · exact absurd hok h2
  · exact absurd hok h3
  · simp only [ne_eq, not_not] at h1 h2 h3
    simp only [PcmReader_registerStream_snd_out_mWriter,
      PcmWriter_registerStream_snd_out_mWriter] at hok
    simp only [PcmWriter_registerStream_snd_trace, PcmReader_registerStream_snd_trace, h1, h2,
      h3, hok, List.append_assoc, List.singleton_append, List.cons_append, List.nil_append,
      PcmReader_registerStream_snd_out_mWriter, PcmWriter_registerStream_snd_out_mWriter]

/-- A successful `enableVoiceCall()`: the primary output is valid, and after the call of
`setVoiceCall(true)` the four registrations follow. -/
theorem enableVoiceCall_trace_ok (env : Env) (h : Hal)
    (hok : (AudioHwDevice.enableVoiceCall env h).1 = 0) :
    h.hw.mPrimaryStreamOut = true ∧
    (AudioHwDevice.enableVoiceCall env h).2.trace =
      (AudioStreamOut.setVoiceCall h true).trace ++
        [Event.registerReader h.hw.mMediaPortId .voiceULIn 0,
          Event.registerWriter (.port .bt) .voiceULOut 0,
          Event.registerReader .bt .voiceDLIn 0,
          Event.registerWriter (.port h.out.mWriter) .voiceDLOut 0] := by
  by_cases hp : h.hw.mPrimaryStreamOut = true
  · have e : AudioHwDevice.enableVoiceCall env h =
        AudioHwDevice.registerVoiceStreams env (AudioStreamOut.setVoiceCall h true) := by
      simp [AudioHwDevice.enableVoiceCall, hp]
    rw [e] at hok ⊢
    refine ⟨hp, ?_⟩
    rw [registerVoiceStreams_trace_ok env _ hok]
    simp only [AudioStreamOut_setVoiceCall_hw_mMediaPortId,
      AudioStreamOut_setVoiceCall_out_mWriter]
  · have e : AudioHwDevice.enableVoiceCall env h = (-ENODEV, h) := by
      simp [AudioHwDevice.enableVoiceCall, hp]
    rw [e] at hok
    simp [ENODEV] at hok

/-- A successful `enterVoiceCall()`: after the call of `setVoiceCall(true)` the effects are
the four registrations, the Bluetooth link to master, the reset of both pipes, the start of
uplink-in and downlink-in, the settle wait, and the start of downlink-out and uplink-out. -/
theorem enterVoiceCall_trace_ok (env : Env) (h : Hal)
    (hok : (AudioHwDevice.enterVoiceCall env h).1 = 0) :
    (AudioHwDevice.enterVoiceCall env h).2.trace =
      (AudioStreamOut.setVoiceCall h true).trace ++
        [Event.registerReader h.hw.mMediaPortId .voiceULIn 0,
          Event.registerWriter (.port .bt) .voiceULOut 0,
          Event.registerReader .bt .voiceDLIn 0,
          Event.registerWriter (.port h.out.mWriter) .voiceDLOut 0,
          Event.mixerSetBTMode true, Event.pipeShutdown .ul false, Event.pipeShutdown .dl false,
          Event.streamStart .voiceULIn 0, Event.streamStart .voiceDLIn 0,
          Event.usleep settleUsecs,
          Event.streamStart .voiceDLOut (env.startStatus .voiceDLOut),
          Event.streamStart .voiceULOut 0] := by
  simp only [AudioHwDevice.enterVoiceCall] at hok ⊢
  split_ifs at hok ⊢ with h0 h1 h2
  · exact absurd hok h0
  · exact absurd hok h1
  · exact absurd hok h2
  · simp only [ne_eq, not_not, Stream_start_fst] at h0 h1 h2 hok
    simp only [Stream_start_snd_trace, emit_trace, MonoPipe_shutdown_trace,
      mixerSetBTMode_trace, (enableVoiceCall_trace_ok env h h0).2, h1, h2, hok,
      List.append_assoc, List.singleton_append, List.cons_append, List.nil_append]

end Multizone
namespace Legacy

/-! ## The pump thread: zeroed buffers and the start-up phase -/

/-- Reading a buffer of zero bytes gives zero. -/
theorem getD_all_zero (l : List UInt8) (h : ∀ b ∈ l, b = 0) (i : Nat) : l.getD i 0 = 0 := by
  by_cases hi : i < l.length
  · rw [List.getD_eq_getElem l 0 hi]
    exact h _ (List.getElem_mem hi)
  · exact List.getD_eq_default l 0 (Nat.le_of_not_lt hi)

/-- Writing a zero byte into a buffer of zero bytes keeps it so. -/
theorem set_all_zero (l : List UInt8) (h : ∀ b ∈ l, b = 0) (i : Nat) :
    ∀ b ∈ l.set i 0, b = 0 := by
  intro b hb
  rcases List.mem_or_eq_of_mem_set hb with h1 | h1
  · exact h b h1
  · exact h1

theorem copy_bytes_all_zero (d s : Nat) :
    ∀ (n c : Nat) (buf : List UInt8), (∀ b ∈ buf, b = 0) →
      ∀ b ∈ copy_bytes d s n c buf, b = 0 := by
  intro n
  induction n with
  | zero => intro c buf h; exact h
  | succ n ih =>
    intro c buf h
    show ∀ b ∈ copy_bytes d s n (c + 1) (buf.set (d + c) (buf.getD (s + c) 0)), b = 0
    apply ih
    rw [getD_all_zero buf h]
    exact set_all_zero buf h _

theorem remove_channels_loop_all_zero (inf outf : Nat) :
    ∀ (N d s : Nat) (buf : List UInt8), (∀ b ∈ buf, b = 0) →
      ∀ b ∈ remove_channels_loop inf outf N d s buf, b = 0 := by
  intro N
  induction N with
  | zero => intro d s buf h; exact h
  | succ N ih =>
    intro d s buf h
    show ∀ b ∈ remove_channels_loop inf outf N (d + outf) (s + inf)
      (copy_bytes d s outf 0 buf), b = 0
    exact ih _ _ _ (copy_bytes_all_zero d s outf 0 buf h)

theorem remove_channels_from_buf_all_zero (data : buffer_remix) (buf : List UInt8)
    (frames : Nat) (h : ∀ b ∈ buf, b = 0) :
    ∀ b ∈ remove_channels_from_buf data buf frames, b = 0 := by
  unfold remove_channels_from_buf
  split
  · exact h
  · dsimp only
    split
    · exact h
    · exact remove_channels_loop_all_zero _ _ _ _ _ buf h

theorem copy_sample_all_zero (buf : List UInt8) (i j : Nat) (h : ∀ b ∈ buf, b = 0) :
    ∀ b ∈ copy_sample buf i j, b = 0 := by
  unfold copy_sample
  rw [getD_all_zero buf h, getD_all_zero buf h]
  exact set_all_zero _ (set_all_zero buf h _) _

theorem mono_frame_all_zero (base : Nat) :
    ∀ (n i : Nat) (buf : List UInt8), (∀ b ∈ buf, b = 0) →
      ∀ b ∈ mono_frame base n i buf, b = 0 := by
  intro n
  induction n with
  | zero => intro i buf h; exact h
  | succ n ih =>
    intro i buf h
    show ∀ b ∈ mono_frame base n (i + 1) (copy_sample buf (base + i) base), b = 0
    exact ih _ _ (copy_sample_all_zero buf _ _ h)

theorem mono_loop_all_zero (out : Nat) :
    ∀ (n base : Nat) (buf : List UInt8), (∀ b ∈ buf, b = 0) →
      ∀ b ∈ mono_loop out n base buf, b = 0 := by
  intro n
  induction n with
  | zero => intro base buf h; exact h
  | succ n ih =>
    intro base buf h
    show ∀ b ∈ mono_loop out n (base + out) (mono_frame base (out - 1) 1 buf), b = 0
    exact ih _ _ (mono_frame_all_zero base _ _ buf h)

theorem mono_remix_all_zero (data : buffer_remix) (buf : List UInt8) (frames : Nat)
    (h : ∀ b ∈ buf, b = 0) : ∀ b ∈ mono_remix data buf frames, b = 0 := by
  unfold mono_remix
  split
  · exact h
  · exact mono_loop_all_zero _ _ _ buf h

/-- Either remix function leaves a zeroed buffer zeroed. -/
theorem buffer_remix_apply_zero (data : buffer_remix) (n frames : Nat) :
    data.apply (List.replicate n 0) frames = List.replicate n 0 := by
  have hz : ∀ b ∈ List.replicate n (0 : UInt8), b = 0 := fun b hb => List.eq_of_mem_replicate hb
  have hl := buffer_remix_apply_length data (List.replicate n 0) frames
  rw [List.length_replicate] at hl
  rw [List.eq_replicate_iff]
  refine ⟨hl, ?_⟩
  unfold buffer_remix.apply
  split
  · exact remove_channels_from_buf_all_zero _ _ _ hz
  · exact mono_remix_all_zero _ _ _ hz

theorem pump_writes_append (l1 l2 : List PumpEvent) :
    pump_writes (l1 ++ l2) = pump_writes l1 + pump_writes l2 := by
  unfold pump_writes
  exact List.countP_append _ _ _

theorem pump_resamples_append (l1 l2 : List PumpEvent) :
    pump_resamples (l1 ++ l2) = pump_resamples l1 + pump_resamples l2 := by
  unfold pump_resamples
  exact List.countP_append _ _ _

/-- The end of an iteration keeps the locals except `ret`, makes one write and no resampler
call. -/
theorem voice_thread_write_locals (env : PumpEnv) (stream : j6_voice_stream) (s : pump_state) :
    (voice_thread_write env stream s).frames = s.frames ∧
    (voice_thread_write env stream s).periods = s.periods ∧
    (voice_thread_write env stream s).in_steady = s.in_steady ∧
    (voice_thread_write env stream s).out_steady = s.out_steady ∧
    pump_writes (voice_thread_write env stream s).events = pump_writes s.events + 1 ∧
    pump_resamples (voice_thread_write env stream s).events = pump_resamples s.events := by
  unfold voice_thread_write
  cases hr : stream.remix <;> by_cases hw : env.pcm_write = 0 <;>
    simp [hw, pump_writes_append, pump_resamples_append, pump_writes, pump_resamples]

/-- On the zeroed buffer of one period the end of an iteration leaves the buffer zeroed and
writes it. -/
theorem voice_thread_write_zero (env : PumpEnv) (stream : j6_voice_stream) (s : pump_state)
    (hf : s.frames = stream.out_frames)
    (hb : s.out_buffer = List.replicate (u32 (stream.out_frames * stream.frame_size)) 0)
    (he : ∀ e ∈ s.events, ∀ data, e = PumpEvent.write data →
      data = List.replicate (u32 (stream.out_frames * stream.frame_size)) 0) :
    (voice_thread_write env stream s).out_buffer =
      List.replicate (u32 (stream.out_frames * stream.frame_size)) 0 ∧
    ∀ e ∈ (voice_thread_write env stream s).events, ∀ data, e = PumpEvent.write data →
      data = List.replicate (u32 (stream.out_frames * stream.frame_size)) 0 := by
  have ht : List.take (u32 (stream.out_frames * stream.frame_size))
      (List.replicate (u32 (stream.out_frames * stream.frame_size)) (0 : UInt8)) =
      List.replicate (u32 (stream.out_frames * stream.frame_size)) 0 := by
    rw [List.take_replicate, Nat.min_self]
  unfold voice_thread_write
  cases hr : stream.remix <;> by_cases hw : env.pcm_write = 0 <;>
    simp only [hw, hf, hb, buffer_remix_apply_zero, ht, ne_eq, not_true_eq_false,
      not_false_eq_true, if_true, if_false, List.mem_append, List.mem_singleton, true_and] <;>
    · intro e hmem data hd
      subst hd
      simp only [PumpEvent.write.injEq, or_false, reduceCtorEq] at hmem
      rcases hmem with h1 | h1
      · exact he _ h1 _ rfl
      · exact h1

/-- One iteration of the start-up phase. -/
theorem voice_thread_step_warm (env : PumpEnv) (stream : j6_voice_stream) (s : pump_state)
    (k : Nat) (hw : PumpWarm stream s k) (hk : k < stream.out_config.period_count)
    (hpc : stream.out_config.period_count < 2 ^ 32) :
    PumpWarm stream (voice_thread_step env stream s) (k + 1) := by
  obtain ⟨hf, hp, hin, hout, hb, hwr, hrs, he⟩ := hw
  have hos : s.out_steady = false := by
    cases h : s.out_steady
    · rfl
    · exact absurd (hout.mp h) (Nat.ne_of_lt hk)
  have hu : u32 (k + 1) = k + 1 := by
    unfold u32
    exact Nat.mod_eq_of_lt (by omega)
  unfold voice_thread_step
  simp only [hos, Bool.false_eq_true, if_false, hp, hu]
  by_cases hkp : k + 1 = stream.out_config.period_count
  · simp only [hkp, if_true]
    have h1 := voice_thread_write_locals env stream
      { s with periods := stream.out_config.period_count, out_steady := true }
    have h2 := voice_thread_write_zero env stream
      { s with periods := stream.out_config.period_count, out_steady := true } hf hb he
    obtain ⟨a1, a2, a3, a4, a5, a6⟩ := h1
    refine ⟨a1.trans hf, a2, a3.trans hin, ?_, h2.1, ?_, a6.trans hrs, h2.2⟩
    · rw [a4]
      exact ⟨fun _ => rfl, fun _ => rfl⟩
    · rw [a5]
      show pump_writes s.events + 1 = stream.out_config.period_count
      omega
  · simp only [hkp, if_false]
    have h1 := voice_thread_write_locals env stream
      { s with periods := k + 1, out_steady := false }
    have h2 := voice_thread_write_zero env stream
      { s with periods := k + 1, out_steady := false } hf hb he
    obtain ⟨a1, a2, a3, a4, a5, a6⟩ := h1
    refine ⟨a1.trans hf, a2, a3.trans hin, ?_, h2.1, ?_, a6.trans hrs, h2.2⟩
    · rw [a4]
      exact ⟨fun h => absurd h Bool.false_ne_true, fun h => absurd h hkp⟩
    · rw [a5]
      show pump_writes s.events + 1 = k + 1
      omega

/-- The start-up phase over several iterations. -/
theorem voice_thread_run_warm (stream : j6_voice_stream)
    (hpc : stream.out_config.period_count < 2 ^ 32) :
    ∀ (envs : List PumpEnv) (s : pump_state) (k : Nat), PumpWarm stream s k →
      k + envs.length ≤ stream.out_config.period_count →
      PumpWarm stream (voice_thread_run envs stream s) (k + envs.length) := by
  intro envs
  induction envs with
  | nil => intro s k hw _; exact hw
  | cons env envs ih =>
    intro s k hw hk
    simp only [List.length_cons] at hk
    have h1 := voice_thread_step_warm env stream s k hw (by omega) hpc
    have h2 := ih (voice_thread_step env stream s) (k + 1) h1 (by omega)
    have e : k + (env :: envs).length = k + 1 + envs.length := by
      simp only [List.length_cons]; omega
    rw [e]
    exact h2

/-- The state before the first iteration is the start of the start-up phase. -/
theorem voice_thread_init_warm (stream : j6_voice_stream) (b : List UInt8)
    (hb : stream.out_buffer = some b)
    (hlen : b.length = u32 (stream.out_frames * stream.frame_size))
    (hpc : 0 < stream.out_config.period_count) :
    PumpWarm stream (voice_thread_init stream) 0 := by
  unfold voice_thread_init PumpWarm
  refine ⟨rfl, rfl, rfl, ?_, ?_, ?_, ?_, ?_⟩
  · exact ⟨fun h => absurd h Bool.false_ne_true, fun h => absurd h.symm (Nat.ne_of_gt hpc)⟩
  · simp only [hb, Option.getD_some, memset]
    rw [List.drop_of_length_le (Nat.le_of_eq hlen), List.append_nil]
  · rfl
  · rfl
  · intro e he data hd
    subst hd
    simp at he

/-- One iteration never clears a flag. -/
theorem voice_thread_step_flags (env : PumpEnv) (stream : j6_voice_stream) (s : pump_state) :
    (s.out_steady = true → (voice_thread_step env stream s).out_steady = true) ∧
    (s.in_steady = true → (voice_thread_step env stream s).in_steady = true) := by
  unfold voice_thread_step
  cases ho : s.out_steady <;> cases hi : s.in_steady <;>
    simp only [Bool.false_eq_true, if_false, if_true, false_implies, true_implies, true_and,
      and_true]
  · split <;> rw [(voice_thread_write_locals env stream _).2.2.1]
  · split
    · rfl
    · rw [(voice_thread_write_locals env stream _).2.2.2.1]
  · rw [(voice_thread_write_locals env stream _).2.2.2.1,
      (voice_thread_write_locals env stream _).2.2.1]
    exact ⟨rfl, rfl⟩

/-- No sequence of iterations clears a flag. -/
theorem voice_thread_run_flags (stream : j6_voice_stream) :
    ∀ (envs : List PumpEnv) (s : pump_state),
      (s.out_steady = true → (voice_thread_run envs stream s).out_steady = true) ∧
      (s.in_steady = true → (voice_thread_run envs stream s).in_steady = true) := by
  intro envs
  induction envs with
  | nil => intro s; exact ⟨id, id⟩
  | cons env envs ih =>
    intro s
    have h1 := voice_thread_step_flags env stream s
    have h2 := ih (voice_thread_step env stream s)
    exact ⟨fun h => h2.1 (h1.1 h), fun h => h2.2 (h1.2 h)⟩

/-- The resampler is called only in an iteration that starts with both flags set. -/
theorem voice_thread_step_resample (env : PumpEnv) (stream : j6_voice_stream) (s : pump_state)
    (h : pump_resamples (voice_thread_step env stream s).events ≠ pump_resamples s.events) :
    s.out_steady = true ∧ s.in_steady = true := by
  revert h
  unfold voice_thread_step
  cases ho : s.out_steady <;> cases hi : s.in_steady <;>
    simp only [Bool.false_eq_true, if_false, if_true, and_self, implies_true, and_false,
      false_and, imp_false, not_not]
  · split <;> rw [(voice_thread_write_locals env stream _).2.2.2.2.2]
  · split <;> rw [(voice_thread_write_locals env stream _).2.2.2.2.2]
  · split
    · simp [pump_resamples_append, pump_resamples]
    · rw [(voice_thread_write_locals env stream _).2.2.2.2.2]
      simp [pump_resamples_append, pump_resamples]

/-- The input flag is set only by a successful time stamp query with data available, in an
iteration that starts with the output flag set, and that iteration makes no other call. -/
theorem voice_thread_step_in_steady (env : PumpEnv) (stream : j6_voice_stream) (s : pump_state)
    (hi : s.in_steady = false) (h : (voice_thread_step env stream s).in_steady = true) :
    s.out_steady = true ∧ env.htimestamp.1 = 0 ∧ 0 < env.htimestamp.2 ∧
    (voice_thread_step env stream s).events = s.events ++ [PumpEvent.htimestamp] := by
  revert h
  unfold voice_thread_step
  cases ho : s.out_steady <;>
    simp only [hi, Bool.false_eq_true, if_false, if_true, true_and, false_and]
  · split <;> rw [(voice_thread_write_locals env stream _).2.2.1] <;>
      simp [hi]
  · split
    · rename_i hc
      intro _
      exact ⟨hc.1, hc.2, rfl⟩
    · rw [(voice_thread_write_locals env stream _).2.2.1]
      simp [hi]

end Legacy
namespace Legacy

/-! ## Streams as the open functions leave them -/

theorem popcount_stereo : popcount AUDIO_CHANNEL_IN_STEREO = 2 := by decide

theorem popcount_mono : popcount AUDIO_CHANNEL_IN_MONO = 1 := by decide

/-- A stereo request at 8000 Hz: resampler installed, no remix, no capture buffer. -/
theorem adev_open_input_stream_stereo_8000 (blk : j6_stream_in) :
    adev_open_input_stream okOpenEnv (some blk) ⟨8000, AUDIO_CHANNEL_IN_STEREO, 1⟩ =
      (0, some { blk with standby := true, config := pcm_config_capture, requested_rate := 8000, requested_channels := 2, hw_frame_size := 4, remix := none, resampler := some ⟨44100, 8000, 2⟩, buffer := none }) := by
  simp [adev_open_input_stream, popcount_stereo, okOpenEnv, pcm_config_capture,
    CAPTURE_SAMPLE_RATE, u32]

/-- A mono request at 44100 Hz: remix and capture buffer installed, no resampler. -/
theorem adev_open_input_stream_mono_44100 (blk : j6_stream_in) :
    adev_open_input_stream okOpenEnv (some blk) ⟨44100, AUDIO_CHANNEL_IN_MONO, 1⟩ =
      (0, some { blk with standby := true, config := pcm_config_capture, requested_rate := 44100, requested_channels := 1, hw_frame_size := 4, remix := some ⟨.remove_channels_from_buf, 2, 2, 1⟩, resampler := none, buffer := some (List.replicate 7680 0) }) := by
  have h : u32 (u32 (2 * pcm_config_capture.period_size) * u32 (pcm_config_capture.channels * 2)) = 7680 := by
    decide
  simp only [adev_open_input_stream, popcount_mono, okOpenEnv, setup_stereo_to_mono_input_remix,
    h, if_true, Bool.not_true, Bool.false_eq_true, if_false, ne_eq, not_true_eq_false,
    not_false_eq_true]
  rfl

end Legacy
namespace Legacy

/-! ## The handle of the output stream along the calls of a client -/

/-- Under the discipline keyed on the mode, `do_out_standby` returns, and leaves the stream in
standby with a null handle. -/
theorem do_out_standby_ok (adev : j6_audio_device) (out : j6_stream_out)
    (h1 : out.standby = true → out.pcm = none)
    (h2 : out.standby = false → adev.mode ≠ .IN_CALL → out.pcm.isSome = true)
    (h3 : out.standby = false → adev.mode = .IN_CALL → out.pcm = none) :
    ∃ out1, do_out_standby adev out = .ok out1 ∧ out1.standby = true ∧ out1.pcm = none := by
  unfold do_out_standby
  cases hs : out.standby
  · by_cases hm : adev.mode = .IN_CALL
    · simp only [Bool.false_eq_true, not_false_eq_true, if_true, hm, ne_eq, not_true_eq_false,
        if_false]
      exact ⟨_, rfl, rfl, h3 hs hm⟩
    · have hp := h2 hs hm
      rcases Option.isSome_iff_exists.mp hp with ⟨p, hp1⟩
      simp only [Bool.false_eq_true, not_false_eq_true, if_true, hm, ne_eq, hp1]
      exact ⟨_, rfl, rfl, rfl⟩
  · simp only [not_true_eq_false, if_false]
    exact ⟨out, rfl, hs, h1 hs⟩

/-- The stream set-up of `enter_voice_call` leaves the output stream and the mode alone and
sets `in_call` exactly when it succeeds. -/
theorem enter_voice_call_streams_frame (env : Env) (a : j6_audio_device) :
    (enter_voice_call_streams env a).2.out = a.out ∧
    (enter_voice_call_streams env a).2.mode = a.mode ∧
    ((enter_voice_call_streams env a).1 = 0 → (enter_voice_call_streams env a).2.in_call = true) ∧
    ((enter_voice_call_streams env a).1 ≠ 0 → a.in_call = false →
      (enter_voice_call_streams env a).2.in_call = false) := by
  unfold enter_voice_call_streams
  simp only []
  split_ifs <;> simp_all

/-- The discipline holds on a freshly opened stream whose block has a null `pcm`. -/
theorem adev_open_output_stream_inv (blk : j6_stream_out) (adev : j6_audio_device)
    (hp : blk.pcm = none) (hc : adev.in_call = false) (hm : adev.mode = .NORMAL) :
    (adev_open_output_stream (some blk) adev).1 = 0 ∧
    OutPcmInv (adev_open_output_stream (some blk) adev).2 := by
  refine ⟨rfl, _, rfl, ?_, fun _ => hp, fun h => absurd h (by simp), fun h => absurd h (by simp)⟩
  show adev.in_call = true ↔ adev.mode = .IN_CALL
  rw [hc, hm]
  exact ⟨fun h => absurd h Bool.false_ne_true, fun h => absurd h (by decide)⟩

/-- Every call on the output path returns without a fault and keeps the discipline. -/
theorem out_call_inv (adev : j6_audio_device) (c : OutCall) (h : OutPcmInv adev) :
    ∃ r, out_call adev c = .ok r ∧ OutPcmInv r.2 := by
  obtain ⟨out, ho, hcm, h1, h2, h3⟩ := h
  have hk2 : out.standby = false → adev.mode ≠ .IN_CALL → out.pcm.isSome = true := by
    intro hs hm
    apply h2 hs
    cases hc : adev.in_call
    · rfl
    · exact absurd (hcm.mp hc) hm
  have hk3 : out.standby = false → adev.mode = .IN_CALL → out.pcm = none :=
    fun hs hm => h3 hs (hcm.mpr hm)
  cases c with
  | write oenv bytes =>
    show ∃ r, out_write oenv adev bytes = .ok r ∧ OutPcmInv r.2
    unfold out_write out_write_resume
    simp only [ho]
    cases hs : out.standby <;> cases hc : adev.in_call
    · have hp := h2 hs hc
      rcases Option.isSome_iff_exists.mp hp with ⟨p, hp1⟩
      simp only [Bool.false_eq_true, if_false, ne_eq, not_true_eq_false, not_false_eq_true,
        if_true, hp1]
      exact ⟨_, rfl, _, rfl, by simpa [hc] using hcm, by simp [hs], by simp [hp1], by simp [hc]⟩
    · simp only [Bool.false_eq_true, if_false, ne_eq, not_true_eq_false, not_false_eq_true,
        if_true]
      exact ⟨_, rfl, _, rfl, by simpa [hc] using hcm, by simp [hs], by simp [hc],
        by simp [h3 hs hc]⟩
    · have hm : ¬ adev.mode = .IN_CALL := fun hm => absurd (hcm.mpr hm) (by simp [hc])
      cases hr : oenv.pcm_out_ready
      · simp [hc, OutPcmInv, ENODEV, hm]
      · simp [hc, OutPcmInv, hm]
    · have hm : adev.mode = .IN_CALL := hcm.mp hc
      simp [hc, OutPcmInv, hm, h1 hs]
  | standby =>
    show ∃ r, out_standby adev = .ok r ∧ OutPcmInv r.2
    obtain ⟨out1, e, hs1, hp1⟩ := do_out_standby_ok adev out h1 hk2 hk3
    unfold out_standby
    simp only [ho, e]
    exact ⟨_, rfl, out1, rfl, hcm, fun _ => hp1, fun h => absurd (hs1.symm.trans h) (by decide),
      fun h => absurd (hs1.symm.trans h) (by decide)⟩
  | set_parameters lookup val OUT_ALL =>
    show ∃ r, out_set_parameters adev lookup val OUT_ALL = .ok r ∧ OutPcmInv r.2
    obtain ⟨out1, e, hs1, hp1⟩ := do_out_standby_ok adev out h1 hk2 hk3
    unfold out_set_parameters
    simp only [ho, e]
    split_ifs
    · exact ⟨_, rfl, out1, rfl, hcm, fun _ => hp1, fun h => absurd (hs1.symm.trans h) (by decide),
        fun h => absurd (hs1.symm.trans h) (by decide)⟩
    · exact ⟨_, rfl, out, rfl, hcm, h1, h2, h3⟩
    · exact ⟨_, rfl, out, ho, hcm, h1, h2, h3⟩
  | set_mode env mode =>
    show ∃ r, adev_set_mode env adev mode = .ok r ∧ OutPcmInv r.2
    obtain ⟨out1, e, hs1, hp1⟩ := do_out_standby_ok adev out h1 hk2 hk3
    have hinv1 : ∀ (a : j6_audio_device), a.out = some out1 →
        (a.in_call = true ↔ a.mode = .IN_CALL) → OutPcmInv a :=
      fun a ha hb => ⟨out1, ha, hb, fun _ => hp1,
        fun h => absurd (hs1.symm.trans h) (by decide),
        fun h => absurd (hs1.symm.trans h) (by decide)⟩
    have hsp : ∀ a : j6_audio_device, a.mode = adev.mode → a.out = some out →
        standby_primary a = .ok { a with out := some out1 } := by
      intro a ha hao
      have e2 : do_out_standby a out = .ok out1 := by
        rw [← e]
        unfold do_out_standby
        rw [ha]
      unfold standby_primary
      simp only [hao, e2]
    unfold adev_set_mode
    by_cases hsame : adev.mode = mode
    · simp only [hsame, if_true]
      exact ⟨_, rfl, out, ho, hcm, h1, h2, h3⟩
    · simp only [hsame, if_false]
      by_cases hin : mode = .IN_CALL
      · subst hin
        have hc : adev.in_call = false := by
          cases hc : adev.in_call
          · rfl
          · exact absurd (hcm.mp hc) hsame
        have e1 := hsp { adev with route_bt_sco_master := true } rfl ho
        have hf := enter_voice_call_streams_frame env
          { { adev with route_bt_sco_master := true } with out := some out1 }
        obtain ⟨f1, f2, f3, f4⟩ := hf
        simp only [if_true, enter_voice_call, e1]
        split_ifs with hr
        · refine ⟨_, rfl, hinv1 _ f1 ?_⟩
          rw [f2, f4 hr hc]
          exact ⟨fun h => absurd h Bool.false_ne_true, fun h => absurd h hsame⟩
        · have hr0 := not_not.mp hr
          refine ⟨_, rfl, hinv1 _ f1 ?_⟩
          exact ⟨fun _ => rfl, fun _ => f3 hr0⟩
      · simp only [hin, if_false]
        by_cases hcall : adev.mode = .IN_CALL
        · have e1 : ∃ a1, leave_voice_call adev = .ok a1 ∧ a1.out = some out1 ∧
              a1.in_call = false := by
            unfold leave_voice_call
            exact ⟨_, hsp _ rfl ho, rfl, rfl⟩
          obtain ⟨a1, e1, ha1, hb1⟩ := e1
          simp only [hcall, if_true, e1]
          refine ⟨_, rfl, hinv1 _ ha1 ?_⟩
          show a1.in_call = true ↔ mode = .IN_CALL
          rw [hb1]
          exact ⟨fun h => absurd h Bool.false_ne_true, fun h => absurd h hin⟩
        · simp only [hcall, if_false]
          have hc : adev.in_call = false := by
            cases hc : adev.in_call
            · rfl
            · exact absurd (hcm.mp hc) hcall
          refine ⟨_, rfl, out, ho, ?_, h1, h2, h3⟩
          show adev.in_call = true ↔ mode = .IN_CALL
          rw [hc]
          exact ⟨fun h => absurd h Bool.false_ne_true, fun h => absurd h hin⟩

/-- From a freshly opened output stream whose block has a null `pcm`, no sequence of
`out_write`, `out_standby`, `out_set_parameters` and `adev_set_mode` calls faults (no null
handle reaches `pcm_write` or `pcm_close`), and the discipline of `out->pcm` holds in the state
it ends in. -/
theorem out_calls_inv (calls : List OutCall) :
    ∀ adev, OutPcmInv adev → ∃ adev1, out_calls calls adev = .ok adev1 ∧ OutPcmInv adev1 := by
  induction calls with
  | nil => intro adev h; exact ⟨adev, rfl, h⟩
  | cons c cs ih =>
    intro adev h
    obtain ⟨r, e, hr⟩ := out_call_inv adev c h
    obtain ⟨a1, e1, h1⟩ := ih r.2 hr
    refine ⟨a1, ?_, h1⟩
    unfold out_calls
    rw [e]
    exact e1

end Legacy
/-- C1: a `setMode` to the mode the device is already in returns 0 and leaves the whole state
(mode, registrations, started streams, pipes, mixer and the trace of issued effects) unchanged,
in the multizone `AudioHwDevice::setMode` and in the legacy `adev_set_mode`. -/
theorem C1_setMode_same_mode_is_noop (envM : Multizone.Env) (h : Multizone.Hal)
    (envL : Legacy.Env) (adev : Legacy.j6_audio_device) :
    Multizone.AudioHwDevice.setMode envM h h.hw.mMode = (0, h) ∧
    Legacy.adev_set_mode envL adev adev.mode = .ok (0, adev) := by
  constructor
  · simp [Multizone.AudioHwDevice.setMode]
  · simp [Legacy.adev_set_mode]

/-- C2 (evaluation of the code): on the concrete initial state, when `start()` of the
downlink-in stream fails with -19, `setMode(IN_CALL)` returns -19 and leaves the mode `NORMAL`,
but nothing is rolled back: the four voice streams stay registered, the uplink-in stream stays
started, the primary output stays diverted to the null writer and the Bluetooth link stays
clock master. -/
theorem C2_failed_enter_keeps_partial_call_state :
    (Multizone.AudioHwDevice.setMode Multizone.dlInStartFailsEnv Multizone.sampleHal
      .IN_CALL).1 = -19 ∧
    (Multizone.AudioHwDevice.setMode Multizone.dlInStartFailsEnv Multizone.sampleHal
      .IN_CALL).2.hw.mMode = .NORMAL ∧
    Multizone.StreamId.voiceULIn ∈ Multizone.getReader
      (Multizone.AudioHwDevice.setMode Multizone.dlInStartFailsEnv Multizone.sampleHal
        .IN_CALL).2 .cpu ∧
    Multizone.StreamId.voiceULOut ∈ Multizone.getWriter
      (Multizone.AudioHwDevice.setMode Multizone.dlInStartFailsEnv Multizone.sampleHal
        .IN_CALL).2 (.port .bt) ∧
    Multizone.StreamId.voiceDLIn ∈ Multizone.getReader
      (Multizone.AudioHwDevice.setMode Multizone.dlInStartFailsEnv Multizone.sampleHal
        .IN_CALL).2 .bt ∧
    Multizone.StreamId.voiceDLOut ∈ Multizone.getWriter
      (Multizone.AudioHwDevice.setMode Multizone.dlInStartFailsEnv Multizone.sampleHal
        .IN_CALL).2 (.port .cpu) ∧
    Multizone.StreamId.voiceULIn ∈
      (Multizone.AudioHwDevice.setMode Multizone.dlInStartFailsEnv Multizone.sampleHal
        .IN_CALL).2.hw.started ∧
    (Multizone.AudioHwDevice.setMode Multizone.dlInStartFailsEnv Multizone.sampleHal
      .IN_CALL).2.out.mUsedForVoiceCall = true ∧
    Multizone.sampleHal.hw.mMixer.btMaster = false ∧
    (Multizone.AudioHwDevice.setMode Multizone.dlInStartFailsEnv Multizone.sampleHal
      .IN_CALL).2.hw.mMixer.btMaster = true := by
  decide

/-- C3 (evaluation of the code): on the concrete initial state, when `start()` of the
downlink-out stream fails with -19 and every other step succeeds, `enterVoiceCall` returns 0,
`setMode(IN_CALL)` returns 0 and switches the mode to `IN_CALL`, with the downlink-out stream
not started. -/
theorem C3_downlink_out_start_error_is_dropped :
    Multizone.dlOutStartFailsEnv.startStatus .voiceDLOut = -19 ∧
    (Multizone.AudioHwDevice.enterVoiceCall Multizone.dlOutStartFailsEnv
      Multizone.sampleHal).1 = 0 ∧
    (Multizone.AudioHwDevice.setMode Multizone.dlOutStartFailsEnv Multizone.sampleHal
      .IN_CALL).1 = 0 ∧
    (Multizone.AudioHwDevice.setMode Multizone.dlOutStartFailsEnv Multizone.sampleHal
      .IN_CALL).2.hw.mMode = .IN_CALL ∧
    Multizone.StreamId.voiceDLOut ∉
      (Multizone.AudioHwDevice.setMode Multizone.dlOutStartFailsEnv Multizone.sampleHal
        .IN_CALL).2.hw.started ∧
    Multizone.Event.streamStart .voiceDLOut (-19) ∈
      (Multizone.AudioHwDevice.setMode Multizone.dlOutStartFailsEnv Multizone.sampleHal
        .IN_CALL).2.trace := by
  decide

/-- C7 (evaluation of the code): on the concrete running streams, when the stream level
transfer fails with -5, `AudioStreamIn::read` returns -5 but `AudioStreamOut::write` returns
the requested byte count 4096. -/
theorem C7_write_io_error_returns_byte_count :
    Multizone.runningHal.out.mStandby = false ∧
    Multizone.runningHal.inp.mStandby = false ∧
    (Multizone.AudioStreamOut.write Multizone.ioErrorEnv Multizone.runningHal 4096).1 = 4096 ∧
    (Multizone.AudioStreamIn.read Multizone.ioErrorEnv Multizone.runningHal 4096).1 = -5 := by
  decide
/-- C4: voice call round trip.  Starting in normal mode with a valid primary output stream and
no voice stream registered, if `setMode(IN_CALL)` succeeds and `setMode(NORMAL)` is called next,
then the second call returns 0 and afterwards no voice stream is registered on any writer or
reader, none is started, the primary output is not used for the voice call (its `resume()`
selects its regular writer), the mode is `NORMAL`, the Bluetooth link is back to slave and both
cabin volume controls hold the value of the nominal volume 1.0, which is 118 (0 dB). -/
theorem C4_voice_call_round_trip (env1 env2 : Multizone.Env) (h : Multizone.Hal)
    (hmode : h.hw.mMode = .NORMAL) (hprim : h.hw.mPrimaryStreamOut = true)
    (hnone : Multizone.NoVoiceRegistered h)
    (henter : (Multizone.AudioHwDevice.setMode env1 h .IN_CALL).1 = 0) :
    (Multizone.AudioHwDevice.setMode env2
        (Multizone.AudioHwDevice.setMode env1 h .IN_CALL).2 .NORMAL).1 = 0 ∧
    Multizone.NoVoiceRegistered (Multizone.AudioHwDevice.setMode env2
        (Multizone.AudioHwDevice.setMode env1 h .IN_CALL).2 .NORMAL).2 ∧
    (∀ s : Multizone.StreamId, s.isVoice = true →
      s ∉ (Multizone.AudioHwDevice.setMode env2
        (Multizone.AudioHwDevice.setMode env1 h .IN_CALL).2 .NORMAL).2.hw.started) ∧
    (Multizone.AudioHwDevice.setMode env2
        (Multizone.AudioHwDevice.setMode env1 h .IN_CALL).2 .NORMAL).2.out.mUsedForVoiceCall
      = false ∧
    Multizone.AudioStreamOut.selectWriter (Multizone.AudioHwDevice.setMode env2
        (Multizone.AudioHwDevice.setMode env1 h .IN_CALL).2 .NORMAL).2 = .port h.out.mWriter ∧
    (Multizone.AudioHwDevice.setMode env2
        (Multizone.AudioHwDevice.setMode env1 h .IN_CALL).2 .NORMAL).2.hw.mMode = .NORMAL ∧
    (Multizone.AudioHwDevice.setMode env2
        (Multizone.AudioHwDevice.setMode env1 h .IN_CALL).2 .NORMAL).2.hw.mMixer =
      ⟨false, Multizone.voiceVolumeVal 1, Multizone.voiceVolumeVal 1⟩ ∧
    Multizone.voiceVolumeVal 1 = 118 := by
  have hne : h.hw.mMode ≠ .IN_CALL := by rw [hmode]; decide
  rw [Multizone.setMode_enter_ok env1 h hne henter]
  rw [Multizone.setMode_leave env2 _ .NORMAL (by decide) (by simp)]
  obtain ⟨f1, f2, f3, f4⟩ := Multizone.round_trip_fields env1 h .IN_CALL .NORMAL hprim
  refine ⟨rfl, ?_, ?_, f1, ?_, f3, ?_, Multizone.voiceVolumeVal_one⟩
  · intro s hs
    exact ⟨fun w hw => (hnone s hs).1 w
        (Multizone.mem_getWriter_round_trip env1 h _ _ hprim w s hw),
      fun p hp => (hnone s hs).2 p (Multizone.mem_getReader_round_trip env1 h _ _ p s hp)⟩
  · intro s hs
    exact Multizone.not_mem_started_round_trip _ _ s hs
  · rw [Multizone.AudioStreamOut.selectWriter, f1, f2]
    rfl
  · rw [f4, Multizone.voiceVolumeVal_one]

/-- Witness for C4 on the concrete initial state with collaborators that always succeed. -/
theorem C4_voice_call_round_trip_witness :
    Multizone.sampleHal.hw.mMode = .NORMAL ∧
    (Multizone.AudioHwDevice.setMode Multizone.okEnv Multizone.sampleHal .IN_CALL).1 = 0 ∧
    Multizone.NoVoiceRegistered (Multizone.AudioHwDevice.setMode Multizone.okEnv
        (Multizone.AudioHwDevice.setMode Multizone.okEnv Multizone.sampleHal .IN_CALL).2
        .NORMAL).2 :=
  ⟨by decide, by decide,
    (C4_voice_call_round_trip Multizone.okEnv Multizone.okEnv Multizone.sampleHal (by decide)
      (by decide)
      (by
        intro s _
        constructor
        · intro w; cases w with
          | port p => cases p <;> simp [Multizone.getWriter, Multizone.sampleHal,
              Multizone.sampleHw, Multizone.PortMap.get]
          | null => simp [Multizone.getWriter, Multizone.sampleHal, Multizone.sampleOut]
        · intro p; cases p <;> simp [Multizone.getReader, Multizone.sampleHal,
            Multizone.sampleHw, Multizone.PortMap.get])
      (by decide)).2.1⟩
/-- C5: in every state reachable from the initial state through the calls on the two stream
facades (`write`, `standby`, `setParameters`, `read`) and `AudioHwDevice::setMode`, with
collaborators that may fail in any way, the media stream and the voice downlink-out stream are
never both registered on the writer of the primary output stream.  The downlink-out stream is
registered there only while the stream is marked used for the voice call, the media stream only
while it is not (and is running), and the state in which `enableVoiceCall` starts to register
the voice streams (right after `setVoiceCall(true)`) has the media stream off that writer. -/
theorem C5_primary_writer_mutual_exclusion (h : Multizone.Hal) (hr : Multizone.Reachable h) :
    ¬ (Multizone.StreamId.media ∈ Multizone.getWriter h (.port h.out.mWriter) ∧
        Multizone.StreamId.voiceDLOut ∈ Multizone.getWriter h (.port h.out.mWriter)) ∧
    (Multizone.StreamId.voiceDLOut ∈ Multizone.getWriter h (.port h.out.mWriter) →
      h.out.mUsedForVoiceCall = true) ∧
    (Multizone.StreamId.media ∈ Multizone.getWriter h (.port h.out.mWriter) →
      h.out.mUsedForVoiceCall = false ∧ h.out.mStandby = false) ∧
    Multizone.StreamId.media ∉
      Multizone.getWriter (Multizone.AudioStreamOut.setVoiceCall h true)
        (.port h.out.mWriter) := by
  have hi := (Multizone.HalInv_of_reachable h hr).1
  obtain ⟨ha, hb, hc⟩ := hi
  refine ⟨?_, hb, ?_, Multizone.setVoiceCall_true_not_mem h ⟨ha, hb, hc⟩⟩
  · rintro ⟨h1, h2⟩
    have e1 := ha h1
    have e2 := hb h2
    rw [e1] at e2
    exact absurd e2 (by decide)
  · intro h1
    refine ⟨ha h1, ?_⟩
    by_cases hs : h.out.mStandby = true
    · exact absurd h1 (hc hs)
    · simpa using hs

/-- Witness for C5: the state reached from the concrete initial state by a write, a successful
`setMode(IN_CALL)` and another write. -/
theorem C5_primary_writer_mutual_exclusion_witness :
    Multizone.StreamId.voiceDLOut ∈ Multizone.getWriter
        (Multizone.step Multizone.okEnv (Multizone.step Multizone.okEnv
          (Multizone.step Multizone.okEnv Multizone.sampleHal (.write 4096))
          (.setMode .IN_CALL)) (.write 4096)) (.port .cpu) ∧
    ¬ (Multizone.StreamId.media ∈ Multizone.getWriter
        (Multizone.step Multizone.okEnv (Multizone.step Multizone.okEnv
          (Multizone.step Multizone.okEnv Multizone.sampleHal (.write 4096))
          (.setMode .IN_CALL)) (.write 4096)) (.port .cpu) ∧
      Multizone.StreamId.voiceDLOut ∈ Multizone.getWriter
        (Multizone.step Multizone.okEnv (Multizone.step Multizone.okEnv
          (Multizone.step Multizone.okEnv Multizone.sampleHal (.write 4096))
          (.setMode .IN_CALL)) (.write 4096)) (.port .cpu)) :=
  ⟨by decide,
    (C5_primary_writer_mutual_exclusion _
      (Multizone.Reachable.next _ _ _ (Multizone.Reachable.next _ _ _
        (Multizone.Reachable.next _ _ _ (Multizone.Reachable.init _ (by unfold Multizone.InitialHal; decide)))))).1⟩

/-- C6: in every reachable state, `AudioStreamOut::write` on an output stream in standby and
`AudioStreamIn::read` on an input stream in standby run `resume()` first.  The status of
`resume()` is the status of `registerStream` if that is nonzero and the status of `start`
otherwise.  If it is nonzero the call returns it, issues no data transfer, leaves the stream in
standby, leaves every registration set as it was, and the stream is registered on none of its
writers (on its reader, for the input stream).  If it is zero the standby flag is cleared, the
stream is registered and started, and the effects issued are the registration, the start and
only then the transfer. -/
theorem C6_transfer_on_standby_resumes_first (env : Multizone.Env) (h : Multizone.Hal)
    (hr : Multizone.Reachable h) (bytes : Nat) :
    (h.out.mStandby = true →
      (Multizone.AudioStreamOut.resume env h).1 =
        (if env.writerStatus (Multizone.AudioStreamOut.selectWriter h) .media ≠ 0 then
          env.writerStatus (Multizone.AudioStreamOut.selectWriter h) .media
         else env.startStatus .media) ∧
      ((Multizone.AudioStreamOut.resume env h).1 ≠ 0 →
        (Multizone.AudioStreamOut.write env h bytes).1 =
          (Multizone.AudioStreamOut.resume env h).1 ∧
        (Multizone.AudioStreamOut.write env h bytes).2.out.mStandby = true ∧
        (∀ w, Multizone.getWriter (Multizone.AudioStreamOut.write env h bytes).2 w =
          Multizone.getWriter h w) ∧
        Multizone.StreamId.media ∉
          Multizone.getWriter (Multizone.AudioStreamOut.write env h bytes).2
            (.port h.out.mWriter) ∧
        Multizone.StreamId.media ∉
          Multizone.getWriter (Multizone.AudioStreamOut.write env h bytes).2 .null ∧
        (∀ n ret, Multizone.Event.streamWrite n ret ∉
          (Multizone.AudioStreamOut.write env h bytes).2.trace.drop h.trace.length)) ∧
      ((Multizone.AudioStreamOut.resume env h).1 = 0 →
        (Multizone.AudioStreamOut.write env h bytes).2.out.mStandby = false ∧
        Multizone.StreamId.media ∈
          Multizone.getWriter (Multizone.AudioStreamOut.write env h bytes).2
            (Multizone.AudioStreamOut.selectWriter h) ∧
        Multizone.StreamId.media ∈ (Multizone.AudioStreamOut.write env h bytes).2.hw.started ∧
        ((Multizone.AudioStreamOut.write env h bytes).2.trace.drop h.trace.length).take 3 =
          [Multizone.Event.registerWriter (Multizone.AudioStreamOut.selectWriter h) .media 0,
           Multizone.Event.streamStart .media 0,
           Multizone.Event.streamWrite (Multizone.u32 (h.out.mParams.bytesToFrames bytes))
            (env.writeResult (Multizone.u32 (h.out.mParams.bytesToFrames bytes)))])) ∧
    (h.inp.mStandby = true →
      (Multizone.AudioStreamIn.resume env h).1 =
        (if env.readerStatus h.inp.mReader .capture ≠ 0 then
          env.readerStatus h.inp.mReader .capture
         else env.startStatus .capture) ∧
      ((Multizone.AudioStreamIn.resume env h).1 ≠ 0 →
        (Multizone.AudioStreamIn.read env h bytes).1 =
          (Multizone.AudioStreamIn.resume env h).1 ∧
        (Multizone.AudioStreamIn.read env h bytes).2.inp.mStandby = true ∧
        (∀ p, Multizone.getReader (Multizone.AudioStreamIn.read env h bytes).2 p =
          Multizone.getReader h p) ∧
        Multizone.StreamId.capture ∉
          Multizone.getReader (Multizone.AudioStreamIn.read env h bytes).2 h.inp.mReader ∧
        (∀ n ret, Multizone.Event.streamRead n ret ∉
          (Multizone.AudioStreamIn.read env h bytes).2.trace.drop h.trace.length)) ∧
      ((Multizone.AudioStreamIn.resume env h).1 = 0 →
        (Multizone.AudioStreamIn.read env h bytes).2.inp.mStandby = false ∧
        Multizone.StreamId.capture ∈
          Multizone.getReader (Multizone.AudioStreamIn.read env h bytes).2 h.inp.mReader ∧
        Multizone.StreamId.capture ∈ (Multizone.AudioStreamIn.read env h bytes).2.hw.started ∧
        ((Multizone.AudioStreamIn.read env h bytes).2.trace.drop h.trace.length).take 3 =
          [Multizone.Event.registerReader h.inp.mReader .capture 0,
           Multizone.Event.streamStart .capture 0,
           Multizone.Event.streamRead (Multizone.u32 (h.inp.mParams.bytesToFrames bytes))
            (env.readResult (Multizone.u32 (h.inp.mParams.bytesToFrames bytes)))])) := by
  obtain ⟨⟨-, -, hc⟩, -, he, hf⟩ := Multizone.HalInv_of_reachable h hr
  constructor
  · intro hsb
    have hp := hc hsb
    have hn := he hsb
    have hm : Multizone.StreamId.media ∉
        Multizone.getWriter h (Multizone.AudioStreamOut.selectWriter h) := by
      unfold Multizone.AudioStreamOut.selectWriter
      split_ifs
      · exact hn
      · exact hp
    refine ⟨Multizone.resume_fst env h hm, ?_, ?_⟩
    · intro hfail
      obtain ⟨f1, f2, f3, f4⟩ := Multizone.write_standby_fail env h bytes hsb hfail
      refine ⟨f1, f2, f3, ?_, ?_, f4⟩
      · rw [f3]; exact hp
      · rw [f3]; exact hn
    · intro hok
      obtain ⟨g1, g2, g3, g4⟩ := Multizone.write_standby_ok env h bytes hsb hok
      refine ⟨g1, g2, g3, ?_⟩
      rw [g4]
      rfl
  · intro hsb
    have hm := hf hsb
    refine ⟨Multizone.in_resume_fst env h hm, ?_, ?_⟩
    · intro hfail
      obtain ⟨f1, f2, f3, f4⟩ := Multizone.read_standby_fail env h bytes hsb hfail
      refine ⟨f1, f2, f3, ?_, f4⟩
      rw [f3]; exact hm
    · intro hok
      exact Multizone.read_standby_ok env h bytes hsb hok

/-- Witness for C6: on the concrete initial state, a write whose `start` fails with -19 returns
-19 and leaves the stream in standby. -/
theorem C6_transfer_on_standby_resumes_first_witness :
    Multizone.Reachable Multizone.sampleHal ∧
    (Multizone.AudioStreamOut.write Multizone.startFailsEnv Multizone.sampleHal 4096).1 = -19 ∧
    (Multizone.AudioStreamOut.write Multizone.startFailsEnv Multizone.sampleHal 4096).2.out.mStandby
      = true :=
  ⟨Multizone.Reachable.init _ (by unfold Multizone.InitialHal; decide),
    ((((C6_transfer_on_standby_resumes_first Multizone.startFailsEnv Multizone.sampleHal
      (Multizone.Reachable.init _ (by unfold Multizone.InitialHal; decide)) 4096).1
        (by decide)).2.1 (by decide)).1).trans (by decide),
    (((C6_transfer_on_standby_resumes_first Multizone.startFailsEnv Multizone.sampleHal
      (Multizone.Reachable.init _ (by unfold Multizone.InitialHal; decide)) 4096).1
        (by decide)).2.1 (by decide)).2.1⟩

namespace Legacy

theorem memset_getElem? (buf : List UInt8) (c : UInt8) (n i : Nat) (hi : i < n) :
    (memset buf c n)[i]? = some c := by
  unfold memset
  rw [List.getElem?_append_left (by simpa using hi)]
  simp [List.getElem?_replicate, hi]

theorem memset_length (buf : List UInt8) (c : UInt8) (n : Nat) (hn : n ≤ buf.length) :
    (memset buf c n).length = buf.length := by
  unfold memset
  simp
  omega

end Legacy

/-- C8: legacy `in_read` of `bytes` bytes on a stream whose PCM device is open or opens
successfully.  If the read step (`read_frames` on the adapted path, a direct `pcm_read`
otherwise) reports a negative status, or reports a non-negative one while the microphone is
muted, then `in_read` returns exactly `bytes` and each of the first `bytes` bytes of the
caller's buffer is zero. -/
theorem C8_in_read_failure_returns_silence (env : Legacy.Env) (fuel : Nat)
    (adev : Legacy.j6_audio_device) (sin s1 s2 : Legacy.j6_stream_in)
    (buffer buf2 : List UInt8) (bytes : Nat) (ret : Int)
    (hopen : Legacy.in_read_open env sin = some s1)
    (hread : Legacy.in_read_data env fuel s1 buffer
      (Legacy.u32 (bytes / Legacy.audio_stream_frame_size sin)) bytes = .ok (ret, s2, buf2))
    (hsil : ret < 0 ∨ adev.mic_mute = true) :
    Legacy.in_read env fuel adev sin buffer bytes =
      .ok ((bytes : Int), s2, Legacy.memset buf2 0 bytes) ∧
    (∀ i, i < bytes → (Legacy.memset buf2 0 bytes)[i]? = some 0) ∧
    (bytes ≤ buf2.length → (Legacy.memset buf2 0 bytes).length = buf2.length) := by
  refine ⟨?_, fun i hi => Legacy.memset_getElem? buf2 0 bytes i hi,
    Legacy.memset_length buf2 0 bytes⟩
  simp only [Legacy.in_read, hopen, hread]
  rcases hsil with h | h
  · simp [h]
  · by_cases hneg : ret < 0
    · simp [hneg]
    · simp [hneg, h]

/-- Witness for C8: a direct hardware read of 8 bytes that fails with -5 after scribbling on
the buffer returns 8 and delivers eight zero bytes. -/
theorem C8_in_read_failure_returns_silence_witness :
    Legacy.in_read Legacy.failingReadEnv 5 Legacy.sampleDevice Legacy.sampleStreamIn
        [1, 2, 3, 4, 5, 6, 7, 8, 9] 8 =
      .ok (8, Legacy.sampleStreamIn, [0, 0, 0, 0, 0, 0, 0, 0, 9]) :=
  (C8_in_read_failure_returns_silence Legacy.failingReadEnv 5 Legacy.sampleDevice
    Legacy.sampleStreamIn Legacy.sampleStreamIn Legacy.sampleStreamIn
    [1, 2, 3, 4, 5, 6, 7, 8, 9] [7, 7, 7, 7, 7, 7, 7, 7, 9] 8 (-5) (by decide) (by rfl)
    (Or.inl (by decide))).1.trans (by rfl)

/-- C9: `AudioStreamOut::setParameters` and `AudioStreamIn::setParameters` with a routing key
of device value `d` (as `unsigned int`).  If `d` differs from the current devices masked with
the all-out (all-in) mask, the call is `standby()` followed by the device update, so the stream
is in standby on return and, if it was running, it was stopped and unregistered; if `d` equals
the masked devices the standby flag, the registrations and the started streams are unchanged.
The stored device becomes `d` exactly when every bit of `d` is a bit of
`getSupportedDevices()`, and is unchanged otherwise. -/
theorem C9_setParameters_routing (c : Multizone.AudioDevices) (h : Multizone.Hal)
    (source routing : Multizone.KeyLookup) (hkey : routing.status = 0) :
    ((h.out.mDevices &&& c.OUT_ALL ≠ Multizone.toU32 routing.value →
        (Multizone.AudioStreamOut.setParameters c h routing).2.out.mStandby = true ∧
        (∀ w, Multizone.getWriter (Multizone.AudioStreamOut.setParameters c h routing).2 w =
          Multizone.getWriter (Multizone.AudioStreamOut.standby h).2 w) ∧
        (h.out.mStandby = false →
          Multizone.StreamId.media ∉
            Multizone.getWriter (Multizone.AudioStreamOut.setParameters c h routing).2
              (Multizone.AudioStreamOut.selectWriter h) ∧
          Multizone.StreamId.media ∉
            (Multizone.AudioStreamOut.setParameters c h routing).2.hw.started)) ∧
      (h.out.mDevices &&& c.OUT_ALL = Multizone.toU32 routing.value →
        (Multizone.AudioStreamOut.setParameters c h routing).2.out.mStandby = h.out.mStandby ∧
        (∀ w, Multizone.getWriter (Multizone.AudioStreamOut.setParameters c h routing).2 w =
          Multizone.getWriter h w) ∧
        (Multizone.AudioStreamOut.setParameters c h routing).2.hw.started = h.hw.started) ∧
      ((∀ i, (Multizone.toU32 routing.value).testBit i = true →
            (Multizone.AudioHwDevice.getSupportedDevices c).testBit i = true) →
        (Multizone.AudioStreamOut.setParameters c h routing).2.out.mDevices =
          Multizone.toU32 routing.value) ∧
      (¬ (∀ i, (Multizone.toU32 routing.value).testBit i = true →
            (Multizone.AudioHwDevice.getSupportedDevices c).testBit i = true) →
        (Multizone.AudioStreamOut.setParameters c h routing).2.out.mDevices =
          h.out.mDevices)) ∧
    ((h.inp.mDevices &&& c.IN_ALL ≠ Multizone.toU32 routing.value →
        (Multizone.AudioStreamIn.setParameters c h source routing).2.inp.mStandby = true ∧
        (h.inp.mStandby = false →
          Multizone.StreamId.capture ∉
            Multizone.getReader (Multizone.AudioStreamIn.setParameters c h source routing).2
              h.inp.mReader ∧
          Multizone.StreamId.capture ∉
            (Multizone.AudioStreamIn.setParameters c h source routing).2.hw.started)) ∧
      (h.inp.mDevices &&& c.IN_ALL = Multizone.toU32 routing.value →
        (Multizone.AudioStreamIn.setParameters c h source routing).2.inp.mStandby =
          h.inp.mStandby ∧
        (∀ p, Multizone.getReader (Multizone.AudioStreamIn.setParameters c h source routing).2 p
          = Multizone.getReader h p) ∧
        (Multizone.AudioStreamIn.setParameters c h source routing).2.hw.started =
          h.hw.started) ∧
      ((∀ i, (Multizone.toU32 routing.value).testBit i = true →
            (Multizone.AudioHwDevice.getSupportedDevices c).testBit i = true) →
        (Multizone.AudioStreamIn.setParameters c h source routing).2.inp.mDevices =
          Multizone.toU32 routing.value) ∧
      (¬ (∀ i, (Multizone.toU32 routing.value).testBit i = true →
            (Multizone.AudioHwDevice.getSupportedDevices c).testBit i = true) →
        (Multizone.AudioStreamIn.setParameters c h source routing).2.inp.mDevices =
          h.inp.mDevices)) := by
  have hsup := Multizone.and_notU32_eq_zero_iff (Multizone.toU32 routing.value)
    (Multizone.AudioHwDevice.getSupportedDevices c) (Multizone.toU32_lt _)
  rw [Multizone.u32_getSupportedDevices] at hsup
  constructor
  · refine ⟨?_, ?_, ?_, ?_⟩
    · intro hne
      by_cases hs : Multizone.toU32 routing.value &&&
          Multizone.notU32 (Multizone.AudioHwDevice.getSupportedDevices c) = 0 <;>
      by_cases hsb : h.out.mStandby = true <;>
      simp [Multizone.AudioStreamOut.setParameters, hkey, hne, hs, hsb,
        Multizone.AudioStreamOut.standby]
    · intro heq
      by_cases hs : Multizone.toU32 routing.value &&&
          Multizone.notU32 (Multizone.AudioHwDevice.getSupportedDevices c) = 0 <;>
      simp [Multizone.AudioStreamOut.setParameters, hkey, heq, hs]
    · intro hall
      have hs := hsup.2 hall
      by_cases hne : h.out.mDevices &&& c.OUT_ALL = Multizone.toU32 routing.value <;>
      by_cases hsb : h.out.mStandby = true <;>
      simp [Multizone.AudioStreamOut.setParameters, hkey, hne, hs, hsb,
        Multizone.AudioStreamOut.standby]
    · intro hall
      have hs : ¬ (Multizone.toU32 routing.value &&&
          Multizone.notU32 (Multizone.AudioHwDevice.getSupportedDevices c) = 0) :=
        fun e => hall (hsup.1 e)
      by_cases hne : h.out.mDevices &&& c.OUT_ALL = Multizone.toU32 routing.value <;>
      by_cases hsb : h.out.mStandby = true <;>
      simp [Multizone.AudioStreamOut.setParameters, hkey, hne, hs, hsb,
        Multizone.AudioStreamOut.standby]
  · refine ⟨?_, ?_, ?_, ?_⟩
    · intro hne
      by_cases hs : Multizone.toU32 routing.value &&&
          Multizone.notU32 (Multizone.AudioHwDevice.getSupportedDevices c) = 0 <;>
      by_cases hsb : h.inp.mStandby = true <;>
      by_cases hsrc : source.status = 0 ∧ h.inp.mSource ≠ Multizone.toU32 source.value ∧
        source.value ≠ 0 ∧ source.value < c.SOURCE_CNT <;>
      simp [Multizone.AudioStreamIn.setParameters, hkey, hne, hs, hsb, hsrc,
        Multizone.AudioStreamIn.standby]
    · intro heq
      by_cases hs : Multizone.toU32 routing.value &&&
          Multizone.notU32 (Multizone.AudioHwDevice.getSupportedDevices c) = 0 <;>
      by_cases hsrc : source.status = 0 ∧ h.inp.mSource ≠ Multizone.toU32 source.value ∧
        source.value ≠ 0 ∧ source.value < c.SOURCE_CNT <;>
      simp [Multizone.AudioStreamIn.setParameters, hkey, heq, hs, hsrc]
    · intro hall
      have hs := hsup.2 hall
      by_cases hne : h.inp.mDevices &&& c.IN_ALL = Multizone.toU32 routing.value <;>
      by_cases hsb : h.inp.mStandby = true <;>
      by_cases hsrc : source.status = 0 ∧ h.inp.mSource ≠ Multizone.toU32 source.value ∧
        source.value ≠ 0 ∧ source.value < c.SOURCE_CNT <;>
      simp [Multizone.AudioStreamIn.setParameters, hkey, hne, hs, hsb, hsrc,
        Multizone.AudioStreamIn.standby]
    · intro hall
      have hs : ¬ (Multizone.toU32 routing.value &&&
          Multizone.notU32 (Multizone.AudioHwDevice.getSupportedDevices c) = 0) :=
        fun e => hall (hsup.1 e)
      by_cases hne : h.inp.mDevices &&& c.IN_ALL = Multizone.toU32 routing.value <;>
      by_cases hsb : h.inp.mStandby = true <;>
      by_cases hsrc : source.status = 0 ∧ h.inp.mSource ≠ Multizone.toU32 source.value ∧
        source.value ≠ 0 ∧ source.value < c.SOURCE_CNT <;>
      simp [Multizone.AudioStreamIn.setParameters, hkey, hne, hs, hsb, hsrc,
        Multizone.AudioStreamIn.standby]

/-- Witness for C9: routing the running concrete output stream from the speaker (2) to the
wired headphone (8) puts it in standby. -/
theorem C9_setParameters_routing_witness :
    (Multizone.KeyLookup.mk 0 8).status = 0 ∧
    Multizone.runningHal.out.mStandby = false ∧
    (Multizone.AudioStreamOut.setParameters Multizone.sampleAudioDevices Multizone.runningHal
      (Multizone.KeyLookup.mk 0 8)).2.out.mStandby = true :=
  ⟨rfl, by decide,
    ((C9_setParameters_routing Multizone.sampleAudioDevices Multizone.runningHal
      (Multizone.KeyLookup.mk 0 0) (Multizone.KeyLookup.mk 0 8) rfl).1.1 (by decide)).1⟩

/-- C10: truncate remix.  For a descriptor with `in_chans > out_chans >= 1` and
`sample_size >= 1`, `frames >= 1` and a buffer of at least `frames * in_chans * sample_size`
bytes (a buffer in the 32 bit address space, so shorter than `2 ^ 32` bytes), after the in-place
call the byte at offset `f * out_chans * sample_size + c` equals the original byte at offset
`f * in_chans * sample_size + c`, for every frame `f < frames` and every
`c < out_chans * sample_size`; the buffer keeps its length. -/
theorem C10_truncate_remix_compacts (data : Legacy.buffer_remix) (buf : List UInt8)
    (frames : Nat) (hout : 1 ≤ data.out_chans) (hin : data.out_chans < data.in_chans)
    (hss : 1 ≤ data.sample_size) (hfr : 1 ≤ frames)
    (hlen : frames * data.in_chans * data.sample_size ≤ buf.length)
    (hmem : buf.length < 2 ^ 32) :
    (Legacy.remove_channels_from_buf data buf frames).length = buf.length ∧
    ∀ f c : Nat, f < frames → c < data.out_chans * data.sample_size →
      (Legacy.remove_channels_from_buf data buf frames).getD
          (f * (data.out_chans * data.sample_size) + c) 0 =
        buf.getD (f * (data.in_chans * data.sample_size) + c) 0 := by
  have hlt : data.out_chans * data.sample_size < data.in_chans * data.sample_size :=
    Nat.mul_lt_mul_of_pos_right hin (by omega)
  have hinf : data.in_chans * data.sample_size ≤ buf.length := by
    have h1 : 1 * (data.in_chans * data.sample_size) ≤
        frames * (data.in_chans * data.sample_size) := Nat.mul_le_mul_right _ hfr
    rw [Nat.mul_assoc] at hlen
    omega
  have ein : Legacy.u32 (data.in_chans * data.sample_size) =
      data.in_chans * data.sample_size := Nat.mod_eq_of_lt (by omega)
  have eout : Legacy.u32 (data.out_chans * data.sample_size) =
      data.out_chans * data.sample_size := Nat.mod_eq_of_lt (by omega)
  have hne : frames ≠ 0 := by omega
  have hdef : Legacy.remove_channels_from_buf data buf frames =
      Legacy.remove_channels_loop (data.in_chans * data.sample_size)
        (data.out_chans * data.sample_size) (frames - 1)
        (1 * (data.out_chans * data.sample_size)) (1 * (data.in_chans * data.sample_size))
        buf := by
    simp only [Legacy.remove_channels_from_buf, if_neg hne, ein, eout, ge_iff_le,
      if_neg (Nat.not_le_of_lt hlt), Nat.one_mul]
  rw [hdef]
  refine ⟨Legacy.remove_channels_loop_length _ _ _ _ _ _, ?_⟩
  intro f c hf hc
  have hk : (1 + (frames - 1)) * (data.in_chans * data.sample_size) ≤ buf.length := by
    have : 1 + (frames - 1) = frames := by omega
    rw [this, ← Nat.mul_assoc]
    exact hlen
  rw [Legacy.remove_channels_loop_getD _ _ hlt (frames - 1) 1 buf _ (le_refl 1) hk]
  have hpos : 0 < data.out_chans * data.sample_size := Nat.mul_pos (by omega) (by omega)
  have hq : (f * (data.out_chans * data.sample_size) + c) / (data.out_chans * data.sample_size)
      = f := by
    rw [Nat.add_comm, Nat.add_mul_div_right _ _ hpos, Nat.div_eq_of_lt hc, Nat.zero_add]
  have hr : (f * (data.out_chans * data.sample_size) + c) % (data.out_chans * data.sample_size)
      = c := by
    rw [Nat.add_comm, Nat.add_mul_mod_self_right, Nat.mod_eq_of_lt hc]
  by_cases hf0 : f = 0
  · subst hf0
    have hno : ¬ (1 * (data.out_chans * data.sample_size) ≤
        0 * (data.out_chans * data.sample_size) + c ∧
        0 * (data.out_chans * data.sample_size) + c <
          (1 + (frames - 1)) * (data.out_chans * data.sample_size)) := by
      rw [Nat.zero_mul, Nat.one_mul]
      omega
    rw [if_neg hno]
    simp
  · have hyes : 1 * (data.out_chans * data.sample_size) ≤
        f * (data.out_chans * data.sample_size) + c ∧
        f * (data.out_chans * data.sample_size) + c <
          (1 + (frames - 1)) * (data.out_chans * data.sample_size) := by
      have e : 1 + (frames - 1) = frames := by omega
      rw [e]
      constructor
      · have : 1 * (data.out_chans * data.sample_size) ≤
            f * (data.out_chans * data.sample_size) :=
          Nat.mul_le_mul_right _ (by omega)
        omega
      · have : (f + 1) * (data.out_chans * data.sample_size) ≤
            frames * (data.out_chans * data.sample_size) :=
          Nat.mul_le_mul_right _ (by omega)
        rw [Nat.add_mul, Nat.one_mul] at this
        omega
    rw [if_pos hyes, hq, hr]

/-- Witness for C10: stereo to mono on three frames of 16 bit samples. -/
theorem C10_truncate_remix_compacts_witness :
    Legacy.remove_channels_from_buf ⟨.remove_channels_from_buf, 2, 2, 1⟩
        [1, 2, 3, 4, 5, 6, 7, 8, 9, 10, 11, 12] 3 =
      [1, 2, 5, 6, 9, 10, 7, 8, 9, 10, 11, 12] ∧
    (Legacy.remove_channels_from_buf ⟨.remove_channels_from_buf, 2, 2, 1⟩
        [1, 2, 3, 4, 5, 6, 7, 8, 9, 10, 11, 12] 3).getD (2 * (1 * 2) + 1) 0 =
      ([1, 2, 3, 4, 5, 6, 7, 8, 9, 10, 11, 12] : List UInt8).getD (2 * (2 * 2) + 1) 0 :=
  ⟨by decide,
    (C10_truncate_remix_compacts ⟨.remove_channels_from_buf, 2, 2, 1⟩
      [1, 2, 3, 4, 5, 6, 7, 8, 9, 10, 11, 12] 3 (by decide) (by decide) (by decide)
      (by decide) (by decide) (by decide)).2 2 1 (by decide) (by decide)⟩

/-- C11: duplicate remix.  For `out_chans >= 1` and a buffer that holds `frames * out_chans`
16 bit samples, after the in-place call of `mono_remix` every sample `i < out_chans` of every
frame `f < frames` equals the original sample 0 of that frame (the original value at sample
index `f * out_chans`); in particular sample 0 of each frame is unchanged.  The buffer keeps its
length. -/
theorem C11_mono_remix_duplicates (data : Legacy.buffer_remix) (buf : List UInt8)
    (frames : Nat) (hout : 1 ≤ data.out_chans)
    (hlen : 2 * (frames * data.out_chans) ≤ buf.length) :
    (Legacy.mono_remix data buf frames).length = buf.length ∧
    (∀ f i : Nat, f < frames → i < data.out_chans →
      Legacy.sample16 (Legacy.mono_remix data buf frames) (f * data.out_chans + i) =
        Legacy.sample16 buf (f * data.out_chans)) ∧
    (∀ f : Nat, f < frames →
      Legacy.sample16 (Legacy.mono_remix data buf frames) (f * data.out_chans) =
        Legacy.sample16 buf (f * data.out_chans)) := by
  have key : ∀ f i : Nat, f < frames → i < data.out_chans →
      Legacy.sample16 (Legacy.mono_remix data buf frames) (f * data.out_chans + i) =
        Legacy.sample16 buf (f * data.out_chans) := by
    intro f i hf hi
    have hfr : (f + 1) * data.out_chans ≤ frames * data.out_chans :=
      Nat.mul_le_mul_right _ (by omega)
    rw [Nat.add_mul, Nat.one_mul] at hfr
    have hq : (f * data.out_chans + i) / data.out_chans = f := by
      rw [Nat.add_comm, Nat.add_mul_div_right _ _ (by omega), Nat.div_eq_of_lt hi, Nat.zero_add]
    have h0 : 2 * (f * data.out_chans + i) / 2 = f * data.out_chans + i := by omega
    have h1 : (2 * (f * data.out_chans + i) + 1) / 2 = f * data.out_chans + i := by omega
    unfold Legacy.sample16
    rw [Legacy.mono_remix_getD data buf frames _ hlen,
      Legacy.mono_remix_getD data buf frames _ hlen,
      if_pos (by omega), if_pos (by omega), h0, h1, hq]
    have e0 : 2 * (f * data.out_chans + i) % 2 = 0 := by omega
    have e1 : (2 * (f * data.out_chans + i) + 1) % 2 = 1 := by omega
    rw [e0, e1]
    rfl
  refine ⟨Legacy.mono_remix_length _ _ _, key, ?_⟩
  intro f hf
  have := key f 0 hf (by omega)
  simpa using this

/-- Witness for C11: mono to three channels on two frames of 16 bit samples. -/
theorem C11_mono_remix_duplicates_witness :
    Legacy.mono_remix ⟨.mono_remix, 2, 1, 3⟩ [1, 2, 3, 4, 5, 6, 7, 8, 9, 10, 11, 12] 2 =
      [1, 2, 1, 2, 1, 2, 7, 8, 7, 8, 7, 8] ∧
    Legacy.sample16 (Legacy.mono_remix ⟨.mono_remix, 2, 1, 3⟩
        [1, 2, 3, 4, 5, 6, 7, 8, 9, 10, 11, 12] 2) (1 * 3 + 2) =
      Legacy.sample16 [1, 2, 3, 4, 5, 6, 7, 8, 9, 10, 11, 12] (1 * 3) :=
  ⟨by decide,
    (C11_mono_remix_duplicates ⟨.mono_remix, 2, 1, 3⟩ [1, 2, 3, 4, 5, 6, 7, 8, 9, 10, 11, 12] 2
      (by decide) (by decide)).2.1 1 2 (by decide) (by decide)⟩

/-- C12: both remix transforms stay inside the frames.  Let the descriptor have the 2 byte
sample size and let `bound = frames * max(in_chans, out_chans) * sample_size`; the buffer holds
at least `bound` bytes (and lies in the 32 bit address space).  Then for
`remove_channels_from_buf` and for `mono_remix`: the buffer keeps its length, every byte at an
offset `>= bound` is unchanged, and the bytes below `bound` of the result are determined by the
bytes below `bound` of the input (a second buffer `buf2` that agrees with `buf` below `bound`
gives the same bytes below `bound`), so nothing at or beyond `bound` is read or written.  A
request with `frames = 0` leaves the whole buffer unchanged. -/
theorem C12_remix_stays_inside_frames (data : Legacy.buffer_remix) (buf buf2 : List UInt8)
    (frames : Nat) (hss : data.sample_size = 2)
    (hlen : frames * max data.in_chans data.out_chans * data.sample_size ≤ buf.length)
    (hmem : buf.length < 2 ^ 32) (hlen2 : buf2.length = buf.length)
    (hsame : ∀ x, x < frames * max data.in_chans data.out_chans * data.sample_size →
      buf2.getD x 0 = buf.getD x 0) :
    ((Legacy.remove_channels_from_buf data buf frames).length = buf.length ∧
     (∀ x, frames * max data.in_chans data.out_chans * data.sample_size ≤ x →
        (Legacy.remove_channels_from_buf data buf frames).getD x 0 = buf.getD x 0) ∧
     (∀ x, x < frames * max data.in_chans data.out_chans * data.sample_size →
        (Legacy.remove_channels_from_buf data buf2 frames).getD x 0 =
          (Legacy.remove_channels_from_buf data buf frames).getD x 0) ∧
     (frames = 0 → Legacy.remove_channels_from_buf data buf frames = buf)) ∧
    ((Legacy.mono_remix data buf frames).length = buf.length ∧
     (∀ x, frames * max data.in_chans data.out_chans * data.sample_size ≤ x →
        (Legacy.mono_remix data buf frames).getD x 0 = buf.getD x 0) ∧
     (∀ x, x < frames * max data.in_chans data.out_chans * data.sample_size →
        (Legacy.mono_remix data buf2 frames).getD x 0 =
          (Legacy.mono_remix data buf frames).getD x 0) ∧
     (frames = 0 → Legacy.mono_remix data buf frames = buf)) := by
  rw [hss] at hlen hsame
  simp only [hss]
  have hin : frames * (data.in_chans * 2) ≤ frames * max data.in_chans data.out_chans * 2 := by
    rw [← Nat.mul_assoc]
    exact Nat.mul_le_mul_right 2 (Nat.mul_le_mul_left frames (Nat.le_max_left _ _))
  have hout : frames * (data.out_chans * 2) ≤ frames * max data.in_chans data.out_chans * 2 := by
    rw [← Nat.mul_assoc]
    exact Nat.mul_le_mul_right 2 (Nat.mul_le_mul_left frames (Nat.le_max_right _ _))
  constructor
  · -- remove_channels_from_buf
    refine ⟨Legacy.remove_channels_from_buf_length _ _ _, ?_, ?_, ?_⟩
    · intro x hx
      by_cases hf : frames = 0
      · simp [Legacy.remove_channels_from_buf, hf]
      · by_cases hlt : data.out_chans * data.sample_size < data.in_chans * data.sample_size
        · rw [Legacy.remove_channels_from_buf_getD data buf frames x (by omega) hlt
            (by rw [hss]; omega) hmem, hss, if_neg (by omega)]
        · have h1 : 1 * (data.in_chans * 2) ≤ frames * (data.in_chans * 2) :=
            Nat.mul_le_mul_right _ (by omega)
          have h2 : 1 * (data.out_chans * 2) ≤ frames * (data.out_chans * 2) :=
            Nat.mul_le_mul_right _ (by omega)
          rw [Legacy.remove_channels_from_buf_eq_self data buf frames (by rw [hss]; omega)
            (by rw [hss]; omega) hlt]
    · intro x hx
      by_cases hf : frames = 0
      · simp only [Legacy.remove_channels_from_buf, hf, if_true]
        exact hsame x hx
      · have h1 : 1 * (data.in_chans * 2) ≤ frames * (data.in_chans * 2) :=
          Nat.mul_le_mul_right _ (by omega)
        have h2 : 1 * (data.out_chans * 2) ≤ frames * (data.out_chans * 2) :=
          Nat.mul_le_mul_right _ (by omega)
        by_cases hlt : data.out_chans * data.sample_size < data.in_chans * data.sample_size
        · rw [Legacy.remove_channels_from_buf_getD data buf frames x (by omega) hlt
              (by rw [hss]; omega) hmem,
            Legacy.remove_channels_from_buf_getD data buf2 frames x (by omega) hlt
              (by rw [hss]; omega) (by omega), hss]
          by_cases h3 : x < frames * (data.out_chans * 2)
          · rw [if_pos h3, if_pos h3]
            apply hsame
            rw [hss] at hlt
            have hpos : 0 < data.out_chans * 2 := by
              rcases Nat.eq_zero_or_pos (data.out_chans * 2) with h0 | h0
              · rw [h0, Nat.mul_zero] at h3
                omega
              · exact h0
            have hq : x / (data.out_chans * 2) < frames :=
              (Nat.div_lt_iff_lt_mul hpos).2 h3
            have hr : x % (data.out_chans * 2) < data.out_chans * 2 := Nat.mod_lt _ hpos
            have hm : (x / (data.out_chans * 2) + 1) * (data.in_chans * 2) ≤
                frames * (data.in_chans * 2) := Nat.mul_le_mul_right _ hq
            rw [Nat.add_mul, Nat.one_mul] at hm
            omega
          · rw [if_neg h3, if_neg h3]
            exact hsame x hx
        · rw [Legacy.remove_channels_from_buf_eq_self data buf frames (by rw [hss]; omega)
              (by rw [hss]; omega) hlt,
            Legacy.remove_channels_from_buf_eq_self data buf2 frames (by rw [hss]; omega)
              (by rw [hss]; omega) hlt]
          exact hsame x hx
    · intro hf
      simp [Legacy.remove_channels_from_buf, hf]
  · -- mono_remix
    have hl : 2 * (frames * data.out_chans) ≤ buf.length := by
      have : 2 * (frames * data.out_chans) = frames * (data.out_chans * 2) := by ring
      omega
    have hl2 : 2 * (frames * data.out_chans) ≤ buf2.length := by omega
    have e : 2 * (frames * data.out_chans) = frames * (data.out_chans * 2) := by ring
    refine ⟨Legacy.mono_remix_length _ _ _, ?_, ?_, ?_⟩
    · intro x hx
      rw [Legacy.mono_remix_getD data buf frames x hl, if_neg (by omega)]
    · intro x hx
      rw [Legacy.mono_remix_getD data buf frames x hl,
        Legacy.mono_remix_getD data buf2 frames x hl2]
      by_cases h1 : x < 2 * (frames * data.out_chans)
      · rw [if_pos h1, if_pos h1]
        apply hsame
        have hd : x / 2 / data.out_chans * data.out_chans ≤ x / 2 := Nat.div_mul_le_self _ _
        omega
      · rw [if_neg h1, if_neg h1]
        exact hsame x hx
    · intro hf
      simp [Legacy.mono_remix, hf]

/-- Witness for C12: stereo to mono on two frames followed by two bytes that are not part of
the frames. -/
theorem C12_remix_stays_inside_frames_witness :
    (Legacy.remove_channels_from_buf ⟨.remove_channels_from_buf, 2, 2, 1⟩
        [1, 2, 3, 4, 5, 6, 7, 8, 9, 10] 2).getD 9 0 =
      ([1, 2, 3, 4, 5, 6, 7, 8, 9, 10] : List UInt8).getD 9 0 ∧
    (Legacy.mono_remix ⟨.remove_channels_from_buf, 2, 2, 1⟩
        [1, 2, 3, 4, 5, 6, 7, 8, 9, 10] 2).getD 9 0 =
      ([1, 2, 3, 4, 5, 6, 7, 8, 9, 10] : List UInt8).getD 9 0 :=
  have h := C12_remix_stays_inside_frames ⟨.remove_channels_from_buf, 2, 2, 1⟩
    [1, 2, 3, 4, 5, 6, 7, 8, 9, 10] [1, 2, 3, 4, 5, 6, 7, 8, 0, 0] 2 rfl (by decide)
    (by decide) rfl (by decide)
  ⟨h.1.2.1 9 (by decide), h.2.2.1 9 (by decide)⟩

/-- C13 (counterexample): truncate remix is not idempotent.  Stereo to mono on three frames of
16 bit samples: the second call reads the output of the first with the input stride again and
replaces the second output frame by the third. -/
theorem C13_truncate_remix_not_idempotent :
    Legacy.remove_channels_from_buf ⟨.remove_channels_from_buf, 2, 2, 1⟩
        (Legacy.remove_channels_from_buf ⟨.remove_channels_from_buf, 2, 2, 1⟩
          [1, 2, 3, 4, 5, 6, 7, 8, 9, 10, 11, 12] 3) 3 ≠
      Legacy.remove_channels_from_buf ⟨.remove_channels_from_buf, 2, 2, 1⟩
        [1, 2, 3, 4, 5, 6, 7, 8, 9, 10, 11, 12] 3 := by
  decide

/-- C13 (amended): a second call of `remove_channels_from_buf` with the same descriptor and
frame count compacts the output of the first call once more, as if it were an input buffer.
For `in_chans > out_chans`, `sample_size >= 1`, `frames >= 1` and a buffer of at least
`frames * in_chans * sample_size` bytes in the 32 bit address space: byte `c` of frame `f` of
the second result is the byte at offset `f * in_chans * sample_size + c` of the first result,
and everything after the `frames` output frames is the first result.  Hence the two results are
equal exactly when the first result already has, at the input stride, the bytes it has at the
output stride; this is always so for `frames <= 1`, for which nothing is moved. -/
theorem C13_truncate_remix_twice (data : Legacy.buffer_remix) (buf : List UInt8)
    (frames : Nat) (hin : data.out_chans < data.in_chans) (hss : 1 ≤ data.sample_size)
    (hfr : 1 ≤ frames) (hlen : frames * data.in_chans * data.sample_size ≤ buf.length)
    (hmem : buf.length < 2 ^ 32) :
    (∀ f c : Nat, f < frames → c < data.out_chans * data.sample_size →
      (Legacy.remove_channels_from_buf data
          (Legacy.remove_channels_from_buf data buf frames) frames).getD
          (f * (data.out_chans * data.sample_size) + c) 0 =
        (Legacy.remove_channels_from_buf data buf frames).getD
          (f * (data.in_chans * data.sample_size) + c) 0) ∧
    (∀ x : Nat, frames * (data.out_chans * data.sample_size) ≤ x →
      (Legacy.remove_channels_from_buf data
          (Legacy.remove_channels_from_buf data buf frames) frames).getD x 0 =
        (Legacy.remove_channels_from_buf data buf frames).getD x 0) ∧
    (Legacy.remove_channels_from_buf data
          (Legacy.remove_channels_from_buf data buf frames) frames =
        Legacy.remove_channels_from_buf data buf frames ↔
      ∀ f c : Nat, f < frames → c < data.out_chans * data.sample_size →
        (Legacy.remove_channels_from_buf data buf frames).getD
            (f * (data.in_chans * data.sample_size) + c) 0 =
          (Legacy.remove_channels_from_buf data buf frames).getD
            (f * (data.out_chans * data.sample_size) + c) 0) ∧
    (frames ≤ 1 →
      Legacy.remove_channels_from_buf data
          (Legacy.remove_channels_from_buf data buf frames) frames =
        Legacy.remove_channels_from_buf data buf frames) := by
  have hlt : data.out_chans * data.sample_size < data.in_chans * data.sample_size :=
    Nat.mul_lt_mul_of_pos_right hin (by omega)
  have hl1 : (Legacy.remove_channels_from_buf data buf frames).length = buf.length :=
    Legacy.remove_channels_from_buf_length _ _ _
  have hlen1 : frames * (data.in_chans * data.sample_size) ≤
      (Legacy.remove_channels_from_buf data buf frames).length := by
    rw [hl1, ← Nat.mul_assoc]; exact hlen
  have hchar := fun x => Legacy.remove_channels_from_buf_getD data
    (Legacy.remove_channels_from_buf data buf frames) frames x hfr hlt hlen1 (by omega)
  have hA : ∀ f c : Nat, f < frames → c < data.out_chans * data.sample_size →
      (Legacy.remove_channels_from_buf data
          (Legacy.remove_channels_from_buf data buf frames) frames).getD
          (f * (data.out_chans * data.sample_size) + c) 0 =
        (Legacy.remove_channels_from_buf data buf frames).getD
          (f * (data.in_chans * data.sample_size) + c) 0 := by
    intro f c hf hc
    have hpos : 0 < data.out_chans * data.sample_size := by omega
    have hq : (f * (data.out_chans * data.sample_size) + c) /
        (data.out_chans * data.sample_size) = f := by
      rw [Nat.add_comm, Nat.add_mul_div_right _ _ hpos, Nat.div_eq_of_lt hc, Nat.zero_add]
    have hr : (f * (data.out_chans * data.sample_size) + c) %
        (data.out_chans * data.sample_size) = c := by
      rw [Nat.add_comm, Nat.add_mul_mod_self_right, Nat.mod_eq_of_lt hc]
    have hb : f * (data.out_chans * data.sample_size) + c <
        frames * (data.out_chans * data.sample_size) := by
      have : (f + 1) * (data.out_chans * data.sample_size) ≤
          frames * (data.out_chans * data.sample_size) := Nat.mul_le_mul_right _ (by omega)
      rw [Nat.add_mul, Nat.one_mul] at this
      omega
    rw [hchar, if_pos hb, hq, hr]
  have hB : ∀ x : Nat, frames * (data.out_chans * data.sample_size) ≤ x →
      (Legacy.remove_channels_from_buf data
          (Legacy.remove_channels_from_buf data buf frames) frames).getD x 0 =
        (Legacy.remove_channels_from_buf data buf frames).getD x 0 := by
    intro x hx
    rw [hchar, if_neg (by omega)]
  refine ⟨hA, hB, ?_, ?_⟩
  · constructor
    · intro heq f c hf hc
      rw [← hA f c hf hc, heq]
    · intro h
      apply Legacy.ext_getD
      · rw [Legacy.remove_channels_from_buf_length]
      · intro x
        by_cases hx : x < frames * (data.out_chans * data.sample_size)
        · have hpos : 0 < data.out_chans * data.sample_size := by
            rcases Nat.eq_zero_or_pos (data.out_chans * data.sample_size) with h0 | h0
            · rw [h0, Nat.mul_zero] at hx
              omega
            · exact h0
          have hdm := Nat.div_add_mod x (data.out_chans * data.sample_size)
          have hq : x / (data.out_chans * data.sample_size) < frames :=
            (Nat.div_lt_iff_lt_mul hpos).2 hx
          have hr : x % (data.out_chans * data.sample_size) <
              data.out_chans * data.sample_size := Nat.mod_lt _ hpos
          have hx2 : x = x / (data.out_chans * data.sample_size) *
              (data.out_chans * data.sample_size) +
              x % (data.out_chans * data.sample_size) := by
            rw [Nat.mul_comm]; exact hdm.symm
          rw [hx2, hA _ _ hq hr, h _ _ hq hr]
        · exact hB x (by omega)
  · intro h1
    have e : frames = 1 := by omega
    subst e
    simp [Legacy.remove_channels_from_buf, Legacy.remove_channels_loop]

/-- Witness for C13: on the buffer of the counterexample the second output frame of the second
call is the byte pair at the input stride of the first result. -/
theorem C13_truncate_remix_twice_witness :
    (Legacy.remove_channels_from_buf ⟨.remove_channels_from_buf, 2, 2, 1⟩
        (Legacy.remove_channels_from_buf ⟨.remove_channels_from_buf, 2, 2, 1⟩
          [1, 2, 3, 4, 5, 6, 7, 8, 9, 10, 11, 12] 3) 3).getD (1 * (1 * 2) + 0) 0 =
      (Legacy.remove_channels_from_buf ⟨.remove_channels_from_buf, 2, 2, 1⟩
        [1, 2, 3, 4, 5, 6, 7, 8, 9, 10, 11, 12] 3).getD (1 * (2 * 2) + 0) 0 :=
  (C13_truncate_remix_twice ⟨.remove_channels_from_buf, 2, 2, 1⟩
    [1, 2, 3, 4, 5, 6, 7, 8, 9, 10, 11, 12] 3 (by decide) (by decide) (by decide) (by decide)
    (by decide)).1 1 0 (by decide) (by decide)

/-- C14 (counterexample): a duplicate remix with 2 input and 2 output channels is accepted at
construction.  `setup_mono_input_remix` on the downlink voice stream (Bluetooth input and
playback output, 2 channels each) returns 0 and installs the descriptor, and this is the
descriptor a successful `enter_voice_call` leaves on the downlink stream. -/
theorem C14_unsupported_layout_is_installed :
    (Legacy.setup_mono_input_remix true Legacy.sampleDownlink).1 = 0 ∧
    (Legacy.setup_mono_input_remix true Legacy.sampleDownlink).2.remix =
      some ⟨.mono_remix, 2, 2, 2⟩ ∧
    ∃ adev, Legacy.enter_voice_call Legacy.okEnv Legacy.sampleDevice = .ok (0, adev) ∧
      adev.voice.dl.remix = some ⟨.mono_remix, 2, 2, 2⟩ :=
  ⟨by decide, by decide, _, rfl, by decide⟩

/-- C14 (amended): the setup functions do not look at the channel layout.  Each of them fails
only with `-ENOMEM`, when the descriptor cannot be allocated, and then installs nothing;
otherwise it returns 0 and installs the descriptor: `setup_stereo_to_mono_input_remix` the
truncation from 2 channels to 1, `setup_mono_input_remix` a `mono_remix` with whatever channel
counts the stream is configured with.  A pair that is not a truncation is met only at run time,
inside the transform: `remove_channels_from_buf` returns without touching the buffer when the
output frame is not smaller than the input frame. -/
theorem C14_setup_remix_accepts_every_layout (stream : Legacy.j6_voice_stream)
    (sin : Legacy.j6_stream_in) (data : Legacy.buffer_remix) (buf : List UInt8) (frames : Nat) :
    ((Legacy.setup_mono_input_remix true stream).1 = 0 ∧
      (Legacy.setup_mono_input_remix true stream).2.remix =
        some ⟨.mono_remix, 2, stream.in_config.channels, stream.out_config.channels⟩) ∧
    Legacy.setup_mono_input_remix false stream = (-Legacy.ENOMEM, stream) ∧
    ((Legacy.setup_stereo_to_mono_input_remix true sin).1 = 0 ∧
      (Legacy.setup_stereo_to_mono_input_remix true sin).2.remix =
        some ⟨.remove_channels_from_buf, 2, 2, 1⟩) ∧
    Legacy.setup_stereo_to_mono_input_remix false sin = (-Legacy.ENOMEM, sin) ∧
    (data.in_chans * data.sample_size < 2 ^ 32 → data.out_chans * data.sample_size < 2 ^ 32 →
      data.in_chans ≤ data.out_chans →
      Legacy.remove_channels_from_buf data buf frames = buf) := by
  refine ⟨⟨by simp [Legacy.setup_mono_input_remix], by simp [Legacy.setup_mono_input_remix]⟩,
    by simp [Legacy.setup_mono_input_remix],
    ⟨by simp [Legacy.setup_stereo_to_mono_input_remix],
      by simp [Legacy.setup_stereo_to_mono_input_remix]⟩,
    by simp [Legacy.setup_stereo_to_mono_input_remix], ?_⟩
  intro h1 h2 h3
  apply Legacy.remove_channels_from_buf_eq_self data buf frames h1 h2
  have := Nat.mul_le_mul_right data.sample_size h3
  omega

/-- Witness for C14: the run time check on a descriptor with 2 input and 2 output channels. -/
theorem C14_setup_remix_accepts_every_layout_witness :
    Legacy.remove_channels_from_buf ⟨.remove_channels_from_buf, 2, 2, 2⟩ [1, 2, 3, 4, 5, 6, 7, 8] 2
      = [1, 2, 3, 4, 5, 6, 7, 8] :=
  (C14_setup_remix_accepts_every_layout Legacy.sampleDownlink Legacy.sampleStreamIn
    ⟨.remove_channels_from_buf, 2, 2, 2⟩ [1, 2, 3, 4, 5, 6, 7, 8] 2).2.2.2.2
    (by decide) (by decide) (by decide)

/-- C15: contract of the capture buffer provider `get_next_buffer`, called on a stream and a
request of `b.frame_count` frames (a remix descriptor comes with a buffer, as
`adev_open_input_stream` installs them).  The call returns; the frame count it reports is at
most the requested one and at most `frames_in` after the call.  Without a PCM handle it reports
0 frames and a null buffer with status `-ENODEV`, stores that status in `read_status` and
changes nothing else, whatever the hardware would have answered.  When it reads the hardware
(`frames_in = 0`) and the read fails, it reports 0 frames and a null buffer with the read
status, `frames_in` stays 0 and the status is stored in `read_status`. -/
theorem C15_get_next_buffer_contract (env : Legacy.Env) (sin : Legacy.j6_stream_in)
    (b : Legacy.resampler_buffer) (hbuf : sin.remix.isSome → sin.buffer.isSome) :
    ∃ st sin1 b1,
      Legacy.get_next_buffer env (some sin) (some b) = .ok (st, some sin1, some b1) ∧
      b1.frame_count ≤ b.frame_count ∧ b1.frame_count ≤ sin1.frames_in ∧
      (sin.pcm = none →
        st = -Legacy.ENODEV ∧ b1.frame_count = 0 ∧ b1.raw = none ∧
        sin1 = { sin with read_status := -Legacy.ENODEV } ∧
        ∀ env2, Legacy.get_next_buffer env2 (some sin) (some b) =
          Legacy.get_next_buffer env (some sin) (some b)) ∧
      (sin.pcm ≠ none → sin.frames_in = 0 →
        (env.pcm_read (Legacy.u32 (b.frame_count * sin.hw_frame_size))).1 ≠ 0 →
        st = (env.pcm_read (Legacy.u32 (b.frame_count * sin.hw_frame_size))).1 ∧
        b1.frame_count = 0 ∧ b1.raw = none ∧ sin1.frames_in = 0 ∧ sin1.read_status = st) := by
  rcases Option.eq_none_or_eq_some sin.pcm with hp | ⟨p, hp⟩
  · have e : ∀ env2, Legacy.get_next_buffer env2 (some sin) (some b) =
        .ok (-Legacy.ENODEV, some { sin with read_status := -Legacy.ENODEV },
          some ⟨none, 0⟩) := by
      intro env2
      simp [Legacy.get_next_buffer, hp]
    refine ⟨-Legacy.ENODEV, { sin with read_status := -Legacy.ENODEV }, ⟨none, 0⟩, e env,
      Nat.zero_le _, Nat.zero_le _, ?_, ?_⟩
    · intro _
      refine ⟨rfl, rfl, rfl, rfl, ?_⟩
      intro env2
      rw [e env2, e env]
    · intro h
      exact absurd hp h
  · by_cases hf : sin.frames_in = 0
    · by_cases hst : (env.pcm_read (Legacy.u32 (b.frame_count * sin.hw_frame_size))).1 = 0
      · rcases Option.eq_none_or_eq_some sin.remix with hr | ⟨remix, hr⟩
        · have e : Legacy.get_next_buffer env (some sin) (some b) =
              .ok (Legacy.get_next_buffer_tail
                { sin with
                  read_status := (env.pcm_read (Legacy.u32 (b.frame_count * sin.hw_frame_size))).1,
                  buffer := sin.buffer.map (fun d => Legacy.store d
                    ((env.pcm_read (Legacy.u32 (b.frame_count * sin.hw_frame_size))).2.take
                      (Legacy.u32 (b.frame_count * sin.hw_frame_size)))),
                  frames_in := b.frame_count } b) := by
            simp [Legacy.get_next_buffer, hp, hf, hst, hr]
          rw [e]
          refine ⟨_, _, _, rfl, ?_, ?_, ?_, ?_⟩
          · simp
          · simp
          · intro h; rw [hp] at h; simp at h
          · intro _ _ h
            exact absurd hst h
        · have hb : sin.buffer.isSome := hbuf (by simp [hr])
          obtain ⟨d, hd⟩ := Option.isSome_iff_exists.1 hb
          have e : Legacy.get_next_buffer env (some sin) (some b) =
              .ok (Legacy.get_next_buffer_tail
                { sin with
                  read_status := (env.pcm_read (Legacy.u32 (b.frame_count * sin.hw_frame_size))).1,
                  buffer := some (remix.apply (Legacy.store d
                    ((env.pcm_read (Legacy.u32 (b.frame_count * sin.hw_frame_size))).2.take
                      (Legacy.u32 (b.frame_count * sin.hw_frame_size)))) b.frame_count),
                  frames_in := b.frame_count } b) := by
            simp [Legacy.get_next_buffer, hp, hf, hst, hr, hd]
          rw [e]
          refine ⟨_, _, _, rfl, ?_, ?_, ?_, ?_⟩
          · simp
          · simp
          · intro h; rw [hp] at h; simp at h
          · intro _ _ h
            exact absurd hst h
      · have e : Legacy.get_next_buffer env (some sin) (some b) =
            .ok ((env.pcm_read (Legacy.u32 (b.frame_count * sin.hw_frame_size))).1,
              some { sin with
                read_status := (env.pcm_read (Legacy.u32 (b.frame_count * sin.hw_frame_size))).1,
                buffer := sin.buffer.map (fun d => Legacy.store d
                  ((env.pcm_read (Legacy.u32 (b.frame_count * sin.hw_frame_size))).2.take
                    (Legacy.u32 (b.frame_count * sin.hw_frame_size)))) },
              some ⟨none, 0⟩) := by
          simp [Legacy.get_next_buffer, hp, hf, hst]
        rw [e]
        refine ⟨_, _, _, rfl, Nat.zero_le _, Nat.zero_le _, ?_, ?_⟩
        · intro h; rw [hp] at h; simp at h
        · intro _ _ _
          exact ⟨rfl, rfl, rfl, hf, rfl⟩
    · have e : Legacy.get_next_buffer env (some sin) (some b) =
          .ok (Legacy.get_next_buffer_tail sin b) := by
        simp [Legacy.get_next_buffer, hp, hf]
      rw [e]
      refine ⟨_, _, _, rfl, ?_, ?_, ?_, ?_⟩
      · simp only
        split <;> omega
      · simp only
        split <;> omega
      · intro h; rw [hp] at h; simp at h
      · intro _ h
        exact absurd h hf

/-- Witness for C15: a running stream without buffered frames whose hardware read fails with
`-EIO`. -/
theorem C15_get_next_buffer_contract_witness :
    ∃ st sin1 b1,
      Legacy.get_next_buffer Legacy.failingReadEnv (some Legacy.sampleStreamIn)
        (some ⟨none, 4⟩) = .ok (st, some sin1, some b1) ∧
      st = -5 ∧ b1.frame_count = 0 ∧ sin1.frames_in = 0 ∧ sin1.read_status = -5 :=
  match C15_get_next_buffer_contract Legacy.failingReadEnv Legacy.sampleStreamIn ⟨none, 4⟩
      (by decide) with
  | ⟨st, sin1, b1, h1, _, _, _, h5⟩ =>
    have h := h5 (by decide) rfl (by decide)
    ⟨st, sin1, b1, h1, h.1, h.2.1, h.2.2.2.1, h.2.2.2.2.trans h.1⟩

/-- C16: `read_frames(in, buffer, frames)` with `frames > 0` and a resampler that never
produces more frames than it is asked for in one call.  Whenever the function returns, it
returns exactly `frames`, with `read_status` zero and the produced counts of the calls adding
up to `frames`, or it returns the nonzero `read_status`; no other count is returned.  Every
call of `resample_from_provider` writes at the byte offset `frames_wr * frame_size` of the
caller's buffer, `frames_wr` being the sum of the counts produced before, and asks for
`frames - frames_wr` frames, so the chunks are contiguous.  The function does return, within
`frames` iterations, when a resampler is installed, the calls leave it in place, and every call
makes progress (a produced frame or a nonzero `read_status`). -/
theorem C16_read_frames_count_or_status (env : Legacy.Env) (fuel : Nat)
    (sin : Legacy.j6_stream_in) (buffer : List UInt8) (frames : Int) (hfr : 0 < frames)
    (hle : ∀ s b off n, (env.resample_from_provider s b off n).2.2 ≤ n) :
    (∀ r, Legacy.read_frames env fuel sin buffer frames = .ok r →
      (r.1 = frames ∧ r.2.1.read_status = 0 ∧
        ((Legacy.read_frames_calls env
            (if sin.remix.isSome then Legacy.audio_stream_frame_size sin else sin.hw_frame_size)
            frames fuel sin buffer 0).map (fun c => c.2.2)).sum = frames.toNat) ∨
      (r.1 ≠ 0 ∧ r.1 = r.2.1.read_status)) ∧
    (∀ (k : Nat) (c : Nat × Nat × Nat),
      (Legacy.read_frames_calls env
          (if sin.remix.isSome then Legacy.audio_stream_frame_size sin else sin.hw_frame_size)
          frames fuel sin buffer 0)[k]? = some c →
      c.1 = (((Legacy.read_frames_calls env
          (if sin.remix.isSome then Legacy.audio_stream_frame_size sin else sin.hw_frame_size)
          frames fuel sin buffer 0).take k).map (fun c => c.2.2)).sum *
          (if sin.remix.isSome then Legacy.audio_stream_frame_size sin else sin.hw_frame_size) ∧
      (c.2.1 : Int) = frames - ((((Legacy.read_frames_calls env
          (if sin.remix.isSome then Legacy.audio_stream_frame_size sin else sin.hw_frame_size)
          frames fuel sin buffer 0).take k).map (fun c => c.2.2)).sum : Nat)) ∧
    (sin.resampler.isSome →
      (∀ s b off n, (env.resample_from_provider s b off n).1.resampler = s.resampler) →
      (∀ s b off n, 0 < n → (env.resample_from_provider s b off n).1.read_status ≠ 0 ∨
        0 < (env.resample_from_provider s b off n).2.2) →
      frames.toNat ≤ fuel →
      ∃ r, Legacy.read_frames env fuel sin buffer frames = .ok r) := by
  refine ⟨?_, ?_, ?_⟩
  · intro r h
    unfold Legacy.read_frames at h
    rcases Legacy.read_frames_loop_result env _ frames hle fuel sin buffer 0 (le_refl 0)
        (le_of_lt hfr) r h with ⟨a1, a2, a3⟩ | ⟨b1, b2, _⟩
    · left
      refine ⟨a1, a3 hfr, ?_⟩
      simpa using a2
    · right
      exact ⟨b1, b2⟩
  · intro k c h
    have := Legacy.read_frames_calls_offsets env _ frames fuel sin buffer 0 (le_refl 0) k c h
    simpa using this
  · intro hsome hres hprog hfuel
    unfold Legacy.read_frames
    exact Legacy.read_frames_loop_returns env _ frames hres hprog fuel sin buffer 0 hsome
      (by simpa using hfuel)

/-- Witness for C16: four frames asked from a resampler that produces every frame it is asked
for. -/
theorem C16_read_frames_count_or_status_witness :
    ∃ r, Legacy.read_frames Legacy.okEnv 4 Legacy.sampleMonoIn (List.replicate 8 0) 4 = .ok r :=
  (C16_read_frames_count_or_status Legacy.okEnv 4 Legacy.sampleMonoIn (List.replicate 8 0) 4
    (by decide) (fun _ _ _ n => Nat.le_refl n)).2.2 (by decide) (fun _ _ _ _ => rfl)
    (fun _ _ _ _ h => Or.inr h) (by decide)

/-- C17: buffer size scenario, a 44100 Hz capture port and a client asking for 8000 Hz mono
16 bit.  The legacy `get_input_buffer_size(8000, _, 1)`, with the capture period of 960 frames,
returns 352 bytes, that is 176 frames of 2 bytes, and 176 is `ceil(960 * 8000 / 44100)` rounded
up to a multiple of 16.  The multizone `AudioStreamIn::getBufferSize()`, with the reader period
of 882 frames, returns 320 bytes, that is 160 frames of 2 bytes, and 160 is
`ceil(882 * 8000 / 44100)` rounded up to a multiple of 16. -/
theorem C17_buffer_size_scenario :
    (∀ format : Int,
      Legacy.get_input_buffer_size 8000 format 1 =
        roundUp16 (ceilDiv (Legacy.pcm_config_capture.period_size * 8000)
          Legacy.pcm_config_capture.rate) * 2 ∧
      Legacy.get_input_buffer_size 8000 format 1 = 352) ∧
    Legacy.pcm_config_capture.period_size = 960 ∧ Legacy.pcm_config_capture.rate = 44100 ∧
    roundUp16 (ceilDiv (Legacy.pcm_config_capture.period_size * 8000)
      Legacy.pcm_config_capture.rate) = 176 ∧
    Multizone.AudioStreamIn.getBufferSize Multizone.sampleIn8k Multizone.readerParams0 =
      roundUp16 (ceilDiv (Multizone.readerParams0.frameCount * 8000)
        Multizone.readerParams0.sampleRate) * 2 ∧
    Multizone.AudioStreamIn.getBufferSize Multizone.sampleIn8k Multizone.readerParams0 = 320 ∧
    Multizone.readerParams0.frameCount = 882 ∧ Multizone.readerParams0.sampleRate = 44100 ∧
    roundUp16 (ceilDiv (Multizone.readerParams0.frameCount * 8000)
      Multizone.readerParams0.sampleRate) = 160 := by
  refine ⟨fun _ => ⟨rfl, rfl⟩, by decide, by decide, by decide, by decide, by decide, by decide,
    by decide, by decide⟩

/-- C18 (counterexample): the multizone `AudioStreamIn::getBufferSize()` does not align to 16
frames.  A stereo 16 bit stream at 44100 Hz on the on-board reader (882 frames per period)
reports 3528 bytes, that is 882 frames of 4 bytes, and 882 is not a multiple of 16. -/
theorem C18_input_buffer_size_not_aligned :
    Multizone.AudioStreamIn.getBufferSize Multizone.sampleIn Multizone.readerParams0 = 3528 ∧
    Multizone.sampleIn.mParams.frameSize = 4 ∧
    ¬ ∃ F : Nat, 16 ∣ F ∧
      Multizone.AudioStreamIn.getBufferSize Multizone.sampleIn Multizone.readerParams0 =
        Multizone.sampleIn.mParams.frameSize * F := by
  have h1 : Multizone.AudioStreamIn.getBufferSize Multizone.sampleIn Multizone.readerParams0
      = 3528 := by decide
  have h2 : Multizone.sampleIn.mParams.frameSize = 4 := by decide
  refine ⟨h1, h2, ?_⟩
  rintro ⟨F, hd, h⟩
  rw [h1, h2] at h
  omega

/-- C18 (amended): where the 32 bit computations do not overflow, the legacy
`get_input_buffer_size` and the multizone `AudioStreamOut::getBufferSize()` return the frame
size in bytes times `F`, where `F` is the least multiple of 16 that is at least
`floor(periodFrames * streamRate / portRate)`; the multizone `AudioStreamIn::getBufferSize()`
returns the frame size times `floor(periodFrames * streamRate / portRate)` itself, without
aligning it. -/
theorem C18_buffer_size_alignment (sample_rate : Nat) (format channel_count : Int)
    (so : Multizone.AudioStreamOut) (si : Multizone.AudioStreamIn)
    (writerParams readerParams : Multizone.PcmParams)
    (hl1 : Legacy.pcm_config_capture.period_size * sample_rate < 2 ^ 32)
    (hl2 : 0 ≤ channel_count) (hl3 : channel_count < 2 ^ 31)
    (hl4 : roundUp16 (Legacy.pcm_config_capture.period_size * sample_rate /
        Legacy.pcm_config_capture.rate) * channel_count.toNat * 2 < 2 ^ 32)
    (ho1 : so.mParams.frameCount * so.mParams.sampleRate < 2 ^ 32)
    (ho2 : so.mParams.frameCount * so.mParams.sampleRate / writerParams.sampleRate + 15 < 2 ^ 32)
    (ho3 : roundUp16 (so.mParams.frameCount * so.mParams.sampleRate / writerParams.sampleRate) *
        so.mParams.frameSize < 2 ^ 32)
    (hi1 : si.mParams.frameCount * si.mParams.sampleRate < 2 ^ 32)
    (hi2 : si.mParams.frameCount * si.mParams.sampleRate / readerParams.sampleRate *
        si.mParams.frameSize < 2 ^ 32) :
    Legacy.get_input_buffer_size sample_rate format channel_count =
      (channel_count.toNat * 2) *
        roundUp16 (Legacy.pcm_config_capture.period_size * sample_rate /
          Legacy.pcm_config_capture.rate) ∧
    Multizone.AudioStreamOut.getBufferSize so writerParams =
      so.mParams.frameSize *
        roundUp16 (so.mParams.frameCount * so.mParams.sampleRate / writerParams.sampleRate) ∧
    Multizone.AudioStreamIn.getBufferSize si readerParams =
      si.mParams.frameSize *
        (si.mParams.frameCount * si.mParams.sampleRate / readerParams.sampleRate) ∧
    ∀ n : Nat, 16 ∣ roundUp16 n ∧ n ≤ roundUp16 n ∧ ∀ m, 16 ∣ m → n ≤ m → roundUp16 n ≤ m := by
  refine ⟨?_, ?_, ?_, roundUp16_least⟩
  · -- legacy
    have hc : Legacy.toU32 channel_count = channel_count.toNat := by
      unfold Legacy.toU32
      rw [Int.emod_eq_of_lt hl2 (by omega)]
    have hsmall : Legacy.pcm_config_capture.period_size * sample_rate /
        Legacy.pcm_config_capture.rate + 15 < 2 ^ 32 := by
      have : Legacy.pcm_config_capture.rate = 44100 := rfl
      rw [this]
      omega
    unfold Legacy.get_input_buffer_size
    simp only [Legacy.u32, hc]
    rw [Nat.mod_eq_of_lt hl1, Nat.mod_eq_of_lt hsmall]
    unfold roundUp16 at hl4
    rw [Nat.mod_eq_of_lt (a := _ / 16 * 16) (by omega)]
    have h5 : (Legacy.pcm_config_capture.period_size * sample_rate /
        Legacy.pcm_config_capture.rate + 15) / 16 * 16 * channel_count.toNat < 2 ^ 32 := by
      omega
    rw [Nat.mod_eq_of_lt h5, Nat.mod_eq_of_lt hl4]
    unfold roundUp16
    ring
  · -- multizone output
    unfold Multizone.AudioStreamOut.getBufferSize
    simp only [Multizone.u32]
    rw [Nat.mod_eq_of_lt ho1, Nat.mod_eq_of_lt ho2,
      Multizone.and_notU32_fifteen _ ho2]
    unfold roundUp16 at ho3 ⊢
    rw [Nat.mod_eq_of_lt ho3, Nat.mul_comm]
  · -- multizone input
    unfold Multizone.AudioStreamIn.getBufferSize
    simp only [Multizone.u32]
    rw [Nat.mod_eq_of_lt hi1, Nat.mod_eq_of_lt hi2, Nat.mul_comm]

/-- Witness for C18: mono at 8000 Hz on the legacy capture path, and the concrete multizone
output and input streams at the native rate. -/
theorem C18_buffer_size_alignment_witness :
    Legacy.get_input_buffer_size 8000 1 1 = (1 * 2) * roundUp16 (960 * 8000 / 44100) ∧
    Multizone.AudioStreamOut.getBufferSize Multizone.sampleOut ⟨2, 16, 44100, 1024⟩ =
      4 * roundUp16 (1024 * 44100 / 44100) ∧
    Multizone.AudioStreamIn.getBufferSize Multizone.sampleIn Multizone.readerParams0 =
      4 * (882 * 44100 / 44100) :=
  have h := C18_buffer_size_alignment 8000 1 1 Multizone.sampleOut Multizone.sampleIn
    ⟨2, 16, 44100, 1024⟩ Multizone.readerParams0 (by decide) (by decide) (by decide) (by decide)
    (by decide) (by decide) (by decide) (by decide) (by decide)
  ⟨h.1, h.2.1, h.2.2.1⟩

/-- C19 (counterexample): `leaveVoiceCall()` stops the input side before the output side.  In
the trace of `leaveVoiceCall()` on the concrete state in a call, both input streams (uplink-in,
downlink-in) are stopped before either output stream (downlink-out, uplink-out) is. -/
theorem C19_inputs_are_stopped_before_outputs :
    (Multizone.AudioHwDevice.leaveVoiceCall Multizone.inCallHal).trace =
      Multizone.inCallHal.trace ++
        [.mixerSetBTMode false, .pipeShutdown .ul true, .pipeShutdown .dl true,
          .streamStop .voiceULIn, .inPortStop .bt, .streamStop .voiceDLIn,
          .streamStop .voiceDLOut, .outPortStop .bt, .streamStop .voiceULOut,
          .pipeFlush .ul, .pipeFlush .dl, .unregisterWriter (.port .cpu) .voiceDLOut,
          .unregisterReader .bt .voiceDLIn, .unregisterWriter (.port .bt) .voiceULOut,
          .unregisterReader .cpu .voiceULIn, .mixerSetVolumeHP 118, .mixerSetVolumeLine 118] ∧
    (Multizone.AudioHwDevice.leaveVoiceCall Multizone.inCallHal).trace.indexOf
        (.streamStop .voiceDLIn) <
      (Multizone.AudioHwDevice.leaveVoiceCall Multizone.inCallHal).trace.indexOf
        (.streamStop .voiceDLOut) ∧
    (Multizone.AudioHwDevice.leaveVoiceCall Multizone.inCallHal).trace.indexOf
        (.streamStop .voiceDLOut) <
      (Multizone.AudioHwDevice.leaveVoiceCall Multizone.inCallHal).trace.length := by
  rw [Multizone.leaveVoiceCall_trace]
  decide

/-- C19 (amended): the effect trace of `AudioHwDevice::leaveVoiceCall()`.  On every state the
call appends its effects to the trace in the order of these steps: the Bluetooth link is
switched back to slave first; then both pipes are shut down; then the input side is stopped
(uplink-in, the Bluetooth input port, downlink-in); then the output side is stopped
(downlink-out, the Bluetooth output port, uplink-out); then both pipes are flushed; then the
voice streams are unregistered and the primary output is returned to its regular writer; and
last the call volume is reset.  No other effect is issued.  On a state in a call the effects
are exactly the listed ones. -/
theorem C19_leave_voice_call_order (h : Multizone.Hal) :
    (Multizone.AudioHwDevice.leaveVoiceCall h).trace = h.trace ++ Multizone.leaveEvents h ∧
    (Multizone.leaveEvents h).Pairwise
      (fun a b => Multizone.leaveStep a ≤ Multizone.leaveStep b) ∧
    (∀ e ∈ Multizone.leaveEvents h, Multizone.leaveStep e ≤ 6) ∧
    (Multizone.leaveEvents h).head? = some (.mixerSetBTMode false) ∧
    (Multizone.InCall h →
      Multizone.leaveEvents h =
        [.mixerSetBTMode false, .pipeShutdown .ul true, .pipeShutdown .dl true,
          .streamStop .voiceULIn, .inPortStop .bt, .streamStop .voiceDLIn,
          .streamStop .voiceDLOut, .outPortStop .bt, .streamStop .voiceULOut,
          .pipeFlush .ul, .pipeFlush .dl,
          .unregisterWriter (.port h.out.mWriter) .voiceDLOut] ++
        (if h.out.mStandby = false then
          [.streamStop .media, .unregisterWriter .null .media] else []) ++
        [.unregisterReader .bt .voiceDLIn, .unregisterWriter (.port .bt) .voiceULOut,
          .unregisterReader h.hw.mMediaPortId .voiceULIn,
          .mixerSetVolumeHP 118, .mixerSetVolumeLine 118]) :=
  ⟨Multizone.leaveVoiceCall_trace h, (Multizone.leaveEvents_pairwise h).1,
    (Multizone.leaveEvents_pairwise h).2, by simp [Multizone.leaveEvents],
    Multizone.leaveEvents_inCall h⟩

/-- Witness for C19: the concrete state in a call. -/
theorem C19_leave_voice_call_order_witness :
    Multizone.InCall Multizone.inCallHal ∧
    Multizone.leaveEvents Multizone.inCallHal =
      [.mixerSetBTMode false, .pipeShutdown .ul true, .pipeShutdown .dl true,
        .streamStop .voiceULIn, .inPortStop .bt, .streamStop .voiceDLIn,
        .streamStop .voiceDLOut, .outPortStop .bt, .streamStop .voiceULOut,
        .pipeFlush .ul, .pipeFlush .dl,
        .unregisterWriter (.port Multizone.inCallHal.out.mWriter) .voiceDLOut] ++
      (if Multizone.inCallHal.out.mStandby = false then
        [.streamStop .media, .unregisterWriter .null .media] else []) ++
      [.unregisterReader .bt .voiceDLIn, .unregisterWriter (.port .bt) .voiceULOut,
        .unregisterReader Multizone.inCallHal.hw.mMediaPortId .voiceULIn,
        .mixerSetVolumeHP 118, .mixerSetVolumeLine 118] :=
  ⟨by unfold Multizone.InCall; decide,
    (C19_leave_voice_call_order Multizone.inCallHal).2.2.2.2 (by unfold Multizone.InCall; decide)⟩

/-- C20: the effect trace of every successful `AudioHwDevice::enterVoiceCall()`.  The call
first diverts the primary media output with `setVoiceCall(true)`: a running media stream is
stopped and taken off its writer, and the stream is marked as used for the voice call before
anything else happens.  The effects that follow are, in this order: the four registrations
(uplink-in, uplink-out, downlink-in, downlink-out), the Bluetooth link to master, the reset of
both pipes to active (`shutdown(false)`), the start of uplink-in and then of downlink-in, the
settle wait, and after the wait the start of downlink-out and then of uplink-out.  The call
of `setVoiceCall(true)` itself registers and starts no voice stream. -/
theorem C20_enter_voice_call_order (env : Multizone.Env) (h : Multizone.Hal)
    (hok : (Multizone.AudioHwDevice.enterVoiceCall env h).1 = 0) :
    (Multizone.AudioHwDevice.enterVoiceCall env h).2.trace =
      (Multizone.AudioStreamOut.setVoiceCall h true).trace ++
        [.registerReader h.hw.mMediaPortId .voiceULIn 0,
          .registerWriter (.port .bt) .voiceULOut 0,
          .registerReader .bt .voiceDLIn 0,
          .registerWriter (.port h.out.mWriter) .voiceDLOut 0,
          .mixerSetBTMode true, .pipeShutdown .ul false, .pipeShutdown .dl false,
          .streamStart .voiceULIn 0, .streamStart .voiceDLIn 0,
          .usleep Multizone.settleUsecs,
          .streamStart .voiceDLOut (env.startStatus .voiceDLOut),
          .streamStart .voiceULOut 0] ∧
    (Multizone.AudioStreamOut.setVoiceCall h true).trace =
      h.trace ++
        (if h.out.mUsedForVoiceCall = false ∧ h.out.mStandby = false then
          [.streamStop .media, .unregisterWriter (.port h.out.mWriter) .media] else []) ∧
    (Multizone.AudioStreamOut.setVoiceCall h true).out.mUsedForVoiceCall = true ∧
    (∀ s : Multizone.StreamId, s.isVoice = true →
      (s ∈ (Multizone.AudioStreamOut.setVoiceCall h true).hw.started ↔ s ∈ h.hw.started) ∧
      ∀ w, s ∈ Multizone.getWriter (Multizone.AudioStreamOut.setVoiceCall h true) w ↔
        s ∈ Multizone.getWriter h w) ∧
    (∀ p, Multizone.getReader (Multizone.AudioStreamOut.setVoiceCall h true) p =
        Multizone.getReader h p) := by
  refine ⟨Multizone.enterVoiceCall_trace_ok env h hok, ?_, ?_, ?_, ?_⟩
  · rw [Multizone.AudioStreamOut_setVoiceCall_trace]
    by_cases hu : h.out.mUsedForVoiceCall = true <;>
    by_cases hs : h.out.mStandby = true <;>
    simp [hu, hs, Multizone.AudioStreamOut.selectWriter]
  · simp
  · intro s hs
    have hne : s ≠ .media := by
      rintro rfl
      exact absurd hs (by decide)
    constructor
    · rw [Multizone.AudioStreamOut_setVoiceCall_hw_started]
      split_ifs <;> simp [Multizone.mem_removeStream, hne]
    · intro w
      rw [Multizone.AudioStreamOut_setVoiceCall_getWriter]
      split_ifs <;> simp [Multizone.mem_removeStream, hne]
  · intro p
    simp

/-- Witness for C20: entering the call from the concrete initial state with collaborators that
all succeed. -/
theorem C20_enter_voice_call_order_witness :
    (Multizone.AudioHwDevice.enterVoiceCall Multizone.okEnv Multizone.sampleHal).1 = 0 ∧
    (Multizone.AudioHwDevice.enterVoiceCall Multizone.okEnv Multizone.sampleHal).2.trace =
      (Multizone.AudioStreamOut.setVoiceCall Multizone.sampleHal true).trace ++
        [.registerReader Multizone.sampleHal.hw.mMediaPortId .voiceULIn 0,
          .registerWriter (.port .bt) .voiceULOut 0,
          .registerReader .bt .voiceDLIn 0,
          .registerWriter (.port Multizone.sampleHal.out.mWriter) .voiceDLOut 0,
          .mixerSetBTMode true, .pipeShutdown .ul false, .pipeShutdown .dl false,
          .streamStart .voiceULIn 0, .streamStart .voiceDLIn 0,
          .usleep Multizone.settleUsecs,
          .streamStart .voiceDLOut (Multizone.okEnv.startStatus .voiceDLOut),
          .streamStart .voiceULOut 0] :=
  ⟨by decide, (C20_enter_voice_call_order Multizone.okEnv Multizone.sampleHal (by decide)).1⟩

/-- C21: `get_next_buffer` / `release_buffer` evaluated on a partial release.  On the mono
stream a request of 4 frames reads 4 hardware frames, sets `frames_in` to 4 and hands out
`in->buffer` with 4 frames.  After 2 of them are released, `frames_in` is 2 and no hardware read is made,
but the next `get_next_buffer` hands out `in->buffer` itself again (the same pointer as the
first time, with 2 frames), not the buffer advanced by the 2 released frames, so frames 0 and
1 of the buffered frames are served a second time. -/
theorem C21_partial_release_serves_first_frames_again :
    ∃ s1 b1 s2 s3 b3 d,
      Legacy.get_next_buffer Legacy.rampEnv (some Legacy.sampleMonoIn) (some ⟨none, 4⟩) =
        .ok (0, some s1, some b1) ∧
      b1.frame_count = 4 ∧ s1.frames_in = 4 ∧ s1.buffer = some d ∧ b1.raw = some d ∧
      Legacy.release_buffer (some s1) (some { b1 with frame_count := 2 }) = some s2 ∧
      s2.frames_in = 2 ∧
      Legacy.get_next_buffer Legacy.rampEnv (some s2) (some ⟨none, 2⟩) =
        .ok (0, some s3, some b3) ∧
      b3.frame_count = 2 ∧ s3.frames_in = 2 ∧ s3.buffer = some d ∧ b3.raw = some d ∧
      d.length = 7680 ∧
      b3.raw ≠ some (d.drop (2 * Legacy.audio_stream_frame_size s3)) := by
  have hlen : ∀ (data : Legacy.buffer_remix) (x : List UInt8) (n : Nat),
      (data.apply (Legacy.store (List.replicate (2 * 960 * 4) 0) x) n).length = 7680 := by
    intro data x n
    rw [Legacy.buffer_remix_apply_length, Legacy.store_length, List.length_replicate]
  refine ⟨_, _, _, _, _, _, rfl, rfl, rfl, rfl, rfl, rfl, rfl, rfl, rfl, rfl, rfl, rfl,
    hlen _ _ _, ?_⟩
  intro h
  have hl := congrArg (fun o => o.map List.length) h
  simp only [Option.map_some', List.length_drop, Option.some.injEq] at hl
  rw [hlen] at hl
  have hfs : Legacy.audio_stream_frame_size Legacy.sampleMonoIn = 2 := rfl
  change 7680 = 7680 - 2 * Legacy.audio_stream_frame_size Legacy.sampleMonoIn at hl
  rw [hfs] at hl
  omega

/-- C22: the settle wait of `enterVoiceCall()` evaluated on the code.  The argument of `usleep`
is `kVoiceCallPipeMs * 5000 + kADCSettleMs * 1000 + (kBTFrameCount * 1000) / kBTSampleRate`,
which is 500000 + 80000 + 20 = 580020 microseconds: the last term is the duration of one
Bluetooth period in milliseconds (20), not in microseconds (20000), so the wait is not the
600000 microseconds of the three durations.  A successful `enterVoiceCall()` issues exactly
this wait. -/
theorem C22_settle_wait_is_580020 :
    Multizone.settleUsecs = 580020 ∧ Multizone.settleUsecs ≠ 600000 ∧
    Multizone.u32 (Multizone.kBTFrameCount * 1000) / Multizone.kBTSampleRate = 20 ∧
    Multizone.kVoiceCallPipeMs * 5000 + Multizone.kADCSettleMs * 1000 +
      Multizone.kBTFrameCount * 1000000 / Multizone.kBTSampleRate = 600000 ∧
    (Multizone.AudioHwDevice.enterVoiceCall Multizone.okEnv Multizone.sampleHal).1 = 0 ∧
    Multizone.Event.usleep 580020 ∈
      (Multizone.AudioHwDevice.enterVoiceCall Multizone.okEnv Multizone.sampleHal).2.trace := by
  decide

/-- C23: the capacities of the two voice call pipes evaluated on the constructor.  Both pipes
carry the Bluetooth parameters (8000 Hz).  The uplink pipe is sized with the Bluetooth rate,
`kVoiceCallPipeMs * 8000 / 1000 = 800` frames; the downlink pipe is sized with the rate of
`params0`, the on-board port, `kVoiceCallPipeMs * 44100 / 1000 = 4410` frames, which is 551 ms
at the rate the pipe carries. -/
theorem C23_downlink_pipe_has_4410_frames :
    Multizone.AudioHwDevice.newVoicePipes.1.params.sampleRate = 8000 ∧
    Multizone.AudioHwDevice.newVoicePipes.2.params.sampleRate = 8000 ∧
    Multizone.AudioHwDevice.newVoicePipes.1.frames = 800 ∧
    Multizone.AudioHwDevice.newVoicePipes.2.frames = 4410 ∧
    Multizone.AudioHwDevice.newVoicePipes.2.frames ≠
      Multizone.kVoiceCallPipeMs *
        Multizone.AudioHwDevice.newVoicePipes.2.params.sampleRate / 1000 ∧
    Multizone.AudioHwDevice.newVoicePipes.2.frames * 1000 /
      Multizone.AudioHwDevice.newVoicePipes.2.params.sampleRate = 551 := by
  decide

/-- C24 (counterexample): the downlink input buffer has 184 frames.  `voice_stream_init` on
the downlink stream (input 8000 Hz, output 44100 Hz, output period 960) succeeds with
`in_frames = 960 * 8000 / 44100 + 10 = 174 + 10 = 184`, one less than
`ceil(960 * 8000 / 44100) + 10 = 185`. -/
theorem C24_downlink_input_buffer_has_184_frames :
    (Legacy.voice_stream_init Legacy.okVoiceEnv Legacy.sampleDownlink true).1 = 0 ∧
    (Legacy.voice_stream_init Legacy.okVoiceEnv Legacy.sampleDownlink true).2.in_frames = 184 ∧
    ceilDiv (Legacy.sampleDownlink.out_config.period_size * Legacy.sampleDownlink.in_config.rate)
      Legacy.sampleDownlink.out_config.rate + 10 = 185 := by
  decide

/-- C24 (amended): every voice stream that `voice_stream_init` initialises has
`in_frames = floor(out_frames * in_rate / out_rate) + 10`, with `out_frames` the output period
size (the quotient is the integer division of the source, the 10 frames are
`RESAMPLER_HEADROOM_FRAMES`).  Where the 32 bit computation does not overflow this is at least
`ceil(out_frames * in_rate / out_rate) + 9`.  For the downlink it is 184 frames and for the
uplink 892 frames. -/
theorem C24_voice_input_buffer_frames (venv : Legacy.VoiceEnv) (stream : Legacy.j6_voice_stream)
    (needs_mono_remix : Bool)
    (hok : (Legacy.voice_stream_init venv stream needs_mono_remix).1 = 0) :
    (Legacy.voice_stream_init venv stream needs_mono_remix).2.out_frames =
      stream.out_config.period_size ∧
    (Legacy.voice_stream_init venv stream needs_mono_remix).2.in_frames =
      Legacy.u32 (Legacy.u32 (stream.out_config.period_size * stream.in_config.rate) /
        stream.out_config.rate + Legacy.RESAMPLER_HEADROOM_FRAMES) ∧
    (stream.out_config.period_size * stream.in_config.rate < 2 ^ 32 →
      stream.out_config.period_size * stream.in_config.rate / stream.out_config.rate + 10 <
        2 ^ 32 →
      0 < stream.out_config.rate →
      (Legacy.voice_stream_init venv stream needs_mono_remix).2.in_frames =
        stream.out_config.period_size * stream.in_config.rate / stream.out_config.rate + 10 ∧
      ceilDiv (stream.out_config.period_size * stream.in_config.rate) stream.out_config.rate + 9 ≤
        (Legacy.voice_stream_init venv stream needs_mono_remix).2.in_frames) := by
  have key : (Legacy.voice_stream_init venv stream needs_mono_remix).2.out_frames =
        stream.out_config.period_size ∧
      (Legacy.voice_stream_init venv stream needs_mono_remix).2.in_frames =
        Legacy.u32 (Legacy.u32 (stream.out_config.period_size * stream.in_config.rate) /
          stream.out_config.rate + Legacy.RESAMPLER_HEADROOM_FRAMES) := by
    unfold Legacy.voice_stream_init at hok ⊢
    by_cases h1 : venv.create_resampler = 0
    · cases hpi : venv.pcm_in_ready <;> cases hpo : venv.pcm_out_ready <;>
        cases hmi : venv.malloc_in_buffer <;> cases hmo : venv.malloc_out_buffer <;>
        cases needs_mono_remix <;> cases hmr : venv.malloc_remix <;>
        simp [h1, hpi, hpo, hmi, hmo, hmr, Legacy.setup_mono_input_remix, Legacy.ENOMEM,
          Legacy.ENODEV] at hok ⊢
    · simp [h1] at hok
  refine ⟨key.1, key.2, ?_⟩
  intro hno hno2 hrate
  rw [key.2]
  have e1 : Legacy.u32 (stream.out_config.period_size * stream.in_config.rate) =
      stream.out_config.period_size * stream.in_config.rate := Nat.mod_eq_of_lt hno
  have e2 : Legacy.u32 (stream.out_config.period_size * stream.in_config.rate /
      stream.out_config.rate + Legacy.RESAMPLER_HEADROOM_FRAMES) =
      stream.out_config.period_size * stream.in_config.rate / stream.out_config.rate + 10 := by
    unfold Legacy.RESAMPLER_HEADROOM_FRAMES
    exact Nat.mod_eq_of_lt hno2
  rw [e1, e2]
  refine ⟨rfl, ?_⟩
  unfold ceilDiv
  have hc : (stream.out_config.period_size * stream.in_config.rate + stream.out_config.rate - 1) /
      stream.out_config.rate ≤
      stream.out_config.period_size * stream.in_config.rate / stream.out_config.rate + 1 := by
    rw [Nat.div_le_iff_le_mul_add_pred hrate]
    have := Nat.div_add_mod (stream.out_config.period_size * stream.in_config.rate)
      stream.out_config.rate
    have hm := Nat.mod_lt (stream.out_config.period_size * stream.in_config.rate) hrate
    rw [Nat.mul_add, Nat.mul_one]
    omega
  omega

/-- Witness for C24: the uplink stream (input 44100 Hz, output 8000 Hz, output period 160) gets
`160 * 44100 / 8000 + 10 = 892` frames. -/
theorem C24_voice_input_buffer_frames_witness :
    (Legacy.voice_stream_init Legacy.okVoiceEnv Legacy.sampleVoiceStream false).1 = 0 ∧
    (Legacy.voice_stream_init Legacy.okVoiceEnv Legacy.sampleVoiceStream false).2.in_frames =
      Legacy.sampleVoiceStream.out_config.period_size * Legacy.sampleVoiceStream.in_config.rate /
        Legacy.sampleVoiceStream.out_config.rate + 10 ∧
    Legacy.sampleVoiceStream.out_config.period_size * Legacy.sampleVoiceStream.in_config.rate /
        Legacy.sampleVoiceStream.out_config.rate + 10 = 892 :=
  ⟨by decide,
    ((C24_voice_input_buffer_frames Legacy.okVoiceEnv Legacy.sampleVoiceStream false
      (by decide)).2.2 (by decide) (by decide) (by decide)).1, by decide⟩
/-- C25: the loop of `voice_thread_func` as a step on its locals.  For a stream whose output
buffer holds one period (as `voice_stream_init` allocates it) and whose `period_count` is a
positive 32 bit value: the pump starts from periods 0 with both flags clear; after fewer than
`period_count` iterations `out_steady` is still clear; after exactly `period_count` iterations
`out_steady` holds, exactly `period_count` writes were made, each of the zeroed buffer of one
period, and the resampler was not called.  For every stream and every state: an iteration calls
the resampler only if it starts with both flags set; an iteration sets `in_steady` only if it
starts with `out_steady` set and the time stamp query returns 0 with `avail > 0`, and that
iteration makes no call besides the query (so it writes nothing); and no sequence of
iterations clears a flag. -/
theorem C25_pump_start_up_and_steady_flags (stream : Legacy.j6_voice_stream) (b : List UInt8)
    (hb : stream.out_buffer = some b)
    (hlen : b.length = Legacy.u32 (stream.out_frames * stream.frame_size))
    (hpc : 0 < stream.out_config.period_count)
    (hpc2 : stream.out_config.period_count < 2 ^ 32) :
    ((Legacy.voice_thread_init stream).periods = 0 ∧
      (Legacy.voice_thread_init stream).out_steady = false ∧
      (Legacy.voice_thread_init stream).in_steady = false) ∧
    (∀ envs : List Legacy.PumpEnv, envs.length < stream.out_config.period_count →
      (Legacy.voice_thread_run envs stream (Legacy.voice_thread_init stream)).out_steady = false ∧
      Legacy.pump_writes
        (Legacy.voice_thread_run envs stream (Legacy.voice_thread_init stream)).events =
          envs.length) ∧
    (∀ envs : List Legacy.PumpEnv, envs.length = stream.out_config.period_count →
      (Legacy.voice_thread_run envs stream (Legacy.voice_thread_init stream)).out_steady = true ∧
      (Legacy.voice_thread_run envs stream (Legacy.voice_thread_init stream)).in_steady = false ∧
      Legacy.pump_writes
        (Legacy.voice_thread_run envs stream (Legacy.voice_thread_init stream)).events =
          stream.out_config.period_count ∧
      Legacy.pump_resamples
        (Legacy.voice_thread_run envs stream (Legacy.voice_thread_init stream)).events = 0 ∧
      ∀ data, Legacy.PumpEvent.write data ∈
          (Legacy.voice_thread_run envs stream (Legacy.voice_thread_init stream)).events →
        data = List.replicate (Legacy.u32 (stream.out_frames * stream.frame_size)) 0) ∧
    (∀ (env : Legacy.PumpEnv) (s : Legacy.pump_state),
      Legacy.pump_resamples (Legacy.voice_thread_step env stream s).events ≠
          Legacy.pump_resamples s.events →
        s.out_steady = true ∧ s.in_steady = true) ∧
    (∀ (env : Legacy.PumpEnv) (s : Legacy.pump_state), s.in_steady = false →
      (Legacy.voice_thread_step env stream s).in_steady = true →
        s.out_steady = true ∧ env.htimestamp.1 = 0 ∧ 0 < env.htimestamp.2 ∧
        (Legacy.voice_thread_step env stream s).events =
          s.events ++ [Legacy.PumpEvent.htimestamp] ∧
        Legacy.pump_writes (Legacy.voice_thread_step env stream s).events =
          Legacy.pump_writes s.events) ∧
    (∀ (envs : List Legacy.PumpEnv) (s : Legacy.pump_state),
      (s.out_steady = true → (Legacy.voice_thread_run envs stream s).out_steady = true) ∧
      (s.in_steady = true → (Legacy.voice_thread_run envs stream s).in_steady = true)) := by
  have h0 := Legacy.voice_thread_init_warm stream b hb hlen hpc
  refine ⟨⟨rfl, rfl, rfl⟩, ?_, ?_, fun env s => Legacy.voice_thread_step_resample env stream s,
    ?_, Legacy.voice_thread_run_flags stream⟩
  · intro envs hl
    have h := Legacy.voice_thread_run_warm stream hpc2 envs _ 0 h0 (by omega)
    rw [Nat.zero_add] at h
    obtain ⟨_, _, _, hout, _, hwr, _, _⟩ := h
    refine ⟨?_, hwr⟩
    cases ho : (Legacy.voice_thread_run envs stream (Legacy.voice_thread_init stream)).out_steady
    · rfl
    · exact absurd (hout.mp ho) (Nat.ne_of_lt hl)
  · intro envs hl
    have h := Legacy.voice_thread_run_warm stream hpc2 envs _ 0 h0 (by omega)
    rw [Nat.zero_add] at h
    obtain ⟨_, _, hin, hout, _, hwr, hrs, he⟩ := h
    exact ⟨hout.mpr hl, hin, hwr.trans hl, hrs, fun data hd => he _ hd data rfl⟩
  · intro env s hi h
    obtain ⟨a, b1, c, d⟩ := Legacy.voice_thread_step_in_steady env stream s hi h
    refine ⟨a, b1, c, d, ?_⟩
    rw [d, Legacy.pump_writes_append]
    rfl

/-- C25 on the downlink stream: after the four iterations of the start-up phase `out_steady`
holds and four writes were made. -/
theorem C25_pump_start_up_and_steady_flags_witness :
    Legacy.samplePumpStream.out_buffer = some (List.replicate 3840 0) ∧
    (List.replicate 3840 (0 : UInt8)).length =
      Legacy.u32 (Legacy.samplePumpStream.out_frames * Legacy.samplePumpStream.frame_size) ∧
    0 < Legacy.samplePumpStream.out_config.period_count ∧
    Legacy.samplePumpStream.out_config.period_count < 2 ^ 32 ∧
    (Legacy.voice_thread_run (List.replicate 4 Legacy.okPumpEnv) Legacy.samplePumpStream
      (Legacy.voice_thread_init Legacy.samplePumpStream)).out_steady = true ∧
    Legacy.pump_writes
      (Legacy.voice_thread_run (List.replicate 4 Legacy.okPumpEnv) Legacy.samplePumpStream
        (Legacy.voice_thread_init Legacy.samplePumpStream)).events = 4 :=
  ⟨rfl, by rw [List.length_replicate]; rfl, by decide, by decide,
    ((C25_pump_start_up_and_steady_flags Legacy.samplePumpStream (List.replicate 3840 0) rfl
      (by rw [List.length_replicate]; rfl) (by decide) (by decide)).2.2.1
        (List.replicate 4 Legacy.okPumpEnv) rfl).1,
    ((C25_pump_start_up_and_steady_flags Legacy.samplePumpStream (List.replicate 3840 0) rfl
      (by rw [List.length_replicate]; rfl) (by decide) (by decide)).2.2.1
        (List.replicate 4 Legacy.okPumpEnv) rfl).2.2.1⟩
/-- C26: `adev_open_input_stream` and `in_read` evaluated on a mono request at the native rate
of 44100 Hz.  Whatever the allocated block holds, the stream is opened with the truncating
remix and the capture buffer installed and with a null resampler; `in_read` of one frame or
more then takes the `read_frames` path (a remix is installed), and `read_frames` calls
`resample_from_provider` through the null resampler. -/
theorem C26_mono_native_rate_read_uses_null_resampler (blk : Legacy.j6_stream_in)
    (fuel : Nat) (dst : List UInt8) :
    ∃ sin,
      Legacy.adev_open_input_stream Legacy.okOpenEnv (some blk)
        ⟨44100, Legacy.AUDIO_CHANNEL_IN_MONO, 1⟩ = (0, some sin) ∧
      sin.requested_channels = 1 ∧ sin.requested_rate = 44100 ∧
      sin.remix = some ⟨.remove_channels_from_buf, 2, 2, 1⟩ ∧
      sin.buffer.isSome = true ∧ sin.resampler = none ∧
      Legacy.in_read Legacy.okEnv (fuel + 1) Legacy.sampleDevice sin dst 2 =
        .error Legacy.Fault.nullDeref := by
  refine ⟨_, Legacy.adev_open_input_stream_mono_44100 blk, rfl, rfl, rfl, rfl, rfl, ?_⟩
  simp only [Legacy.in_read, Legacy.in_read_open, Legacy.in_read_data, Legacy.read_frames,
    Legacy.read_frames_loop, Legacy.okEnv, Legacy.audio_stream_frame_size, Legacy.u32,
    if_true, Bool.not_true, Bool.false_eq_true, if_false, Option.isSome_none,
    Option.isSome_some, or_true, false_or]
  rfl
/-- C27: `adev_open_input_stream` evaluated on a stereo request at 8000 Hz.  Whatever the
allocated block holds, the stream is returned with a resampler installed, no remix and a null
capture buffer; after `in_read` has opened the device, `get_next_buffer` asks the hardware for
160 frames (640 bytes) with that null buffer as destination and, the read reporting success,
hands out a null data pointer with a frame count of 160. -/
theorem C27_stereo_resampled_stream_has_null_buffer (blk : Legacy.j6_stream_in) :
    ∃ sin s1 s2,
      Legacy.adev_open_input_stream Legacy.okOpenEnv (some blk)
        ⟨8000, Legacy.AUDIO_CHANNEL_IN_STEREO, 1⟩ = (0, some sin) ∧
      sin.requested_channels = 2 ∧ sin.resampler = some ⟨44100, 8000, 2⟩ ∧
      sin.remix = none ∧ sin.buffer = none ∧
      Legacy.in_read_open Legacy.okEnv sin = some s1 ∧
      s1.buffer = none ∧ s1.frames_in = 0 ∧
      Legacy.u32 (160 * s1.hw_frame_size) = 640 ∧
      Legacy.get_next_buffer Legacy.okEnv (some s1) (some ⟨none, 160⟩) =
        .ok (0, some s2, some ⟨none, 160⟩) ∧
      s2.frames_in = 160 ∧ s2.buffer = none := by
  refine ⟨_, _, _, Legacy.adev_open_input_stream_stereo_8000 blk, rfl, rfl, rfl, rfl, rfl, rfl, rfl, rfl, rfl, rfl, rfl⟩
/-- C28: `adev_open_output_stream` evaluated on an allocated block whose `pcm` bytes are not
zero.  The function assigns `standby`, `config` and `written` only, so the stream it returns
is in standby with a non-null `pcm`.  After `adev_set_mode(AUDIO_MODE_IN_CALL)` succeeds and
`out_write` resumes the stream during the call, the stream is out of standby, the device is in
a call, and `out->pcm` is still that non-null value. -/
theorem C28_opened_stream_keeps_block_pcm :
    ∃ a1 out1 a2 a3 out3,
      Legacy.adev_open_output_stream (some Legacy.staleOutBlock) Legacy.openedDevice = (0, a1) ∧
      a1.out = some out1 ∧ out1.standby = true ∧ out1.pcm = some ⟨false⟩ ∧
      out1.pcm ≠ none ∧ a1.in_call = false ∧
      Legacy.adev_set_mode Legacy.okEnv a1 .IN_CALL = .ok (0, a2) ∧
      a2.in_call = true ∧ a2.mode = .IN_CALL ∧
      Legacy.out_write Legacy.okOutEnv a2 4 = .ok (4, a3) ∧
      a3.out = some out3 ∧ out3.standby = false ∧ a3.in_call = true ∧
      out3.pcm = some ⟨false⟩ ∧ out3.pcm ≠ none := by
  refine ⟨_, _, _, _, _, rfl, rfl, rfl, rfl, ?_, rfl, rfl, rfl, rfl, rfl, rfl, rfl, rfl, rfl, ?_⟩
  · exact fun h => Option.noConfusion h
  · exact fun h => Option.noConfusion h
/-- C29, counterexample: a switch from NORMAL to RINGTONE.  The multizone `setMode` succeeds,
stores RINGTONE and runs the whole leave-call sequence on a device that never was in a call:
it sets the Bluetooth link to slave, shuts both pipes down, stops both Bluetooth ports, flushes
both pipes and resets the two volume controls.  The legacy `adev_set_mode` on the same switch
changes only `mode`. -/
theorem C29_ringtone_switch_runs_leave_sequence :
    Multizone.sampleHal.hw.mMode = .NORMAL ∧
    (Multizone.AudioHwDevice.setMode Multizone.okEnv Multizone.sampleHal .RINGTONE).1 = 0 ∧
    (Multizone.AudioHwDevice.setMode Multizone.okEnv Multizone.sampleHal .RINGTONE).2.hw.mMode =
      .RINGTONE ∧
    (Multizone.AudioHwDevice.setMode Multizone.okEnv Multizone.sampleHal .RINGTONE).2.trace =
      Multizone.sampleHal.trace ++
        [Multizone.Event.mixerSetBTMode false, Multizone.Event.pipeShutdown .ul true,
         Multizone.Event.pipeShutdown .dl true, Multizone.Event.inPortStop .bt,
         Multizone.Event.outPortStop .bt, Multizone.Event.pipeFlush .ul,
         Multizone.Event.pipeFlush .dl, Multizone.Event.mixerSetVolumeHP 118,
         Multizone.Event.mixerSetVolumeLine 118] ∧
    Legacy.sampleDevice.mode = .NORMAL ∧
    Legacy.adev_set_mode Legacy.okEnv Legacy.sampleDevice .RINGTONE =
      .ok (0, { Legacy.sampleDevice with mode := .RINGTONE }) := by
  have e := Multizone.setMode_leave Multizone.okEnv Multizone.sampleHal .RINGTONE
    (by decide) (by decide)
  refine ⟨rfl, ?_, ?_, ?_, rfl, rfl⟩
  · rw [e]
  · rw [e]
    exact Multizone.AudioHwDevice_assignMode_hw_mMode _ _
  · rw [e, Multizone.AudioHwDevice_assignMode_trace, Multizone.leaveVoiceCall_trace]
    decide

/-- C29, amended: a successful switch of the multizone `setMode` to a mode other than IN_CALL
runs `leaveVoiceCall()` whatever the current mode is: the result is 0, the state is that of
`leaveVoiceCall()` with the new mode stored, and the effects issued are those of the leave-call
sequence, among them the switch of the Bluetooth link to slave and the shutdown of both pipes.
The legacy `adev_set_mode` runs `leave_voice_call` only out of IN_CALL: between two modes
other than IN_CALL it changes only `mode`. -/
theorem C29_setMode_leaves_on_every_non_call_mode (env : Multizone.Env) (h : Multizone.Hal)
    (lenv : Legacy.Env) (adev : Legacy.j6_audio_device) (m : audio_mode_t)
    (hm : m ≠ .IN_CALL) (hmode : h.hw.mMode ≠ m) (hlmode : adev.mode ≠ m)
    (hlcall : adev.mode ≠ .IN_CALL) :
    Multizone.AudioHwDevice.setMode env h m =
      (0, Multizone.AudioHwDevice.assignMode (Multizone.AudioHwDevice.leaveVoiceCall h) m) ∧
    (Multizone.AudioHwDevice.setMode env h m).2.hw.mMode = m ∧
    (Multizone.AudioHwDevice.setMode env h m).2.trace = h.trace ++ Multizone.leaveEvents h ∧
    Multizone.Event.mixerSetBTMode false ∈ Multizone.leaveEvents h ∧
    Multizone.Event.pipeShutdown .ul true ∈ Multizone.leaveEvents h ∧
    Multizone.Event.pipeShutdown .dl true ∈ Multizone.leaveEvents h ∧
    Legacy.adev_set_mode lenv adev m = .ok (0, { adev with mode := m }) := by
  have e := Multizone.setMode_leave env h m hm hmode
  refine ⟨e, ?_, ?_, ?_, ?_, ?_, ?_⟩
  · rw [e]
    exact Multizone.AudioHwDevice_assignMode_hw_mMode _ _
  · rw [e, Multizone.AudioHwDevice_assignMode_trace, Multizone.leaveVoiceCall_trace]
  · simp [Multizone.leaveEvents]
  · simp [Multizone.leaveEvents]
  · simp [Multizone.leaveEvents]
  · simp [Legacy.adev_set_mode, hm, hlmode, hlcall]

/-- C29, amended, on the switch from NORMAL to RINGTONE. -/
theorem C29_setMode_leaves_on_every_non_call_mode_witness :
    audio_mode_t.RINGTONE ≠ audio_mode_t.IN_CALL ∧
    Multizone.sampleHal.hw.mMode ≠ audio_mode_t.RINGTONE ∧
    Legacy.sampleDevice.mode ≠ audio_mode_t.RINGTONE ∧
    Legacy.sampleDevice.mode ≠ audio_mode_t.IN_CALL ∧
    (Multizone.AudioHwDevice.setMode Multizone.okEnv Multizone.sampleHal .RINGTONE).2.trace =
      Multizone.sampleHal.trace ++ Multizone.leaveEvents Multizone.sampleHal ∧
    Legacy.adev_set_mode Legacy.okEnv Legacy.sampleDevice .RINGTONE =
      .ok (0, { Legacy.sampleDevice with mode := .RINGTONE }) :=
  ⟨by decide, by decide, by decide, by decide,
    (C29_setMode_leaves_on_every_non_call_mode Multizone.okEnv Multizone.sampleHal Legacy.okEnv
      Legacy.sampleDevice .RINGTONE (by decide) (by decide) (by decide) (by decide)).2.2.1,
    (C29_setMode_leaves_on_every_non_call_mode Multizone.okEnv Multizone.sampleHal Legacy.okEnv
      Legacy.sampleDevice .RINGTONE (by decide) (by decide) (by decide) (by decide)).2.2.2.2.2.2⟩

/-- C30: `AudioStreamOut::getLatency()` evaluated on the default stream (stereo, 16 bit,
44100 Hz) over the 1024 frame, 44100 Hz writer.  `getBufferSize()` is 4096 bytes, that is 1024
frames of 4 bytes; `getLatency()` divides 1000 times the byte count by the rate and returns
92, while the playback duration of the 1024 frames is 23 ms. -/
theorem C30_latency_counts_bytes :
    Multizone.AudioStreamOut.getBufferSize Multizone.sampleOut ⟨2, 16, 44100, 1024⟩ = 4096 ∧
    Multizone.sampleOut.mParams.frameSize = 4 ∧
    Multizone.AudioStreamOut.getLatency Multizone.sampleOut ⟨2, 16, 44100, 1024⟩ = 92 ∧
    1000 * (Multizone.AudioStreamOut.getBufferSize Multizone.sampleOut ⟨2, 16, 44100, 1024⟩ /
      Multizone.sampleOut.mParams.frameSize) / 44100 = 23 ∧
    Multizone.AudioStreamOut.getLatency Multizone.sampleOut ⟨2, 16, 44100, 1024⟩ ≠
      1000 * (Multizone.AudioStreamOut.getBufferSize Multizone.sampleOut ⟨2, 16, 44100, 1024⟩ /
        Multizone.sampleOut.mParams.frameSize) / 44100 := by
  decide
